import Mathlib

/-!
MobiCore driver, client library: verification development.

Shallow embedding of `mobicore/daemon/ClientLib/ClientLib.cpp`.

* The process-wide device table `devices` and everything done on sockets are
  carried in an explicit `World` value that every entry point takes and returns.
* Every interaction with the outside (socket connect, `writeData`, `readData`,
  kernel module calls made by `Device` and `Session`) takes its outcome from an
  environment record passed to the call, so a theorem that quantifies over the
  record quantifies over every daemon and socket behaviour.
* Result codes, limits and wire sizes come from public headers that are not
  among the sources; they are the fields of the parameter `K : DrvCodes`.
* The classes `Device` and `Session` are declared in headers that are not among
  the sources; the few methods the client library calls are modelled from the
  specification, each one marked as such.
-/

namespace MobiCore

/-- Result codes (`mcResult_t` values), MCP codes, limits, macros and sizes
that `ClientLib.cpp` takes from headers (`MobiCoreDriverApi.h`,
`MobiCoreDriverCmd.h`, `mcimcp.h`, `mcVersionHelper.h`). -/
structure DrvCodes where
  MC_DRV_OK : Nat
  MC_DRV_INFO_NOTIFICATION : Nat
  MC_DRV_ERR_NOTIFICATION : Nat
  MC_DRV_ERR_NOT_IMPLEMENTED : Nat
  MC_DRV_ERR_UNKNOWN : Nat
  MC_DRV_ERR_UNKNOWN_DEVICE : Nat
  MC_DRV_ERR_UNKNOWN_SESSION : Nat
  MC_DRV_ERR_TIMEOUT : Nat
  MC_DRV_ERR_SESSION_PENDING : Nat
  MC_DRV_ERR_DAEMON_UNREACHABLE : Nat
  MC_DRV_ERR_DAEMON_VERSION : Nat
  MC_DRV_ERR_DEVICE_ALREADY_OPEN : Nat
  MC_DRV_ERR_SOCKET_CONNECT : Nat
  MC_DRV_ERR_SOCKET_WRITE : Nat
  MC_DRV_ERR_SOCKET_READ : Nat
  MC_DRV_ERR_SOCKET_LENGTH : Nat
  MC_DRV_ERR_NULL_POINTER : Nat
  MC_DRV_ERR_TCI_TOO_BIG : Nat
  MC_DRV_ERR_WSM_NOT_FOUND : Nat
  MC_DRV_ERR_TCI_GREATER_THAN_WSM : Nat
  MC_DRV_ERR_BLK_BUFF_NOT_FOUND : Nat
  MC_DRV_ERR_BUFFER_ALREADY_MAPPED : Nat
  MC_DRV_ERR_MCP_ERROR : Nat
  MC_DRV_ERR_WRONG_PUBLIC_KEY : Nat
  MC_DRV_ERR_CONTAINER_TYPE_MISMATCH : Nat
  MC_DRV_ERR_CONTAINER_LOCKED : Nat
  MC_DRV_ERR_SP_NO_CHILD : Nat
  MC_DRV_ERR_TL_NO_CHILD : Nat
  MC_DRV_ERR_UNWRAP_ROOT_FAILED : Nat
  MC_DRV_ERR_UNWRAP_SP_FAILED : Nat
  MC_DRV_ERR_UNWRAP_TRUSTLET_FAILED : Nat
  MC_MCP_RET_ERR_WRONG_PUBLIC_KEY : Nat
  MC_MCP_RET_ERR_CONTAINER_TYPE_MISMATCH : Nat
  MC_MCP_RET_ERR_CONTAINER_LOCKED : Nat
  MC_MCP_RET_ERR_SP_NO_CHILD : Nat
  MC_MCP_RET_ERR_TL_NO_CHILD : Nat
  MC_MCP_RET_ERR_UNWRAP_ROOT_FAILED : Nat
  MC_MCP_RET_ERR_UNWRAP_SP_FAILED : Nat
  MC_MCP_RET_ERR_UNWRAP_TRUSTLET_FAILED : Nat
  /-- The macro `MC_DRV_ERROR_MAJOR(ecode)`. -/
  MC_DRV_ERROR_MAJOR : Nat → Nat
  /-- The macro `MC_DRV_ERROR_MCP(ecode)`. -/
  MC_DRV_ERROR_MCP : Nat → Nat
  MC_MAX_TCI_LEN : Nat
  /-- The generated check `checkVersionOkDAEMON(version, &errmsg)`. -/
  checkVersionOkDAEMON : Nat → Bool
  /-- The value of `sizeof(mcDrvResponseHeader_t)`. -/
  sizeofResponseHeader : Int
  /-- The value of `sizeof(mcResult_t)`. -/
  sizeofResult : Int
  /-- The value of `sizeof(mcDrvRspOpenSessionPayload_t)`. -/
  sizeofRspOpenSessionPayload : Int
  /-- The value of `sizeof(mcDrvRspMapBulkMemPayload_t)`. -/
  sizeofRspMapBulkMemPayload : Int
  /-- The value of `sizeof(mcVersionInfo_t)`. -/
  sizeofVersionInfo : Int

/-- The notification record `notification_t` of `ClientLib.cpp`:
a `uint32_t` session id and an `int32_t` payload. -/
structure notification_t where
  sessionId : Nat
  payload : Int
deriving DecidableEq, Repr

/-- The value of `sizeof(notification_t)`: two 32-bit members. -/
def sizeofNotification : Int := 8

/-- The value of `sizeof(uint32_t)`, the size of the daemon version word. -/
def sizeofUint32 : Int := 4

/-- The session handle `mcSessionHandle_t` that callers pass by pointer. -/
structure mcSessionHandle_t where
  sessionId : Nat
  deviceId : Nat
deriving DecidableEq, Repr

/-- The mapping record `mcBulkMap_t` that `mcMap` fills in. -/
structure mcBulkMap_t where
  sVirtualAddr : Nat
  sVirtualLen : Nat
deriving DecidableEq, Repr

/-- A world shared memory block (`CWsm`): user virtual base, length, kernel
handle and physical base. -/
structure CWsm where
  virtAddr : Nat
  len : Nat
  handle : Nat
  physAddr : Nat
deriving DecidableEq, Repr

/-- A mapped bulk buffer (`BulkBufferDescriptor`). -/
structure BulkBufferDescriptor where
  virtAddr : Nat
  len : Nat
  handle : Nat
  physAddrWsmL2 : Nat
  sVirtualAddr : Nat
deriving DecidableEq, Repr

/-- A client side session (`Session`): its id, its notification connection,
its bulk buffer table and the last exit code stored for it. -/
structure Session where
  sessionId : Nat
  notificationConnection : Nat
  bulkBufferDescriptors : List BulkBufferDescriptor
  lastErr : Int
deriving DecidableEq, Repr

/-- A client side device (`Device`): its id, its command connection, its
session table and its table of contiguous WSM blocks. -/
structure Device where
  deviceId : Nat
  connection : Nat
  sessionList : List Session
  wsmL2List : List CWsm
deriving DecidableEq, Repr

/-- The payload of the OPEN_SESSION response
(`mcDrvRspOpenSessionPayload_t`). -/
structure mcDrvRspOpenSessionPayload_t where
  sessionId : Nat
  deviceSessionId : Nat
  sessionMagic : Nat
deriving DecidableEq, Repr

/-- The command structs that `SEND_TO_DAEMON` builds, one constructor for each
command id used by the client library, with the arguments in source order. -/
inductive Cmd where
  | MC_DRV_CMD_GET_VERSION
  | MC_DRV_CMD_OPEN_DEVICE (deviceId : Nat)
  | MC_DRV_CMD_CLOSE_DEVICE
  | MC_DRV_CMD_OPEN_SESSION (deviceId uuid rootPid tci len : Nat)
  | MC_DRV_CMD_CLOSE_SESSION (sessionId : Nat)
  | MC_DRV_CMD_NQ_CONNECT (deviceId sessionId deviceSessionId sessionMagic : Nat)
  | MC_DRV_CMD_NOTIFY (sessionId : Nat)
  | MC_DRV_CMD_MAP_BULK_BUF (sessionId handle rfu offsetPayload lenBulkMem : Nat)
  | MC_DRV_CMD_UNMAP_BULK_BUF (sessionId handle secureVirtualAdr lenBulkMem : Nat)
  | MC_DRV_CMD_GET_MOBICORE_VERSION
deriving DecidableEq, Repr

/-- What the client library did on a socket. `connect c ok`: a new connection
object `c` tried to connect to the daemon; `write c cmd ret`: `writeData` of
`cmd` on `c` returned `ret`; `read c timeout rlen`: `readData` on `c` returned
`rlen` (`timeout` is `none` for the two argument form). -/
inductive Event where
  | connect (c : Nat) (ok : Bool)
  | write (c : Nat) (cmd : Cmd) (ret : Int)
  | read (c : Nat) (timeout : Option Int) (rlen : Int)
deriving DecidableEq, Repr

/-- The state of a client process: the global list `devices`, the socket
history, and the number of connection objects created so far (the next
connection gets this number as its name). -/
structure World where
  devices : List Device
  trace : List Event
  connCount : Nat
deriving DecidableEq, Repr

/-- The state of a process that has not called the library yet. -/
def World.init : World := ⟨[], [], 0⟩

/-- The outcome of one `readData` into a value of type `α`: the returned
length and what the buffer holds afterwards. -/
structure Recv (α : Type) where
  rlen : Int
  data : α
deriving DecidableEq, Repr

/-! ## The device table (`ClientLib.cpp`, lines 66 to 109) -/

/-- The function `resolveDeviceId`: the first device of the table with the
given id, `none` for `NULL`. -/
def resolveDeviceId : List Device → Nat → Option Device
  | [], _ => none
  | device :: rest, deviceId =>
    if device.deviceId = deviceId then some device else resolveDeviceId rest deviceId

/-- The function `addDevice`: `devices.push_back(device)`. -/
def addDevice (devices : List Device) (device : Device) : List Device :=
  devices ++ [device]

/-- The function `removeDevice`: erases the first device with the given id and
returns `true`, or returns `false` and leaves the table as it is. -/
def removeDevice : List Device → Nat → Bool × List Device
  | [], _ => (false, [])
  | device :: rest, deviceId =>
    if device.deviceId = deviceId then (true, rest)
    else ((removeDevice rest deviceId).1, device :: (removeDevice rest deviceId).2)

/-- Writes through the pointer that `resolveDeviceId` returned: the update `f`
is applied to the first device of the table with the given id. -/
def modifyDevice (f : Device → Device) : List Device → Nat → List Device
  | [], _ => []
  | device :: rest, deviceId =>
    if device.deviceId = deviceId then f device :: rest
    else device :: modifyDevice f rest deviceId

/-! ## Socket marshalling (`SEND_TO_DAEMON`, `RECV_FROM_DAEMON`) -/

/-- The world after `new Connection()` and `connect(SOCK_PATH)`; the new
connection is named `w.connCount`. -/
def World.connect (w : World) (ok : Bool) : World :=
  { w with connCount := w.connCount + 1, trace := w.trace ++ [Event.connect w.connCount ok] }

/-- The world after one `writeData` of `cmd` on connection `c` that returned `ret`. -/
def World.write (w : World) (c : Nat) (cmd : Cmd) (ret : Int) : World :=
  { w with trace := w.trace ++ [Event.write c cmd ret] }

/-- The world after one `readData` on connection `c` that returned `rlen`. -/
def World.read (w : World) (c : Nat) (timeout : Option Int) (rlen : Int) : World :=
  { w with trace := w.trace ++ [Event.read c timeout rlen] }

/-- The macro `SEND_TO_DAEMON`, after its `writeData` returned `ret`: the code
with which it leaves the enclosing loop (`MC_DRV_ERR_SOCKET_WRITE` when
`ret < 0`), or `none` when control goes on. -/
def SEND_TO_DAEMON (K : DrvCodes) (ret : Int) : Option Nat :=
  if ret < 0 then some K.MC_DRV_ERR_SOCKET_WRITE else none

/-- The macro `RECV_FROM_DAEMON` for a response struct of `size` bytes, after
its `readData` returned `rlen`: the code with which it leaves the enclosing
loop (`MC_DRV_ERR_SOCKET_READ` when `rlen <= 0`, `MC_DRV_ERR_SOCKET_LENGTH`
when `rlen` is neither `size` nor the size of the response header), or `none`
when control goes on. -/
def RECV_FROM_DAEMON (K : DrvCodes) (size : Int) (rlen : Int) : Option Nat :=
  if rlen ≤ 0 then some K.MC_DRV_ERR_SOCKET_READ
  else if rlen ≠ size ∧ rlen ≠ K.sizeofResponseHeader then some K.MC_DRV_ERR_SOCKET_LENGTH
  else none

/-! ## `getDaemonVersion` and `mcOpenDevice` -/

/-- Socket outcomes of `getDaemonVersion`. -/
structure GetVersionEnv where
  write : Int
  response : Recv Nat
  version : Recv Nat
deriving DecidableEq, Repr

/-- The function `getDaemonVersion`: returns the result code and the value
left in `*version` (the caller initialises it to `0`). -/
def getDaemonVersion (K : DrvCodes) (devCon : Nat) (env : GetVersionEnv) (w : World) :
    Nat × Nat × World :=
  let w1 := w.write devCon Cmd.MC_DRV_CMD_GET_VERSION env.write
  match SEND_TO_DAEMON K env.write with
  | some e => (e, 0, w1)
  | none =>
  let w2 := w1.read devCon none env.response.rlen
  match RECV_FROM_DAEMON K K.sizeofResult env.response.rlen with
  | some e => (e, 0, w2)
  | none =>
  let mcResult := env.response.data
  if mcResult ≠ K.MC_DRV_OK then (mcResult, 0, w2)
  else
  let w3 := w2.read devCon none env.version.rlen
  match RECV_FROM_DAEMON K sizeofUint32 env.version.rlen with
  | some e => (e, 0, w3)
  | none => (mcResult, env.version.data, w3)

/-- Outcomes met by `mcOpenDevice`: the socket connect, the version exchange,
the OPEN_DEVICE exchange, and the result of `Device::open` on the kernel
module device node. -/
structure OpenDeviceEnv where
  connect : Bool
  version : GetVersionEnv
  write : Int
  response : Recv Nat
  deviceOpen : Nat
deriving DecidableEq, Repr

/-- The function `mcOpenDevice`. -/
def mcOpenDevice (K : DrvCodes) (deviceId : Nat) (env : OpenDeviceEnv) (w : World) :
    Nat × World :=
  match resolveDeviceId w.devices deviceId with
  | some _ => (K.MC_DRV_ERR_DEVICE_ALREADY_OPEN, w)
  | none =>
  -- devCon = new Connection(); devCon->connect(SOCK_PATH)
  let devCon := w.connCount
  let w1 := w.connect env.connect
  if env.connect = false then (K.MC_DRV_ERR_SOCKET_CONNECT, w1)
  else
  let mcResult := (getDaemonVersion K devCon env.version w1).1
  let version := (getDaemonVersion K devCon env.version w1).2.1
  let w2 := (getDaemonVersion K devCon env.version w1).2.2
  if mcResult ≠ K.MC_DRV_OK then (mcResult, w2)
  else if K.checkVersionOkDAEMON version = false then (K.MC_DRV_ERR_DAEMON_VERSION, w2)
  else
  let w3 := w2.write devCon (Cmd.MC_DRV_CMD_OPEN_DEVICE deviceId) env.write
  match SEND_TO_DAEMON K env.write with
  | some e => (e, w3)
  | none =>
  let w4 := w3.read devCon none env.response.rlen
  match RECV_FROM_DAEMON K K.sizeofResult env.response.rlen with
  | some e => (e, w4)
  | none =>
  let mcResult1 := env.response.data
  if mcResult1 ≠ K.MC_DRV_OK then (mcResult1, w4)
  -- device = new Device(deviceId, devCon); mcResult = device->open(...)
  else if env.deviceOpen ≠ K.MC_DRV_OK then (env.deviceOpen, w4)
  else (env.deviceOpen, { w4 with devices := addDevice w4.devices ⟨deviceId, devCon, [], []⟩ })

/-! ## `mcCloseDevice` -/

/-- Modelled from the spec: `Device::hasSessions` is declared in `Device.h`,
which is not among the sources. The specification says that CloseDevice is
refused while `sessions` is non-empty. -/
def Device.hasSessions (device : Device) : Bool :=
  !device.sessionList.isEmpty

/-- Socket outcomes of a one command, one response header exchange. -/
structure CmdEnv where
  write : Int
  response : Recv Nat
deriving DecidableEq, Repr

/-- The function `mcCloseDevice`. -/
def mcCloseDevice (K : DrvCodes) (deviceId : Nat) (env : CmdEnv) (w : World) : Nat × World :=
  match resolveDeviceId w.devices deviceId with
  | none => (K.MC_DRV_ERR_UNKNOWN_DEVICE, w)
  | some device =>
  let devCon := device.connection
  if device.hasSessions then (K.MC_DRV_ERR_SESSION_PENDING, w)
  else
  let w1 := w.write devCon Cmd.MC_DRV_CMD_CLOSE_DEVICE env.write
  match SEND_TO_DAEMON K env.write with
  | some e => (e, w1)
  | none =>
  let w2 := w1.read devCon none env.response.rlen
  match RECV_FROM_DAEMON K K.sizeofResult env.response.rlen with
  | some e => (e, w2)
  | none =>
  let mcResult := env.response.data
  if mcResult ≠ K.MC_DRV_OK then (mcResult, w2)
  else (mcResult, { w2 with devices := (removeDevice w2.devices deviceId).2 })

/-! ## Methods of `Device` and `Session` used by the client library -/

/-- Modelled from the spec: `Device::findContiguousWsm` is not among the
sources. The WSM registry of a device maps a user virtual base to its Wsm;
lookup by user pointer, `none` on a miss. -/
def Device.findContiguousWsm (device : Device) (virtAddr : Nat) : Option CWsm :=
  device.wsmL2List.find? (fun wsm => decide (wsm.virtAddr = virtAddr))

/-- Modelled from the spec: `Device::resolveSessionId` is not among the
sources. The session table is looked up by session id. -/
def Device.resolveSessionId (device : Device) (sessionId : Nat) : Option Session :=
  device.sessionList.find? (fun s => decide (s.sessionId = sessionId))

/-- Modelled from the spec: `Device::createNewSession` is not among the
sources. A session with the given id and notification connection, no bulk
buffer and no stored exit code is inserted into the session table. -/
def Device.createNewSession (device : Device) (sessionId : Nat) (connection : Nat) : Device :=
  { device with sessionList := device.sessionList ++ [⟨sessionId, connection, [], 0⟩] }

/-- Removes the first session with the given id from a session list. -/
def eraseSession : List Session → Nat → List Session
  | [], _ => []
  | s :: rest, sessionId =>
    if s.sessionId = sessionId then rest else s :: eraseSession rest sessionId

/-- Modelled from the spec: `Device::removeSession` is not among the sources.
The session with the given id is removed from the table and dropped; the
result tells whether there was one. -/
def Device.removeSession (device : Device) (sessionId : Nat) : Bool × Device :=
  ((device.resolveSessionId sessionId).isSome,
    { device with sessionList := eraseSession device.sessionList sessionId })

/-- Writes through the pointer that `resolveSessionId` returned: the update
`f` is applied to the first session of the list with the given id. -/
def modifySession (f : Session → Session) : List Session → Nat → List Session
  | [], _ => []
  | s :: rest, sessionId =>
    if s.sessionId = sessionId then f s :: rest else s :: modifySession f rest sessionId

/-- Applies `f` to session `sessionId` of device `deviceId` in the device table. -/
def modifySessionOf (f : Session → Session) (devices : List Device)
    (deviceId sessionId : Nat) : List Device :=
  modifyDevice
    (fun d => { d with sessionList := modifySession f d.sessionList sessionId })
    devices deviceId

/-- Modelled from the spec: `Session::setErrorInfo` is not among the sources.
It stores the terminal exit code of the session. -/
def Session.setErrorInfo (s : Session) (err : Int) : Session :=
  { s with lastErr := err }

/-- Modelled from the spec: `Session::getLastErr` is not among the sources.
It returns the stored exit code. -/
def Session.getLastErr (s : Session) : Int :=
  s.lastErr

/-- Modelled from the spec: `Session::getBufHandle` is not among the sources.
The bulk buffer is found by its secure virtual address and its kernel handle
is returned; `0` stands for no such buffer (the caller tests `handle == 0`). -/
def Session.getBufHandle (s : Session) (sVirtualAddr : Nat) : Nat :=
  match s.bulkBufferDescriptors.find? (fun b => decide (b.sVirtualAddr = sVirtualAddr)) with
  | some b => b.handle
  | none => 0

/-- Outcome of the kernel registration made by `Session::addBulkBuf`. -/
structure RegisterEnv where
  result : Nat
  handle : Nat
  physAddrWsmL2 : Nat
deriving DecidableEq, Repr

/-- Modelled from the spec: `Session::addBulkBuf` is not among the sources.
The bulk buffers of a session are keyed by client address, so an address that
is already in the table is refused; otherwise the buffer is registered with
the driver and, when that succeeds, a descriptor (secure address not yet
known) is added to the table and returned. -/
def Session.addBulkBuf (K : DrvCodes) (s : Session) (buf len : Nat) (env : RegisterEnv) :
    Nat × Option BulkBufferDescriptor × Session :=
  if s.bulkBufferDescriptors.any (fun b => decide (b.virtAddr = buf)) then
    (K.MC_DRV_ERR_BUFFER_ALREADY_MAPPED, none, s)
  else if env.result ≠ K.MC_DRV_OK then (env.result, none, s)
  else
    (K.MC_DRV_OK, some ⟨buf, len, env.handle, env.physAddrWsmL2, 0⟩,
      { s with bulkBufferDescriptors :=
          s.bulkBufferDescriptors ++ [⟨buf, len, env.handle, env.physAddrWsmL2, 0⟩] })

/-- Removes the first descriptor with the given client address. -/
def eraseBulkBuf : List BulkBufferDescriptor → Nat → List BulkBufferDescriptor
  | [], _ => []
  | b :: rest, buf => if b.virtAddr = buf then rest else b :: eraseBulkBuf rest buf

/-- Modelled from the spec: `Session::removeBulkBuf` is not among the sources.
The buffer is found by client address; if there is none the result is the
block-buffer-not-found kind; otherwise the buffer is dropped from the table and
the result is that of the driver unregistration (`unregister`). -/
def Session.removeBulkBuf (K : DrvCodes) (s : Session) (buf : Nat) (unregister : Nat) :
    Nat × Session :=
  if s.bulkBufferDescriptors.any (fun b => decide (b.virtAddr = buf)) then
    (unregister, { s with bulkBufferDescriptors := eraseBulkBuf s.bulkBufferDescriptors buf })
  else (K.MC_DRV_ERR_BLK_BUFF_NOT_FOUND, s)

/-- Outcome of the kernel allocation made by `Device::allocateContiguousWsm`. -/
structure AllocEnv where
  result : Nat
  virtAddr : Nat
  handle : Nat
  physAddr : Nat
deriving DecidableEq, Repr

/-- Modelled from the spec: `Device::allocateContiguousWsm` is not among the
sources. The driver allocates a region and a user mapping; on success the Wsm
with its four attributes is inserted into the registry and returned. -/
def Device.allocateContiguousWsm (K : DrvCodes) (device : Device) (len : Nat) (env : AllocEnv) :
    Nat × Option CWsm × Device :=
  if env.result ≠ K.MC_DRV_OK then (env.result, none, device)
  else
    (K.MC_DRV_OK, some ⟨env.virtAddr, len, env.handle, env.physAddr⟩,
      { device with wsmL2List :=
          device.wsmL2List ++ [⟨env.virtAddr, len, env.handle, env.physAddr⟩] })

/-- Modelled from the spec: `Device::freeContiguousWsm` is not among the
sources. The driver frees the region (`free` is its result); on success the
Wsm is removed from the registry. -/
def Device.freeContiguousWsm (K : DrvCodes) (device : Device) (pWsm : CWsm) (free : Nat) :
    Nat × Device :=
  if free ≠ K.MC_DRV_OK then (free, device)
  else (K.MC_DRV_OK, { device with wsmL2List := device.wsmL2List.erase pWsm })

/-! ## `mcOpenSession` -/

/-- The `switch (mcpResult)` of `mcOpenSession`, case labels in source order. -/
def mcpResultToDrv (K : DrvCodes) (mcpResult : Nat) : Nat :=
  if mcpResult = K.MC_MCP_RET_ERR_WRONG_PUBLIC_KEY then K.MC_DRV_ERR_WRONG_PUBLIC_KEY
  else if mcpResult = K.MC_MCP_RET_ERR_CONTAINER_TYPE_MISMATCH then
    K.MC_DRV_ERR_CONTAINER_TYPE_MISMATCH
  else if mcpResult = K.MC_MCP_RET_ERR_CONTAINER_LOCKED then K.MC_DRV_ERR_CONTAINER_LOCKED
  else if mcpResult = K.MC_MCP_RET_ERR_SP_NO_CHILD then K.MC_DRV_ERR_SP_NO_CHILD
  else if mcpResult = K.MC_MCP_RET_ERR_TL_NO_CHILD then K.MC_DRV_ERR_TL_NO_CHILD
  else if mcpResult = K.MC_MCP_RET_ERR_UNWRAP_ROOT_FAILED then K.MC_DRV_ERR_UNWRAP_ROOT_FAILED
  else if mcpResult = K.MC_MCP_RET_ERR_UNWRAP_SP_FAILED then K.MC_DRV_ERR_UNWRAP_SP_FAILED
  else if mcpResult = K.MC_MCP_RET_ERR_UNWRAP_TRUSTLET_FAILED then
    K.MC_DRV_ERR_UNWRAP_TRUSTLET_FAILED
  else K.MC_DRV_ERR_MCP_ERROR

/-- The block `if (mcResult != MC_DRV_OK) { ... }` that follows the
OPEN_SESSION response: the code returned for a non-OK response `mcResult`. -/
def openSessionError (K : DrvCodes) (mcResult : Nat) : Nat :=
  if K.MC_DRV_ERROR_MAJOR mcResult ≠ K.MC_DRV_ERR_MCP_ERROR then mcResult
  else mcpResultToDrv K (K.MC_DRV_ERROR_MCP mcResult)

/-- Socket outcomes of `mcOpenSession`: the OPEN_SESSION exchange on the device
connection, then the connect of the second connection and the NQ_CONNECT
exchange on it. -/
structure OpenSessionEnv where
  write : Int
  response : Recv Nat
  payload : Recv mcDrvRspOpenSessionPayload_t
  connect : Bool
  nqWrite : Int
  nqResponse : Recv Nat
deriving DecidableEq, Repr

/-- The inner `do { ... } while (0)` of `mcOpenSession`: the NQ_CONNECT
exchange on the session connection; returns the value of `mcResult` after it
(which is `MC_DRV_OK` on entry). -/
def nqConnect (K : DrvCodes) (sessionConnection : Nat) (session : mcSessionHandle_t)
    (payload : mcDrvRspOpenSessionPayload_t) (env : OpenSessionEnv) (w : World) : Nat × World :=
  let w1 := w.write sessionConnection
    (Cmd.MC_DRV_CMD_NQ_CONNECT session.deviceId session.sessionId
      payload.deviceSessionId payload.sessionMagic) env.nqWrite
  match SEND_TO_DAEMON K env.nqWrite with
  | some e => (e, w1)
  | none =>
  let w2 := w1.read sessionConnection none env.nqResponse.rlen
  match RECV_FROM_DAEMON K K.sizeofResult env.nqResponse.rlen with
  | some e => (e, w2)
  | none => (env.nqResponse.data, w2)

/-- The function `mcOpenSession`. `session` and `uuid` are `none` for a `NULL`
pointer, `tci` is an address (`0` is `NULL`). The second component is the
session handle after the call. -/
def mcOpenSession (K : DrvCodes) (session : Option mcSessionHandle_t) (uuid : Option Nat)
    (tci : Nat) (len : Nat) (env : OpenSessionEnv) (w : World) :
    Nat × Option mcSessionHandle_t × World :=
  match session with
  | none => (K.MC_DRV_ERR_NULL_POINTER, session, w)
  | some h =>
  match uuid with
  | none => (K.MC_DRV_ERR_NULL_POINTER, session, w)
  | some u =>
  if tci = 0 then (K.MC_DRV_ERR_NULL_POINTER, session, w)
  else if len > K.MC_MAX_TCI_LEN then (K.MC_DRV_ERR_TCI_TOO_BIG, session, w)
  else
  match resolveDeviceId w.devices h.deviceId with
  | none => (K.MC_DRV_ERR_UNKNOWN_DEVICE, session, w)
  | some device =>
  let devCon := device.connection
  match device.findContiguousWsm tci with
  | none => (K.MC_DRV_ERR_WSM_NOT_FOUND, session, w)
  | some pWsm =>
  if pWsm.len < len then (K.MC_DRV_ERR_TCI_GREATER_THAN_WSM, session, w)
  else
  let w1 := w.write devCon (Cmd.MC_DRV_CMD_OPEN_SESSION h.deviceId u 0 pWsm.handle len) env.write
  match SEND_TO_DAEMON K env.write with
  | some e => (e, session, w1)
  | none =>
  let w2 := w1.read devCon none env.response.rlen
  match RECV_FROM_DAEMON K K.sizeofResult env.response.rlen with
  | some e => (e, session, w2)
  | none =>
  let mcResult := env.response.data
  if mcResult ≠ K.MC_DRV_OK then (openSessionError K mcResult, session, w2)
  else
  let w3 := w2.read devCon none env.payload.rlen
  match RECV_FROM_DAEMON K K.sizeofRspOpenSessionPayload env.payload.rlen with
  | some e => (e, session, w3)
  | none =>
  let rspOpenSessionPayload := env.payload.data
  -- session->sessionId = rspOpenSessionPayload.sessionId
  let h1 : mcSessionHandle_t := { h with sessionId := rspOpenSessionPayload.sessionId }
  -- sessionConnection = new Connection(); sessionConnection->connect(SOCK_PATH)
  let sessionConnection := w3.connCount
  let w4 := w3.connect env.connect
  if env.connect = false then (K.MC_DRV_ERR_SOCKET_CONNECT, some h1, w4)
  else
  let mcResult1 := (nqConnect K sessionConnection h1 rspOpenSessionPayload env w4).1
  let w5 := (nqConnect K sessionConnection h1 rspOpenSessionPayload env w4).2
  if mcResult1 ≠ K.MC_DRV_OK then (mcResult1, some h1, w5)
  else
    (mcResult1, some h1,
      { w5 with
        devices :=
          (modifyDevice (fun d => d.createNewSession h1.sessionId sessionConnection)
            w5.devices h1.deviceId) })

/-! ## `mcCloseSession` and `mcNotify` -/

/-- The test after the `do { ... } while (false)` of `mcCloseSession` and
`mcUnmap`: on `MC_DRV_ERR_SOCKET_WRITE` or `MC_DRV_ERR_SOCKET_READ` the device
named by the handle is removed. (With a `NULL` handle the C code would read
through `NULL` here; the world is then left as it is.) -/
def removeDeviceIfDead (K : DrvCodes) (mcResult : Nat) (session : Option mcSessionHandle_t)
    (w : World) : World :=
  if mcResult = K.MC_DRV_ERR_SOCKET_WRITE ∨ mcResult = K.MC_DRV_ERR_SOCKET_READ then
    match session with
    | none => w
    | some h => { w with devices := (removeDevice w.devices h.deviceId).2 }
  else w

/-- The `do { ... } while (false)` of `mcCloseSession`. -/
def mcCloseSessionBody (K : DrvCodes) (session : Option mcSessionHandle_t) (env : CmdEnv)
    (w : World) : Nat × World :=
  match session with
  | none => (K.MC_DRV_ERR_NULL_POINTER, w)
  | some h =>
  match resolveDeviceId w.devices h.deviceId with
  | none => (K.MC_DRV_ERR_UNKNOWN_DEVICE, w)
  | some device =>
  let devCon := device.connection
  match device.resolveSessionId h.sessionId with
  | none => (K.MC_DRV_ERR_UNKNOWN_SESSION, w)
  | some _ =>
  let w1 := w.write devCon (Cmd.MC_DRV_CMD_CLOSE_SESSION h.sessionId) env.write
  match SEND_TO_DAEMON K env.write with
  | some e => (e, w1)
  | none =>
  let w2 := w1.read devCon none env.response.rlen
  match RECV_FROM_DAEMON K K.sizeofResult env.response.rlen with
  | some e => (e, w2)
  | none =>
  let mcResult := env.response.data
  if mcResult ≠ K.MC_DRV_OK then (K.MC_DRV_ERR_UNKNOWN_DEVICE, w2)
  else
    (mcResult,
      { w2 with
        devices :=
          (modifyDevice (fun d => (d.removeSession h.sessionId).2) w2.devices h.deviceId) })

/-- The function `mcCloseSession`. -/
def mcCloseSession (K : DrvCodes) (session : Option mcSessionHandle_t) (env : CmdEnv)
    (w : World) : Nat × World :=
  let r : Nat × World := mcCloseSessionBody K session env w
  (r.1, removeDeviceIfDead K r.1 session r.2)

/-- The `do { ... } while (false)` of `mcNotify`; `write` is the result of the
one `writeData` (the daemon sends no response). -/
def mcNotifyBody (K : DrvCodes) (session : Option mcSessionHandle_t) (write : Int)
    (w : World) : Nat × World :=
  match session with
  | none => (K.MC_DRV_ERR_NULL_POINTER, w)
  | some h =>
  match resolveDeviceId w.devices h.deviceId with
  | none => (K.MC_DRV_ERR_UNKNOWN_DEVICE, w)
  | some device =>
  let devCon := device.connection
  match device.resolveSessionId h.sessionId with
  | none => (K.MC_DRV_ERR_UNKNOWN_SESSION, w)
  | some _ =>
  let w1 := w.write devCon (Cmd.MC_DRV_CMD_NOTIFY h.sessionId) write
  match SEND_TO_DAEMON K write with
  | some e => (e, w1)
  | none => (K.MC_DRV_OK, w1)

/-- The function `mcNotify`: after the body, on `MC_DRV_ERR_SOCKET_WRITE` the
device named by the handle is removed. -/
def mcNotify (K : DrvCodes) (session : Option mcSessionHandle_t) (write : Int)
    (w : World) : Nat × World :=
  let r : Nat × World := mcNotifyBody K session write w
  (r.1,
    if r.1 = K.MC_DRV_ERR_SOCKET_WRITE then
      match session with
      | none => r.2
      | some h => { r.2 with devices := (removeDevice r.2.devices h.deviceId).2 }
    else r.2)

/-! ## `mcWaitNotification` -/

/-- What one pass of the `for (;;)` of `mcWaitNotification` ends with: a
`break` with the value of `mcResult`, or the next pass with the new `count`. -/
inductive LoopStep where
  | done (mcResult : Nat) (w : World)
  | next (count : Nat) (w : World)
deriving DecidableEq, Repr

/-- One pass of the `for (;;)` of `mcWaitNotification`, for the outcome `r` of
its `readData`. `count` is a `uint32_t`. After the pass `timeout` is `0`. -/
def waitIteration (K : DrvCodes) (h : mcSessionHandle_t) (nqconnection : Nat)
    (r : Recv notification_t) (timeout : Int) (count : Nat) (w : World) : LoopStep :=
  let w1 := w.read nqconnection (some timeout) r.rlen
  if count = 0 ∧ r.rlen = -2 then LoopStep.done K.MC_DRV_ERR_TIMEOUT w1
  else if count = 0 ∧ r.rlen = 0 then
    LoopStep.done K.MC_DRV_ERR_NOTIFICATION
      { w1 with devices := (removeDevice w1.devices h.deviceId).2 }
  else if r.rlen ≠ sizeofNotification then
    if count = 0 then LoopStep.done K.MC_DRV_ERR_NOTIFICATION w1
    else LoopStep.done K.MC_DRV_OK w1
  else if r.data.payload ≠ 0 then
    LoopStep.done K.MC_DRV_INFO_NOTIFICATION
      { w1 with
        devices :=
          (modifySessionOf (fun s => s.setErrorInfo r.data.payload) w1.devices
            h.deviceId h.sessionId) }
  else LoopStep.next ((count + 1) % 2 ^ 32) w1

/-- The `for (;;)` of `mcWaitNotification`. The list holds the outcomes of the
successive `readData` calls on the notification connection that are pending;
once it is used up a read finds no data and returns `-2`, and the pass that
gets `-2` always leaves the loop. -/
def waitLoop (K : DrvCodes) (h : mcSessionHandle_t) (nqconnection : Nat) :
    List (Recv notification_t) → Int → Nat → World → Nat × World
  | [], timeout, count, w =>
    if count = 0 then (K.MC_DRV_ERR_TIMEOUT, w.read nqconnection (some timeout) (-2))
    else (K.MC_DRV_OK, w.read nqconnection (some timeout) (-2))
  | r :: rest, timeout, count, w =>
    match waitIteration K h nqconnection r timeout count w with
    | LoopStep.done mcResult w1 => (mcResult, w1)
    | LoopStep.next count1 w1 => waitLoop K h nqconnection rest 0 count1 w1

/-- The function `mcWaitNotification`; `reads` are the pending outcomes of
`readData` on the notification connection of the session. -/
def mcWaitNotification (K : DrvCodes) (session : Option mcSessionHandle_t) (timeout : Int)
    (reads : List (Recv notification_t)) (w : World) : Nat × World :=
  match session with
  | none => (K.MC_DRV_ERR_NULL_POINTER, w)
  | some h =>
  match resolveDeviceId w.devices h.deviceId with
  | none => (K.MC_DRV_ERR_UNKNOWN_DEVICE, w)
  | some device =>
  match device.resolveSessionId h.sessionId with
  | none => (K.MC_DRV_ERR_UNKNOWN_SESSION, w)
  | some nqSession => waitLoop K h nqSession.notificationConnection reads timeout 0 w

/-! ## `mcMallocWsm` and `mcFreeWsm` -/

/-- The function `mcMallocWsm`. `wsm` is `none` for a `NULL` pointer and
`some a` for a pointer to a slot that holds `a`; the second component is the
slot after the call. -/
def mcMallocWsm (K : DrvCodes) (deviceId : Nat) (_align : Nat) (len : Nat) (wsm : Option Nat)
    (_wsmFlags : Nat) (env : AllocEnv) (w : World) : Nat × Option Nat × World :=
  match resolveDeviceId w.devices deviceId with
  | none => (K.MC_DRV_ERR_UNKNOWN_DEVICE, wsm, w)
  | some device =>
  match wsm with
  | none => (K.MC_DRV_ERR_NULL_POINTER, wsm, w)
  | some _ =>
  match device.allocateContiguousWsm K len env with
  | (mcResult, pWsm, _) =>
  if mcResult ≠ K.MC_DRV_OK then (mcResult, wsm, w)
  else
    (K.MC_DRV_OK, pWsm.map (fun p => p.virtAddr),
      { w with
        devices :=
          (modifyDevice (fun d => (d.allocateContiguousWsm K len env).2.2) w.devices deviceId) })

/-- The function `mcFreeWsm`; `free` is the result of the driver call made by
`Device::freeContiguousWsm`. -/
def mcFreeWsm (K : DrvCodes) (deviceId : Nat) (wsm : Nat) (free : Nat) (w : World) :
    Nat × World :=
  match resolveDeviceId w.devices deviceId with
  | none => (K.MC_DRV_ERR_UNKNOWN_DEVICE, w)
  | some device =>
  match device.findContiguousWsm wsm with
  | none => (K.MC_DRV_ERR_WSM_NOT_FOUND, w)
  | some pWsm =>
  match device.freeContiguousWsm K pWsm free with
  | (mcResult, _) =>
  if mcResult ≠ K.MC_DRV_OK then (mcResult, w)
  else
    (K.MC_DRV_OK,
      { w with
        devices :=
          (modifyDevice (fun d => (d.freeContiguousWsm K pWsm free).2) w.devices deviceId) })

/-! ## `mcMap` and `mcUnmap` -/

/-- The payload of the MAP_BULK_BUF response (`mcDrvRspMapBulkMemPayload_t`);
the client library reads the secure virtual address from it. -/
structure mcDrvRspMapBulkMemPayload_t where
  sessionId : Nat
  secureVirtualAdr : Nat
deriving DecidableEq, Repr

/-- Outcomes met by `mcMap`: the driver registration made by `addBulkBuf`, the
MAP_BULK_BUF exchange, and the driver unregistration made by `removeBulkBuf`
on the failure path. -/
structure MapEnv where
  register : RegisterEnv
  write : Int
  response : Recv Nat
  payload : Recv mcDrvRspMapBulkMemPayload_t
  unregister : Nat
deriving DecidableEq, Repr

/-- The assignment `bulkBuf->sVirtualAddr = ...` through the pointer that
`addBulkBuf` returned: the descriptor with client address `buf`. -/
def setSecureAddr (sVirtualAddr : Nat) : List BulkBufferDescriptor → Nat →
    List BulkBufferDescriptor
  | [], _ => []
  | b :: rest, buf =>
    if b.virtAddr = buf then { b with sVirtualAddr := sVirtualAddr } :: rest
    else b :: setSecureAddr sVirtualAddr rest buf

/-- The session after `bulkBuf->sVirtualAddr = sVirtualAddr` for its bulk
buffer with client address `buf`. -/
def Session.setSecureAddrOf (s : Session) (buf sVirtualAddr : Nat) : Session :=
  { s with bulkBufferDescriptors := setSecureAddr sVirtualAddr s.bulkBufferDescriptors buf }

/-- The function `mcMap`. `sessionHandle` and `mapInfo` are `none` for `NULL`,
`buf` is an address (`0` is `NULL`); the second component is `*mapInfo` after
the call. -/
def mcMap (K : DrvCodes) (sessionHandle : Option mcSessionHandle_t) (buf : Nat) (bufLen : Nat)
    (mapInfo : Option mcBulkMap_t) (env : MapEnv) (w : World) :
    Nat × Option mcBulkMap_t × World :=
  match sessionHandle with
  | none => (K.MC_DRV_ERR_NULL_POINTER, mapInfo, w)
  | some h =>
  match mapInfo with
  | none => (K.MC_DRV_ERR_NULL_POINTER, mapInfo, w)
  | some _ =>
  if buf = 0 then (K.MC_DRV_ERR_NULL_POINTER, mapInfo, w)
  else
  match resolveDeviceId w.devices h.deviceId with
  | none => (K.MC_DRV_ERR_UNKNOWN_DEVICE, mapInfo, w)
  | some device =>
  let devCon := device.connection
  match device.resolveSessionId h.sessionId with
  | none => (K.MC_DRV_ERR_UNKNOWN_SESSION, mapInfo, w)
  | some session =>
  match session.addBulkBuf K buf bufLen env.register with
  | (mcResult, none, _) => (mcResult, mapInfo, w)
  | (mcResult, some bulkBuf, _) =>
  if mcResult ≠ K.MC_DRV_OK then (mcResult, mapInfo, w)
  else
  let w0 : World :=
    { w with
      devices :=
        (modifySessionOf (fun s => (s.addBulkBuf K buf bufLen env.register).2.2) w.devices
          h.deviceId h.sessionId) }
  let w1 := w0.write devCon
    (Cmd.MC_DRV_CMD_MAP_BULK_BUF session.sessionId bulkBuf.handle 0
      ((bulkBuf.virtAddr % 2 ^ 32) &&& 0xFFF) bulkBuf.len) env.write
  match SEND_TO_DAEMON K env.write with
  | some e => (e, mapInfo, w1)
  | none =>
  let w2 := w1.read devCon none env.response.rlen
  match RECV_FROM_DAEMON K K.sizeofResult env.response.rlen with
  | some e => (e, mapInfo, w2)
  | none =>
  let mcResult1 := env.response.data
  if mcResult1 ≠ K.MC_DRV_OK then
    (K.MC_DRV_ERR_DAEMON_UNREACHABLE, mapInfo,
      { w2 with
        devices :=
          (modifySessionOf (fun s => (s.removeBulkBuf K buf env.unregister).2) w2.devices
            h.deviceId h.sessionId) })
  else
  let w3 := w2.read devCon none env.payload.rlen
  match RECV_FROM_DAEMON K K.sizeofRspMapBulkMemPayload env.payload.rlen with
  | some e => (e, mapInfo, w3)
  | none =>
  let rspMapBulkMemPayload := env.payload.data
  -- bulkBuf->sVirtualAddr = (void *)rspMapBulkMemPayload.secureVirtualAdr
  (K.MC_DRV_OK, some ⟨rspMapBulkMemPayload.secureVirtualAdr, bufLen⟩,
    { w3 with
      devices :=
        (modifySessionOf
          (fun s => s.setSecureAddrOf buf rspMapBulkMemPayload.secureVirtualAdr)
          w3.devices h.deviceId h.sessionId) })

/-- Outcomes met by `mcUnmap`: the UNMAP_BULK_BUF exchange and the driver
unregistration made by `removeBulkBuf`. -/
structure UnmapEnv where
  write : Int
  response : Recv Nat
  unregister : Nat
deriving DecidableEq, Repr

/-- The `do { ... } while (false)` of `mcUnmap`. -/
def mcUnmapBody (K : DrvCodes) (sessionHandle : Option mcSessionHandle_t) (buf : Nat)
    (mapInfo : Option mcBulkMap_t) (env : UnmapEnv) (w : World) : Nat × World :=
  match sessionHandle with
  | none => (K.MC_DRV_ERR_NULL_POINTER, w)
  | some h =>
  match mapInfo with
  | none => (K.MC_DRV_ERR_NULL_POINTER, w)
  | some m =>
  if buf = 0 then (K.MC_DRV_ERR_NULL_POINTER, w)
  else
  match resolveDeviceId w.devices h.deviceId with
  | none => (K.MC_DRV_ERR_UNKNOWN_DEVICE, w)
  | some device =>
  let devCon := device.connection
  match device.resolveSessionId h.sessionId with
  | none => (K.MC_DRV_ERR_UNKNOWN_SESSION, w)
  | some session =>
  let handle := session.getBufHandle m.sVirtualAddr
  if handle = 0 then (K.MC_DRV_ERR_BLK_BUFF_NOT_FOUND, w)
  else
  let w1 := w.write devCon
    (Cmd.MC_DRV_CMD_UNMAP_BULK_BUF session.sessionId handle (m.sVirtualAddr % 2 ^ 32)
      m.sVirtualLen) env.write
  match SEND_TO_DAEMON K env.write with
  | some e => (e, w1)
  | none =>
  let w2 := w1.read devCon none env.response.rlen
  match RECV_FROM_DAEMON K K.sizeofResult env.response.rlen with
  | some e => (e, w2)
  | none =>
  let mcResult := env.response.data
  if mcResult ≠ K.MC_DRV_OK then (K.MC_DRV_ERR_DAEMON_UNREACHABLE, w2)
  else
    ((session.removeBulkBuf K buf env.unregister).1,
      { w2 with
        devices :=
          (modifySessionOf (fun s => (s.removeBulkBuf K buf env.unregister).2) w2.devices
            h.deviceId h.sessionId) })

/-- The function `mcUnmap`. -/
def mcUnmap (K : DrvCodes) (sessionHandle : Option mcSessionHandle_t) (buf : Nat)
    (mapInfo : Option mcBulkMap_t) (env : UnmapEnv) (w : World) : Nat × World :=
  let r : Nat × World := mcUnmapBody K sessionHandle buf mapInfo env w
  (r.1, removeDeviceIfDead K r.1 sessionHandle r.2)

/-! ## `mcGetSessionErrorCode`, `mcDriverCtrl`, `mcGetMobiCoreVersion` -/

/-- The function `mcGetSessionErrorCode`; it only reads the device table. The
second component is `*lastErr` after the call (`none` for a `NULL` pointer). -/
def mcGetSessionErrorCode (K : DrvCodes) (session : Option mcSessionHandle_t)
    (lastErr : Option Int) (w : World) : Nat × Option Int :=
  match session with
  | none => (K.MC_DRV_ERR_NULL_POINTER, lastErr)
  | some h =>
  match lastErr with
  | none => (K.MC_DRV_ERR_NULL_POINTER, lastErr)
  | some _ =>
  match resolveDeviceId w.devices h.deviceId with
  | none => (K.MC_DRV_ERR_UNKNOWN_DEVICE, lastErr)
  | some device =>
  match device.resolveSessionId h.sessionId with
  | none => (K.MC_DRV_ERR_UNKNOWN_SESSION, lastErr)
  | some nqsession => (K.MC_DRV_OK, some nqsession.getLastErr)

/-- The function `mcDriverCtrl`. -/
def mcDriverCtrl (K : DrvCodes) (_param : Nat) (_data : Nat) (_len : Nat) : Nat :=
  K.MC_DRV_ERR_NOT_IMPLEMENTED

/-- The version record `mcVersionInfo_t`, as the words it is made of. -/
structure mcVersionInfo_t where
  words : List Nat
deriving DecidableEq, Repr

/-- Socket outcomes of `mcGetMobiCoreVersion`. -/
structure VersionEnv where
  write : Int
  response : Recv Nat
  payload : Recv mcVersionInfo_t
deriving DecidableEq, Repr

/-- The function `mcGetMobiCoreVersion`; the second component is
`*versionInfo` after the call (`none` for a `NULL` pointer). -/
def mcGetMobiCoreVersion (K : DrvCodes) (deviceId : Nat) (versionInfo : Option mcVersionInfo_t)
    (env : VersionEnv) (w : World) : Nat × Option mcVersionInfo_t × World :=
  match resolveDeviceId w.devices deviceId with
  | none => (K.MC_DRV_ERR_UNKNOWN_DEVICE, versionInfo, w)
  | some device =>
  match versionInfo with
  | none => (K.MC_DRV_ERR_NULL_POINTER, versionInfo, w)
  | some _ =>
  let devCon := device.connection
  let w1 := w.write devCon Cmd.MC_DRV_CMD_GET_MOBICORE_VERSION env.write
  match SEND_TO_DAEMON K env.write with
  | some e => (e, versionInfo, w1)
  | none =>
  let w2 := w1.read devCon none env.response.rlen
  match RECV_FROM_DAEMON K K.sizeofResult env.response.rlen with
  | some e => (e, versionInfo, w2)
  | none =>
  let mcResult := env.response.data
  if mcResult ≠ K.MC_DRV_OK then (K.MC_DRV_ERR_DAEMON_UNREACHABLE, versionInfo, w2)
  else
  let w3 := w2.read devCon none env.payload.rlen
  match RECV_FROM_DAEMON K K.sizeofVersionInfo env.payload.rlen with
  | some e => (e, versionInfo, w3)
  | none => (mcResult, some env.payload.data, w3)

/-! ## Sequences of client library calls -/

/-- One call of the client library API, with its arguments and with the
outcomes the outside gives during the call. -/
inductive Call where
  | openDevice (deviceId : Nat) (env : OpenDeviceEnv)
  | closeDevice (deviceId : Nat) (env : CmdEnv)
  | openSession (session : Option mcSessionHandle_t) (uuid : Option Nat) (tci len : Nat)
      (env : OpenSessionEnv)
  | closeSession (session : Option mcSessionHandle_t) (env : CmdEnv)
  | notify (session : Option mcSessionHandle_t) (write : Int)
  | waitNotification (session : Option mcSessionHandle_t) (timeout : Int)
      (reads : List (Recv notification_t))
  | mallocWsm (deviceId align len : Nat) (wsm : Option Nat) (wsmFlags : Nat) (env : AllocEnv)
  | freeWsm (deviceId wsm free : Nat)
  | map (session : Option mcSessionHandle_t) (buf bufLen : Nat) (mapInfo : Option mcBulkMap_t)
      (env : MapEnv)
  | unmap (session : Option mcSessionHandle_t) (buf : Nat) (mapInfo : Option mcBulkMap_t)
      (env : UnmapEnv)
  | getSessionErrorCode (session : Option mcSessionHandle_t) (lastErr : Option Int)
  | driverCtrl (param data len : Nat)
  | getMobiCoreVersion (deviceId : Nat) (versionInfo : Option mcVersionInfo_t) (env : VersionEnv)

/-- The world after one call. -/
def Call.run (K : DrvCodes) (w : World) : Call → World
  | Call.openDevice deviceId env => (mcOpenDevice K deviceId env w).2
  | Call.closeDevice deviceId env => (mcCloseDevice K deviceId env w).2
  | Call.openSession session uuid tci len env => (mcOpenSession K session uuid tci len env w).2.2
  | Call.closeSession session env => (mcCloseSession K session env w).2
  | Call.notify session write => (mcNotify K session write w).2
  | Call.waitNotification session timeout reads =>
    (mcWaitNotification K session timeout reads w).2
  | Call.mallocWsm deviceId align len wsm wsmFlags env =>
    (mcMallocWsm K deviceId align len wsm wsmFlags env w).2.2
  | Call.freeWsm deviceId wsm free => (mcFreeWsm K deviceId wsm free w).2
  | Call.map session buf bufLen mapInfo env => (mcMap K session buf bufLen mapInfo env w).2.2
  | Call.unmap session buf mapInfo env => (mcUnmap K session buf mapInfo env w).2
  | Call.getSessionErrorCode _ _ => w
  | Call.driverCtrl _ _ _ => w
  | Call.getMobiCoreVersion deviceId versionInfo env =>
    (mcGetMobiCoreVersion K deviceId versionInfo env w).2.2

/-- The world after a sequence of calls made one after the other. -/
def runCalls (K : DrvCodes) (w : World) (calls : List Call) : World :=
  calls.foldl (Call.run K) w

/-! ## Conditions on the code table -/

/-- The named error and info codes of the code table. -/
def DrvCodes.errorCodes (K : DrvCodes) : List Nat :=
  [K.MC_DRV_INFO_NOTIFICATION, K.MC_DRV_ERR_NOTIFICATION, K.MC_DRV_ERR_NOT_IMPLEMENTED,
    K.MC_DRV_ERR_UNKNOWN, K.MC_DRV_ERR_UNKNOWN_DEVICE, K.MC_DRV_ERR_UNKNOWN_SESSION,
    K.MC_DRV_ERR_TIMEOUT, K.MC_DRV_ERR_SESSION_PENDING, K.MC_DRV_ERR_DAEMON_UNREACHABLE,
    K.MC_DRV_ERR_DAEMON_VERSION, K.MC_DRV_ERR_DEVICE_ALREADY_OPEN, K.MC_DRV_ERR_SOCKET_CONNECT,
    K.MC_DRV_ERR_SOCKET_WRITE, K.MC_DRV_ERR_SOCKET_READ, K.MC_DRV_ERR_SOCKET_LENGTH,
    K.MC_DRV_ERR_NULL_POINTER, K.MC_DRV_ERR_TCI_TOO_BIG, K.MC_DRV_ERR_WSM_NOT_FOUND,
    K.MC_DRV_ERR_TCI_GREATER_THAN_WSM, K.MC_DRV_ERR_BLK_BUFF_NOT_FOUND,
    K.MC_DRV_ERR_BUFFER_ALREADY_MAPPED, K.MC_DRV_ERR_MCP_ERROR, K.MC_DRV_ERR_WRONG_PUBLIC_KEY,
    K.MC_DRV_ERR_CONTAINER_TYPE_MISMATCH, K.MC_DRV_ERR_CONTAINER_LOCKED,
    K.MC_DRV_ERR_SP_NO_CHILD, K.MC_DRV_ERR_TL_NO_CHILD, K.MC_DRV_ERR_UNWRAP_ROOT_FAILED,
    K.MC_DRV_ERR_UNWRAP_SP_FAILED, K.MC_DRV_ERR_UNWRAP_TRUSTLET_FAILED]

/-- No named error or info code is the success code `MC_DRV_OK`. -/
def DrvCodes.ErrorsNotOk (K : DrvCodes) : Prop :=
  ∀ e ∈ K.errorCodes, e ≠ K.MC_DRV_OK

instance (K : DrvCodes) : Decidable K.ErrorsNotOk :=
  inferInstanceAs (Decidable (∀ e ∈ K.errorCodes, e ≠ K.MC_DRV_OK))

/-- The codes that the local checks of the client library return. -/
def DrvCodes.validationCodes (K : DrvCodes) : List Nat :=
  [K.MC_DRV_ERR_NULL_POINTER, K.MC_DRV_ERR_UNKNOWN_DEVICE, K.MC_DRV_ERR_UNKNOWN_SESSION,
    K.MC_DRV_ERR_TCI_TOO_BIG, K.MC_DRV_ERR_TCI_GREATER_THAN_WSM, K.MC_DRV_ERR_WSM_NOT_FOUND,
    K.MC_DRV_ERR_BLK_BUFF_NOT_FOUND]

/-- No code of a local check is one of the two codes on which an entry point
removes the device after its body (`MC_DRV_ERR_SOCKET_WRITE`,
`MC_DRV_ERR_SOCKET_READ`). -/
def DrvCodes.ValidationNotSocket (K : DrvCodes) : Prop :=
  ∀ e ∈ K.validationCodes, e ≠ K.MC_DRV_ERR_SOCKET_WRITE ∧ e ≠ K.MC_DRV_ERR_SOCKET_READ

instance (K : DrvCodes) : Decidable K.ValidationNotSocket :=
  inferInstanceAs (Decidable (∀ e ∈ K.validationCodes,
    e ≠ K.MC_DRV_ERR_SOCKET_WRITE ∧ e ≠ K.MC_DRV_ERR_SOCKET_READ))

/-- The eight MCP codes that are case labels of the `switch` of `mcOpenSession`. -/
def DrvCodes.mcpCodes (K : DrvCodes) : List Nat :=
  [K.MC_MCP_RET_ERR_WRONG_PUBLIC_KEY, K.MC_MCP_RET_ERR_CONTAINER_TYPE_MISMATCH,
    K.MC_MCP_RET_ERR_CONTAINER_LOCKED, K.MC_MCP_RET_ERR_SP_NO_CHILD,
    K.MC_MCP_RET_ERR_TL_NO_CHILD, K.MC_MCP_RET_ERR_UNWRAP_ROOT_FAILED,
    K.MC_MCP_RET_ERR_UNWRAP_SP_FAILED, K.MC_MCP_RET_ERR_UNWRAP_TRUSTLET_FAILED]

/-- The eight result codes that the `switch` of `mcOpenSession` assigns, in the
order of the case labels. -/
def DrvCodes.mcpKinds (K : DrvCodes) : List Nat :=
  [K.MC_DRV_ERR_WRONG_PUBLIC_KEY, K.MC_DRV_ERR_CONTAINER_TYPE_MISMATCH,
    K.MC_DRV_ERR_CONTAINER_LOCKED, K.MC_DRV_ERR_SP_NO_CHILD, K.MC_DRV_ERR_TL_NO_CHILD,
    K.MC_DRV_ERR_UNWRAP_ROOT_FAILED, K.MC_DRV_ERR_UNWRAP_SP_FAILED,
    K.MC_DRV_ERR_UNWRAP_TRUSTLET_FAILED]

/-- A code table used to run the definitions on concrete inputs: one number
for each kind of the result code taxonomy, the major part of a code in its low
16 bits and the MCP part in the next 16 bits, a TCI limit of 1 MiB, version
word `2` accepted, 4 byte result codes and response headers. -/
def sampleCodes : DrvCodes where
  MC_DRV_OK := 0
  MC_DRV_INFO_NOTIFICATION := 1
  MC_DRV_ERR_NOTIFICATION := 2
  MC_DRV_ERR_NOT_IMPLEMENTED := 3
  MC_DRV_ERR_UNKNOWN := 4
  MC_DRV_ERR_UNKNOWN_DEVICE := 5
  MC_DRV_ERR_UNKNOWN_SESSION := 6
  MC_DRV_ERR_TIMEOUT := 7
  MC_DRV_ERR_SESSION_PENDING := 8
  MC_DRV_ERR_DAEMON_UNREACHABLE := 9
  MC_DRV_ERR_DAEMON_VERSION := 10
  MC_DRV_ERR_DEVICE_ALREADY_OPEN := 11
  MC_DRV_ERR_SOCKET_CONNECT := 12
  MC_DRV_ERR_SOCKET_WRITE := 13
  MC_DRV_ERR_SOCKET_READ := 14
  MC_DRV_ERR_SOCKET_LENGTH := 15
  MC_DRV_ERR_NULL_POINTER := 16
  MC_DRV_ERR_TCI_TOO_BIG := 17
  MC_DRV_ERR_WSM_NOT_FOUND := 18
  MC_DRV_ERR_TCI_GREATER_THAN_WSM := 19
  MC_DRV_ERR_BLK_BUFF_NOT_FOUND := 20
  MC_DRV_ERR_BUFFER_ALREADY_MAPPED := 21
  MC_DRV_ERR_MCP_ERROR := 22
  MC_DRV_ERR_WRONG_PUBLIC_KEY := 23
  MC_DRV_ERR_CONTAINER_TYPE_MISMATCH := 24
  MC_DRV_ERR_CONTAINER_LOCKED := 25
  MC_DRV_ERR_SP_NO_CHILD := 26
  MC_DRV_ERR_TL_NO_CHILD := 27
  MC_DRV_ERR_UNWRAP_ROOT_FAILED := 28
  MC_DRV_ERR_UNWRAP_SP_FAILED := 29
  MC_DRV_ERR_UNWRAP_TRUSTLET_FAILED := 30
  MC_MCP_RET_ERR_WRONG_PUBLIC_KEY := 1
  MC_MCP_RET_ERR_CONTAINER_TYPE_MISMATCH := 2
  MC_MCP_RET_ERR_CONTAINER_LOCKED := 3
  MC_MCP_RET_ERR_SP_NO_CHILD := 4
  MC_MCP_RET_ERR_TL_NO_CHILD := 5
  MC_MCP_RET_ERR_UNWRAP_ROOT_FAILED := 6
  MC_MCP_RET_ERR_UNWRAP_SP_FAILED := 7
  MC_MCP_RET_ERR_UNWRAP_TRUSTLET_FAILED := 8
  MC_DRV_ERROR_MAJOR := fun ecode => ecode % 65536
  MC_DRV_ERROR_MCP := fun ecode => ecode / 65536 % 65536
  MC_MAX_TCI_LEN := 1048576
  checkVersionOkDAEMON := fun version => version == 2
  sizeofResponseHeader := 4
  sizeofResult := 4
  sizeofRspOpenSessionPayload := 12
  sizeofRspMapBulkMemPayload := 8
  sizeofVersionInfo := 64

/-! ## The kernel module wrapper (`CMcKMod.cpp`) -/

/-- The code table with what `CMcKMod.cpp` takes from headers that are not
among the sources: the code `MC_DRV_ERR_KMOD_NOT_OPEN`, the macro
`MAKE_MC_DRV_KMOD_WITH_ERRNO` and the run-time check
`checkVersionOkMCDRVMODULEAPI`. -/
structure KmodCodes extends DrvCodes where
  MC_DRV_ERR_KMOD_NOT_OPEN : Nat
  MAKE_MC_DRV_KMOD_WITH_ERRNO : Int → Nat
  checkVersionOkMCDRVMODULEAPI : Nat → Bool

/-- The value of a `uint32_t` that a function of return type `int` returns. -/
def int_of_uint32 (n : Nat) : Int :=
  if n % 2 ^ 32 < 2 ^ 31 then ((n % 2 ^ 32 : Nat) : Int)
  else ((n % 2 ^ 32 : Nat) : Int) - 2 ^ 32

/-- The value of an `int` that is stored in a `uint32_t` (`mcResult_t`). -/
def uint32_of_int (i : Int) : Nat :=
  (i % 2 ^ 32).toNat

/-- The `ioctl` requests that `CMcKMod` makes on the driver. -/
inductive IoRequest where
  | MC_IO_MAP_WSM
  | MC_IO_MAP_MCI
  | MC_IO_INIT
  | MC_IO_INFO
  | MC_IO_YIELD
  | MC_IO_NSIQ
  | MC_IO_FREE
  | MC_IO_REG_WSM
  | MC_IO_UNREG_WSM
  | MC_IO_LOCK_WSM
  | MC_IO_UNLOCK_WSM
  | MC_IO_RESOLVE_WSM
  | MC_IO_RESOLVE_CONT_WSM
  | MC_IO_CLEAN_WSM
  | MC_IO_EXECUTE
  | MC_IO_VERSION
deriving DecidableEq, Repr

/-- A system call on the file descriptor of the driver, with the words that
the caller passes in. -/
inductive Sys where
  | ioctl (request : IoRequest) (args : List Nat)
  | mmap (len offset : Nat)
  | munmap (buffer len : Nat)
  | read (len : Nat)
deriving DecidableEq, Repr

/-- The outcome of one system call: the value returned, `errno` after the
call, and what the kernel left in the parameter block or buffer. -/
structure SysRet (α : Type) where
  ret : Int
  errno : Int
  out : α
deriving DecidableEq, Repr

/-- The outcome of one `mmap`: the address, `none` for `MAP_FAILED`, and
`errno` after the call. -/
structure MmapRet where
  addr : Option Nat
  errno : Int
deriving DecidableEq, Repr

/-- The members of `struct mc_ioctl_map` that the driver fills in. -/
structure mc_ioctl_map where
  handle : Nat
  phys_addr : Nat
  reused : Bool
deriving DecidableEq, Repr

/-- The members of `struct mc_ioctl_info` that the driver fills in. -/
structure mc_ioctl_info where
  state : Nat
  ext_info : Nat
deriving DecidableEq, Repr

/-- The members of `struct mc_ioctl_reg_wsm` that the driver fills in. -/
structure mc_ioctl_reg_wsm where
  handle : Nat
  table_phys : Nat
deriving DecidableEq, Repr

/-- The members of `struct mc_ioctl_resolv_cont_wsm` that the driver fills
in. -/
structure mc_ioctl_resolv_cont_wsm where
  phys : Nat
  length : Nat
deriving DecidableEq, Repr

/-- The store `if (p != NULL) *p = v`: an output parameter is `none` for a
`NULL` pointer and `some x` for a pointer to a variable that holds `x`. -/
def storeIfNotNull (p : Option Nat) (v : Nat) : Option Nat :=
  p.map (fun _ => v)

/-- The function `CMcKMod::mapWsm`. `isOpen` is what `isOpen()` answers; the
result is the value returned, the three output parameters after the call and
the system calls made. -/
def CMcKMod.mapWsm (K : KmodCodes) (isOpen : Bool) (len : Nat)
    (pHandle pVirtAddr pPhysAddr : Option Nat) (io : SysRet mc_ioctl_map) (mm : MmapRet) :
    Nat × (Option Nat × Option Nat × Option Nat) × List Sys :=
  if !isOpen then (K.MC_DRV_ERR_KMOD_NOT_OPEN, (pHandle, pVirtAddr, pPhysAddr), [])
  else if io.ret ≠ 0 then
    (K.MAKE_MC_DRV_KMOD_WITH_ERRNO io.errno, (pHandle, pVirtAddr, pPhysAddr),
      [Sys.ioctl IoRequest.MC_IO_MAP_WSM [len]])
  else
  match mm.addr with
  | none =>
    (K.MAKE_MC_DRV_KMOD_WITH_ERRNO mm.errno, (pHandle, pVirtAddr, pPhysAddr),
      [Sys.ioctl IoRequest.MC_IO_MAP_WSM [len], Sys.mmap len io.out.phys_addr])
  | some virtAddr =>
    (0,
      (storeIfNotNull pHandle io.out.handle, storeIfNotNull pVirtAddr virtAddr,
        storeIfNotNull pPhysAddr io.out.phys_addr),
      [Sys.ioctl IoRequest.MC_IO_MAP_WSM [len], Sys.mmap len io.out.phys_addr])

/-- The function `CMcKMod::mapMCI`. `pReuse` is the variable that the caller
points to; it is stored to without a `NULL` test. -/
def CMcKMod.mapMCI (K : KmodCodes) (isOpen : Bool) (len : Nat)
    (pHandle pVirtAddr pPhysAddr : Option Nat) (pReuse : Bool) (io : SysRet mc_ioctl_map)
    (mm : MmapRet) : Nat × (Option Nat × Option Nat × Option Nat × Bool) × List Sys :=
  if !isOpen then (K.MC_DRV_ERR_KMOD_NOT_OPEN, (pHandle, pVirtAddr, pPhysAddr, pReuse), [])
  else if io.ret ≠ 0 then
    (K.MAKE_MC_DRV_KMOD_WITH_ERRNO io.errno, (pHandle, pVirtAddr, pPhysAddr, pReuse),
      [Sys.ioctl IoRequest.MC_IO_MAP_MCI [len]])
  else
  match mm.addr with
  | none =>
    (K.MAKE_MC_DRV_KMOD_WITH_ERRNO mm.errno, (pHandle, pVirtAddr, pPhysAddr, pReuse),
      [Sys.ioctl IoRequest.MC_IO_MAP_MCI [len], Sys.mmap len 0])
  | some virtAddr =>
    (K.MC_DRV_OK,
      (storeIfNotNull pHandle io.out.handle, storeIfNotNull pVirtAddr virtAddr,
        storeIfNotNull pPhysAddr io.out.phys_addr, io.out.reused),
      [Sys.ioctl IoRequest.MC_IO_MAP_MCI [len], Sys.mmap len 0])

/-- The function `CMcKMod::mapPersistent`. -/
def CMcKMod.mapPersistent (K : KmodCodes) (_len : Nat)
    (_pHandle _pVirtAddr _pPhysAddr : Option Nat) : Nat :=
  K.MC_DRV_ERR_NOT_IMPLEMENTED

/-- The function `CMcKMod::read` (return type `int`); `buffer` is what the
buffer holds, before and after. -/
def CMcKMod.read (K : KmodCodes) (isOpen : Bool) (buffer : List Nat) (len : Nat)
    (rd : SysRet (List Nat)) : Int × List Nat × List Sys :=
  if !isOpen then (int_of_uint32 K.MC_DRV_ERR_KMOD_NOT_OPEN, buffer, [])
  else (rd.ret, rd.out, [Sys.read len])

/-- The function `CMcKMod::fcInit` (return type `int`). -/
def CMcKMod.fcInit (K : KmodCodes) (isOpen : Bool) (nqOffset nqLength mcpOffset mcpLength : Nat)
    (io : SysRet Unit) : Int × List Sys :=
  if !isOpen then (int_of_uint32 K.MC_DRV_ERR_KMOD_NOT_OPEN, [])
  else (io.ret, [Sys.ioctl IoRequest.MC_IO_INIT [nqOffset, nqLength, mcpOffset, mcpLength]])

/-- The function `CMcKMod::fcInfo` (return type `int`). -/
def CMcKMod.fcInfo (K : KmodCodes) (isOpen : Bool) (extInfoId : Nat)
    (pState pExtInfo : Option Nat) (io : SysRet mc_ioctl_info) :
    Int × (Option Nat × Option Nat) × List Sys :=
  if !isOpen then (int_of_uint32 K.MC_DRV_ERR_KMOD_NOT_OPEN, (pState, pExtInfo), [])
  else if io.ret ≠ 0 then
    (io.ret, (pState, pExtInfo), [Sys.ioctl IoRequest.MC_IO_INFO [extInfoId]])
  else
    (io.ret, (storeIfNotNull pState io.out.state, storeIfNotNull pExtInfo io.out.ext_info),
      [Sys.ioctl IoRequest.MC_IO_INFO [extInfoId]])

/-- The function `CMcKMod::fcYield` (return type `int`). -/
def CMcKMod.fcYield (K : KmodCodes) (isOpen : Bool) (io : SysRet Unit) : Int × List Sys :=
  if !isOpen then (int_of_uint32 K.MC_DRV_ERR_KMOD_NOT_OPEN, [])
  else (io.ret, [Sys.ioctl IoRequest.MC_IO_YIELD []])

/-- The function `CMcKMod::fcNSIQ` (return type `int`). -/
def CMcKMod.fcNSIQ (K : KmodCodes) (isOpen : Bool) (io : SysRet Unit) : Int × List Sys :=
  if !isOpen then (int_of_uint32 K.MC_DRV_ERR_KMOD_NOT_OPEN, [])
  else (io.ret, [Sys.ioctl IoRequest.MC_IO_NSIQ []])

/-- The function `CMcKMod::free`; the result of `munmap` is not used. -/
def CMcKMod.free (K : KmodCodes) (isOpen : Bool) (handle buffer len : Nat) (io : SysRet Unit) :
    Nat × List Sys :=
  if !isOpen then (K.MC_DRV_ERR_KMOD_NOT_OPEN, [])
  else if io.ret ≠ 0 then
    (K.MAKE_MC_DRV_KMOD_WITH_ERRNO io.errno,
      [Sys.munmap buffer len, Sys.ioctl IoRequest.MC_IO_FREE [handle]])
  else (K.MC_DRV_OK, [Sys.munmap buffer len, Sys.ioctl IoRequest.MC_IO_FREE [handle]])

/-- The function `CMcKMod::registerWsmL2`; the buffer address goes into the
parameter block as a `uint32_t`. -/
def CMcKMod.registerWsmL2 (K : KmodCodes) (isOpen : Bool) (buffer len pid : Nat)
    (pHandle pPhysWsmL2 : Option Nat) (io : SysRet mc_ioctl_reg_wsm) :
    Nat × (Option Nat × Option Nat) × List Sys :=
  if !isOpen then (K.MC_DRV_ERR_KMOD_NOT_OPEN, (pHandle, pPhysWsmL2), [])
  else if io.ret ≠ 0 then
    (K.MAKE_MC_DRV_KMOD_WITH_ERRNO io.errno, (pHandle, pPhysWsmL2),
      [Sys.ioctl IoRequest.MC_IO_REG_WSM [buffer % 2 ^ 32, len, pid]])
  else
    (K.MC_DRV_OK,
      (storeIfNotNull pHandle io.out.handle, storeIfNotNull pPhysWsmL2 io.out.table_phys),
      [Sys.ioctl IoRequest.MC_IO_REG_WSM [buffer % 2 ^ 32, len, pid]])

/-- The function `CMcKMod::unregisterWsmL2`. -/
def CMcKMod.unregisterWsmL2 (K : KmodCodes) (isOpen : Bool) (handle : Nat) (io : SysRet Unit) :
    Nat × List Sys :=
  if !isOpen then (K.MC_DRV_ERR_KMOD_NOT_OPEN, [])
  else if io.ret ≠ 0 then
    (K.MAKE_MC_DRV_KMOD_WITH_ERRNO io.errno, [Sys.ioctl IoRequest.MC_IO_UNREG_WSM [handle]])
  else (K.MC_DRV_OK, [Sys.ioctl IoRequest.MC_IO_UNREG_WSM [handle]])

/-- The function `CMcKMod::lockWsmL2`: the `int` result of `ioctl` is
returned as `mcResult_t`. -/
def CMcKMod.lockWsmL2 (K : KmodCodes) (isOpen : Bool) (handle : Nat) (io : SysRet Unit) :
    Nat × List Sys :=
  if !isOpen then (K.MC_DRV_ERR_KMOD_NOT_OPEN, [])
  else (uint32_of_int io.ret, [Sys.ioctl IoRequest.MC_IO_LOCK_WSM [handle]])

/-- The function `CMcKMod::unlockWsmL2`. -/
def CMcKMod.unlockWsmL2 (K : KmodCodes) (isOpen : Bool) (handle : Nat) (io : SysRet Unit) :
    Nat × List Sys :=
  if !isOpen then (K.MC_DRV_ERR_KMOD_NOT_OPEN, [])
  else (uint32_of_int io.ret, [Sys.ioctl IoRequest.MC_IO_UNLOCK_WSM [handle]])

/-- The function `CMcKMod::findWsmL2`; it returns an address, `0` for `NULL`.
The parameter word holds the handle before the `ioctl` and `io.out` after. -/
def CMcKMod.findWsmL2 (isOpen : Bool) (handle : Nat) (io : SysRet Nat) : Nat × List Sys :=
  if !isOpen then (0, [])
  else (io.out, [Sys.ioctl IoRequest.MC_IO_RESOLVE_WSM [handle]])

/-- The function `CMcKMod::findContiguousWsm`. `phys` and `len` are the
variables that the caller points to (they are stored to without a `NULL`
test). When the module is not open the statement is `return NULL;`, which for
the return type `mcResult_t` is the value `0`. -/
def CMcKMod.findContiguousWsm (isOpen : Bool) (handle : Nat) (phys len : Nat)
    (io : SysRet mc_ioctl_resolv_cont_wsm) : Nat × (Nat × Nat) × List Sys :=
  if !isOpen then (0, (phys, len), [])
  else
    let ret := uint32_of_int io.ret
    if ret ≠ 0 then (ret, (phys, len), [Sys.ioctl IoRequest.MC_IO_RESOLVE_CONT_WSM [handle]])
    else
      (ret, (io.out.phys, io.out.length), [Sys.ioctl IoRequest.MC_IO_RESOLVE_CONT_WSM [handle]])

/-- The function `CMcKMod::cleanupWsmL2`. -/
def CMcKMod.cleanupWsmL2 (K : KmodCodes) (isOpen : Bool) (io : SysRet Unit) : Nat × List Sys :=
  if !isOpen then (K.MC_DRV_ERR_KMOD_NOT_OPEN, [])
  else (uint32_of_int io.ret, [Sys.ioctl IoRequest.MC_IO_CLEAN_WSM [0]])

/-- The function `CMcKMod::fcExecute` (return type `int`); the start address
goes into the parameter block as a `uint32_t`. -/
def CMcKMod.fcExecute (K : KmodCodes) (isOpen : Bool) (startAddr areaLength : Nat)
    (io : SysRet Unit) : Int × List Sys :=
  if !isOpen then (int_of_uint32 K.MC_DRV_ERR_KMOD_NOT_OPEN, [])
  else (io.ret, [Sys.ioctl IoRequest.MC_IO_EXECUTE [startAddr % 2 ^ 32, areaLength]])

/-- The function `CMcKMod::checkVersion`; `io.out` is the version word that
the driver reports. -/
def CMcKMod.checkVersion (K : KmodCodes) (isOpen : Bool) (io : SysRet Nat) : Bool × List Sys :=
  if !isOpen then (false, [])
  else if io.ret ≠ 0 then (false, [Sys.ioctl IoRequest.MC_IO_VERSION []])
  else if !K.checkVersionOkMCDRVMODULEAPI io.out then
    (false, [Sys.ioctl IoRequest.MC_IO_VERSION []])
  else (true, [Sys.ioctl IoRequest.MC_IO_VERSION []])

/-- A code table for the kernel module wrapper used to run the definitions on
concrete inputs: `sampleCodes` with `MC_DRV_ERR_KMOD_NOT_OPEN` and the kernel
module kind in the low 16 bits with the `errno` in the next 16 bits. -/
def sampleKmodCodes : KmodCodes :=
  { sampleCodes with
    MC_DRV_ERR_KMOD_NOT_OPEN := 31
    MAKE_MC_DRV_KMOD_WITH_ERRNO := fun e => 32 + 65536 * (e % 65536).toNat
    checkVersionOkMCDRVMODULEAPI := fun version => version == 65537 }

/-! ## The TrustZone device (`TrustZoneDevice.cpp`) -/

/-- The code table with what `TrustZoneDevice.cpp` takes from headers that are
not among the sources: the sizes of `notificationQueueHeader_t` and
`mcpBuffer_t`, `SCHEDULING_FREQ`, the MobiCore status values, the idle value of
the schedule flag, the id of the MCP session, the id of the MCI version info
and the run-time check `checkVersionOkMCI`. -/
structure TzParams extends KmodCodes where
  sizeofNotificationQueueHeader : Nat
  sizeofMcpBuffer : Nat
  SCHEDULING_FREQ : Nat
  MC_STATUS_NOT_INITIALIZED : Nat
  MC_STATUS_INITIALIZED : Nat
  MC_STATUS_HALT : Nat
  MC_FLAG_SCHEDULE_IDLE : Nat
  SID_MCP : Nat
  MC_EXT_INFO_ID_MCI_VERSION : Nat
  checkVersionOkMCI : Nat → Bool

/-- The macro `NQ_NUM_ELEMS`. -/
def NQ_NUM_ELEMS : Nat := 16

/-- The macro `NQ_BUFFER_SIZE`. -/
def TzParams.NQ_BUFFER_SIZE (P : TzParams) : Nat :=
  2 * (P.sizeofNotificationQueueHeader + NQ_NUM_ELEMS * sizeofNotification.toNat)

/-- The macro `MCP_BUFFER_SIZE`. -/
def TzParams.MCP_BUFFER_SIZE (P : TzParams) : Nat :=
  P.sizeofMcpBuffer

/-- The macro `MCI_BUFFER_SIZE`. -/
def TzParams.MCI_BUFFER_SIZE (P : TzParams) : Nat :=
  P.NQ_BUFFER_SIZE + P.MCP_BUFFER_SIZE

/-- What the daemon does that can be seen from outside `TrustZoneDevice`: a
system call on the driver, clearing memory, sleeping, the two operations of
the semaphore `schedSync`, and the calls into classes that are not among the
sources: `nq->putNotification`, `signalMcpNotification`,
`connection->writeData` of a notification record on the connection at
address `connection`, `queueUnknownNotification` and
`DeviceIrqHandler::setExiting`. -/
inductive Act where
  | sys (s : Sys)
  | bzero (addr len : Nat)
  | sleep (seconds : Nat)
  | schedSyncSignal
  | schedSyncWait
  | putNotification (n : notification_t)
  | signalMcpNotification
  | writeData (connection : Nat) (n : notification_t)
  | queueUnknownNotification (n : notification_t)
  | setExiting
deriving DecidableEq, Repr

/-- Modelled from the spec: the class `NotificationQueue` is not among the
sources. It holds the two ring buffers of one MCI region: the queue that the
daemon reads from (MC→NWd), which is the first argument of the constructor,
and the queue that the daemon writes to (NWd→MC), which is the second, each
of `size` elements. The members are the addresses of the two queues. -/
structure NotificationQueue where
  queueIn : Nat
  queueOut : Nat
  size : Nat
deriving DecidableEq, Repr

/-- The members of `TrustZoneDevice` that `initDevice` sets; `mcpBuf` is the
address of the `mcpBuffer_t` whose members `mcFlags` and `mcpMessage` point
into. -/
structure TrustZoneDevice where
  schedulerEnabled : Bool
  pWsmMcp : CWsm
  mciReused : Bool
  nq : NotificationQueue
  mcpBuf : Nat
deriving DecidableEq, Repr

/-- The function `TrustZoneDevice::yield`. -/
def TrustZoneDevice.yield (P : TzParams) (isOpen : Bool) (io : SysRet Unit) : Bool × List Act :=
  let r := CMcKMod.fcYield P.toKmodCodes isOpen io
  (decide (r.1 = 0), r.2.map Act.sys)

/-- The function `TrustZoneDevice::nsiq`. -/
def TrustZoneDevice.nsiq (P : TzParams) (isOpen : Bool) (io : SysRet Unit) : Bool × List Act :=
  let r := CMcKMod.fcNSIQ P.toKmodCodes isOpen io
  if r.1 ≠ 0 then (false, r.2.map Act.sys)
  else (true, r.2.map Act.sys ++ [Act.schedSyncSignal])

/-- The function `TrustZoneDevice::getMobicoreStatus`; `uninit` is what the
local variable `status` holds before `fcInfo` stores to it. -/
def TrustZoneDevice.getMobicoreStatus (P : TzParams) (isOpen : Bool) (uninit : Nat)
    (io : SysRet mc_ioctl_info) : Nat × List Act :=
  let r := CMcKMod.fcInfo P.toKmodCodes isOpen 1 (some uninit) none io
  (r.2.1.1.getD uninit, r.2.2.map Act.sys)

/-- The function `TrustZoneDevice::checkMciVersion`. -/
def TrustZoneDevice.checkMciVersion (P : TzParams) (isOpen : Bool) (io : SysRet mc_ioctl_info) :
    Bool × List Act :=
  let r := CMcKMod.fcInfo P.toKmodCodes isOpen P.MC_EXT_INFO_ID_MCI_VERSION none (some 0) io
  if r.1 ≠ 0 then (false, r.2.2.map Act.sys)
  else if !P.checkVersionOkMCI (r.2.1.2.getD 0) then (false, r.2.2.map Act.sys)
  else (true, r.2.2.map Act.sys)

/-- The ids that `dumpMobicoreStatus` asks `fcInfo` for, in order. -/
def dumpInfoIds : List Nat :=
  [1, 2, 3, 4, 5, 6, 7, 8, 9, 10, 11, 12, 13, 14, 15, 16, 19, 20, 21, 22]

/-- The function `TrustZoneDevice::dumpMobicoreStatus`: twenty calls of
`fcInfo` whose results are only logged; `io` gives the outcome for each id. -/
def TrustZoneDevice.dumpMobicoreStatus (P : TzParams) (isOpen : Bool)
    (io : Nat → SysRet mc_ioctl_info) : List Act :=
  dumpInfoIds.flatMap
    (fun id => (CMcKMod.fcInfo P.toKmodCodes isOpen id (some 0) (some 0) (io id)).2.2.map Act.sys)

/-- The function `TrustZoneDevice::getMciInstance`: the block and the reuse
flag that are stored through `mci` and `reused` when it returns `true`. -/
def TrustZoneDevice.getMciInstance (P : TzParams) (isOpen : Bool) (len : Nat)
    (uninit : Nat × Nat × Nat) (io : SysRet mc_ioctl_map) (mm : MmapRet) :
    Bool × Option (CWsm × Bool) × List Act :=
  if len = 0 then (false, none, [])
  else
    let r := CMcKMod.mapMCI P.toKmodCodes isOpen len (some uninit.1) (some uninit.2.1)
      (some uninit.2.2) true io mm
    if r.1 ≠ P.MC_DRV_OK then (false, none, r.2.2.map Act.sys)
    else
      (true,
        some (⟨r.2.1.2.1.getD uninit.2.1, len, r.2.1.1.getD uninit.1,
          r.2.1.2.2.1.getD uninit.2.2⟩, r.2.1.2.2.2),
        r.2.2.map Act.sys)

/-- The function `TrustZoneDevice::findContiguousWsm`; the second component
is `*phys` and `*len` after the call. -/
def TrustZoneDevice.findContiguousWsm (isOpen : Bool) (handle : Nat) (phys len : Nat)
    (io : SysRet mc_ioctl_resolv_cont_wsm) : Bool × (Nat × Nat) × List Act :=
  let r := CMcKMod.findContiguousWsm isOpen handle phys len io
  if r.1 ≠ 0 then (false, r.2.1, r.2.2.map Act.sys)
  else (true, r.2.1, r.2.2.map Act.sys)

/-- What one pass of the status poll of `initDevice` meets: the content of
the local variable `status` before `getMobicoreStatus` stores to it, the
outcome of `fcInfo(1)` and the outcome of the `fcYield` of that pass. -/
structure PollEnv where
  uninit : Nat
  info : SysRet mc_ioctl_info
  yield : SysRet Unit
deriving DecidableEq, Repr

/-- The `while (1)` of `initDevice` over a script of passes: `some (b, acts)`
when the loop is left, with `b = true` for the `break` and `b = false` for a
`return false`; `none` when the script ends while the loop goes on. -/
def TrustZoneDevice.initDevicePoll (P : TzParams) (isOpen : Bool)
    (dump : Nat → SysRet mc_ioctl_info) : List PollEnv → Option (Bool × List Act)
  | [] => none
  | p :: rest =>
    let st := TrustZoneDevice.getMobicoreStatus P isOpen p.uninit p.info
    if P.MC_STATUS_INITIALIZED = st.1 then some (true, st.2)
    else if P.MC_STATUS_NOT_INITIALIZED = st.1 then
      let y := TrustZoneDevice.yield P isOpen p.yield
      if !y.1 then some (false, st.2 ++ y.2)
      else
        match TrustZoneDevice.initDevicePoll P isOpen dump rest with
        | none => none
        | some (b, acts) => some (b, st.2 ++ y.2 ++ [Act.sleep 1] ++ acts)
    else if P.MC_STATUS_HALT = st.1 then
      some (false, st.2 ++ TrustZoneDevice.dumpMobicoreStatus P isOpen dump)
    else some (false, st.2)

/-- What `initDevice` meets outside the status poll. `CMcKMod::open` and
`isOpen` are not among the sources: `openResult` is what `open` returns and
`isOpen` what `isOpen()` answers afterwards. -/
structure InitDeviceEnv where
  openResult : Nat
  isOpen : Bool
  version : SysRet Nat
  uninit : Nat × Nat × Nat
  mapMCI : SysRet mc_ioctl_map
  mmap : MmapRet
  mciVersion : SysRet mc_ioctl_info
  fcInit : SysRet Unit
  nsiq : SysRet Unit
  dump : Nat → SysRet mc_ioctl_info

/-- The function `TrustZoneDevice::initDevice`. The result is `none` when the
script of poll passes ends while the poll goes on; otherwise the value
returned, the members of the device when that value is `true`, and what was
done. The sizes are passed to `getMciInstance` and `fcInit` as `uint32_t`. -/
def TrustZoneDevice.initDevice (P : TzParams) (enableScheduler : Bool) (env : InitDeviceEnv)
    (poll : List PollEnv) : Option (Bool × Option TrustZoneDevice × List Act) :=
  if env.openResult ≠ P.MC_DRV_OK then some (false, none, [])
  else
  let v := CMcKMod.checkVersion P.toKmodCodes env.isOpen env.version
  let a1 := v.2.map Act.sys
  if !v.1 then some (false, none, a1)
  else
  match TrustZoneDevice.getMciInstance P env.isOpen (P.MCI_BUFFER_SIZE % 2 ^ 32) env.uninit
    env.mapMCI env.mmap with
  | (_, none, acts) => some (false, none, a1 ++ acts)
  | (_, some (pWsmMcp, mciReused), acts) =>
  let a2 := a1 ++ acts
  let mciBuffer := pWsmMcp.virtAddr
  let c := TrustZoneDevice.checkMciVersion P env.isOpen env.mciVersion
  let a3 := a2 ++ c.2
  if !c.1 then some (false, none, a3)
  else
  let nqStartOut := mciBuffer
  let nqStartIn :=
    nqStartOut + P.sizeofNotificationQueueHeader + NQ_NUM_ELEMS * sizeofNotification.toNat
  let device : TrustZoneDevice :=
    { schedulerEnabled := enableScheduler
      pWsmMcp := pWsmMcp
      mciReused := mciReused
      nq := ⟨nqStartIn, nqStartOut, NQ_NUM_ELEMS⟩
      mcpBuf := mciBuffer + P.NQ_BUFFER_SIZE }
  if !mciReused then
    let a4 := a3 ++ [Act.bzero mciBuffer P.MCI_BUFFER_SIZE]
    let i := CMcKMod.fcInit P.toKmodCodes env.isOpen 0 (P.NQ_BUFFER_SIZE % 2 ^ 32)
      (P.NQ_BUFFER_SIZE % 2 ^ 32) (P.MCP_BUFFER_SIZE % 2 ^ 32) env.fcInit
    let a5 := a4 ++ i.2.map Act.sys
    if i.1 ≠ 0 then some (false, none, a5)
    else
    let n := TrustZoneDevice.nsiq P env.isOpen env.nsiq
    let a6 := a5 ++ n.2
    if !n.1 then some (false, none, a6)
    else
    match TrustZoneDevice.initDevicePoll P env.isOpen env.dump poll with
    | none => none
    | some (false, acts) => some (false, none, a6 ++ acts)
    | some (true, acts) => some (true, some device, a6 ++ acts)
  else some (true, some device, a3)

/-- What one pass of the loop of `schedule` meets: the value of
`mcFlags->schedule` and the outcome of the fast call of that pass, if one is
made. -/
structure SchedEnv where
  schedule : Nat
  io : SysRet Unit
deriving DecidableEq, Repr

/-- One pass through the body of the `for (;;)` of `schedule`, entered with
`timeslice`: whether the loop goes on (`false` for the `break`), `timeslice`
after the pass, and what was done. -/
def TrustZoneDevice.scheduleIteration (P : TzParams) (isOpen : Bool) (timeslice : Nat)
    (e : SchedEnv) : Bool × Nat × List Act :=
  if P.MC_FLAG_SCHEDULE_IDLE = e.schedule then (true, timeslice, [Act.schedSyncWait])
  else if timeslice = 0 then
    let r := TrustZoneDevice.nsiq P isOpen e.io
    (r.1, P.SCHEDULING_FREQ % 2 ^ 32, r.2)
  else
    let r := TrustZoneDevice.yield P isOpen e.io
    (r.1, timeslice - 1, r.2)

/-- The passes of the loop of `schedule` over a script, entered with
`timeslice`: one entry for each pass made, in order; no pass follows a
`break`. -/
def TrustZoneDevice.scheduleFrom (P : TzParams) (isOpen : Bool) :
    Nat → List SchedEnv → List (Bool × Nat × List Act)
  | _, [] => []
  | timeslice, e :: rest =>
    let r := TrustZoneDevice.scheduleIteration P isOpen timeslice e
    r :: (if r.1 then TrustZoneDevice.scheduleFrom P isOpen r.2.1 rest else [])

/-- The function `TrustZoneDevice::schedule`, run over a script of passes:
`timeslice` is a `uint32_t` that starts at `SCHEDULING_FREQ`. The function
returns when the last pass made is a `break`. -/
def TrustZoneDevice.schedule (P : TzParams) (isOpen : Bool) (script : List SchedEnv) :
    List (Bool × Nat × List Act) :=
  TrustZoneDevice.scheduleFrom P isOpen (P.SCHEDULING_FREQ % 2 ^ 32) script

/-- Parameters for the TrustZone device used to run the definitions on
concrete inputs: `sampleKmodCodes`, a queue header of 8 bytes, an MCP buffer
of 64 bytes and a scheduling frequency of 3. -/
def sampleTzParams : TzParams :=
  { sampleKmodCodes with
    sizeofNotificationQueueHeader := 8
    sizeofMcpBuffer := 64
    SCHEDULING_FREQ := 3
    MC_STATUS_NOT_INITIALIZED := 0
    MC_STATUS_INITIALIZED := 2
    MC_STATUS_HALT := 3
    MC_FLAG_SCHEDULE_IDLE := 0
    SID_MCP := 0
    MC_EXT_INFO_ID_MCI_VERSION := 257
    checkVersionOkMCI := fun version => version == 2 }

/-! ## The registry: paths (`Registry.cpp`, lines 57 to 67 and 825 to 955) -/

/-- The constant `MC_REGISTRY_DEFAULT_PATH`. -/
def MC_REGISTRY_DEFAULT_PATH : String := "/data/app/mcRegistry"

/-- The constant `AUTH_TOKEN_FILE_NAME`. -/
def AUTH_TOKEN_FILE_NAME : String := "00000000.authtokcont"

/-- The constant `ROOT_FILE_NAME`. -/
def ROOT_FILE_NAME : String := "00000000.rootcont"

/-- The constant `SP_CONT_FILE_EXT`. -/
def SP_CONT_FILE_EXT : String := ".spcont"

/-- The constant `TL_CONT_FILE_EXT`. -/
def TL_CONT_FILE_EXT : String := ".tlcont"

/-- The constant `TL_BIN_FILE_EXT`. -/
def TL_BIN_FILE_EXT : String := ".tlbin"

/-- The constant `DATA_CONT_FILE_EXT`. -/
def DATA_CONT_FILE_EXT : String := ".datacont"

/-- The constant `ENV_MC_REGISTRY_PATH`. -/
def ENV_MC_REGISTRY_PATH : String := "MC_REGISTRY_PATH"

/-- The constant `ENV_MC_REGISTRY_FALLBACK_PATH`. -/
def ENV_MC_REGISTRY_FALLBACK_PATH : String := "MC_REGISTRY_FALLBACK_PATH"

/-- The constant `ENV_MC_AUTH_TOKEN_PATH`. -/
def ENV_MC_AUTH_TOKEN_PATH : String := "MC_AUTH_TOKEN_PATH"

/-- The file system as the registry sees it: `files p` is the content of the
file that `fopen(p, "rb")` opens (`none` when it returns `NULL`), `isDir p`
says whether `stat(p)` succeeds and reports a directory, `canCreate p` whether
`fopen(p, "wb")` succeeds, and `canMkdir p` whether `mkdir(p)` succeeds. -/
structure FileSystem where
  files : String → Option (List Nat)
  isDir : String → Bool
  canCreate : String → Bool
  canMkdir : String → Bool

/-- What the registry reads from outside: the process environment (`getenv`,
`none` for `NULL`) and the file system. -/
structure RegistryEnv where
  getenv : String → Option String
  fs : FileSystem

/-- The function `doesDirExist`; `path` is `none` for `NULL`. -/
def doesDirExist (fs : FileSystem) (path : Option String) : Bool :=
  match path with
  | none => false
  | some p => fs.isDir p

/-- The function `getRegistryPath`. -/
def getRegistryPath (env : RegistryEnv) : String :=
  let path := env.getenv ENV_MC_REGISTRY_PATH
  let registryPath : String :=
    if doesDirExist env.fs path then path.getD ""
    else
      let path := env.getenv ENV_MC_REGISTRY_FALLBACK_PATH
      if doesDirExist env.fs path then path.getD "" else ""
  if registryPath.length = 0 then MC_REGISTRY_DEFAULT_PATH else registryPath

/-- The function `getAuthTokenFilePath`. -/
def getAuthTokenFilePath (env : RegistryEnv) : String :=
  let path := env.getenv ENV_MC_AUTH_TOKEN_PATH
  let authTokenPath : String :=
    if doesDirExist env.fs path then path.getD "" else getRegistryPath env
  authTokenPath ++ "/" ++ AUTH_TOKEN_FILE_NAME

/-- The body of the loop of `uint32ToString` for one nibble `hx`: the
character that is left in `hx[i]`. -/
def uint32ToStringChar (hx : Nat) : Char :=
  if hx > 9 then Char.ofNat ((hx - 9) ||| 0x40) else Char.ofNat (hx ||| 0x30)

/-- The function `uint32ToString`: eight passes of the loop, for `i` from `0`
to `7`, each leaving one character. -/
def uint32ToString (value : Nat) : String :=
  String.mk
    ((List.range 8).map (fun i => uint32ToStringChar ((value >>> (28 - i * 4)) &&& 0x0F)))

/-- The two characters that `sprintf(.., "%02x", b)` writes for a byte `b`. -/
def sprintf02x (b : Nat) : List Char :=
  [(Nat.digitChar (b / 16 % 16)), (Nat.digitChar (b % 16))]

/-- The function `byteArrayToString`: two characters for each of the first
`elems` bytes. -/
def byteArrayToString (bytes : List Nat) (elems : Nat) : String :=
  String.mk ((bytes.take elems).flatMap sprintf02x)

/-- The function `getRootContFilePath`. -/
def getRootContFilePath (env : RegistryEnv) : String :=
  getRegistryPath env ++ "/" ++ ROOT_FILE_NAME

/-- The function `getSpDataPath`. -/
def getSpDataPath (env : RegistryEnv) (spid : Nat) : String :=
  getRegistryPath env ++ "/" ++ uint32ToString spid

/-- The function `getSpContFilePath`. -/
def getSpContFilePath (env : RegistryEnv) (spid : Nat) : String :=
  getRegistryPath env ++ "/" ++ uint32ToString spid ++ SP_CONT_FILE_EXT

/-- The function `getTlContFilePath`; a uuid is the list of the bytes of a
`mcUuid_t`, so `sizeof(*uuid)` is its length. -/
def getTlContFilePath (env : RegistryEnv) (uuid : List Nat) : String :=
  getRegistryPath env ++ "/" ++ byteArrayToString uuid uuid.length ++ TL_CONT_FILE_EXT

/-- The function `getTlDataPath`. -/
def getTlDataPath (env : RegistryEnv) (uuid : List Nat) : String :=
  getRegistryPath env ++ "/" ++ byteArrayToString uuid uuid.length

/-- The function `getTlDataFilePath`; `pid` is the member `pid.data`. -/
def getTlDataFilePath (env : RegistryEnv) (uuid : List Nat) (pid : Nat) : String :=
  getTlDataPath env uuid ++ "/" ++ uint32ToString pid ++ DATA_CONT_FILE_EXT

/-- The function `getTlBinFilePath`. -/
def getTlBinFilePath (env : RegistryEnv) (uuid : List Nat) : String :=
  getRegistryPath env ++ "/" ++ byteArrayToString uuid uuid.length ++ TL_BIN_FILE_EXT

/-! ## The registry: containers (`Registry.cpp`, lines 84 to 435) -/

/-- The code table with what `Registry.cpp` takes from headers that are not
among the sources: four result codes, the sizes of the container types, the
container type tags, the reads of the struct members that the registry looks
at (each a function of the bytes of the object), the macro `MC_SO_SIZE`, and
the constants and checks of the trustlet binary header. `wordOfBytes` is the
`uint32_t` that four bytes in memory hold, `NDEBUG` says whether `assert` is
compiled out. -/
structure RegistryParams extends DrvCodes where
  MC_DRV_ERR_INVALID_PARAMETER : Nat
  MC_DRV_ERR_INVALID_DEVICE_FILE : Nat
  MC_DRV_ERR_OUT_OF_RESOURCES : Nat
  MC_DRV_ERR_CONTAINER_VERSION : Nat
  sizeofSoAuthTokenCont : Nat
  sizeofSoRootCont : Nat
  sizeofSoSpCont : Nat
  sizeofSoTltCont : Nat
  sizeofSoHeader : Nat
  sizeofSoContainerPath : Nat
  sizeofServiceType : Nat
  CONT_TYPE_SOC : Nat
  CONT_TYPE_ROOT : Nat
  CONT_TYPE_SP : Nat
  CONT_TYPE_TLCON : Nat
  CONT_TYPE_SPDATA : Nat
  CONT_TYPE_TLDATA : Nat
  coSocType : List Nat → Nat
  rootContType : List Nat → Nat
  rootContVersion : List Nat → Nat
  spContType : List Nat → Nat
  spContVersion : List Nat → Nat
  tltContType : List Nat → Nat
  tltContVersion : List Nat → Nat
  tltContParent : List Nat → Nat
  dataContType : List Nat → Nat
  dataContUuid : List Nat → List Nat
  dataContPid : List Nat → Nat
  soHeaderPlainLen : List Nat → Nat
  soHeaderEncryptedLen : List Nat → Nat
  MC_SO_SIZE : Nat → Nat → Nat
  MAX_TL_SIZE : Nat
  MC_SERVICE_HEADER_MAGIC_BE : Nat
  SERVICE_TYPE_DRIVER : Nat
  SERVICE_TYPE_SP_TRUSTLET : Nat
  SERVICE_TYPE_SYSTEM_TRUSTLET : Nat
  offsetofMagic : Nat
  offsetofVersion : Nat
  offsetofServiceType : Nat
  checkVersionOkDataObjectMCLF : Nat → Bool
  checkVersionOkDataObjectCONTAINER : Nat → Bool
  wordOfBytes : List Nat → Nat
  NDEBUG : Bool

/-- The value of a `long` file position (not negative) that is stored in an
`int32_t`. -/
def int32_of_long (n : Nat) : Int :=
  int_of_uint32 n

/-- The call `fread(buf, 1, n, fs)` when the bytes `data` lie between the file
position and the end of the file: what the memory at `buf` holds afterwards. -/
def fread (buf : List Nat) (n : Nat) (data : List Nat) : List Nat :=
  data.take n ++ buf.drop (data.take n).length

/-- The file system after `fopen(path, "wb")` succeeded and `bytes` were
written and the file closed. -/
def FileSystem.write (fs : FileSystem) (path : String) (bytes : List Nat) : FileSystem :=
  { fs with files := fun p => if p = path then some bytes else fs.files p }

/-- The file system after `mkdir(path, 0777)`, whose result the registry does
not look at. -/
def FileSystem.mkdir (fs : FileSystem) (path : String) : FileSystem :=
  if fs.canMkdir path then { fs with isDir := fun p => decide (p = path) || fs.isDir p }
  else fs

/-- The statements from `fopen(.., "wb")` to the `return MC_DRV_OK` that the
store functions of the fixed-size containers have in common; `obj` is the
memory at `so`. -/
def storeFixedSize (R : RegistryParams) (env : RegistryEnv) (path : String) (size : Nat)
    (obj : List Nat) : Nat × RegistryEnv :=
  if !env.fs.canCreate path then (R.MC_DRV_ERR_INVALID_DEVICE_FILE, env)
  else (R.MC_DRV_OK, { env with fs := env.fs.write path (obj.take size) })

/-- The statements from `fopen(.., "rb")` to the `return MC_DRV_OK` that the
read functions of the fixed-size containers have in common; `buf` is the
memory at `so`. `filesize` is an `int32_t` that takes the `long` result of
`ftell`, and it is compared with a `sizeof`. -/
def readFixedSize (R : RegistryParams) (env : RegistryEnv) (path : String) (size : Nat)
    (buf : List Nat) : Nat × List Nat :=
  match env.fs.files path with
  | none => (R.MC_DRV_ERR_INVALID_DEVICE_FILE, buf)
  | some content =>
    let filesize := int32_of_long content.length
    if (size : Int) ≠ filesize then (R.MC_DRV_ERR_OUT_OF_RESOURCES, buf)
    else (R.MC_DRV_OK, fread buf size content)

/-- The function `mcRegistryStoreAuthToken`; `so` is `none` for `NULL`,
otherwise the memory it points to. -/
def mcRegistryStoreAuthToken (R : RegistryParams) (env : RegistryEnv) (so : Option (List Nat)) :
    Nat × RegistryEnv :=
  match so with
  | none => (R.MC_DRV_ERR_INVALID_PARAMETER, env)
  | some obj =>
    if R.CONT_TYPE_SOC ≠ R.coSocType obj then (R.MC_DRV_ERR_INVALID_PARAMETER, env)
    else storeFixedSize R env (getAuthTokenFilePath env) R.sizeofSoAuthTokenCont obj

/-- The function `mcRegistryReadAuthToken`; the second component is the
memory at `so` after the call. -/
def mcRegistryReadAuthToken (R : RegistryParams) (env : RegistryEnv) (so : Option (List Nat)) :
    Nat × Option (List Nat) :=
  match so with
  | none => (R.MC_DRV_ERR_INVALID_PARAMETER, none)
  | some buf =>
    let r := readFixedSize R env (getAuthTokenFilePath env) R.sizeofSoAuthTokenCont buf
    (r.1, some r.2)

/-- The function `mcRegistryStoreRoot`. -/
def mcRegistryStoreRoot (R : RegistryParams) (env : RegistryEnv) (so : Option (List Nat)) :
    Nat × RegistryEnv :=
  match so with
  | none => (R.MC_DRV_ERR_INVALID_PARAMETER, env)
  | some obj =>
    if R.CONT_TYPE_ROOT ≠ R.rootContType obj then (R.MC_DRV_ERR_INVALID_PARAMETER, env)
    else storeFixedSize R env (getRootContFilePath env) R.sizeofSoRootCont obj

/-- The function `mcRegistryReadRoot`. -/
def mcRegistryReadRoot (R : RegistryParams) (env : RegistryEnv) (so : Option (List Nat)) :
    Nat × Option (List Nat) :=
  match so with
  | none => (R.MC_DRV_ERR_INVALID_PARAMETER, none)
  | some buf =>
    let r := readFixedSize R env (getRootContFilePath env) R.sizeofSoRootCont buf
    (r.1, some r.2)

/-- The function `mcRegistryStoreSp`. -/
def mcRegistryStoreSp (R : RegistryParams) (env : RegistryEnv) (spid : Nat)
    (so : Option (List Nat)) : Nat × RegistryEnv :=
  match so with
  | none => (R.MC_DRV_ERR_INVALID_PARAMETER, env)
  | some obj =>
    if 0 = spid then (R.MC_DRV_ERR_INVALID_PARAMETER, env)
    else if R.CONT_TYPE_SP ≠ R.spContType obj then (R.MC_DRV_ERR_INVALID_PARAMETER, env)
    else storeFixedSize R env (getSpContFilePath env spid) R.sizeofSoSpCont obj

/-- The function `mcRegistryReadSp`. -/
def mcRegistryReadSp (R : RegistryParams) (env : RegistryEnv) (spid : Nat)
    (so : Option (List Nat)) : Nat × Option (List Nat) :=
  match so with
  | none => (R.MC_DRV_ERR_INVALID_PARAMETER, none)
  | some buf =>
    if 0 = spid then (R.MC_DRV_ERR_INVALID_PARAMETER, some buf)
    else
      let r := readFixedSize R env (getSpContFilePath env spid) R.sizeofSoSpCont buf
      (r.1, some r.2)

/-- The function `mcRegistryStoreTrustletCon`; `uuid` is `none` for `NULL`. -/
def mcRegistryStoreTrustletCon (R : RegistryParams) (env : RegistryEnv)
    (uuid : Option (List Nat)) (so : Option (List Nat)) : Nat × RegistryEnv :=
  match uuid, so with
  | none, _ => (R.MC_DRV_ERR_INVALID_PARAMETER, env)
  | some _, none => (R.MC_DRV_ERR_INVALID_PARAMETER, env)
  | some u, some obj =>
    if R.CONT_TYPE_TLCON ≠ R.tltContType obj then (R.MC_DRV_ERR_INVALID_PARAMETER, env)
    else storeFixedSize R env (getTlContFilePath env u) R.sizeofSoTltCont obj

/-- The function `mcRegistryReadTrustletCon`. -/
def mcRegistryReadTrustletCon (R : RegistryParams) (env : RegistryEnv)
    (uuid : Option (List Nat)) (so : Option (List Nat)) : Nat × Option (List Nat) :=
  match uuid, so with
  | none, _ => (R.MC_DRV_ERR_INVALID_PARAMETER, so)
  | some _, none => (R.MC_DRV_ERR_INVALID_PARAMETER, none)
  | some u, some buf =>
    let r := readFixedSize R env (getTlContFilePath env u) R.sizeofSoTltCont buf
    (r.1, some r.2)

/-- The function `mcRegistryStoreData`. The two paths are made before the
`mkdir`; the number of bytes written is `MC_SO_SIZE` of the two lengths in the
header of the object. -/
def mcRegistryStoreData (R : RegistryParams) (env : RegistryEnv) (so : Option (List Nat)) :
    Nat × RegistryEnv :=
  match so with
  | none => (R.MC_DRV_ERR_INVALID_PARAMETER, env)
  | some obj =>
    if R.dataContType obj = R.CONT_TYPE_SPDATA then (R.MC_DRV_ERR_INVALID_PARAMETER, env)
    else if R.dataContType obj = R.CONT_TYPE_TLDATA then
      let pathname := getTlDataPath env (R.dataContUuid obj)
      let filename := getTlDataFilePath env (R.dataContUuid obj) (R.dataContPid obj)
      let env1 : RegistryEnv := { env with fs := env.fs.mkdir pathname }
      if !env1.fs.canCreate filename then (R.MC_DRV_ERR_INVALID_DEVICE_FILE, env1)
      else
        (R.MC_DRV_OK,
          { env1 with
            fs :=
              (env1.fs.write filename
                (obj.take (R.MC_SO_SIZE (R.soHeaderPlainLen obj) (R.soHeaderEncryptedLen obj)))) })
    else (R.MC_DRV_ERR_INVALID_PARAMETER, env)

/-- The function `mcRegistryReadData`. In `case 1` the file name is made from
`so->cont.uuid` and `so->cont.pid`, the members of the output object; `cid`
and `pid` are not used after the `NULL` test. `filesize` is a `uint32_t`. The
second `fread` asks for `MC_SO_SIZE(..) - sizeof(mcSoHeader_t)` bytes, a
`size_t` that wraps to more than the file holds when `MC_SO_SIZE(..)` is the
smaller. -/
def mcRegistryReadData (R : RegistryParams) (env : RegistryEnv) (context : Nat)
    (cid : Option (List Nat)) (_pid : Nat) (so : Option (List Nat)) (maxLen : Nat) :
    Nat × Option (List Nat) :=
  match cid, so with
  | none, _ => (R.MC_DRV_ERR_INVALID_PARAMETER, so)
  | some _, none => (R.MC_DRV_ERR_INVALID_PARAMETER, none)
  | some _, some buf =>
    if context = 0 then (R.MC_DRV_ERR_INVALID_PARAMETER, some buf)
    else if context = 1 then
      let filename := getTlDataFilePath env (R.dataContUuid buf) (R.dataContPid buf)
      match env.fs.files filename with
      | none => (R.MC_DRV_ERR_INVALID_DEVICE_FILE, some buf)
      | some content =>
        let filesize := content.length % 2 ^ 32
        if maxLen < filesize then (R.MC_DRV_ERR_OUT_OF_RESOURCES, some buf)
        else
          let buf1 := fread buf R.sizeofSoHeader content
          let rest := content.drop R.sizeofSoHeader
          let size := R.MC_SO_SIZE (R.soHeaderPlainLen buf1) (R.soHeaderEncryptedLen buf1)
          let n := if R.sizeofSoHeader ≤ size then size - R.sizeofSoHeader else rest.length
          (R.MC_DRV_OK,
            some (buf1.take R.sizeofSoHeader ++ fread (buf1.drop R.sizeofSoHeader) n rest))
    else (R.MC_DRV_ERR_INVALID_PARAMETER, some buf)

/-! ## The registry: the service blob (`Registry.cpp`, lines 579 to 748) -/

/-- The registry object `regObject_t`: the length and the bytes of `value`. -/
structure regObject_t where
  len : Nat
  value : List Nat
deriving DecidableEq, Repr

/-- What `mcRegistryGetServiceBlob` meets besides the files: the bytes that
the local variables `magic`, `version` and `serviceType` hold before `fread`
stores to them, and `malloc`: for a number of bytes of `value`, `none` when it
returns `NULL`, otherwise what the fresh block holds. -/
structure BlobEnv where
  uninitMagic : List Nat
  uninitVersion : List Nat
  uninitServiceType : List Nat
  malloc : Nat → Option (List Nat)

/-- The bytes of `mem` from offset `off`, `n` of them. -/
def slice (mem : List Nat) (off n : Nat) : List Nat :=
  (mem.drop off).take n

/-- The memory `mem` with the bytes from offset `off` replaced by `data`. -/
def writeAt (mem : List Nat) (off : Nat) (data : List Nat) : List Nat :=
  mem.take off ++ data ++ mem.drop (off + data.length)

/-- The part of `mcRegistryGetServiceBlob` for a user trustlet after the
binary was read into `value`: the three containers are read from the back to
the front. `none` when `NULL` is returned. An offset that would lie before
`value` is taken as `0`; the `assert` compares the offset of the root
container with `tlSize`. -/
def serviceBlobContainers (R : RegistryParams) (env : RegistryEnv) (uuid : List Nat)
    (tlSize len : Nat) (value : List Nat) : Option (Option regObject_t) :=
  let pTlt := len - R.sizeofSoTltCont
  let rTlt := mcRegistryReadTrustletCon R env (some uuid)
    (some (slice value pTlt R.sizeofSoTltCont))
  if R.MC_DRV_OK ≠ rTlt.1 then some none
  else
  let soTlt := rTlt.2.getD []
  let value1 := writeAt value pTlt soTlt
  if !R.checkVersionOkDataObjectCONTAINER (R.tltContVersion soTlt) then some none
  else
  let spid := R.tltContParent soTlt
  let pSp := pTlt - R.sizeofSoSpCont
  let rSp := mcRegistryReadSp R env spid (some (slice value1 pSp R.sizeofSoSpCont))
  if R.MC_DRV_OK ≠ rSp.1 then some none
  else
  let soSp := rSp.2.getD []
  let value2 := writeAt value1 pSp soSp
  if !R.checkVersionOkDataObjectCONTAINER (R.spContVersion soSp) then some none
  else
  let pRoot := pSp - R.sizeofSoRootCont
  let rRoot := mcRegistryReadRoot R env (some (slice value2 pRoot R.sizeofSoRootCont))
  if R.MC_DRV_OK ≠ rRoot.1 then some none
  else
  let soRoot := rRoot.2.getD []
  let value3 := writeAt value2 pRoot soRoot
  if !R.checkVersionOkDataObjectCONTAINER (R.rootContVersion soRoot) then some none
  else if !R.NDEBUG && decide (pRoot ≠ tlSize) then none
  else some (some ⟨len, value3⟩)

/-- The function `mcRegistryGetServiceBlob`. The result is `some none` when
`NULL` is returned, `some (some obj)` when an object is returned, and `none`
when the function does not return an object or `NULL`: `tlSize`, an `int32_t`,
is negative and is used as a size, or the `assert` fails. -/
def mcRegistryGetServiceBlob (R : RegistryParams) (env : RegistryEnv) (B : BlobEnv)
    (uuid : Option (List Nat)) : Option (Option regObject_t) :=
  match uuid with
  | none => some none
  | some u =>
  match env.fs.files (getTlBinFilePath env u) with
  | none => some none
  | some content =>
  let tlSize := int32_of_long content.length
  if (R.MAX_TL_SIZE : Int) < tlSize then some none
  else
  let magic := R.wordOfBytes (fread B.uninitMagic 4 (content.drop R.offsetofMagic))
  if magic ≠ R.MC_SERVICE_HEADER_MAGIC_BE then some none
  else
  let version := R.wordOfBytes (fread B.uninitVersion 4 (content.drop R.offsetofVersion))
  if !R.checkVersionOkDataObjectMCLF version then some none
  else
  let serviceType := R.wordOfBytes
    (fread B.uninitServiceType R.sizeofServiceType (content.drop R.offsetofServiceType))
  if R.SERVICE_TYPE_DRIVER = serviceType ∨ R.SERVICE_TYPE_SYSTEM_TRUSTLET = serviceType then
    if tlSize < 0 then none
    else
    match B.malloc tlSize.toNat with
    | none => some none
    | some block => some (some ⟨tlSize.toNat, fread block tlSize.toNat content⟩)
  else if R.SERVICE_TYPE_SP_TRUSTLET = serviceType then
    if tlSize < 0 then none
    else
    let regObjValueSize := tlSize.toNat + R.sizeofSoContainerPath
    match B.malloc regObjValueSize with
    | none => some none
    | some block =>
      let len := regObjValueSize % 2 ^ 32
      serviceBlobContainers R env u tlSize.toNat len (fread block tlSize.toNat content)
  else some none

/-- Parameters for the registry used to run the definitions on concrete
inputs: `sampleCodes` with four more result codes, containers of a few bytes
whose first byte is the type tag, second the version and third the parent, a
data container with a header of two length bytes followed by type, two uuid
bytes and the pid, and a binary header of magic, version and service type in
its first three bytes. -/
def sampleRegistryParams : RegistryParams :=
  { sampleCodes with
    MC_DRV_ERR_INVALID_PARAMETER := 33
    MC_DRV_ERR_INVALID_DEVICE_FILE := 34
    MC_DRV_ERR_OUT_OF_RESOURCES := 35
    MC_DRV_ERR_CONTAINER_VERSION := 36
    sizeofSoAuthTokenCont := 3
    sizeofSoRootCont := 3
    sizeofSoSpCont := 4
    sizeofSoTltCont := 5
    sizeofSoHeader := 2
    sizeofSoContainerPath := 12
    sizeofServiceType := 1
    CONT_TYPE_SOC := 1
    CONT_TYPE_ROOT := 2
    CONT_TYPE_SP := 3
    CONT_TYPE_TLCON := 4
    CONT_TYPE_SPDATA := 5
    CONT_TYPE_TLDATA := 6
    coSocType := fun b => b.getD 0 0
    rootContType := fun b => b.getD 0 0
    rootContVersion := fun b => b.getD 1 0
    spContType := fun b => b.getD 0 0
    spContVersion := fun b => b.getD 1 0
    tltContType := fun b => b.getD 0 0
    tltContVersion := fun b => b.getD 1 0
    tltContParent := fun b => b.getD 2 0
    dataContType := fun b => b.getD 2 0
    dataContUuid := fun b => slice b 3 2
    dataContPid := fun b => b.getD 5 0
    soHeaderPlainLen := fun b => b.getD 0 0
    soHeaderEncryptedLen := fun b => b.getD 1 0
    MC_SO_SIZE := fun p e => 2 + p + e
    MAX_TL_SIZE := 1024
    MC_SERVICE_HEADER_MAGIC_BE := 77
    SERVICE_TYPE_DRIVER := 1
    SERVICE_TYPE_SP_TRUSTLET := 2
    SERVICE_TYPE_SYSTEM_TRUSTLET := 3
    offsetofMagic := 0
    offsetofVersion := 1
    offsetofServiceType := 2
    checkVersionOkDataObjectMCLF := fun version => version == 2
    checkVersionOkDataObjectCONTAINER := fun version => version == 2
    wordOfBytes := fun b => b.getD 0 0
    NDEBUG := false }

/-- An environment for the registry with no variable set, no file, no
directory, and in which every file and directory can be created. -/
def sampleRegistryEnv : RegistryEnv :=
  ⟨fun _ => none, ⟨fun _ => none, fun _ => false, fun _ => true, fun _ => true⟩⟩

/-! ## The TrustZone device: notifications and interrupts (`TrustZoneDevice.cpp`, lines 236 to 267 and 353 to 618) -/

/-- The function `CMcKMod::waitSSIQ`: a `read` of the four bytes of the local
variable `cnt`, which holds `uninit` before. `pCnt` is `none` for `NULL` and
otherwise what the caller's variable holds; the `int` that `read` returns is
compared with `sizeof(cnt)`. -/
def CMcKMod.waitSSIQ (K : KmodCodes) (isOpen : Bool) (uninit : List Nat)
    (pCnt : Option (List Nat)) (rd : SysRet (List Nat)) :
    Bool × Option (List Nat) × List Sys :=
  let r := CMcKMod.read K isOpen uninit 4 rd
  if r.1 ≠ 4 then (false, pCnt, r.2.2)
  else (true, pCnt.map (fun _ => r.2.1), r.2.2)

/-- The function `TrustZoneDevice::waitSsiq`; `uninitCnt` is what its local
variable `cnt` holds before the call. -/
def TrustZoneDevice.waitSsiq (P : TzParams) (isOpen : Bool) (uninit uninitCnt : List Nat)
    (rd : SysRet (List Nat)) : Bool × List Act :=
  let r := CMcKMod.waitSSIQ P.toKmodCodes isOpen uninit (some uninitCnt) rd
  if !r.1 then (false, r.2.2.map Act.sys)
  else (true, r.2.2.map Act.sys)

/-- The function `TrustZoneDevice::registerWsmL2`: the new `CWsm`, `none` for
`NULL`. The `mcResult_t` of `CMcKMod::registerWsmL2` is stored in an `int`. -/
def TrustZoneDevice.registerWsmL2 (P : TzParams) (isOpen : Bool) (buffer len pid : Nat)
    (uninit : Nat × Nat) (io : SysRet mc_ioctl_reg_wsm) : Option CWsm × List Act :=
  let r := CMcKMod.registerWsmL2 P.toKmodCodes isOpen buffer len pid (some uninit.1)
    (some uninit.2) io
  if int_of_uint32 r.1 ≠ 0 then (none, r.2.2.map Act.sys)
  else (some ⟨buffer, len, r.2.1.1.getD uninit.1, r.2.1.2.getD uninit.2⟩, r.2.2.map Act.sys)

/-- The function `TrustZoneDevice::allocateContiguousPersistentWsm`. -/
def TrustZoneDevice.allocateContiguousPersistentWsm (P : TzParams) (isOpen : Bool) (len : Nat)
    (uninit : Nat × Nat × Nat) (io : SysRet mc_ioctl_map) (mm : MmapRet) :
    Option CWsm × List Act :=
  if len = 0 then (none, [])
  else
    let r := CMcKMod.mapWsm P.toKmodCodes isOpen len (some uninit.1) (some uninit.2.1)
      (some uninit.2.2) io mm
    if r.1 ≠ 0 then (none, r.2.2.map Act.sys)
    else
      (some ⟨r.2.1.2.1.getD uninit.2.1, len, r.2.1.1.getD uninit.1,
        r.2.1.2.2.getD uninit.2.2⟩, r.2.2.map Act.sys)

/-- The function `TrustZoneDevice::unregisterWsmL2`. -/
def TrustZoneDevice.unregisterWsmL2 (P : TzParams) (isOpen : Bool) (pWsm : CWsm)
    (io : SysRet Unit) : Bool × List Act :=
  let r := CMcKMod.unregisterWsmL2 P.toKmodCodes isOpen pWsm.handle io
  if int_of_uint32 r.1 ≠ 0 then (false, r.2.map Act.sys)
  else (true, r.2.map Act.sys)

/-- The function `TrustZoneDevice::lockWsmL2`. -/
def TrustZoneDevice.lockWsmL2 (P : TzParams) (isOpen : Bool) (handle : Nat)
    (io : SysRet Unit) : Bool × List Act :=
  let r := CMcKMod.lockWsmL2 P.toKmodCodes isOpen handle io
  if int_of_uint32 r.1 ≠ 0 then (false, r.2.map Act.sys)
  else (true, r.2.map Act.sys)

/-- The function `TrustZoneDevice::unlockWsmL2`. -/
def TrustZoneDevice.unlockWsmL2 (P : TzParams) (isOpen : Bool) (handle : Nat)
    (io : SysRet Unit) : Bool × List Act :=
  let r := CMcKMod.unlockWsmL2 P.toKmodCodes isOpen handle io
  if int_of_uint32 r.1 ≠ 0 then (false, r.2.map Act.sys)
  else (true, r.2.map Act.sys)

/-- The function `TrustZoneDevice::cleanupWsmL2`. -/
def TrustZoneDevice.cleanupWsmL2 (P : TzParams) (isOpen : Bool) (io : SysRet Unit) :
    Bool × List Act :=
  let r := CMcKMod.cleanupWsmL2 P.toKmodCodes isOpen io
  if int_of_uint32 r.1 ≠ 0 then (false, r.2.map Act.sys)
  else (true, r.2.map Act.sys)

/-- The function `TrustZoneDevice::findWsmL2`; the address `0` is `NULL`. -/
def TrustZoneDevice.findWsmL2 (isOpen : Bool) (handle : Nat) (io : SysRet Nat) :
    Nat × List Act :=
  let r := CMcKMod.findWsmL2 isOpen handle io
  if r.1 = 0 then (0, r.2.map Act.sys)
  else (r.1, r.2.map Act.sys)

/-- The function `TrustZoneDevice::schedulerAvailable`. -/
def TrustZoneDevice.schedulerAvailable (device : TrustZoneDevice) : Bool :=
  device.schedulerEnabled

/-- Modelled from the spec: the classes `MobiCoreDevice` and `TrustletSession`
are not among the sources. A session of the trustlet-session table of the
device has a session id and a notification connection, which is `none` until
NqConnect attaches one; a connection is named by its address. -/
structure TrustletSession where
  sessionId : Nat
  notificationConnection : Option Nat
deriving DecidableEq, Repr

/-- Modelled from the spec: the members of the base class `MobiCoreDevice`
that `notify` and `handleIrq` reach, the trustlet-session table and the
buffer of the notifications for unknown sessions. -/
structure MobiCoreDevice where
  trustletSessions : List TrustletSession
  unknownNotifications : List notification_t
deriving DecidableEq, Repr

/-- Modelled from the spec: `getTrustletSession` looks a session id up in the
trustlet-session table; the result is `none` for `NULL`. -/
def MobiCoreDevice.getTrustletSession (device : MobiCoreDevice) (sessionId : Nat) :
    Option TrustletSession :=
  device.trustletSessions.find? (fun ts => decide (ts.sessionId = sessionId))

/-- Modelled from the spec: `getSessionConnection` is the notification
connection of the session with the id, `none` for `NULL` when there is no
session or no connection. -/
def MobiCoreDevice.getSessionConnection (device : MobiCoreDevice) (sessionId : Nat) :
    Option Nat :=
  (device.getTrustletSession sessionId).bind (fun ts => ts.notificationConnection)

/-- Modelled from the spec: `queueUnknownNotification` appends to the buffer
of the notifications for unknown sessions. -/
def MobiCoreDevice.queueUnknownNotification (device : MobiCoreDevice) (n : notification_t) :
    MobiCoreDevice :=
  { device with unknownNotifications := device.unknownNotifications ++ [n] }

/-- The function `TrustZoneDevice::notify`. The return type is `void`: the
result of `nsiq` is not used. -/
def TrustZoneDevice.notify (P : TzParams) (isOpen : Bool) (device : MobiCoreDevice)
    (sessionId : Nat) (io : SysRet Unit) : Unit × List Act :=
  if sessionId ≠ P.SID_MCP ∧ (device.getTrustletSession sessionId).isNone then ((), [])
  else
    ((), [Act.putNotification ⟨sessionId, 0⟩] ++ (TrustZoneDevice.nsiq P isOpen io).2)

/-- One notification that `nq->getNotification()` returns in `handleIrq`,
with what `getSessionConnection` returns for it when it is called. -/
structure DrainedNotification where
  notification : notification_t
  connection : Option Nat
deriving DecidableEq, Repr

/-- The body of the inner loop of `handleIrq` for one notification. -/
def TrustZoneDevice.handleNotification (P : TzParams) (d : DrainedNotification) : Act :=
  if d.notification.sessionId = P.SID_MCP then Act.signalMcpNotification
  else
    match d.connection with
    | none => Act.queueUnknownNotification d.notification
    | some connection => Act.writeData connection d.notification

/-- What one pass of the outer loop of `handleIrq` meets: the content of the
two local variables `cnt` before the read, the outcome of the read, and the
notifications that `getNotification` returns before it returns `NULL`. -/
structure IrqEnv where
  uninit : List Nat
  uninitCnt : List Nat
  rd : SysRet (List Nat)
  drained : List DrainedNotification
deriving DecidableEq, Repr

/-- The function `TrustZoneDevice::handleIrq` over a script of passes of its
outer loop: whether the function has returned, and what was done. With the
script used up the thread is in the next `waitSsiq`. -/
def TrustZoneDevice.handleIrq (P : TzParams) (isOpen : Bool) : List IrqEnv → Bool × List Act
  | [] => (false, [])
  | e :: rest =>
    let w := TrustZoneDevice.waitSsiq P isOpen e.uninit e.uninitCnt e.rd
    if !w.1 then (true, w.2 ++ [Act.setExiting, Act.signalMcpNotification])
    else
      let r := TrustZoneDevice.handleIrq P isOpen rest
      (r.1,
        w.2 ++ e.drained.map (TrustZoneDevice.handleNotification P) ++ [Act.schedSyncSignal] ++
          r.2)

/-- What happens to the session table and the buffer of a device, seen from
the interrupt thread: a notification is taken from the queue, or another
thread opens a session, attaches a notification connection or closes a
session. -/
inductive DeviceEvent where
  | notification (n : notification_t)
  | openSession (sessionId : Nat)
  | nqConnect (sessionId connection : Nat)
  | closeSession (sessionId : Nat)
deriving DecidableEq, Repr

/-- Modelled from the spec: OpenSession puts a session without a notification
connection into the table. -/
def MobiCoreDevice.openSession (device : MobiCoreDevice) (sessionId : Nat) : MobiCoreDevice :=
  { device with
    trustletSessions :=
      ⟨sessionId, none⟩ ::
        device.trustletSessions.filter (fun ts => decide (ts.sessionId ≠ sessionId)) }

/-- Modelled from the spec: CloseSession removes the session from the
table. -/
def MobiCoreDevice.closeSession (device : MobiCoreDevice) (sessionId : Nat) : MobiCoreDevice :=
  { device with
    trustletSessions :=
      device.trustletSessions.filter (fun ts => decide (ts.sessionId ≠ sessionId)) }

/-- Modelled from the spec: NqConnect for a session of the table attaches the
connection and drains the buffered notifications for the id to it, in order;
for an unknown session it does nothing. -/
def MobiCoreDevice.nqConnect (device : MobiCoreDevice) (sessionId connection : Nat) :
    MobiCoreDevice × List Act :=
  match device.getTrustletSession sessionId with
  | none => (device, [])
  | some _ =>
    (⟨⟨sessionId, some connection⟩ ::
        device.trustletSessions.filter (fun ts => decide (ts.sessionId ≠ sessionId)),
      device.unknownNotifications.filter (fun n => decide (n.sessionId ≠ sessionId))⟩,
      (device.unknownNotifications.filter (fun n => decide (n.sessionId = sessionId))).map
        (Act.writeData connection))

/-- One event on a device: a notification goes through the body of the inner
loop of `handleIrq`, with `getSessionConnection` and
`queueUnknownNotification` of the device. -/
def MobiCoreDevice.step (P : TzParams) (device : MobiCoreDevice) :
    DeviceEvent → MobiCoreDevice × List Act
  | DeviceEvent.notification n =>
    let act := TrustZoneDevice.handleNotification P
      ⟨n, device.getSessionConnection n.sessionId⟩
    match act with
    | Act.queueUnknownNotification m => (device.queueUnknownNotification m, [act])
    | _ => (device, [act])
  | DeviceEvent.openSession sessionId => (device.openSession sessionId, [])
  | DeviceEvent.nqConnect sessionId connection => device.nqConnect sessionId connection
  | DeviceEvent.closeSession sessionId => (device.closeSession sessionId, [])

/-- A sequence of events on a device: the device afterwards and what was
done. -/
def MobiCoreDevice.run (P : TzParams) : MobiCoreDevice → List DeviceEvent →
    MobiCoreDevice × List Act
  | device, [] => (device, [])
  | device, e :: rest =>
    let r := MobiCoreDevice.step P device e
    let q := MobiCoreDevice.run P r.1 rest
    (q.1, r.2 ++ q.2)

/-- The records written to a connection on behalf of session `s`, in
order. -/
def writtenFor (s : Nat) (acts : List Act) : List notification_t :=
  acts.filterMap (fun a =>
    match a with
    | Act.writeData _ n => if n.sessionId = s then some n else none
    | _ => none)

/-- The records put into the buffer of unknown notifications for session `s`,
in order. -/
def bufferedFor (s : Nat) (acts : List Act) : List notification_t :=
  acts.filterMap (fun a =>
    match a with
    | Act.queueUnknownNotification n => if n.sessionId = s then some n else none
    | _ => none)

/-- The records written or buffered for session `s`, in order. -/
def handledFor (s : Nat) (acts : List Act) : List notification_t :=
  acts.filterMap (fun a =>
    match a with
    | Act.writeData _ n => if n.sessionId = s then some n else none
    | Act.queueUnknownNotification n => if n.sessionId = s then some n else none
    | _ => none)

/-- The notifications for session `s` among the events, in order. -/
def producedFor (s : Nat) (events : List DeviceEvent) : List notification_t :=
  events.filterMap (fun e =>
    match e with
    | DeviceEvent.notification n => if n.sessionId = s then some n else none
    | _ => none)

/-- The passes of a script of `handleIrq` in which `waitSsiq` returns `true`,
up to the first in which it does not. -/
def TrustZoneDevice.wakeUps (P : TzParams) (isOpen : Bool) (script : List IrqEnv) :
    List IrqEnv :=
  script.takeWhile (fun e => (TrustZoneDevice.waitSsiq P isOpen e.uninit e.uninitCnt e.rd).1)

/-- The number of times that `schedSync.signal()` is called. -/
def schedSyncSignals (acts : List Act) : Nat :=
  acts.count Act.schedSyncSignal

/-- The notifications put into the queue to the secure world, in order. -/
def putNotifications (acts : List Act) : List notification_t :=
  acts.filterMap (fun a =>
    match a with
    | Act.putNotification n => some n
    | _ => none)

/-! ## The server (`Server.cpp`, lines 88 to 215) -/

/-- A `Connection` of the peer list of the server: the address of the object
and its member `socketDescriptor`. -/
structure Connection where
  address : Nat
  socketDescriptor : Int
deriving DecidableEq, Repr

/-- What one pass of the `for (;;)` of `Server::run` meets: the value that
`select` returns and the descriptors that it leaves in `fdReadSockets`, and,
for the case that `accept` is called, the descriptor that `accept` returns and
the address of the `Connection` made for it. -/
structure SelectEnv where
  numSockets : Int
  fdReadSockets : Int → Bool
  clientSock : Int
  newConnection : Nat

/-- What a pass of the loop of `Server::run` does with connections: the
`accept` on the server socket, the calls of `handleConnection` and
`dropConnection` of the connection handler, and the `delete` of a
connection. -/
inductive ServerAct where
  | accept
  | handleConnection (connection : Connection)
  | dropConnection (connection : Connection)
  | deleteConnection (connection : Connection)
deriving DecidableEq, Repr

/-- The loop `while (iterator != peerConnections.end() && numSockets > 0)` of
`Server::run`, from the iterator on: the rest of the peer list afterwards and
what was done. `handleConnection` is what the connection handler returns for
a connection. -/
def Server.handlePeers (handleConnection : Connection → Bool) (fdReadSockets : Int → Bool) :
    List Connection → Int → List Connection × List ServerAct
  | [], _ => ([], [])
  | connection :: rest, numSockets =>
    if ¬ (numSockets > 0) then (connection :: rest, [])
    else if !fdReadSockets connection.socketDescriptor then
      let r := Server.handlePeers handleConnection fdReadSockets rest numSockets
      (connection :: r.1, r.2)
    else if !handleConnection connection then
      let r := Server.handlePeers handleConnection fdReadSockets rest (numSockets - 1)
      (r.1,
        [ServerAct.handleConnection connection, ServerAct.dropConnection connection,
          ServerAct.deleteConnection connection] ++ r.2)
    else
      let r := Server.handlePeers handleConnection fdReadSockets rest (numSockets - 1)
      (connection :: r.1, ServerAct.handleConnection connection :: r.2)

/-- One pass through the body of the `for (;;)` of `Server::run`: `none` when
the loop is left because `select` failed, otherwise the peer list after the
pass and what was done. -/
def Server.runPass (serverSock : Int) (handleConnection : Connection → Bool)
    (peerConnections : List Connection) (e : SelectEnv) :
    Option (List Connection × List ServerAct) :=
  if e.numSockets < 0 then none
  else if 0 = e.numSockets then some (peerConnections, [])
  else
    let accepted : Int × List Connection × List ServerAct :=
      if e.fdReadSockets serverSock then
        if e.clientSock ≤ 0 then (e.numSockets - 1, peerConnections, [ServerAct.accept])
        else
          (e.numSockets - 1, peerConnections ++ [⟨e.newConnection, e.clientSock⟩],
            [ServerAct.accept])
      else (e.numSockets, peerConnections, [])
    let r := Server.handlePeers handleConnection e.fdReadSockets accepted.2.1 accepted.1
    some (r.1, accepted.2.2 ++ r.2)

/-- The function `Server::detachConnection`: the first element of the peer
list that is the connection is erased. -/
def Server.detachConnection (peerConnections : List Connection) (connection : Connection) :
    List Connection :=
  match peerConnections with
  | [] => []
  | tmpConnection :: rest =>
    if tmpConnection = connection then rest
    else tmpConnection :: Server.detachConnection rest connection

/-- The descriptors given to `select`: the server socket and the sockets of
the peers. -/
def Server.selectSet (serverSock : Int) (peerConnections : List Connection) : List Int :=
  serverSock :: peerConnections.map (fun connection => connection.socketDescriptor)

/-- The connections that `handleConnection` is called for, in order. -/
def handledConnections (acts : List ServerAct) : List Connection :=
  acts.filterMap (fun a =>
    match a with
    | ServerAct.handleConnection connection => some connection
    | _ => none)

/-- The connections that `dropConnection` is called for, in order. -/
def droppedConnections (acts : List ServerAct) : List Connection :=
  acts.filterMap (fun a =>
    match a with
    | ServerAct.dropConnection connection => some connection
    | _ => none)

/-! ## Lemmas on the device table -/

theorem resolveDeviceId_eq_none_iff (devices : List Device) (deviceId : Nat) :
    resolveDeviceId devices deviceId = none ↔ ∀ x ∈ devices, x.deviceId ≠ deviceId := by
  induction devices with
  | nil => simp [resolveDeviceId]
  | cons x rest ih =>
    by_cases hx : x.deviceId = deviceId
    · simp [resolveDeviceId, hx]
    · simp [resolveDeviceId, hx, ih]

theorem resolveDeviceId_some {devices : List Device} {deviceId : Nat} {device : Device}
    (h : resolveDeviceId devices deviceId = some device) :
    device ∈ devices ∧ device.deviceId = deviceId := by
  induction devices with
  | nil => simp [resolveDeviceId] at h
  | cons x rest ih =>
    by_cases hx : x.deviceId = deviceId
    · simp [resolveDeviceId, hx] at h
      subst h
      exact ⟨List.mem_cons_self _ _, hx⟩
    · simp [resolveDeviceId, hx] at h
      exact ⟨List.mem_cons_of_mem _ (ih h).1, (ih h).2⟩

theorem resolveDeviceId_isSome_of_mem {devices : List Device} {deviceId : Nat}
    (h : ∃ x ∈ devices, x.deviceId = deviceId) :
    ∃ device, resolveDeviceId devices deviceId = some device := by
  cases hr : resolveDeviceId devices deviceId with
  | some device => exact ⟨device, rfl⟩
  | none =>
    obtain ⟨x, hx, hid⟩ := h
    exact absurd hid ((resolveDeviceId_eq_none_iff devices deviceId).1 hr x hx)

theorem resolveDeviceId_addDevice_self (devices : List Device) (device : Device) :
    ∃ d, resolveDeviceId (addDevice devices device) device.deviceId = some d :=
  resolveDeviceId_isSome_of_mem ⟨device, by simp [addDevice], rfl⟩

/-! ## Lemmas on the socket steps -/

@[simp] theorem World.connect_devices (w : World) (ok : Bool) :
    (w.connect ok).devices = w.devices := rfl

@[simp] theorem World.write_devices (w : World) (c : Nat) (cmd : Cmd) (ret : Int) :
    (w.write c cmd ret).devices = w.devices := rfl

@[simp] theorem World.read_devices (w : World) (c : Nat) (t : Option Int) (rlen : Int) :
    (w.read c t rlen).devices = w.devices := rfl

@[simp] theorem World.connect_connCount (w : World) (ok : Bool) :
    (w.connect ok).connCount = w.connCount + 1 := rfl

@[simp] theorem World.write_connCount (w : World) (c : Nat) (cmd : Cmd) (ret : Int) :
    (w.write c cmd ret).connCount = w.connCount := rfl

@[simp] theorem World.read_connCount (w : World) (c : Nat) (t : Option Int) (rlen : Int) :
    (w.read c t rlen).connCount = w.connCount := rfl

@[simp] theorem World.connect_trace (w : World) (ok : Bool) :
    (w.connect ok).trace = w.trace ++ [Event.connect w.connCount ok] := rfl

@[simp] theorem World.write_trace (w : World) (c : Nat) (cmd : Cmd) (ret : Int) :
    (w.write c cmd ret).trace = w.trace ++ [Event.write c cmd ret] := rfl

@[simp] theorem World.read_trace (w : World) (c : Nat) (t : Option Int) (rlen : Int) :
    (w.read c t rlen).trace = w.trace ++ [Event.read c t rlen] := rfl

theorem SEND_TO_DAEMON_eq_some {K : DrvCodes} {ret : Int} {e : Nat} :
    SEND_TO_DAEMON K ret = some e ↔ ret < 0 ∧ e = K.MC_DRV_ERR_SOCKET_WRITE := by
  unfold SEND_TO_DAEMON
  split <;> simp_all [eq_comm]

theorem SEND_TO_DAEMON_eq_none {K : DrvCodes} {ret : Int} :
    SEND_TO_DAEMON K ret = none ↔ 0 ≤ ret := by
  unfold SEND_TO_DAEMON
  split <;> simp_all

theorem RECV_FROM_DAEMON_eq_some {K : DrvCodes} {size rlen : Int} {e : Nat} :
    RECV_FROM_DAEMON K size rlen = some e ↔
      (rlen ≤ 0 ∧ e = K.MC_DRV_ERR_SOCKET_READ) ∨
      (0 < rlen ∧ rlen ≠ size ∧ rlen ≠ K.sizeofResponseHeader ∧
        e = K.MC_DRV_ERR_SOCKET_LENGTH) := by
  unfold RECV_FROM_DAEMON
  split_ifs with h1 h2
  · simp [h1, eq_comm]
  · have : ¬ rlen ≤ 0 := h1
    simp [h1, h2.1, h2.2, eq_comm, not_le.1 this]
  · have h3 : 0 < rlen := not_le.1 h1
    simp only [h1, false_and, false_or, h3, true_and]
    constructor
    · intro h; cases h
    · rintro ⟨ha, hb, _⟩
      exact absurd ⟨ha, hb⟩ h2

theorem RECV_FROM_DAEMON_eq_none {K : DrvCodes} {size rlen : Int} :
    RECV_FROM_DAEMON K size rlen = none ↔
      0 < rlen ∧ (rlen = size ∨ rlen = K.sizeofResponseHeader) := by
  unfold RECV_FROM_DAEMON
  split_ifs with h1 h2
  · simp only [false_iff, not_and]
    intro h; omega
  · simp only [false_iff, not_and, not_or]
    intro _; exact h2
  · simp only [true_iff]
    refine ⟨not_le.1 h1, ?_⟩
    by_cases hs : rlen = size
    · exact Or.inl hs
    · right
      by_contra hh
      exact h2 ⟨hs, hh⟩

@[simp] theorem getDaemonVersion_devices (K : DrvCodes) (c : Nat) (env : GetVersionEnv)
    (w : World) : (getDaemonVersion K c env w).2.2.devices = w.devices := by
  unfold getDaemonVersion
  simp only
  repeat' split
  all_goals rfl

@[simp] theorem nqConnect_devices (K : DrvCodes) (c : Nat) (h : mcSessionHandle_t)
    (p : mcDrvRspOpenSessionPayload_t) (env : OpenSessionEnv) (w : World) :
    (nqConnect K c h p env w).2.devices = w.devices := by
  unfold nqConnect
  simp only
  repeat' split
  all_goals rfl

/-- The inequalities that `ErrorsNotOk` packs, for the codes that the entry
points set themselves. -/
theorem DrvCodes.ErrorsNotOk.unpack {K : DrvCodes} (hK : K.ErrorsNotOk) :
    K.MC_DRV_INFO_NOTIFICATION ≠ K.MC_DRV_OK ∧ K.MC_DRV_ERR_NOTIFICATION ≠ K.MC_DRV_OK ∧
    K.MC_DRV_ERR_UNKNOWN_DEVICE ≠ K.MC_DRV_OK ∧ K.MC_DRV_ERR_UNKNOWN_SESSION ≠ K.MC_DRV_OK ∧
    K.MC_DRV_ERR_TIMEOUT ≠ K.MC_DRV_OK ∧ K.MC_DRV_ERR_SESSION_PENDING ≠ K.MC_DRV_OK ∧
    K.MC_DRV_ERR_DAEMON_UNREACHABLE ≠ K.MC_DRV_OK ∧ K.MC_DRV_ERR_DAEMON_VERSION ≠ K.MC_DRV_OK ∧
    K.MC_DRV_ERR_DEVICE_ALREADY_OPEN ≠ K.MC_DRV_OK ∧ K.MC_DRV_ERR_SOCKET_CONNECT ≠ K.MC_DRV_OK ∧
    K.MC_DRV_ERR_SOCKET_WRITE ≠ K.MC_DRV_OK ∧ K.MC_DRV_ERR_SOCKET_READ ≠ K.MC_DRV_OK ∧
    K.MC_DRV_ERR_SOCKET_LENGTH ≠ K.MC_DRV_OK ∧ K.MC_DRV_ERR_NULL_POINTER ≠ K.MC_DRV_OK ∧
    K.MC_DRV_ERR_TCI_TOO_BIG ≠ K.MC_DRV_OK ∧ K.MC_DRV_ERR_WSM_NOT_FOUND ≠ K.MC_DRV_OK ∧
    K.MC_DRV_ERR_TCI_GREATER_THAN_WSM ≠ K.MC_DRV_OK ∧
    K.MC_DRV_ERR_BLK_BUFF_NOT_FOUND ≠ K.MC_DRV_OK ∧ K.MC_DRV_ERR_MCP_ERROR ≠ K.MC_DRV_OK := by
  simp only [DrvCodes.ErrorsNotOk, DrvCodes.errorCodes, List.mem_cons, List.mem_singleton,
    forall_eq_or_imp, forall_eq] at hK
  simp only [List.not_mem_nil, false_implies, implies_true, and_true] at hK
  tauto


/-- When `mcOpenDevice` returns `MC_DRV_OK` the device id is in the table
afterwards. -/
theorem mcOpenDevice_ok_resolves {K : DrvCodes} (hK : K.ErrorsNotOk) (d : Nat)
    (env : OpenDeviceEnv) (w : World) (h : (mcOpenDevice K d env w).1 = K.MC_DRV_OK) :
    ∃ device, resolveDeviceId (mcOpenDevice K d env w).2.devices d = some device := by
  have hu := hK.unpack
  revert h
  unfold mcOpenDevice
  simp only
  repeat' split
  all_goals simp_all [SEND_TO_DAEMON_eq_some, RECV_FROM_DAEMON_eq_some]
  · omega
  · exact resolveDeviceId_addDevice_self _ _

/-! ## Lemmas on the registry paths -/

/-- The value of one upper-case hexadecimal digit. -/
def hexDigitValue (c : Char) : Nat :=
  if c.toNat ≤ '9'.toNat then c.toNat - '0'.toNat else c.toNat - 'A'.toNat + 10

/-- The number that a string of hexadecimal digits denotes, the most
significant digit first. -/
def hexValue (cs : List Char) : Nat :=
  cs.foldl (fun acc c => 16 * acc + hexDigitValue c) 0

theorem and_0x0F (x : Nat) : x &&& 0x0F = x % 16 :=
  Nat.and_pow_two_sub_one_eq_mod x 4

theorem uint32ToStringChar_value (n : Nat) (hn : n < 16) :
    hexDigitValue (uint32ToStringChar n) = n := by
  interval_cases n <;> decide

theorem uint32ToStringChar_range (n : Nat) (hn : n < 16) :
    ('0' ≤ uint32ToStringChar n ∧ uint32ToStringChar n ≤ '9') ∨
      ('A' ≤ uint32ToStringChar n ∧ uint32ToStringChar n ≤ 'F') := by
  interval_cases n <;> decide

theorem uint32ToString_data (v : Nat) :
    (uint32ToString v).data =
      [uint32ToStringChar (v / 2 ^ 28 % 16), uint32ToStringChar (v / 2 ^ 24 % 16),
        uint32ToStringChar (v / 2 ^ 20 % 16), uint32ToStringChar (v / 2 ^ 16 % 16),
        uint32ToStringChar (v / 2 ^ 12 % 16), uint32ToStringChar (v / 2 ^ 8 % 16),
        uint32ToStringChar (v / 2 ^ 4 % 16), uint32ToStringChar (v / 2 ^ 0 % 16)] := by
  simp only [uint32ToString, and_0x0F, Nat.shiftRight_eq_div_pow]
  rfl

theorem hexValue_uint32ToString (v : Nat) (hv : v < 2 ^ 32) :
    hexValue (uint32ToString v).data = v := by
  rw [uint32ToString_data]
  simp only [hexValue, List.foldl_cons, List.foldl_nil]
  repeat rw [uint32ToStringChar_value _ (Nat.mod_lt _ (by norm_num))]
  omega

theorem uint32ToString_injective (v w : Nat) (hv : v < 2 ^ 32) (hw : w < 2 ^ 32)
    (h : uint32ToString w = uint32ToString v) : w = v := by
  rw [← hexValue_uint32ToString v hv, ← hexValue_uint32ToString w hw, h]

theorem getSpContFilePath_injective (env : RegistryEnv) (v w : Nat) (hv : v < 2 ^ 32)
    (hw : w < 2 ^ 32) (h : getSpContFilePath env w = getSpContFilePath env v) : w = v := by
  apply uint32ToString_injective v w hv hw
  simp only [getSpContFilePath, String.ext_iff, String.data_append] at h
  apply String.ext
  exact List.append_cancel_left (List.append_cancel_right h)

/-! ## Lemmas on the registry containers -/

theorem int32_of_long_eq (size n : Nat) (hn : n < 2 ^ 32)
    (h : (size : Int) = int32_of_long n) : size = n := by
  unfold int32_of_long int_of_uint32 at h
  have hmod : n % 2 ^ 32 = n := Nat.mod_eq_of_lt hn
  rw [hmod] at h
  by_cases hlt : n < 2 ^ 31
  · rw [if_pos hlt] at h
    omega
  · rw [if_neg hlt] at h
    omega

theorem int32_of_long_of_lt (n : Nat) (hn : n < 2 ^ 31) : int32_of_long n = n := by
  unfold int32_of_long int_of_uint32
  have hmod : n % 2 ^ 32 = n := Nat.mod_eq_of_lt (by omega)
  rw [hmod, if_pos hn]

/-- When the file is as long as the object and the object fills the buffer,
`fread` leaves the content of the file in the buffer. -/
theorem fread_exact (buf data : List Nat) (n : Nat) (hd : data.length = n)
    (hb : buf.length ≤ n) : fread buf n data = data := by
  unfold fread
  rw [List.take_of_length_le (by omega), List.drop_of_length_le (by omega), List.append_nil]

theorem readFixedSize_none (R : RegistryParams) (env : RegistryEnv) (path : String)
    (size : Nat) (buf : List Nat) (hf : env.fs.files path = none) :
    readFixedSize R env path size buf = (R.MC_DRV_ERR_INVALID_DEVICE_FILE, buf) := by
  simp only [readFixedSize, hf]

theorem readFixedSize_size_ne (R : RegistryParams) (env : RegistryEnv) (path : String)
    (size : Nat) (buf content : List Nat) (hf : env.fs.files path = some content)
    (hsmall : content.length < 2 ^ 32) (hlen : content.length ≠ size) :
    readFixedSize R env path size buf = (R.MC_DRV_ERR_OUT_OF_RESOURCES, buf) := by
  simp only [readFixedSize, hf]
  rw [if_pos (fun h => hlen (int32_of_long_eq size content.length hsmall h).symm)]

theorem readFixedSize_exact (R : RegistryParams) (env : RegistryEnv) (path : String)
    (size : Nat) (buf content : List Nat) (hf : env.fs.files path = some content)
    (hsize : size < 2 ^ 31) (hlen : content.length = size) :
    readFixedSize R env path size buf = (R.MC_DRV_OK, fread buf size content) := by
  simp only [readFixedSize, hf]
  rw [hlen, int32_of_long_of_lt size hsize, if_neg (not_not.2 rfl)]

theorem readFixedSize_ok (R : RegistryParams) (env : RegistryEnv) (path : String)
    (size : Nat) (buf : List Nat)
    (hsmall : ∀ content, env.fs.files path = some content → content.length < 2 ^ 32)
    (h2 : R.MC_DRV_ERR_INVALID_DEVICE_FILE ≠ R.MC_DRV_OK)
    (h3 : R.MC_DRV_ERR_OUT_OF_RESOURCES ≠ R.MC_DRV_OK)
    (hok : (readFixedSize R env path size buf).1 = R.MC_DRV_OK) :
    ∃ content, env.fs.files path = some content ∧ content.length = size ∧
      readFixedSize R env path size buf = (R.MC_DRV_OK, fread buf size content) := by
  cases hf : env.fs.files path with
  | none =>
    rw [readFixedSize_none R env path size buf hf] at hok
    exact absurd hok h2
  | some content =>
    by_cases hlen : content.length = size
    · refine ⟨content, rfl, hlen, ?_⟩
      simp only [readFixedSize, hf] at hok ⊢
      split
      · rename_i hne
        rw [if_pos hne] at hok
        exact absurd hok h3
      · rfl
    · rw [readFixedSize_size_ne R env path size buf content hf (hsmall content hf) hlen] at hok
      exact absurd hok h3

/-! ## Lemmas on the registry files -/

/-- The value of one lower-case hexadecimal digit. -/
def hexLowerValue (c : Char) : Nat :=
  if c.toNat ≤ '9'.toNat then c.toNat - '0'.toNat else c.toNat - 'a'.toNat + 10

theorem hexLowerValue_digitChar (n : Nat) (hn : n < 16) :
    hexLowerValue (Nat.digitChar n) = n := by
  interval_cases n <;> decide

theorem sprintf02x_injective (a b : Nat) (ha : a < 256) (hb : b < 256)
    (h : sprintf02x a = sprintf02x b) : a = b := by
  simp only [sprintf02x, List.cons.injEq, and_true] at h
  have h1 := congrArg hexLowerValue h.1
  have h2 := congrArg hexLowerValue h.2
  rw [hexLowerValue_digitChar _ (Nat.mod_lt _ (by norm_num)),
    hexLowerValue_digitChar _ (Nat.mod_lt _ (by norm_num))] at h1 h2
  omega

theorem flatMap_sprintf02x_injective (a : List Nat) :
    ∀ b : List Nat, a.length = b.length → (∀ x ∈ a, x < 256) → (∀ x ∈ b, x < 256) →
      a.flatMap sprintf02x = b.flatMap sprintf02x → a = b := by
  induction a with
  | nil =>
    intro b hlen _ _ _
    exact (List.length_eq_zero.1 hlen.symm).symm
  | cons x a ih =>
    intro b hlen ha hb h
    cases b with
    | nil => simp at hlen
    | cons y b =>
      simp only [List.flatMap_cons, sprintf02x, List.cons_append, List.nil_append,
        List.cons.injEq] at h
      have hxy : x = y := by
        apply sprintf02x_injective x y (ha x (List.mem_cons_self _ _))
          (hb y (List.mem_cons_self _ _))
        simp only [sprintf02x, h.1, h.2.1]
      have hrest : a = b :=
        ih b (by simpa using hlen) (fun z hz => ha z (List.mem_cons_of_mem _ hz))
          (fun z hz => hb z (List.mem_cons_of_mem _ hz)) h.2.2
      rw [hxy, hrest]

theorem byteArrayToString_injective (a b : List Nat) (hlen : a.length = b.length)
    (ha : ∀ x ∈ a, x < 256) (hb : ∀ x ∈ b, x < 256)
    (h : byteArrayToString a a.length = byteArrayToString b b.length) : a = b := by
  simp only [byteArrayToString, List.take_length] at h
  exact flatMap_sprintf02x_injective a b hlen ha hb (congrArg String.data h)

theorem getTlContFilePath_injective (env : RegistryEnv) (a b : List Nat)
    (hlen : a.length = b.length) (ha : ∀ x ∈ a, x < 256) (hb : ∀ x ∈ b, x < 256)
    (h : getTlContFilePath env a = getTlContFilePath env b) : a = b := by
  apply byteArrayToString_injective a b hlen ha hb
  simp only [getTlContFilePath, String.ext_iff, String.data_append] at h
  apply String.ext
  exact List.append_cancel_left (List.append_cancel_right h)

/-- Storing a fixed-size container and reading it back from the same path. -/
theorem readFixedSize_storeFixedSize (R : RegistryParams) (env : RegistryEnv) (path : String)
    (size : Nat) (obj out : List Nat) (hsize : size < 2 ^ 31) (hobj : obj.length = size)
    (hout : out.length = size) (hcreate : env.fs.canCreate path = true) :
    storeFixedSize R env path size obj =
        (R.MC_DRV_OK, { env with fs := env.fs.write path obj }) ∧
      readFixedSize R (storeFixedSize R env path size obj).2 path size out =
        (R.MC_DRV_OK, obj) := by
  have htake : obj.take size = obj := List.take_of_length_le (by omega)
  have hstore : storeFixedSize R env path size obj =
      (R.MC_DRV_OK, { env with fs := env.fs.write path obj }) := by
    simp only [storeFixedSize, hcreate, Bool.not_true, Bool.false_eq_true, if_false, htake]
  refine ⟨hstore, ?_⟩
  rw [hstore]
  have hf : (env.fs.write path obj).files path = some obj := by
    simp only [FileSystem.write, if_true]
  rw [readFixedSize_exact R _ path size out obj hf hsize hobj,
    fread_exact out obj size hobj (by omega)]

/-- A store to one path does not change what is read from another path. -/
theorem readFixedSize_storeFixedSize_ne (R : RegistryParams) (env : RegistryEnv)
    (path1 path2 : String) (size1 size2 : Nat) (obj buf : List Nat) (hne : path2 ≠ path1) :
    readFixedSize R (storeFixedSize R env path1 size1 obj).2 path2 size2 buf =
      readFixedSize R env path2 size2 buf := by
  unfold storeFixedSize
  split
  · rfl
  · simp only [readFixedSize, FileSystem.write, hne, if_false]

/-! ## Lemmas on the notifications of the TrustZone device -/

theorem schedSyncSignals_append (a b : List Act) :
    schedSyncSignals (a ++ b) = schedSyncSignals a + schedSyncSignals b := by
  simp [schedSyncSignals]

theorem schedSyncSignals_sys (l : List Sys) : schedSyncSignals (l.map Act.sys) = 0 := by
  simp [schedSyncSignals, List.count_eq_zero]

theorem nsiq_signals (P : TzParams) (isOpen : Bool) (io : SysRet Unit) :
    schedSyncSignals (TrustZoneDevice.nsiq P isOpen io).2 =
      if (TrustZoneDevice.nsiq P isOpen io).1 then 1 else 0 := by
  unfold TrustZoneDevice.nsiq
  simp only
  split
  · simp [schedSyncSignals_sys]
  · simp only [schedSyncSignals_append, schedSyncSignals_sys, if_true]
    rfl

theorem getTrustletSession_isNone (device : MobiCoreDevice) (sessionId : Nat) :
    (device.getTrustletSession sessionId).isNone = true ↔
      ∀ ts ∈ device.trustletSessions, ts.sessionId ≠ sessionId := by
  simp [MobiCoreDevice.getTrustletSession]

theorem waitSsiq_signals (P : TzParams) (isOpen : Bool) (uninit uninitCnt : List Nat)
    (rd : SysRet (List Nat)) :
    schedSyncSignals (TrustZoneDevice.waitSsiq P isOpen uninit uninitCnt rd).2 = 0 := by
  unfold TrustZoneDevice.waitSsiq
  simp only
  split <;> exact schedSyncSignals_sys _

theorem handleNotification_signals (P : TzParams) (l : List DrainedNotification) :
    schedSyncSignals (l.map (TrustZoneDevice.handleNotification P)) = 0 := by
  simp only [schedSyncSignals, List.count_eq_zero, List.mem_map, not_exists, not_and]
  intro d _ h
  unfold TrustZoneDevice.handleNotification at h
  split at h
  · cases h
  · split at h <;> cases h

/-- What `handleIrq` does over a script: for each wake-up the read, the
notifications of the drain and one signal of `schedSync`, and, when a read
fails, that read and the two calls at the end. -/
theorem handleIrq_acts (P : TzParams) (isOpen : Bool) (script : List IrqEnv) :
    (TrustZoneDevice.handleIrq P isOpen script).2 =
      (TrustZoneDevice.wakeUps P isOpen script).flatMap (fun e =>
        (TrustZoneDevice.waitSsiq P isOpen e.uninit e.uninitCnt e.rd).2 ++
          e.drained.map (TrustZoneDevice.handleNotification P) ++ [Act.schedSyncSignal]) ++
      (match script.drop (TrustZoneDevice.wakeUps P isOpen script).length with
        | [] => []
        | e :: _ =>
          (TrustZoneDevice.waitSsiq P isOpen e.uninit e.uninitCnt e.rd).2 ++
            [Act.setExiting, Act.signalMcpNotification]) := by
  induction script with
  | nil => rfl
  | cons e rest ih =>
    cases hw : (TrustZoneDevice.waitSsiq P isOpen e.uninit e.uninitCnt e.rd).1 with
    | false =>
      simp [TrustZoneDevice.handleIrq, TrustZoneDevice.wakeUps, hw]
    | true =>
      have ih2 := ih
      simp only [TrustZoneDevice.wakeUps] at ih2
      simp [TrustZoneDevice.handleIrq, TrustZoneDevice.wakeUps, hw, ih2]

theorem handleIrq_returns (P : TzParams) (isOpen : Bool) (script : List IrqEnv) :
    (TrustZoneDevice.handleIrq P isOpen script).1 =
      decide ((TrustZoneDevice.wakeUps P isOpen script).length < script.length) := by
  induction script with
  | nil => rfl
  | cons e rest ih =>
    cases hw : (TrustZoneDevice.waitSsiq P isOpen e.uninit e.uninitCnt e.rd).1 with
    | false =>
      simp [TrustZoneDevice.handleIrq, TrustZoneDevice.wakeUps, hw]
    | true =>
      have ih2 := ih
      simp only [TrustZoneDevice.wakeUps] at ih2
      simp [TrustZoneDevice.handleIrq, TrustZoneDevice.wakeUps, hw, ih2]

theorem handleIrq_signals (P : TzParams) (isOpen : Bool) (script : List IrqEnv) :
    schedSyncSignals (TrustZoneDevice.handleIrq P isOpen script).2 =
      (TrustZoneDevice.wakeUps P isOpen script).length := by
  induction script with
  | nil => rfl
  | cons e rest ih =>
    cases hw : (TrustZoneDevice.waitSsiq P isOpen e.uninit e.uninitCnt e.rd).1 with
    | false =>
      have h0 := waitSsiq_signals P isOpen e.uninit e.uninitCnt e.rd
      simp only [TrustZoneDevice.handleIrq, hw, Bool.not_false, if_true,
        schedSyncSignals_append, h0, TrustZoneDevice.wakeUps, List.takeWhile_cons,
        Bool.false_eq_true, if_false, List.length_nil]
      rfl
    | true =>
      have h0 := waitSsiq_signals P isOpen e.uninit e.uninitCnt e.rd
      have ih2 := ih
      simp only [TrustZoneDevice.wakeUps] at ih2
      simp only [TrustZoneDevice.handleIrq, hw, Bool.not_true, Bool.false_eq_true, if_false,
        schedSyncSignals_append, h0, handleNotification_signals, ih2,
        TrustZoneDevice.wakeUps, List.takeWhile_cons, if_true, List.length_cons]
      simp [schedSyncSignals]
      omega

/-! ## C1: a second `mcOpenDevice` of an open device -/

/-- C1. If the device table already holds a device with id `d`, then
`mcOpenDevice(d)` returns `MC_DRV_ERR_DEVICE_ALREADY_OPEN` and the world is
the same afterwards: no connection object is created, nothing is written to or
read from a socket, and the device table is unchanged. Hence (no error code
being `MC_DRV_OK`) when a first `mcOpenDevice(d)` returns `MC_DRV_OK`, a second
one returns `MC_DRV_ERR_DEVICE_ALREADY_OPEN`; `d = 0` is the case of the
specification. -/
theorem mcOpenDevice_already_open (K : DrvCodes) :
    (∀ (d : Nat) (env : OpenDeviceEnv) (w : World),
      (∃ x ∈ w.devices, x.deviceId = d) →
        mcOpenDevice K d env w = (K.MC_DRV_ERR_DEVICE_ALREADY_OPEN, w)) ∧
    (K.ErrorsNotOk → ∀ (d : Nat) (env0 env1 : OpenDeviceEnv) (w : World),
      (mcOpenDevice K d env0 w).1 = K.MC_DRV_OK →
        mcOpenDevice K d env1 (mcOpenDevice K d env0 w).2 =
          (K.MC_DRV_ERR_DEVICE_ALREADY_OPEN, (mcOpenDevice K d env0 w).2)) := by
  have key : ∀ (d : Nat) (env : OpenDeviceEnv) (w : World) (dev : Device),
      resolveDeviceId w.devices d = some dev →
        mcOpenDevice K d env w = (K.MC_DRV_ERR_DEVICE_ALREADY_OPEN, w) := by
    intro d env w dev hdev
    simp [mcOpenDevice, hdev]
  refine ⟨fun d env w hx => ?_, fun hK d env0 env1 w h0 => ?_⟩
  · obtain ⟨dev, hdev⟩ := resolveDeviceId_isSome_of_mem hx
    exact key d env w dev hdev
  · obtain ⟨dev, hdev⟩ := mcOpenDevice_ok_resolves hK d env0 w h0
    exact key d env1 _ dev hdev

/-- An environment in which every step of `mcOpenDevice` succeeds, for the
sample code table. -/
def sampleOpenDeviceEnv : OpenDeviceEnv :=
  { connect := true, version := { write := 4, response := ⟨4, 0⟩, version := ⟨4, 2⟩ },
    write := 8, response := ⟨4, 0⟩, deviceOpen := 0 }

/-- C1, run on the sample code table: `mcOpenDevice(5)` in a process whose
table holds device `5`, and device `0` opened twice in a fresh process. -/
theorem mcOpenDevice_already_open_witness :
    (mcOpenDevice sampleCodes 5 sampleOpenDeviceEnv ⟨[⟨5, 0, [], []⟩], [], 1⟩ =
      (sampleCodes.MC_DRV_ERR_DEVICE_ALREADY_OPEN, ⟨[⟨5, 0, [], []⟩], [], 1⟩)) ∧
    sampleCodes.ErrorsNotOk ∧
    (mcOpenDevice sampleCodes 0 sampleOpenDeviceEnv World.init).1 = sampleCodes.MC_DRV_OK ∧
    mcOpenDevice sampleCodes 0 sampleOpenDeviceEnv
        (mcOpenDevice sampleCodes 0 sampleOpenDeviceEnv World.init).2 =
      (sampleCodes.MC_DRV_ERR_DEVICE_ALREADY_OPEN,
        (mcOpenDevice sampleCodes 0 sampleOpenDeviceEnv World.init).2) :=
  ⟨(mcOpenDevice_already_open sampleCodes).1 5 sampleOpenDeviceEnv ⟨[⟨5, 0, [], []⟩], [], 1⟩
      (by decide),
    by decide, by decide,
    (mcOpenDevice_already_open sampleCodes).2 (by decide) 0 sampleOpenDeviceEnv
      sampleOpenDeviceEnv World.init (by decide)⟩

/-! ## C2: device ids are unique in the device table -/

/-- The invariant: no two devices of the table have the same `deviceId`. -/
def DeviceIdsUnique (devices : List Device) : Prop :=
  (devices.map Device.deviceId).Nodup

instance (devices : List Device) : Decidable (DeviceIdsUnique devices) :=
  inferInstanceAs (Decidable (devices.map Device.deviceId).Nodup)

theorem removeDevice_sublist (devices : List Device) (deviceId : Nat) :
    (removeDevice devices deviceId).2.Sublist devices := by
  induction devices with
  | nil => simp [removeDevice]
  | cons x rest ih =>
    by_cases hx : x.deviceId = deviceId
    · simp [removeDevice, hx]
    · simp [removeDevice, hx, ih]

theorem DeviceIdsUnique.remove {devices : List Device} (h : DeviceIdsUnique devices)
    (deviceId : Nat) : DeviceIdsUnique (removeDevice devices deviceId).2 :=
  List.Nodup.sublist ((removeDevice_sublist devices deviceId).map _) h

theorem modifyDevice_deviceIds (f : Device → Device) (hf : ∀ x, (f x).deviceId = x.deviceId)
    (devices : List Device) (deviceId : Nat) :
    (modifyDevice f devices deviceId).map Device.deviceId = devices.map Device.deviceId := by
  induction devices with
  | nil => simp [modifyDevice]
  | cons x rest ih =>
    by_cases hx : x.deviceId = deviceId
    · simp [modifyDevice, hx, hf]
    · simp [modifyDevice, hx, ih]

theorem DeviceIdsUnique.modify {devices : List Device} (h : DeviceIdsUnique devices)
    (f : Device → Device) (hf : ∀ x, (f x).deviceId = x.deviceId) (deviceId : Nat) :
    DeviceIdsUnique (modifyDevice f devices deviceId) := by
  unfold DeviceIdsUnique
  rw [modifyDevice_deviceIds f hf]
  exact h

theorem DeviceIdsUnique.modifyS {devices : List Device} (h : DeviceIdsUnique devices)
    (f : Session → Session) (deviceId sessionId : Nat) :
    DeviceIdsUnique (modifySessionOf f devices deviceId sessionId) :=
  h.modify (fun d => { d with sessionList := modifySession f d.sessionList sessionId })
    (fun _ => rfl) deviceId

theorem DeviceIdsUnique.add {devices : List Device} (h : DeviceIdsUnique devices)
    (device : Device) (hnew : resolveDeviceId devices device.deviceId = none) :
    DeviceIdsUnique (addDevice devices device) := by
  unfold DeviceIdsUnique addDevice
  rw [List.map_append, List.nodup_append]
  refine ⟨h, by simp, ?_⟩
  intro a ha hb
  simp only [List.map_cons, List.map_nil, List.mem_singleton] at hb
  obtain ⟨x, hx, hxa⟩ := List.mem_map.1 ha
  exact (resolveDeviceId_eq_none_iff _ _).1 hnew x hx (hxa.trans hb)

/-- Under the invariant, after `removeDevice(d)` no device of the table has id `d`. -/
theorem DeviceIdsUnique.resolve_removeDevice {devices : List Device}
    (h : DeviceIdsUnique devices) (deviceId : Nat) :
    resolveDeviceId (removeDevice devices deviceId).2 deviceId = none := by
  induction devices with
  | nil => simp [removeDevice, resolveDeviceId]
  | cons x rest ih =>
    have hrest : DeviceIdsUnique rest := (List.nodup_cons.1 h).2
    by_cases hx : x.deviceId = deviceId
    · simp only [removeDevice, hx, if_true]
      rw [resolveDeviceId_eq_none_iff]
      intro y hy hyd
      exact (List.nodup_cons.1 h).1 (List.mem_map.2 ⟨y, hy, hyd.trans hx.symm⟩)
    · simp [removeDevice, resolveDeviceId, hx, ih hrest]


theorem Device.allocateContiguousWsm_deviceId (K : DrvCodes) (device : Device) (len : Nat)
    (env : AllocEnv) : (device.allocateContiguousWsm K len env).2.2.deviceId = device.deviceId := by
  unfold Device.allocateContiguousWsm
  split <;> rfl

theorem Device.freeContiguousWsm_deviceId (K : DrvCodes) (device : Device) (pWsm : CWsm)
    (free : Nat) : (device.freeContiguousWsm K pWsm free).2.deviceId = device.deviceId := by
  unfold Device.freeContiguousWsm
  split <;> rfl

theorem mcOpenDevice_unique (K : DrvCodes) (d : Nat) (env : OpenDeviceEnv) (w : World)
    (h : DeviceIdsUnique w.devices) : DeviceIdsUnique (mcOpenDevice K d env w).2.devices := by
  unfold mcOpenDevice
  simp only
  repeat' split
  all_goals
    try simp only [World.read_devices, World.write_devices, getDaemonVersion_devices,
      World.connect_devices]
  all_goals first
    | exact h
    | exact h.add _ ‹_›

theorem mcCloseDevice_unique (K : DrvCodes) (d : Nat) (env : CmdEnv) (w : World)
    (h : DeviceIdsUnique w.devices) : DeviceIdsUnique (mcCloseDevice K d env w).2.devices := by
  unfold mcCloseDevice
  simp only
  repeat' split
  all_goals first
    | exact h
    | exact h.remove _

theorem mcOpenSession_unique (K : DrvCodes) (session : Option mcSessionHandle_t)
    (uuid : Option Nat) (tci len : Nat) (env : OpenSessionEnv) (w : World)
    (h : DeviceIdsUnique w.devices) :
    DeviceIdsUnique (mcOpenSession K session uuid tci len env w).2.2.devices := by
  unfold mcOpenSession
  simp only
  repeat' split
  all_goals
    try simp only [World.read_devices, World.write_devices, nqConnect_devices,
      World.connect_devices]
  all_goals first
    | exact h
    | (apply DeviceIdsUnique.modify h; intro x; rfl)

theorem removeDeviceIfDead_unique (K : DrvCodes) (mcResult : Nat)
    (session : Option mcSessionHandle_t) (w : World) (h : DeviceIdsUnique w.devices) :
    DeviceIdsUnique (removeDeviceIfDead K mcResult session w).devices := by
  unfold removeDeviceIfDead
  repeat' split
  all_goals first
    | exact h
    | exact h.remove _

theorem mcCloseSession_unique (K : DrvCodes) (session : Option mcSessionHandle_t)
    (env : CmdEnv) (w : World) (h : DeviceIdsUnique w.devices) :
    DeviceIdsUnique (mcCloseSession K session env w).2.devices := by
  unfold mcCloseSession
  apply removeDeviceIfDead_unique
  unfold mcCloseSessionBody
  simp only
  repeat' split
  all_goals first
    | exact h
    | (apply DeviceIdsUnique.modify h; intro x; rfl)

theorem mcNotify_unique (K : DrvCodes) (session : Option mcSessionHandle_t)
    (write : Int) (w : World) (h : DeviceIdsUnique w.devices) :
    DeviceIdsUnique (mcNotify K session write w).2.devices := by
  have hb : DeviceIdsUnique (mcNotifyBody K session write w).2.devices := by
    unfold mcNotifyBody
    simp only
    repeat' split
    all_goals exact h
  unfold mcNotify
  simp only
  repeat' split
  all_goals first
    | exact hb
    | exact hb.remove _

theorem waitLoop_unique (K : DrvCodes) (hd : mcSessionHandle_t) (c : Nat)
    (reads : List (Recv notification_t)) :
    ∀ (timeout : Int) (count : Nat) (w : World), DeviceIdsUnique w.devices →
      DeviceIdsUnique (waitLoop K hd c reads timeout count w).2.devices := by
  induction reads with
  | nil =>
    intro timeout count w h
    unfold waitLoop
    split <;> exact h
  | cons r rest ih =>
    intro timeout count w h
    unfold waitLoop
    split
    · next mcResult w1 heq =>
      unfold waitIteration at heq
      simp only at heq
      repeat' split at heq
      all_goals
        simp only [LoopStep.done.injEq, reduceCtorEq] at heq
      all_goals
        obtain ⟨-, rfl⟩ := heq
      all_goals first
        | exact h
        | exact h.remove _
        | exact h.modifyS _ _ _
    · next count1 w1 heq =>
      apply ih
      unfold waitIteration at heq
      simp only at heq
      repeat' split at heq
      all_goals
        simp only [LoopStep.next.injEq, reduceCtorEq] at heq
      obtain ⟨-, rfl⟩ := heq
      exact h

theorem mcWaitNotification_unique (K : DrvCodes) (session : Option mcSessionHandle_t)
    (timeout : Int) (reads : List (Recv notification_t)) (w : World)
    (h : DeviceIdsUnique w.devices) :
    DeviceIdsUnique (mcWaitNotification K session timeout reads w).2.devices := by
  unfold mcWaitNotification
  repeat' split
  all_goals first
    | exact h
    | exact waitLoop_unique K _ _ reads timeout 0 w h

theorem mcMallocWsm_unique (K : DrvCodes) (d align len : Nat) (wsm : Option Nat) (flags : Nat)
    (env : AllocEnv) (w : World) (h : DeviceIdsUnique w.devices) :
    DeviceIdsUnique (mcMallocWsm K d align len wsm flags env w).2.2.devices := by
  unfold mcMallocWsm
  simp only
  repeat' split
  all_goals first
    | exact h
    | (apply DeviceIdsUnique.modify h; intro x
       exact Device.allocateContiguousWsm_deviceId K x len env)

theorem mcFreeWsm_unique (K : DrvCodes) (d wsm free : Nat) (w : World)
    (h : DeviceIdsUnique w.devices) :
    DeviceIdsUnique (mcFreeWsm K d wsm free w).2.devices := by
  unfold mcFreeWsm
  simp only
  repeat' split
  all_goals first
    | exact h
    | (apply DeviceIdsUnique.modify h; intro x
       exact Device.freeContiguousWsm_deviceId K x _ free)

theorem mcMap_unique (K : DrvCodes) (session : Option mcSessionHandle_t) (buf bufLen : Nat)
    (mapInfo : Option mcBulkMap_t) (env : MapEnv) (w : World) (h : DeviceIdsUnique w.devices) :
    DeviceIdsUnique (mcMap K session buf bufLen mapInfo env w).2.2.devices := by
  unfold mcMap
  simp only
  repeat' split
  all_goals
    try simp only [World.read_devices, World.write_devices]
  all_goals first
    | exact h
    | exact h.modifyS _ _ _
    | exact (h.modifyS _ _ _).modifyS _ _ _

theorem mcUnmap_unique (K : DrvCodes) (session : Option mcSessionHandle_t) (buf : Nat)
    (mapInfo : Option mcBulkMap_t) (env : UnmapEnv) (w : World) (h : DeviceIdsUnique w.devices) :
    DeviceIdsUnique (mcUnmap K session buf mapInfo env w).2.devices := by
  unfold mcUnmap
  apply removeDeviceIfDead_unique
  unfold mcUnmapBody
  simp only
  repeat' split
  all_goals first
    | exact h
    | exact h.modifyS _ _ _

theorem mcGetMobiCoreVersion_unique (K : DrvCodes) (d : Nat)
    (versionInfo : Option mcVersionInfo_t) (env : VersionEnv) (w : World)
    (h : DeviceIdsUnique w.devices) :
    DeviceIdsUnique (mcGetMobiCoreVersion K d versionInfo env w).2.2.devices := by
  unfold mcGetMobiCoreVersion
  simp only
  repeat' split
  all_goals exact h

theorem Call.run_unique (K : DrvCodes) (w : World) (call : Call)
    (h : DeviceIdsUnique w.devices) : DeviceIdsUnique (call.run K w).devices := by
  cases call with
  | openDevice d env => exact mcOpenDevice_unique K d env w h
  | closeDevice d env => exact mcCloseDevice_unique K d env w h
  | openSession session uuid tci len env =>
    exact mcOpenSession_unique K session uuid tci len env w h
  | closeSession session env => exact mcCloseSession_unique K session env w h
  | notify session write => exact mcNotify_unique K session write w h
  | waitNotification session timeout reads =>
    exact mcWaitNotification_unique K session timeout reads w h
  | mallocWsm d align len wsm flags env =>
    exact mcMallocWsm_unique K d align len wsm flags env w h
  | freeWsm d wsm free => exact mcFreeWsm_unique K d wsm free w h
  | map session buf bufLen mapInfo env => exact mcMap_unique K session buf bufLen mapInfo env w h
  | unmap session buf mapInfo env => exact mcUnmap_unique K session buf mapInfo env w h
  | getSessionErrorCode _ _ => exact h
  | driverCtrl _ _ _ => exact h
  | getMobiCoreVersion d versionInfo env =>
    exact mcGetMobiCoreVersion_unique K d versionInfo env w h

theorem runCalls_unique (K : DrvCodes) (calls : List Call) :
    ∀ w : World, DeviceIdsUnique w.devices → DeviceIdsUnique (runCalls K w calls).devices := by
  induction calls with
  | nil => intro w h; exact h
  | cons call rest ih =>
    intro w h
    exact ih (call.run K w) (Call.run_unique K w call h)

/-- C2. Starting from the empty device table, after every finite sequence of
client library calls, with every outcome of the daemon, the sockets and the
kernel module, no two devices of the table have the same `deviceId`; and so,
when `removeDevice(d)` then returns `true`, `resolveDeviceId(d)` returns
`NULL` on the table it leaves. -/
theorem device_ids_unique (K : DrvCodes) (calls : List Call) :
    ((runCalls K World.init calls).devices.map Device.deviceId).Nodup ∧
    ∀ d : Nat, (removeDevice (runCalls K World.init calls).devices d).1 = true →
      resolveDeviceId (removeDevice (runCalls K World.init calls).devices d).2 d = none := by
  have h : DeviceIdsUnique (runCalls K World.init calls).devices :=
    runCalls_unique K calls World.init List.nodup_nil
  exact ⟨h, fun d _ => h.resolve_removeDevice d⟩

/-- C2, run on the sample code table: device `0` is opened, a second open of
it is refused, device `1` is opened; then `removeDevice(0)` returns `true` and
leaves a table without device `0`. -/
theorem device_ids_unique_witness :
    (removeDevice (runCalls sampleCodes World.init
      [Call.openDevice 0 sampleOpenDeviceEnv, Call.openDevice 0 sampleOpenDeviceEnv,
        Call.openDevice 1 sampleOpenDeviceEnv]).devices 0).1 = true ∧
    resolveDeviceId (removeDevice (runCalls sampleCodes World.init
      [Call.openDevice 0 sampleOpenDeviceEnv, Call.openDevice 0 sampleOpenDeviceEnv,
        Call.openDevice 1 sampleOpenDeviceEnv]).devices 0).2 0 = none :=
  ⟨by decide,
    (device_ids_unique sampleCodes
      [Call.openDevice 0 sampleOpenDeviceEnv, Call.openDevice 0 sampleOpenDeviceEnv,
        Call.openDevice 1 sampleOpenDeviceEnv]).2 0 (by decide)⟩

/-! ## C3: `mcCloseDevice` with a pending session -/

/-- C3. For every open device `d` (the device that `resolveDeviceId` finds)
with at least one session in its session table, `mcCloseDevice(d)` returns
`MC_DRV_ERR_SESSION_PENDING` and the world is the same afterwards: no command
is sent to the daemon, and the device table and the session table of the
device are unchanged. -/
theorem mcCloseDevice_session_pending (K : DrvCodes) (d : Nat) (env : CmdEnv) (w : World)
    (device : Device) (hdev : resolveDeviceId w.devices d = some device)
    (hsess : device.sessionList ≠ []) :
    mcCloseDevice K d env w = (K.MC_DRV_ERR_SESSION_PENDING, w) := by
  have hs : device.hasSessions = true := by
    cases hl : device.sessionList with
    | nil => exact absurd hl hsess
    | cons s rest => simp [Device.hasSessions, hl]
  simp [mcCloseDevice, hdev, hs]

/-- A world with device `0` open on connection `0`, holding the WSM block at
address `4096` of length `256` and session `7` on connection `1`. -/
def sampleWorld : World :=
  { devices := [⟨0, 0, [⟨7, 1, [], 0⟩], [⟨4096, 256, 3, 8192⟩]⟩], trace := [], connCount := 2 }

/-- An exchange in which the write succeeds and the daemon answers `MC_DRV_OK`
(sample code table). -/
def sampleCmdEnv : CmdEnv :=
  { write := 8, response := ⟨4, 0⟩ }

/-- C3, run on the sample world: device `0` has session `7`. -/
theorem mcCloseDevice_session_pending_witness :
    mcCloseDevice sampleCodes 0 sampleCmdEnv sampleWorld =
      (sampleCodes.MC_DRV_ERR_SESSION_PENDING, sampleWorld) :=
  mcCloseDevice_session_pending sampleCodes 0 sampleCmdEnv sampleWorld
    ⟨0, 0, [⟨7, 1, [], 0⟩], [⟨4096, 256, 3, 8192⟩]⟩ (by decide) (by decide)

/-! ## C4 and C5: the length checks of `mcOpenSession` -/

/-- C4. For every call `mcOpenSession(session, uuid, tci, len)` with non-null
`session`, `uuid` and `tci` and with `len > MC_MAX_TCI_LEN`, the result is
`MC_DRV_ERR_TCI_TOO_BIG`, whatever the device table holds (the device named by
the handle may be open or not, `tci` may be a registered WSM or not), and the
world and the handle are the same afterwards: nothing is sent to the daemon. -/
theorem mcOpenSession_tci_too_big (K : DrvCodes) (h : mcSessionHandle_t) (uuid : Nat)
    (tci len : Nat) (env : OpenSessionEnv) (w : World) (htci : tci ≠ 0)
    (hlen : len > K.MC_MAX_TCI_LEN) :
    mcOpenSession K (some h) (some uuid) tci len env w =
      (K.MC_DRV_ERR_TCI_TOO_BIG, some h, w) := by
  simp [mcOpenSession, htci, hlen]

/-- An environment in which every step of `mcOpenSession` succeeds and the
daemon hands out session id `9` (sample code table). -/
def sampleOpenSessionEnv : OpenSessionEnv :=
  { write := 36, response := ⟨4, 0⟩, payload := ⟨12, ⟨9, 77, 1234⟩⟩, connect := true,
    nqWrite := 20, nqResponse := ⟨4, 0⟩ }

/-- C4, run on the sample world with a length one above the limit, once for
the open device `0` and its WSM, once for the unknown device `5`. -/
theorem mcOpenSession_tci_too_big_witness :
    mcOpenSession sampleCodes (some ⟨0, 0⟩) (some 1) 4096 1048577 sampleOpenSessionEnv sampleWorld =
      (sampleCodes.MC_DRV_ERR_TCI_TOO_BIG, some ⟨0, 0⟩, sampleWorld) ∧
    mcOpenSession sampleCodes (some ⟨0, 5⟩) (some 1) 12 1048577 sampleOpenSessionEnv sampleWorld =
      (sampleCodes.MC_DRV_ERR_TCI_TOO_BIG, some ⟨0, 5⟩, sampleWorld) :=
  ⟨mcOpenSession_tci_too_big sampleCodes ⟨0, 0⟩ 1 4096 1048577 sampleOpenSessionEnv sampleWorld
      (by decide) (by decide),
    mcOpenSession_tci_too_big sampleCodes ⟨0, 5⟩ 1 12 1048577 sampleOpenSessionEnv sampleWorld
      (by decide) (by decide)⟩

/-- C5. For every call `mcOpenSession(session, uuid, tci, len)` with non-null
arguments, `len <= MC_MAX_TCI_LEN` and a handle that names an open device: if
`findContiguousWsm(tci)` yields a WSM `pWsm` and `len > pWsm.len`, the result
is `MC_DRV_ERR_TCI_GREATER_THAN_WSM`; if it yields no WSM, the result is
`MC_DRV_ERR_WSM_NOT_FOUND`; in both cases the world and the handle are the
same afterwards, so nothing is sent to the daemon. -/
theorem mcOpenSession_wsm_checks (K : DrvCodes) (h : mcSessionHandle_t) (uuid : Nat)
    (tci len : Nat) (env : OpenSessionEnv) (w : World) (device : Device) (htci : tci ≠ 0)
    (hlen : len ≤ K.MC_MAX_TCI_LEN)
    (hdev : resolveDeviceId w.devices h.deviceId = some device) :
    (∀ pWsm : CWsm, device.findContiguousWsm tci = some pWsm → len > pWsm.len →
      mcOpenSession K (some h) (some uuid) tci len env w =
        (K.MC_DRV_ERR_TCI_GREATER_THAN_WSM, some h, w)) ∧
    (device.findContiguousWsm tci = none →
      mcOpenSession K (some h) (some uuid) tci len env w =
        (K.MC_DRV_ERR_WSM_NOT_FOUND, some h, w)) := by
  have hl : ¬ len > K.MC_MAX_TCI_LEN := not_lt.2 hlen
  constructor
  · intro pWsm hw hgt
    simp [mcOpenSession, htci, hl, hdev, hw, hgt]
  · intro hw
    simp [mcOpenSession, htci, hl, hdev, hw]

/-- C5, run on the sample world: length `257` against the WSM of length `256`
at address `4096`, and the address `12` that is no WSM. -/
theorem mcOpenSession_wsm_checks_witness :
    mcOpenSession sampleCodes (some ⟨0, 0⟩) (some 1) 4096 257 sampleOpenSessionEnv sampleWorld =
      (sampleCodes.MC_DRV_ERR_TCI_GREATER_THAN_WSM, some ⟨0, 0⟩, sampleWorld) ∧
    mcOpenSession sampleCodes (some ⟨0, 0⟩) (some 1) 12 257 sampleOpenSessionEnv sampleWorld =
      (sampleCodes.MC_DRV_ERR_WSM_NOT_FOUND, some ⟨0, 0⟩, sampleWorld) :=
  ⟨(mcOpenSession_wsm_checks sampleCodes ⟨0, 0⟩ 1 4096 257 sampleOpenSessionEnv sampleWorld
      ⟨0, 0, [⟨7, 1, [], 0⟩], [⟨4096, 256, 3, 8192⟩]⟩ (by decide) (by decide) (by decide)).1
      ⟨4096, 256, 3, 8192⟩ (by decide) (by decide),
    (mcOpenSession_wsm_checks sampleCodes ⟨0, 0⟩ 1 12 257 sampleOpenSessionEnv sampleWorld
      ⟨0, 0, [⟨7, 1, [], 0⟩], [⟨4096, 256, 3, 8192⟩]⟩ (by decide) (by decide) (by decide)).2
      (by decide)⟩

/-! ## C6: failed validation checks have no effect -/

theorem removeDeviceIfDead_validation {K : DrvCodes} (hK : K.ValidationNotSocket) {e : Nat}
    (he : e ∈ K.validationCodes) (session : Option mcSessionHandle_t) (w : World) :
    removeDeviceIfDead K e session w = w := by
  have h := hK e he
  simp [removeDeviceIfDead, h.1, h.2]

theorem mcCloseSession_of_body {K : DrvCodes} (hK : K.ValidationNotSocket) {e : Nat}
    (he : e ∈ K.validationCodes) {session : Option mcSessionHandle_t} {env : CmdEnv} {w : World}
    (hb : mcCloseSessionBody K session env w = (e, w)) :
    mcCloseSession K session env w = (e, w) := by
  simp [mcCloseSession, hb, removeDeviceIfDead_validation hK he]

theorem mcUnmap_of_body {K : DrvCodes} (hK : K.ValidationNotSocket) {e : Nat}
    (he : e ∈ K.validationCodes) {session : Option mcSessionHandle_t} {buf : Nat}
    {mapInfo : Option mcBulkMap_t} {env : UnmapEnv} {w : World}
    (hb : mcUnmapBody K session buf mapInfo env w = (e, w)) :
    mcUnmap K session buf mapInfo env w = (e, w) := by
  simp [mcUnmap, hb, removeDeviceIfDead_validation hK he]

theorem mcNotify_of_body {K : DrvCodes} (hK : K.ValidationNotSocket) {e : Nat}
    (he : e ∈ K.validationCodes) {session : Option mcSessionHandle_t} {write : Int} {w : World}
    (hb : mcNotifyBody K session write w = (e, w)) :
    mcNotify K session write w = (e, w) := by
  have h := hK e he
  simp [mcNotify, hb, h.1]

/-- An exchange in which the write succeeds and the daemon answers with the
non-OK code `6` (sample code table). -/
def sampleRefusedEnv : CmdEnv :=
  { write := 8, response := ⟨4, 6⟩ }

/-- C6, as stated, fails for `mcCloseSession`. On the sample world the handle
of session `7` of device `0` passes every check; the CLOSE_SESSION command is
written and a non-OK response is read; the library then sets
`MC_DRV_ERR_UNKNOWN_DEVICE` itself, which is one of the codes of the local
checks, although bytes were written to the device connection. -/
theorem mcCloseSession_unknown_device_after_write :
    (mcCloseSession sampleCodes (some ⟨7, 0⟩) sampleRefusedEnv sampleWorld).1 =
      sampleCodes.MC_DRV_ERR_UNKNOWN_DEVICE ∧
    sampleCodes.MC_DRV_ERR_UNKNOWN_DEVICE ∈ sampleCodes.validationCodes ∧
    sampleWorld.trace = [] ∧
    (mcCloseSession sampleCodes (some ⟨7, 0⟩) sampleRefusedEnv sampleWorld).2.trace =
      [Event.write 0 (Cmd.MC_DRV_CMD_CLOSE_SESSION 7) 8, Event.read 0 none 4] ∧
    (mcCloseSession sampleCodes (some ⟨7, 0⟩) sampleRefusedEnv sampleWorld).2 ≠ sampleWorld := by
  decide

/-- C6, amended. Whenever a local validation check of a client library
operation fails, the operation returns the code of that check and has no
effect: the world is the same afterwards (no connection object is created,
nothing is written to or read from a socket, the device table with every
session table and bulk buffer table in it is unchanged) and the output
arguments hold what they held. The checks, in the groups of the statement:
a device id that is not in the table (`MC_DRV_ERR_UNKNOWN_DEVICE`); a handle
whose device id is not in the table (same code); a handle whose session id is
not in the session table of its device (`MC_DRV_ERR_UNKNOWN_SESSION`); a `NULL`
argument (`MC_DRV_ERR_NULL_POINTER`); the length and WSM checks of
`mcOpenSession` (`MC_DRV_ERR_TCI_TOO_BIG`, `MC_DRV_ERR_WSM_NOT_FOUND`,
`MC_DRV_ERR_TCI_GREATER_THAN_WSM`); the WSM lookup of `mcFreeWsm`; the bulk
buffer lookup of `mcUnmap` (`MC_DRV_ERR_BLK_BUFF_NOT_FOUND`). The code table
is assumed not to give a validation code the number of
`MC_DRV_ERR_SOCKET_WRITE` or `MC_DRV_ERR_SOCKET_READ`. -/
theorem validation_failures_have_no_effect (K : DrvCodes) (hK : K.ValidationNotSocket)
    (w : World) :
    (∀ d, resolveDeviceId w.devices d = none →
      (∀ env, mcCloseDevice K d env w = (K.MC_DRV_ERR_UNKNOWN_DEVICE, w)) ∧
      (∀ align len wsm flags env,
        mcMallocWsm K d align len wsm flags env w = (K.MC_DRV_ERR_UNKNOWN_DEVICE, wsm, w)) ∧
      (∀ wsm free, mcFreeWsm K d wsm free w = (K.MC_DRV_ERR_UNKNOWN_DEVICE, w)) ∧
      (∀ versionInfo env,
        mcGetMobiCoreVersion K d versionInfo env w =
          (K.MC_DRV_ERR_UNKNOWN_DEVICE, versionInfo, w))) ∧
    (∀ h : mcSessionHandle_t, resolveDeviceId w.devices h.deviceId = none →
      (∀ uuid tci len env, tci ≠ 0 → len ≤ K.MC_MAX_TCI_LEN →
        mcOpenSession K (some h) (some uuid) tci len env w =
          (K.MC_DRV_ERR_UNKNOWN_DEVICE, some h, w)) ∧
      (∀ env, mcCloseSession K (some h) env w = (K.MC_DRV_ERR_UNKNOWN_DEVICE, w)) ∧
      (∀ write, mcNotify K (some h) write w = (K.MC_DRV_ERR_UNKNOWN_DEVICE, w)) ∧
      (∀ timeout reads,
        mcWaitNotification K (some h) timeout reads w = (K.MC_DRV_ERR_UNKNOWN_DEVICE, w)) ∧
      (∀ buf bufLen m env, buf ≠ 0 →
        mcMap K (some h) buf bufLen (some m) env w =
          (K.MC_DRV_ERR_UNKNOWN_DEVICE, some m, w)) ∧
      (∀ buf m env, buf ≠ 0 →
        mcUnmap K (some h) buf (some m) env w = (K.MC_DRV_ERR_UNKNOWN_DEVICE, w)) ∧
      (∀ lastErr,
        mcGetSessionErrorCode K (some h) (some lastErr) w =
          (K.MC_DRV_ERR_UNKNOWN_DEVICE, some lastErr))) ∧
    (∀ (h : mcSessionHandle_t) (device : Device),
      resolveDeviceId w.devices h.deviceId = some device →
      device.resolveSessionId h.sessionId = none →
      (∀ env, mcCloseSession K (some h) env w = (K.MC_DRV_ERR_UNKNOWN_SESSION, w)) ∧
      (∀ write, mcNotify K (some h) write w = (K.MC_DRV_ERR_UNKNOWN_SESSION, w)) ∧
      (∀ timeout reads,
        mcWaitNotification K (some h) timeout reads w = (K.MC_DRV_ERR_UNKNOWN_SESSION, w)) ∧
      (∀ buf bufLen m env, buf ≠ 0 →
        mcMap K (some h) buf bufLen (some m) env w =
          (K.MC_DRV_ERR_UNKNOWN_SESSION, some m, w)) ∧
      (∀ buf m env, buf ≠ 0 →
        mcUnmap K (some h) buf (some m) env w = (K.MC_DRV_ERR_UNKNOWN_SESSION, w)) ∧
      (∀ lastErr,
        mcGetSessionErrorCode K (some h) (some lastErr) w =
          (K.MC_DRV_ERR_UNKNOWN_SESSION, some lastErr))) ∧
    ((∀ session uuid tci len env, session = none ∨ uuid = none ∨ tci = 0 →
        mcOpenSession K session uuid tci len env w = (K.MC_DRV_ERR_NULL_POINTER, session, w)) ∧
      (∀ env, mcCloseSession K none env w = (K.MC_DRV_ERR_NULL_POINTER, w)) ∧
      (∀ write, mcNotify K none write w = (K.MC_DRV_ERR_NULL_POINTER, w)) ∧
      (∀ timeout reads,
        mcWaitNotification K none timeout reads w = (K.MC_DRV_ERR_NULL_POINTER, w)) ∧
      (∀ d device align len flags env, resolveDeviceId w.devices d = some device →
        mcMallocWsm K d align len none flags env w = (K.MC_DRV_ERR_NULL_POINTER, none, w)) ∧
      (∀ session buf bufLen mapInfo env, session = none ∨ mapInfo = none ∨ buf = 0 →
        mcMap K session buf bufLen mapInfo env w = (K.MC_DRV_ERR_NULL_POINTER, mapInfo, w)) ∧
      (∀ session buf mapInfo env, session = none ∨ mapInfo = none ∨ buf = 0 →
        mcUnmap K session buf mapInfo env w = (K.MC_DRV_ERR_NULL_POINTER, w)) ∧
      (∀ session lastErr, session = none ∨ lastErr = none →
        mcGetSessionErrorCode K session lastErr w = (K.MC_DRV_ERR_NULL_POINTER, lastErr)) ∧
      (∀ d device env, resolveDeviceId w.devices d = some device →
        mcGetMobiCoreVersion K d none env w = (K.MC_DRV_ERR_NULL_POINTER, none, w))) ∧
    (∀ (h : mcSessionHandle_t) (uuid tci len : Nat) (env : OpenSessionEnv), tci ≠ 0 →
      (len > K.MC_MAX_TCI_LEN →
        mcOpenSession K (some h) (some uuid) tci len env w =
          (K.MC_DRV_ERR_TCI_TOO_BIG, some h, w)) ∧
      (∀ device, len ≤ K.MC_MAX_TCI_LEN →
        resolveDeviceId w.devices h.deviceId = some device →
        (device.findContiguousWsm tci = none →
          mcOpenSession K (some h) (some uuid) tci len env w =
            (K.MC_DRV_ERR_WSM_NOT_FOUND, some h, w)) ∧
        (∀ pWsm, device.findContiguousWsm tci = some pWsm → pWsm.len < len →
          mcOpenSession K (some h) (some uuid) tci len env w =
            (K.MC_DRV_ERR_TCI_GREATER_THAN_WSM, some h, w)))) ∧
    (∀ d device wsm free, resolveDeviceId w.devices d = some device →
      device.findContiguousWsm wsm = none →
      mcFreeWsm K d wsm free w = (K.MC_DRV_ERR_WSM_NOT_FOUND, w)) ∧
    (∀ (h : mcSessionHandle_t) (device : Device) (session : Session) (buf : Nat)
      (m : mcBulkMap_t) (env : UnmapEnv), buf ≠ 0 →
      resolveDeviceId w.devices h.deviceId = some device →
      device.resolveSessionId h.sessionId = some session →
      session.getBufHandle m.sVirtualAddr = 0 →
      mcUnmap K (some h) buf (some m) env w = (K.MC_DRV_ERR_BLK_BUFF_NOT_FOUND, w)) := by
  have hdevm : K.MC_DRV_ERR_UNKNOWN_DEVICE ∈ K.validationCodes := by
    simp [DrvCodes.validationCodes]
  have hsesm : K.MC_DRV_ERR_UNKNOWN_SESSION ∈ K.validationCodes := by
    simp [DrvCodes.validationCodes]
  have hnulm : K.MC_DRV_ERR_NULL_POINTER ∈ K.validationCodes := by
    simp [DrvCodes.validationCodes]
  have hblkm : K.MC_DRV_ERR_BLK_BUFF_NOT_FOUND ∈ K.validationCodes := by
    simp [DrvCodes.validationCodes]
  refine ⟨fun d hd => ⟨?_, ?_, ?_, ?_⟩, fun h hd => ⟨?_, ?_, ?_, ?_, ?_, ?_, ?_⟩,
    fun h device hd hs => ⟨?_, ?_, ?_, ?_, ?_, ?_⟩, ⟨?_, ?_, ?_, ?_, ?_, ?_, ?_, ?_, ?_⟩,
    fun h uuid tci len env htci => ⟨?_, fun device hlen hd => ⟨?_, ?_⟩⟩, ?_, ?_⟩
  · intro env; simp [mcCloseDevice, hd]
  · intro align len wsm flags env; simp [mcMallocWsm, hd]
  · intro wsm free; simp [mcFreeWsm, hd]
  · intro versionInfo env; simp [mcGetMobiCoreVersion, hd]
  · intro uuid tci len env htci hlen
    simp [mcOpenSession, hd, htci, not_lt.2 hlen]
  · intro env
    exact mcCloseSession_of_body hK hdevm (by simp [mcCloseSessionBody, hd])
  · intro write
    exact mcNotify_of_body hK hdevm (by simp [mcNotifyBody, hd])
  · intro timeout reads; simp [mcWaitNotification, hd]
  · intro buf bufLen m env hbuf; simp [mcMap, hd, hbuf]
  · intro buf m env hbuf
    exact mcUnmap_of_body hK hdevm (by simp [mcUnmapBody, hd, hbuf])
  · intro lastErr; simp [mcGetSessionErrorCode, hd]
  · intro env
    exact mcCloseSession_of_body hK hsesm (by simp [mcCloseSessionBody, hd, hs])
  · intro write
    exact mcNotify_of_body hK hsesm (by simp [mcNotifyBody, hd, hs])
  · intro timeout reads; simp [mcWaitNotification, hd, hs]
  · intro buf bufLen m env hbuf; simp [mcMap, hd, hs, hbuf]
  · intro buf m env hbuf
    exact mcUnmap_of_body hK hsesm (by simp [mcUnmapBody, hd, hs, hbuf])
  · intro lastErr; simp [mcGetSessionErrorCode, hd, hs]
  · intro session uuid tci len env hnull
    cases session <;> cases uuid <;> by_cases ht : tci = 0 <;> simp_all [mcOpenSession]
  · intro env
    exact mcCloseSession_of_body hK hnulm (by simp [mcCloseSessionBody])
  · intro write
    exact mcNotify_of_body hK hnulm (by simp [mcNotifyBody])
  · intro timeout reads; simp [mcWaitNotification]
  · intro d device align len flags env hd; simp [mcMallocWsm, hd]
  · intro session buf bufLen mapInfo env hnull
    cases session <;> cases mapInfo <;> by_cases hb : buf = 0 <;> simp_all [mcMap]
  · intro session buf mapInfo env hnull
    apply mcUnmap_of_body hK hnulm
    cases session <;> cases mapInfo <;> by_cases hb : buf = 0 <;> simp_all [mcUnmapBody]
  · intro session lastErr hnull
    cases session <;> cases lastErr <;> simp_all [mcGetSessionErrorCode]
  · intro d device env hd; simp [mcGetMobiCoreVersion, hd]
  · intro hlen; simp [mcOpenSession, htci, hlen]
  · intro hw; simp [mcOpenSession, htci, not_lt.2 hlen, hd, hw]
  · intro pWsm hw hgt; simp [mcOpenSession, htci, not_lt.2 hlen, hd, hw, hgt]
  · intro d device wsm free hd hw; simp [mcFreeWsm, hd, hw]
  · intro h device session buf m env hbuf hd hs hz
    exact mcUnmap_of_body hK hblkm (by simp [mcUnmapBody, hd, hs, hbuf, hz])

/-- C6 amended, run on the sample world: `mcCloseSession` and `mcUnmap` on a
handle of the unknown device `5`, `mcNotify` on the unknown session `8` of
device `0`, and `mcMap` with a `NULL` buffer. -/
theorem validation_failures_have_no_effect_witness :
    sampleCodes.ValidationNotSocket ∧
    mcCloseSession sampleCodes (some ⟨7, 5⟩) sampleRefusedEnv sampleWorld =
      (sampleCodes.MC_DRV_ERR_UNKNOWN_DEVICE, sampleWorld) ∧
    mcUnmap sampleCodes (some ⟨7, 5⟩) 64 (some ⟨0, 0⟩) ⟨8, ⟨4, 0⟩, 0⟩ sampleWorld =
      (sampleCodes.MC_DRV_ERR_UNKNOWN_DEVICE, sampleWorld) ∧
    mcNotify sampleCodes (some ⟨8, 0⟩) 8 sampleWorld =
      (sampleCodes.MC_DRV_ERR_UNKNOWN_SESSION, sampleWorld) ∧
    mcMap sampleCodes (some ⟨7, 0⟩) 0 16 (some ⟨0, 0⟩)
        ⟨⟨0, 1, 2⟩, 8, ⟨4, 0⟩, ⟨8, ⟨7, 3⟩⟩, 0⟩ sampleWorld =
      (sampleCodes.MC_DRV_ERR_NULL_POINTER, some ⟨0, 0⟩, sampleWorld) :=
  ⟨by decide,
    ((validation_failures_have_no_effect sampleCodes (by decide) sampleWorld).2.1 ⟨7, 5⟩
      (by decide)).2.1 sampleRefusedEnv,
    ((validation_failures_have_no_effect sampleCodes (by decide) sampleWorld).2.1 ⟨7, 5⟩
      (by decide)).2.2.2.2.2.1 64 ⟨0, 0⟩ ⟨8, ⟨4, 0⟩, 0⟩ (by decide),
    ((validation_failures_have_no_effect sampleCodes (by decide) sampleWorld).2.2.1 ⟨8, 0⟩
      ⟨0, 0, [⟨7, 1, [], 0⟩], [⟨4096, 256, 3, 8192⟩]⟩ (by decide) (by decide)).2.1 8,
    (validation_failures_have_no_effect sampleCodes (by decide) sampleWorld).2.2.2.1.2.2.2.2.2.1
      (some ⟨7, 0⟩) 0 16 (some ⟨0, 0⟩) ⟨⟨0, 1, 2⟩, 8, ⟨4, 0⟩, ⟨8, ⟨7, 3⟩⟩, 0⟩
      (Or.inr (Or.inr rfl))⟩

/-! ## C7: a session is created exactly when `mcOpenSession` returns `MC_DRV_OK` -/

theorem mcpResultToDrv_mem (K : DrvCodes) (mcpResult : Nat) :
    mcpResultToDrv K mcpResult ∈ K.errorCodes := by
  unfold mcpResultToDrv
  repeat' split
  all_goals simp [DrvCodes.errorCodes]

theorem openSessionError_ne_ok {K : DrvCodes} (hK : K.ErrorsNotOk) {r : Nat}
    (hr : r ≠ K.MC_DRV_OK) : openSessionError K r ≠ K.MC_DRV_OK := by
  unfold openSessionError
  split
  · exact hr
  · exact hK _ (mcpResultToDrv_mem K _)

theorem nqConnect_ok {K : DrvCodes} (hK : K.ErrorsNotOk) {c : Nat} {h : mcSessionHandle_t}
    {p : mcDrvRspOpenSessionPayload_t} {env : OpenSessionEnv} {w : World}
    (hok : (nqConnect K c h p env w).1 = K.MC_DRV_OK) :
    0 ≤ env.nqWrite ∧ RECV_FROM_DAEMON K K.sizeofResult env.nqResponse.rlen = none ∧
      env.nqResponse.data = K.MC_DRV_OK := by
  have hu := hK.unpack
  revert hok
  unfold nqConnect
  simp only
  repeat' split
  all_goals simp_all [SEND_TO_DAEMON_eq_some, SEND_TO_DAEMON_eq_none, RECV_FROM_DAEMON_eq_some]
  omega

theorem nqConnect_connCount (K : DrvCodes) (c : Nat) (h : mcSessionHandle_t)
    (p : mcDrvRspOpenSessionPayload_t) (env : OpenSessionEnv) (w : World) :
    (nqConnect K c h p env w).2.connCount = w.connCount := by
  unfold nqConnect
  simp only
  repeat' split
  all_goals rfl

/-- Creating a session in an open device changes the device table. -/
theorem modifyDevice_createNewSession_ne (devices : List Device) (deviceId sid c : Nat)
    (device : Device) (hd : resolveDeviceId devices deviceId = some device) :
    modifyDevice (fun d => d.createNewSession sid c) devices deviceId ≠ devices := by
  induction devices with
  | nil => simp [resolveDeviceId] at hd
  | cons x rest ih =>
    by_cases hx : x.deviceId = deviceId
    · simp only [modifyDevice, hx, if_true]
      intro heq
      have h1 : x.createNewSession sid c = x := (List.cons.inj heq).1
      have h2 := congrArg (fun d : Device => d.sessionList.length) h1
      simp [Device.createNewSession] at h2
    · simp only [modifyDevice, hx, if_false]
      simp only [resolveDeviceId, hx, if_false] at hd
      intro heq
      exact ih hd (List.cons.inj heq).2

/-- What `modifyDevice` does to the device that `resolveDeviceId` finds. -/
theorem resolveDeviceId_modifyDevice (f : Device → Device)
    (hf : ∀ x, (f x).deviceId = x.deviceId) (devices : List Device) (deviceId : Nat) :
    resolveDeviceId (modifyDevice f devices deviceId) deviceId =
      (resolveDeviceId devices deviceId).map f := by
  induction devices with
  | nil => simp [modifyDevice, resolveDeviceId]
  | cons x rest ih =>
    by_cases hx : x.deviceId = deviceId
    · simp [modifyDevice, resolveDeviceId, hx, hf]
    · simp [modifyDevice, resolveDeviceId, hx, ih]

/-- Every way `mcOpenSession` can end, when no error code is `MC_DRV_OK`:
either with a code other than `MC_DRV_OK` and the device table as before, or
with `MC_DRV_OK` after both exchanges succeeded and with the new session in
the table of the device named by the handle. -/
theorem mcOpenSession_cases {K : DrvCodes} (hK : K.ErrorsNotOk)
    (session : Option mcSessionHandle_t) (uuid : Option Nat) (tci len : Nat)
    (env : OpenSessionEnv) (w : World) :
    ((mcOpenSession K session uuid tci len env w).1 ≠ K.MC_DRV_OK ∧
      (mcOpenSession K session uuid tci len env w).2.2.devices = w.devices) ∨
    ((mcOpenSession K session uuid tci len env w).1 = K.MC_DRV_OK ∧
      ∃ h device, session = some h ∧ resolveDeviceId w.devices h.deviceId = some device ∧
        env.response.data = K.MC_DRV_OK ∧ env.connect = true ∧
        env.nqResponse.data = K.MC_DRV_OK ∧
        (mcOpenSession K session uuid tci len env w).2.1 =
          some { h with sessionId := env.payload.data.sessionId } ∧
        (mcOpenSession K session uuid tci len env w).2.2.devices =
          modifyDevice (fun d => d.createNewSession env.payload.data.sessionId w.connCount)
            w.devices h.deviceId) := by
  have hu := hK.unpack
  unfold mcOpenSession
  simp only
  repeat' split
  all_goals
    first
    | (left
       refine ⟨?_, by simp⟩
       simp_all [SEND_TO_DAEMON_eq_some, RECV_FROM_DAEMON_eq_some]
       done)
    | (left
       refine ⟨?_, by simp⟩
       simp_all [SEND_TO_DAEMON_eq_some, RECV_FROM_DAEMON_eq_some]
       omega)
    | (left
       refine ⟨?_, by simp⟩
       apply openSessionError_ne_ok hK
       assumption)
    | skip
  right
  have hnq := of_not_not ‹¬ (nqConnect K _ _ _ env _).1 ≠ K.MC_DRV_OK›
  have hn := nqConnect_ok hK hnq
  refine ⟨hnq, _, _, rfl, ‹resolveDeviceId w.devices _ = some _›, ?_, ?_, hn.2.2, rfl, ?_⟩
  · exact of_not_not ‹¬ env.response.data ≠ K.MC_DRV_OK›
  · simpa using ‹¬ env.connect = false›
  · simp

/-- The OPEN_SESSION exchange of `mcOpenSession` went through: the arguments
passed every local check, the command was written, the daemon answered
`MC_DRV_OK` and the payload was read. -/
def OpenSessionAcknowledged (K : DrvCodes) (w : World) (h : mcSessionHandle_t) (tci len : Nat)
    (env : OpenSessionEnv) : Prop :=
  tci ≠ 0 ∧ len ≤ K.MC_MAX_TCI_LEN ∧
  (∃ device pWsm, resolveDeviceId w.devices h.deviceId = some device ∧
    device.findContiguousWsm tci = some pWsm ∧ len ≤ pWsm.len) ∧
  0 ≤ env.write ∧ RECV_FROM_DAEMON K K.sizeofResult env.response.rlen = none ∧
  env.response.data = K.MC_DRV_OK ∧
  RECV_FROM_DAEMON K K.sizeofRspOpenSessionPayload env.payload.rlen = none

/-- After an acknowledged OPEN_SESSION exchange, `mcOpenSession` ends as its
second connection decides. -/
theorem mcOpenSession_acknowledged {K : DrvCodes} {w : World} {h : mcSessionHandle_t}
    {tci len : Nat} {env : OpenSessionEnv} (uuid : Nat)
    (hack : OpenSessionAcknowledged K w h tci len env) :
    (env.connect = false →
      (mcOpenSession K (some h) (some uuid) tci len env w).1 = K.MC_DRV_ERR_SOCKET_CONNECT) ∧
    (env.connect = true → 0 ≤ env.nqWrite →
      RECV_FROM_DAEMON K K.sizeofResult env.nqResponse.rlen = none →
      (mcOpenSession K (some h) (some uuid) tci len env w).1 = env.nqResponse.data) := by
  obtain ⟨htci, hlen, ⟨device, pWsm, hd, hwsm, hfit⟩, hwr, hrecv, hdata, hpay⟩ := hack
  have hsend : SEND_TO_DAEMON K env.write = none := SEND_TO_DAEMON_eq_none.2 hwr
  constructor
  · intro hc
    simp [mcOpenSession, htci, not_lt.2 hlen, hd, hwsm, not_lt.2 hfit, hsend, hrecv, hdata,
      hpay, hc]
  · intro hc hnw hnr
    have hns : SEND_TO_DAEMON K env.nqWrite = none := SEND_TO_DAEMON_eq_none.2 hnw
    by_cases hok : env.nqResponse.data = K.MC_DRV_OK
    · simp [mcOpenSession, htci, not_lt.2 hlen, hd, hwsm, not_lt.2 hfit, hsend, hrecv, hdata,
        hpay, hc, nqConnect, hns, hnr, hok]
    · simp [mcOpenSession, htci, not_lt.2 hlen, hd, hwsm, not_lt.2 hfit, hsend, hrecv, hdata,
        hpay, hc, nqConnect, hns, hnr, hok]

/-- C7. With no error code equal to `MC_DRV_OK`: `mcOpenSession` changes the
device table if and only if it returns `MC_DRV_OK`; when it returns
`MC_DRV_OK`, the OPEN_SESSION response and the NQ_CONNECT response read on the
second connection both carried `MC_DRV_OK`, and the device named by the handle
then holds the new session (its session table is the old one with the session
of the id from the payload appended); in every other outcome the device table
is unchanged and the code returned is not `MC_DRV_OK`. In particular, after an
acknowledged OPEN_SESSION exchange, a second socket that fails to connect gives
`MC_DRV_ERR_SOCKET_CONNECT` and a non-OK NQ_CONNECT reply is returned as it
is, both without a new session. -/
theorem mcOpenSession_session_iff_ok (K : DrvCodes) (hK : K.ErrorsNotOk)
    (session : Option mcSessionHandle_t) (uuid : Option Nat) (tci len : Nat)
    (env : OpenSessionEnv) (w : World) :
    ((mcOpenSession K session uuid tci len env w).2.2.devices ≠ w.devices ↔
      (mcOpenSession K session uuid tci len env w).1 = K.MC_DRV_OK) ∧
    ((mcOpenSession K session uuid tci len env w).1 = K.MC_DRV_OK →
      env.response.data = K.MC_DRV_OK ∧ env.nqResponse.data = K.MC_DRV_OK ∧
      ∃ h device, session = some h ∧ resolveDeviceId w.devices h.deviceId = some device ∧
        resolveDeviceId (mcOpenSession K session uuid tci len env w).2.2.devices h.deviceId =
          some { device with
            sessionList :=
              device.sessionList ++ [⟨env.payload.data.sessionId, w.connCount, [], 0⟩] }) ∧
    ((mcOpenSession K session uuid tci len env w).1 ≠ K.MC_DRV_OK →
      (mcOpenSession K session uuid tci len env w).2.2.devices = w.devices) ∧
    (∀ h u, session = some h → uuid = some u → OpenSessionAcknowledged K w h tci len env →
      (env.connect = false →
        (mcOpenSession K session uuid tci len env w).1 = K.MC_DRV_ERR_SOCKET_CONNECT ∧
        (mcOpenSession K session uuid tci len env w).2.2.devices = w.devices) ∧
      (env.connect = true → 0 ≤ env.nqWrite →
        RECV_FROM_DAEMON K K.sizeofResult env.nqResponse.rlen = none →
        env.nqResponse.data ≠ K.MC_DRV_OK →
        (mcOpenSession K session uuid tci len env w).1 = env.nqResponse.data ∧
        (mcOpenSession K session uuid tci len env w).2.2.devices = w.devices)) := by
  have hcases := mcOpenSession_cases hK session uuid tci len env w
  have hu := hK.unpack
  have hne : (mcOpenSession K session uuid tci len env w).1 ≠ K.MC_DRV_OK →
      (mcOpenSession K session uuid tci len env w).2.2.devices = w.devices := by
    intro hn
    rcases hcases with ⟨_, hsame⟩ | ⟨hok, _⟩
    · exact hsame
    · exact absurd hok hn
  refine ⟨⟨?_, ?_⟩, ?_, hne, ?_⟩
  · intro hch
    by_contra hn
    exact hch (hne hn)
  · intro hok
    rcases hcases with ⟨hn, _⟩ | ⟨_, h, device, _, hd, _, _, _, _, hdev⟩
    · exact absurd hok hn
    · rw [hdev]
      exact modifyDevice_createNewSession_ne _ _ _ _ device hd
  · intro hok
    rcases hcases with ⟨hn, _⟩ | ⟨_, h, device, hs, hd, hr, _, hnq, _, hdev⟩
    · exact absurd hok hn
    · refine ⟨hr, hnq, h, device, hs, hd, ?_⟩
      rw [hdev, resolveDeviceId_modifyDevice
        (fun d => d.createNewSession env.payload.data.sessionId w.connCount)
        (fun _ => rfl), hd]
      rfl
  · intro h u hs hu' hack
    subst hs hu'
    have hpath := mcOpenSession_acknowledged u hack
    constructor
    · intro hc
      have h1 := hpath.1 hc
      exact ⟨h1, hne (h1 ▸ hu.2.2.2.2.2.2.2.2.2.1)⟩
    · intro hc hnw hnr hdata
      have h1 := hpath.2 hc hnw hnr
      exact ⟨h1, hne (h1 ▸ hdata)⟩

/-- A daemon that refuses NQ_CONNECT with the code `6` of the sample table
(`MC_DRV_ERR_UNKNOWN_SESSION`) after it acknowledged OPEN_SESSION. -/
def sampleNqRefusedEnv : OpenSessionEnv :=
  { write := 36, response := ⟨4, 0⟩, payload := ⟨12, ⟨9, 77, 1234⟩⟩, connect := true,
    nqWrite := 20, nqResponse := ⟨4, 6⟩ }

/-- C7, run on the sample world: a successful `mcOpenSession` changes the
device table, and one whose NQ_CONNECT is refused with code `6` returns `6`
and leaves the table as it was. -/
theorem mcOpenSession_session_iff_ok_witness :
    sampleCodes.ErrorsNotOk ∧
    (mcOpenSession sampleCodes (some ⟨0, 0⟩) (some 1) 4096 100 sampleOpenSessionEnv
      sampleWorld).2.2.devices ≠ sampleWorld.devices ∧
    ((mcOpenSession sampleCodes (some ⟨0, 0⟩) (some 1) 4096 100 sampleNqRefusedEnv
        sampleWorld).1 = 6 ∧
      (mcOpenSession sampleCodes (some ⟨0, 0⟩) (some 1) 4096 100 sampleNqRefusedEnv
        sampleWorld).2.2.devices = sampleWorld.devices) :=
  ⟨by decide,
    (mcOpenSession_session_iff_ok sampleCodes (by decide) (some ⟨0, 0⟩) (some 1) 4096 100
      sampleOpenSessionEnv sampleWorld).1.2 (by decide),
    ((mcOpenSession_session_iff_ok sampleCodes (by decide) (some ⟨0, 0⟩) (some 1) 4096 100
      sampleNqRefusedEnv sampleWorld).2.2.2 ⟨0, 0⟩ 1 rfl rfl
      ⟨by decide, by decide,
        ⟨⟨0, 0, [⟨7, 1, [], 0⟩], [⟨4096, 256, 3, 8192⟩]⟩, ⟨4096, 256, 3, 8192⟩, by decide,
          by decide, by decide⟩,
        by decide, by decide, by decide, by decide⟩).2 rfl (by decide) (by decide) (by decide)⟩

/-! ## C8: `mcOpenSession` followed by `mcCloseSession` -/

theorem modifyDevice_modifyDevice (f g : Device → Device)
    (hf : ∀ x, (f x).deviceId = x.deviceId) (devices : List Device) (deviceId : Nat) :
    modifyDevice g (modifyDevice f devices deviceId) deviceId =
      modifyDevice (fun d => g (f d)) devices deviceId := by
  induction devices with
  | nil => simp [modifyDevice]
  | cons x rest ih =>
    by_cases hx : x.deviceId = deviceId
    · simp [modifyDevice, hx, hf]
    · simp [modifyDevice, hx, ih]

theorem modifyDevice_eq_self (f : Device → Device) (devices : List Device) (deviceId : Nat)
    (device : Device) (hd : resolveDeviceId devices deviceId = some device)
    (hfix : f device = device) : modifyDevice f devices deviceId = devices := by
  induction devices with
  | nil => simp [modifyDevice]
  | cons x rest ih =>
    by_cases hx : x.deviceId = deviceId
    · simp only [resolveDeviceId, hx, if_true, Option.some.injEq] at hd
      subst hd
      simp [modifyDevice, hx, hfix]
    · simp only [resolveDeviceId, hx, if_false] at hd
      simp [modifyDevice, hx, ih hd]

theorem eraseSession_append_fresh (sessions : List Session) (s : Session)
    (hfresh : sessions.find? (fun x => decide (x.sessionId = s.sessionId)) = none) :
    eraseSession (sessions ++ [s]) s.sessionId = sessions := by
  induction sessions with
  | nil => simp [eraseSession]
  | cons x rest ih =>
    by_cases hx : x.sessionId = s.sessionId
    · simp [List.find?, hx] at hfresh
    · simp only [List.find?, hx, decide_False] at hfresh
      simp [eraseSession, hx, ih hfresh]

/-- Removing a session right after it was created, when its id was not in
the table, gives the device back. -/
theorem Device.removeSession_createNewSession (device : Device) (sid c : Nat)
    (hfresh : device.resolveSessionId sid = none) :
    ((device.createNewSession sid c).removeSession sid).2 = device := by
  have h := eraseSession_append_fresh device.sessionList ⟨sid, c, [], 0⟩ hfresh
  simp only [Device.removeSession, Device.createNewSession]
  simp only at h
  rw [h]

/-- Every way the body of `mcCloseSession` ends with `MC_DRV_OK`, when no
error code is `MC_DRV_OK`: the session was removed from its device. -/
theorem mcCloseSession_ok {K : DrvCodes} (hK : K.ErrorsNotOk) (h : mcSessionHandle_t)
    (env : CmdEnv) (w : World) (hok : (mcCloseSession K (some h) env w).1 = K.MC_DRV_OK) :
    (mcCloseSession K (some h) env w).2.devices =
      modifyDevice (fun d => (d.removeSession h.sessionId).2) w.devices h.deviceId := by
  have hu := hK.unpack
  have hw : K.MC_DRV_OK ≠ K.MC_DRV_ERR_SOCKET_WRITE := fun e => hu.2.2.2.2.2.2.2.2.2.2.1 e.symm
  have hr : K.MC_DRV_OK ≠ K.MC_DRV_ERR_SOCKET_READ := fun e => hu.2.2.2.2.2.2.2.2.2.2.2.1 e.symm
  unfold mcCloseSession at hok ⊢
  simp only at hok ⊢
  rw [hok]
  simp only [removeDeviceIfDead, hw, hr, or_self, if_false]
  revert hok
  unfold mcCloseSessionBody
  simp only
  repeat' split
  all_goals simp_all [SEND_TO_DAEMON_eq_some, RECV_FROM_DAEMON_eq_some]
  omega

/-- C8. For every open device and every `(uuid, tci, len)`, with no error code
equal to `MC_DRV_OK`: if `mcOpenSession` returns `MC_DRV_OK`, the handle then
holds the session id `s` of the payload; if `s` was not in the session table
of the device before (session ids are unique within a device) and
`mcCloseSession` on that handle then returns `MC_DRV_OK`, the device table
after the close equals the table before the open: the device has the session
table it had, every session present before is still present, and `s` is not
resolvable. -/
theorem open_close_session_roundtrip (K : DrvCodes) (hK : K.ErrorsNotOk)
    (h : mcSessionHandle_t) (uuid : Option Nat) (tci len : Nat) (envO : OpenSessionEnv)
    (envC : CmdEnv) (w : World) (device : Device)
    (hdev : resolveDeviceId w.devices h.deviceId = some device)
    (hopen : (mcOpenSession K (some h) uuid tci len envO w).1 = K.MC_DRV_OK)
    (hfresh : device.resolveSessionId envO.payload.data.sessionId = none)
    (hclose : (mcCloseSession K (mcOpenSession K (some h) uuid tci len envO w).2.1 envC
      (mcOpenSession K (some h) uuid tci len envO w).2.2).1 = K.MC_DRV_OK) :
    (mcOpenSession K (some h) uuid tci len envO w).2.1 =
      some ⟨envO.payload.data.sessionId, h.deviceId⟩ ∧
    (mcCloseSession K (mcOpenSession K (some h) uuid tci len envO w).2.1 envC
      (mcOpenSession K (some h) uuid tci len envO w).2.2).2.devices = w.devices ∧
    resolveDeviceId (mcCloseSession K (mcOpenSession K (some h) uuid tci len envO w).2.1 envC
      (mcOpenSession K (some h) uuid tci len envO w).2.2).2.devices h.deviceId = some device ∧
    device.resolveSessionId envO.payload.data.sessionId = none := by
  rcases mcOpenSession_cases hK (some h) uuid tci len envO w with
    ⟨hn, _⟩ | ⟨_, h', device', hs, hd', _, _, _, hhandle, hdevs⟩
  · exact absurd hopen hn
  · cases hs
    rw [hdev] at hd'
    cases hd'
    have hfinal : (mcCloseSession K (mcOpenSession K (some h) uuid tci len envO w).2.1 envC
        (mcOpenSession K (some h) uuid tci len envO w).2.2).2.devices = w.devices := by
      rw [hhandle] at hclose ⊢
      rw [mcCloseSession_ok hK _ envC _ hclose, hdevs]
      simp only
      rw [modifyDevice_modifyDevice
        (fun d => d.createNewSession envO.payload.data.sessionId w.connCount)
        (fun d => (d.removeSession envO.payload.data.sessionId).2) (fun _ => rfl)]
      exact modifyDevice_eq_self _ _ _ device hdev
        (Device.removeSession_createNewSession device _ _ hfresh)
    refine ⟨hhandle, hfinal, ?_, hfresh⟩
    rw [hfinal]
    exact hdev

/-- C8, run on the sample world: session `9` is opened on device `0`, which
holds session `7`, and closed again. -/
theorem open_close_session_roundtrip_witness :
    (mcCloseSession sampleCodes
      (mcOpenSession sampleCodes (some ⟨0, 0⟩) (some 1) 4096 100 sampleOpenSessionEnv
        sampleWorld).2.1 sampleCmdEnv
      (mcOpenSession sampleCodes (some ⟨0, 0⟩) (some 1) 4096 100 sampleOpenSessionEnv
        sampleWorld).2.2).2.devices = sampleWorld.devices :=
  (open_close_session_roundtrip sampleCodes (by decide) ⟨0, 0⟩ (some 1) 4096 100
    sampleOpenSessionEnv sampleCmdEnv sampleWorld
    ⟨0, 0, [⟨7, 1, [], 0⟩], [⟨4096, 256, 3, 8192⟩]⟩ (by decide) (by decide) (by decide)
    (by decide)).2.1

/-! ## C9: non-OK responses to OPEN_SESSION -/

/-- An eight way `switch` with pairwise distinct case labels sends each label
to the value of its case. -/
theorem switch8_labels (c1 c2 c3 c4 c5 c6 c7 c8 k1 k2 k3 k4 k5 k6 k7 k8 d : Nat)
    (hnd : [c1, c2, c3, c4, c5, c6, c7, c8].Nodup) :
    [c1, c2, c3, c4, c5, c6, c7, c8].map
        (fun c => if c = c1 then k1 else if c = c2 then k2 else if c = c3 then k3
          else if c = c4 then k4 else if c = c5 then k5 else if c = c6 then k6
          else if c = c7 then k7 else if c = c8 then k8 else d) =
      [k1, k2, k3, k4, k5, k6, k7, k8] := by
  simp only [List.nodup_cons, List.mem_cons, List.mem_singleton, not_or, List.not_mem_nil,
    not_false_eq_true, List.nodup_nil, and_true] at hnd
  obtain ⟨⟨h12, h13, h14, h15, h16, h17, h18⟩, ⟨h23, h24, h25, h26, h27, h28⟩,
    ⟨h34, h35, h36, h37, h38⟩, ⟨h45, h46, h47, h48⟩, ⟨h56, h57, h58⟩, ⟨h67, h68⟩, h78⟩ := hnd
  simp only [List.map, List.cons.injEq, and_true]
  refine ⟨?_, ?_, ?_, ?_, ?_, ?_, ?_, ?_⟩
  · simp
  · simp [Ne.symm h12]
  · simp [Ne.symm h13, Ne.symm h23]
  · simp [Ne.symm h14, Ne.symm h24, Ne.symm h34]
  · simp [Ne.symm h15, Ne.symm h25, Ne.symm h35, Ne.symm h45]
  · simp [Ne.symm h16, Ne.symm h26, Ne.symm h36, Ne.symm h46, Ne.symm h56]
  · simp [Ne.symm h17, Ne.symm h27, Ne.symm h37, Ne.symm h47, Ne.symm h57, Ne.symm h67]
  · simp [Ne.symm h18, Ne.symm h28, Ne.symm h38, Ne.symm h48, Ne.symm h58, Ne.symm h68,
      Ne.symm h78]

/-- The `switch` of `mcOpenSession` sends each of its eight case labels to the
result code of its case, when the labels are pairwise distinct (as C requires
of case labels). -/
theorem mcpResultToDrv_codes (K : DrvCodes) (hnd : K.mcpCodes.Nodup) :
    K.mcpCodes.map (mcpResultToDrv K) = K.mcpKinds :=
  switch8_labels _ _ _ _ _ _ _ _ _ _ _ _ _ _ _ _ K.MC_DRV_ERR_MCP_ERROR hnd

theorem mcpResultToDrv_other (K : DrvCodes) (c : Nat) (hc : c ∉ K.mcpCodes) :
    mcpResultToDrv K c = K.MC_DRV_ERR_MCP_ERROR := by
  simp only [DrvCodes.mcpCodes, List.mem_cons, List.mem_singleton, not_or, List.not_mem_nil,
    not_false_eq_true, and_true] at hc
  simp [mcpResultToDrv, hc]

/-- C9. Let `mcOpenSession` pass its local checks, write the OPEN_SESSION
command and read a response header that carries a code `r` other than
`MC_DRV_OK`. Then it returns `r` itself if the major part of `r` is not
`MC_DRV_ERR_MCP_ERROR`, and otherwise the code that the `switch` assigns to the
MCP part of `r`; the `switch` sends the eight recognised MCP codes, in order,
to the eight result codes `MC_DRV_ERR_WRONG_PUBLIC_KEY` ...
`MC_DRV_ERR_UNWRAP_TRUSTLET_FAILED` (pairwise distinct, so one to one, when the
code table gives these eight distinct values) and every other MCP code to
`MC_DRV_ERR_MCP_ERROR`. In all these cases the world afterwards is the world
before with one write and one read on the device connection: the device table
is unchanged (no session is created), no connection object is created, and
the handle is unchanged. -/
theorem mcOpenSession_daemon_error (K : DrvCodes) (h : mcSessionHandle_t) (uuid : Nat)
    (tci len : Nat) (env : OpenSessionEnv) (w : World) (device : Device) (pWsm : CWsm)
    (htci : tci ≠ 0) (hlen : len ≤ K.MC_MAX_TCI_LEN)
    (hdev : resolveDeviceId w.devices h.deviceId = some device)
    (hwsm : device.findContiguousWsm tci = some pWsm) (hfit : len ≤ pWsm.len)
    (hwrite : 0 ≤ env.write)
    (hrecv : RECV_FROM_DAEMON K K.sizeofResult env.response.rlen = none)
    (hr : env.response.data ≠ K.MC_DRV_OK) :
    mcOpenSession K (some h) (some uuid) tci len env w =
      (openSessionError K env.response.data, some h,
        (w.write device.connection
          (Cmd.MC_DRV_CMD_OPEN_SESSION h.deviceId uuid 0 pWsm.handle len) env.write).read
          device.connection none env.response.rlen) ∧
    (K.MC_DRV_ERROR_MAJOR env.response.data ≠ K.MC_DRV_ERR_MCP_ERROR →
      (mcOpenSession K (some h) (some uuid) tci len env w).1 = env.response.data) ∧
    (K.MC_DRV_ERROR_MAJOR env.response.data = K.MC_DRV_ERR_MCP_ERROR →
      (mcOpenSession K (some h) (some uuid) tci len env w).1 =
        mcpResultToDrv K (K.MC_DRV_ERROR_MCP env.response.data)) ∧
    (K.mcpCodes.Nodup → K.mcpCodes.map (mcpResultToDrv K) = K.mcpKinds) ∧
    (K.mcpCodes.Nodup → K.mcpKinds.Nodup →
      ∀ c1 ∈ K.mcpCodes, ∀ c2 ∈ K.mcpCodes,
        mcpResultToDrv K c1 = mcpResultToDrv K c2 → c1 = c2) ∧
    (∀ c, c ∉ K.mcpCodes → mcpResultToDrv K c = K.MC_DRV_ERR_MCP_ERROR) ∧
    (mcOpenSession K (some h) (some uuid) tci len env w).2.2.devices = w.devices ∧
    (mcOpenSession K (some h) (some uuid) tci len env w).2.2.connCount = w.connCount ∧
    (mcOpenSession K (some h) (some uuid) tci len env w).2.2.trace =
      w.trace ++ [Event.write device.connection
          (Cmd.MC_DRV_CMD_OPEN_SESSION h.deviceId uuid 0 pWsm.handle len) env.write,
        Event.read device.connection none env.response.rlen] := by
  have hsend : SEND_TO_DAEMON K env.write = none := SEND_TO_DAEMON_eq_none.2 hwrite
  have hmain : mcOpenSession K (some h) (some uuid) tci len env w =
      (openSessionError K env.response.data, some h,
        (w.write device.connection
          (Cmd.MC_DRV_CMD_OPEN_SESSION h.deviceId uuid 0 pWsm.handle len) env.write).read
          device.connection none env.response.rlen) := by
    simp [mcOpenSession, htci, not_lt.2 hlen, hdev, hwsm, not_lt.2 hfit, hsend, hrecv, hr]
  refine ⟨hmain, ?_, ?_, mcpResultToDrv_codes K, ?_, mcpResultToDrv_other K, ?_, ?_, ?_⟩
  · intro hmaj
    rw [hmain]
    simp [openSessionError, hmaj]
  · intro hmaj
    rw [hmain]
    simp [openSessionError, hmaj]
  · intro hc hk c1 h1 c2 h2 heq
    have hk' : (K.mcpCodes.map (mcpResultToDrv K)).Nodup := by
      rw [mcpResultToDrv_codes K hc]; exact hk
    exact List.inj_on_of_nodup_map hk' h1 h2 heq
  · rw [hmain]; rfl
  · rw [hmain]; rfl
  · rw [hmain]; simp

/-- A daemon that answers OPEN_SESSION with an MCP error of the sample table:
major part `22` (`MC_DRV_ERR_MCP_ERROR`), MCP part `3` (container locked). -/
def sampleMcpRefusedEnv : OpenSessionEnv :=
  { write := 36, response := ⟨4, 3 * 65536 + 22⟩, payload := ⟨12, ⟨9, 77, 1234⟩⟩,
    connect := true, nqWrite := 20, nqResponse := ⟨4, 0⟩ }

/-- C9, run on the sample world: the MCP error "container locked" comes back
as `MC_DRV_ERR_CONTAINER_LOCKED`, and the device table is as before. -/
theorem mcOpenSession_daemon_error_witness :
    (mcOpenSession sampleCodes (some ⟨0, 0⟩) (some 1) 4096 100 sampleMcpRefusedEnv
      sampleWorld).1 = sampleCodes.MC_DRV_ERR_CONTAINER_LOCKED ∧
    (mcOpenSession sampleCodes (some ⟨0, 0⟩) (some 1) 4096 100 sampleMcpRefusedEnv
      sampleWorld).2.2.devices = sampleWorld.devices :=
  ⟨((mcOpenSession_daemon_error sampleCodes ⟨0, 0⟩ 1 4096 100 sampleMcpRefusedEnv sampleWorld
      ⟨0, 0, [⟨7, 1, [], 0⟩], [⟨4096, 256, 3, 8192⟩]⟩ ⟨4096, 256, 3, 8192⟩ (by decide)
      (by decide) (by decide) (by decide) (by decide) (by decide) (by decide)
      (by decide)).2.2.1 (by decide)).trans (by decide),
    (mcOpenSession_daemon_error sampleCodes ⟨0, 0⟩ 1 4096 100 sampleMcpRefusedEnv sampleWorld
      ⟨0, 0, [⟨7, 1, [], 0⟩], [⟨4096, 256, 3, 8192⟩]⟩ ⟨4096, 256, 3, 8192⟩ (by decide)
      (by decide) (by decide) (by decide) (by decide) (by decide) (by decide)
      (by decide)).2.2.2.2.2.2.1⟩

/-! ## C10: terminal notifications and the stored exit code -/

/-- The socket history of a run of successive reads on connection `c`: the
first read has the given timeout, every later one has timeout `0`. -/
def readEvents (c : Nat) (timeout : Int) : List (Recv notification_t) → List Event
  | [] => []
  | r :: rest => Event.read c (some timeout) r.rlen :: readEvents c 0 rest

theorem waitIteration_complete_zero (K : DrvCodes) (h : mcSessionHandle_t) (c : Nat)
    (r : Recv notification_t) (timeout : Int) (count : Nat) (w : World)
    (hlen : r.rlen = sizeofNotification) (hp : r.data.payload = 0) :
    waitIteration K h c r timeout count w =
      LoopStep.next ((count + 1) % 2 ^ 32) (w.read c (some timeout) r.rlen) := by
  simp [waitIteration, hlen, hp, sizeofNotification]

theorem waitIteration_complete_exit (K : DrvCodes) (h : mcSessionHandle_t) (c : Nat)
    (r : Recv notification_t) (timeout : Int) (count : Nat) (w : World)
    (hlen : r.rlen = sizeofNotification) (hp : r.data.payload ≠ 0) :
    waitIteration K h c r timeout count w =
      LoopStep.done K.MC_DRV_INFO_NOTIFICATION
        { w.read c (some timeout) r.rlen with
          devices :=
            (modifySessionOf (fun s => s.setErrorInfo r.data.payload) w.devices
              h.deviceId h.sessionId) } := by
  simp [waitIteration, hlen, hp, sizeofNotification]

/-- The loop on complete records with payload `0` followed by a complete
record with another payload: it leaves at that record. -/
theorem waitLoop_stops (K : DrvCodes) (h : mcSessionHandle_t) (c : Nat)
    (zeros : List (Recv notification_t)) (r : Recv notification_t)
    (rest : List (Recv notification_t))
    (hz : ∀ z ∈ zeros, z.rlen = sizeofNotification ∧ z.data.payload = 0)
    (hlen : r.rlen = sizeofNotification) (hp : r.data.payload ≠ 0) :
    ∀ (timeout : Int) (count : Nat) (w : World),
      waitLoop K h c (zeros ++ r :: rest) timeout count w =
        (K.MC_DRV_INFO_NOTIFICATION,
          { devices :=
              modifySessionOf (fun s => s.setErrorInfo r.data.payload) w.devices
                h.deviceId h.sessionId,
            trace := w.trace ++ readEvents c timeout (zeros ++ [r]),
            connCount := w.connCount }) := by
  induction zeros with
  | nil =>
    intro timeout count w
    simp [waitLoop, waitIteration_complete_exit K h c r timeout count w hlen hp, readEvents,
      World.read]
  | cons z zs ih =>
    intro timeout count w
    have hz0 := hz z (List.mem_cons_self _ _)
    have hzs : ∀ x ∈ zs, x.rlen = sizeofNotification ∧ x.data.payload = 0 :=
      fun x hx => hz x (List.mem_cons_of_mem _ hx)
    have e : waitLoop K h c (z :: (zs ++ r :: rest)) timeout count w =
        waitLoop K h c (zs ++ r :: rest) 0 ((count + 1) % 2 ^ 32)
          (w.read c (some timeout) z.rlen) := by
      rw [waitLoop, waitIteration_complete_zero K h c z timeout count w hz0.1 hz0.2]
    rw [List.cons_append, e, ih hzs]
    simp [readEvents, World.read]

/-- The loop on complete records that all have payload `0`: it ends with
`MC_DRV_ERR_TIMEOUT` or `MC_DRV_OK` and the device table is unchanged. -/
theorem waitLoop_zeros (K : DrvCodes) (h : mcSessionHandle_t) (c : Nat)
    (zeros : List (Recv notification_t))
    (hz : ∀ z ∈ zeros, z.rlen = sizeofNotification ∧ z.data.payload = 0) :
    ∀ (timeout : Int) (count : Nat) (w : World),
      ((waitLoop K h c zeros timeout count w).1 = K.MC_DRV_ERR_TIMEOUT ∨
        (waitLoop K h c zeros timeout count w).1 = K.MC_DRV_OK) ∧
      (waitLoop K h c zeros timeout count w).2.devices = w.devices := by
  induction zeros with
  | nil =>
    intro timeout count w
    unfold waitLoop
    split <;> simp
  | cons z zs ih =>
    intro timeout count w
    have hz0 := hz z (List.mem_cons_self _ _)
    have hzs : ∀ x ∈ zs, x.rlen = sizeofNotification ∧ x.data.payload = 0 :=
      fun x hx => hz x (List.mem_cons_of_mem _ hx)
    have e : waitLoop K h c (z :: zs) timeout count w =
        waitLoop K h c zs 0 ((count + 1) % 2 ^ 32) (w.read c (some timeout) z.rlen) := by
      rw [waitLoop, waitIteration_complete_zero K h c z timeout count w hz0.1 hz0.2]
    rw [e]
    exact ih hzs 0 ((count + 1) % 2 ^ 32) (w.read c (some timeout) z.rlen)

/-- A list with a record of non-zero payload splits at the first such record. -/
theorem exists_first_nonzero (reads : List (Recv notification_t))
    (hex : ∃ r ∈ reads, r.data.payload ≠ 0) :
    ∃ zeros r rest, reads = zeros ++ r :: rest ∧ (∀ z ∈ zeros, z.data.payload = 0) ∧
      r.data.payload ≠ 0 := by
  induction reads with
  | nil => simp at hex
  | cons x xs ih =>
    by_cases hx : x.data.payload = 0
    · obtain ⟨r, hr, hp⟩ := hex
      have hr' : r ∈ xs := by
        rcases List.mem_cons.1 hr with rfl | hmem
        · exact absurd hx hp
        · exact hmem
      obtain ⟨zeros, r0, rest, heq, hz, hp0⟩ := ih ⟨r, hr', hp⟩
      refine ⟨x :: zeros, r0, rest, by simp [heq], ?_, hp0⟩
      intro z hzm
      rcases List.mem_cons.1 hzm with rfl | hmem
      · exact hx
      · exact hz z hmem
    · exact ⟨[], x, xs, rfl, by simp, hx⟩

theorem find_modifySession (f : Session → Session) (hf : ∀ x, (f x).sessionId = x.sessionId)
    (sessions : List Session) (sessionId : Nat) :
    (modifySession f sessions sessionId).find? (fun s => decide (s.sessionId = sessionId)) =
      (sessions.find? (fun s => decide (s.sessionId = sessionId))).map f := by
  induction sessions with
  | nil => simp [modifySession]
  | cons x rest ih =>
    by_cases hx : x.sessionId = sessionId
    · simp [modifySession, List.find?, hx, hf]
    · simp [modifySession, List.find?, hx, ih]

/-- After `setErrorInfo(err)` on session `h` of the table, `mcGetSessionErrorCode`
on `h` stores `err`. -/
theorem mcGetSessionErrorCode_after_set (K : DrvCodes) (h : mcSessionHandle_t) (err lastErr : Int)
    (w w1 : World) (device : Device) (nqSession : Session)
    (hdev : resolveDeviceId w.devices h.deviceId = some device)
    (hs : device.resolveSessionId h.sessionId = some nqSession)
    (hw1 : w1.devices =
      modifySessionOf (fun s => s.setErrorInfo err) w.devices h.deviceId h.sessionId) :
    mcGetSessionErrorCode K (some h) (some lastErr) w1 = (K.MC_DRV_OK, some err) := by
  have h1 : resolveDeviceId w1.devices h.deviceId =
      some { device with
        sessionList :=
          modifySession (fun s => s.setErrorInfo err) device.sessionList h.sessionId } := by
    rw [hw1, modifySessionOf, resolveDeviceId_modifyDevice
      (fun d => { d with
        sessionList := modifySession (fun s => s.setErrorInfo err) d.sessionList h.sessionId })
      (fun _ => rfl), hdev]
    rfl
  have h2 : Device.resolveSessionId
      { device with
        sessionList :=
          modifySession (fun s => s.setErrorInfo err) device.sessionList h.sessionId }
      h.sessionId = some (nqSession.setErrorInfo err) := by
    unfold Device.resolveSessionId at hs ⊢
    simp only
    rw [find_modifySession (fun s => s.setErrorInfo err) (fun _ => rfl), hs]
    rfl
  simp only [mcGetSessionErrorCode, h1, h2]
  rfl

/-- C10. For every known session `S` (handle `h`) and every sequence `reads`
of complete notification records readable on its notification connection,
with `MC_DRV_INFO_NOTIFICATION` different from `MC_DRV_OK` and from
`MC_DRV_ERR_TIMEOUT`: `mcWaitNotification` returns `MC_DRV_INFO_NOTIFICATION`
exactly when the sequence holds a record with `payload != 0`; it then stops at
the first such record (its reads are those of the records up to and including
that one, the first with the timeout of the caller and the later ones with
timeout `0`), and an immediately following `mcGetSessionErrorCode(S)` returns
`MC_DRV_OK` and stores the payload of that record in `*lastErr`; when every
record has `payload == 0` the device table, and with it the stored exit code
that `mcGetSessionErrorCode` reports, is unchanged. -/
theorem mcWaitNotification_terminal (K : DrvCodes)
    (hOk : K.MC_DRV_INFO_NOTIFICATION ≠ K.MC_DRV_OK)
    (hTimeout : K.MC_DRV_INFO_NOTIFICATION ≠ K.MC_DRV_ERR_TIMEOUT)
    (h : mcSessionHandle_t) (timeout : Int) (reads : List (Recv notification_t)) (w : World)
    (device : Device) (nqSession : Session)
    (hdev : resolveDeviceId w.devices h.deviceId = some device)
    (hs : device.resolveSessionId h.sessionId = some nqSession)
    (hcomplete : ∀ r ∈ reads, r.rlen = sizeofNotification) :
    ((mcWaitNotification K (some h) timeout reads w).1 = K.MC_DRV_INFO_NOTIFICATION ↔
      ∃ r ∈ reads, r.data.payload ≠ 0) ∧
    (∀ zeros r rest, reads = zeros ++ r :: rest → (∀ z ∈ zeros, z.data.payload = 0) →
      r.data.payload ≠ 0 →
      (mcWaitNotification K (some h) timeout reads w).1 = K.MC_DRV_INFO_NOTIFICATION ∧
      (mcWaitNotification K (some h) timeout reads w).2.trace =
        w.trace ++ readEvents nqSession.notificationConnection timeout (zeros ++ [r]) ∧
      ∀ lastErr, mcGetSessionErrorCode K (some h) (some lastErr)
        (mcWaitNotification K (some h) timeout reads w).2 =
          (K.MC_DRV_OK, some r.data.payload)) ∧
    ((∀ r ∈ reads, r.data.payload = 0) →
      (mcWaitNotification K (some h) timeout reads w).2.devices = w.devices ∧
      ∀ lastErr, mcGetSessionErrorCode K (some h) (some lastErr)
        (mcWaitNotification K (some h) timeout reads w).2 =
          mcGetSessionErrorCode K (some h) (some lastErr) w) := by
  have hwait : mcWaitNotification K (some h) timeout reads w =
      waitLoop K h nqSession.notificationConnection reads timeout 0 w := by
    simp [mcWaitNotification, hdev, hs]
  have hstop : ∀ zeros r rest, reads = zeros ++ r :: rest →
      (∀ z ∈ zeros, z.data.payload = 0) → r.data.payload ≠ 0 →
      mcWaitNotification K (some h) timeout reads w =
        (K.MC_DRV_INFO_NOTIFICATION,
          { devices :=
              modifySessionOf (fun s => s.setErrorInfo r.data.payload) w.devices
                h.deviceId h.sessionId,
            trace := w.trace ++
              readEvents nqSession.notificationConnection timeout (zeros ++ [r]),
            connCount := w.connCount }) := by
    intro zeros r rest heq hz hp
    rw [hwait, heq]
    apply waitLoop_stops K h _ zeros r rest _ _ hp
    · intro z hzm
      exact ⟨hcomplete z (heq ▸ List.mem_append_left _ hzm), hz z hzm⟩
    · exact hcomplete r (heq ▸ List.mem_append_right _ (List.mem_cons_self _ _))
  have hzero : (∀ r ∈ reads, r.data.payload = 0) →
      ((mcWaitNotification K (some h) timeout reads w).1 = K.MC_DRV_ERR_TIMEOUT ∨
        (mcWaitNotification K (some h) timeout reads w).1 = K.MC_DRV_OK) ∧
      (mcWaitNotification K (some h) timeout reads w).2.devices = w.devices := by
    intro hall
    rw [hwait]
    exact waitLoop_zeros K h _ reads (fun z hzm => ⟨hcomplete z hzm, hall z hzm⟩) timeout 0 w
  refine ⟨⟨?_, ?_⟩, ?_, ?_⟩
  · intro hinfo
    by_contra hno
    have hall : ∀ r ∈ reads, r.data.payload = 0 := by
      intro r hr
      by_contra hp
      exact hno ⟨r, hr, hp⟩
    rcases (hzero hall).1 with ht | ho
    · exact hTimeout (hinfo.symm.trans ht)
    · exact hOk (hinfo.symm.trans ho)
  · intro hex
    obtain ⟨zeros, r, rest, heq, hz, hp⟩ := exists_first_nonzero reads hex
    rw [hstop zeros r rest heq hz hp]
  · intro zeros r rest heq hz hp
    rw [hstop zeros r rest heq hz hp]
    refine ⟨rfl, rfl, fun lastErr => ?_⟩
    exact mcGetSessionErrorCode_after_set K h r.data.payload lastErr w _ device nqSession
      hdev hs rfl
  · intro hall
    refine ⟨(hzero hall).2, fun lastErr => ?_⟩
    simp only [mcGetSessionErrorCode, (hzero hall).2]

/-- C10, run on the sample world: on the notification connection of session
`7` two records with payload `0` are followed by one with payload `0xDEAD` and
by a further record; the wait returns `MC_DRV_INFO_NOTIFICATION` after three
reads and `mcGetSessionErrorCode` then stores `0xDEAD`. -/
theorem mcWaitNotification_terminal_witness :
    (mcWaitNotification sampleCodes (some ⟨7, 0⟩) (-1)
      [⟨8, ⟨7, 0⟩⟩, ⟨8, ⟨7, 0⟩⟩, ⟨8, ⟨7, 0xDEAD⟩⟩, ⟨8, ⟨7, 5⟩⟩] sampleWorld).1 =
      sampleCodes.MC_DRV_INFO_NOTIFICATION ∧
    (mcWaitNotification sampleCodes (some ⟨7, 0⟩) (-1)
      [⟨8, ⟨7, 0⟩⟩, ⟨8, ⟨7, 0⟩⟩, ⟨8, ⟨7, 0xDEAD⟩⟩, ⟨8, ⟨7, 5⟩⟩] sampleWorld).2.trace =
      [Event.read 1 (some (-1)) 8, Event.read 1 (some 0) 8, Event.read 1 (some 0) 8] ∧
    mcGetSessionErrorCode sampleCodes (some ⟨7, 0⟩) (some 0)
      (mcWaitNotification sampleCodes (some ⟨7, 0⟩) (-1)
        [⟨8, ⟨7, 0⟩⟩, ⟨8, ⟨7, 0⟩⟩, ⟨8, ⟨7, 0xDEAD⟩⟩, ⟨8, ⟨7, 5⟩⟩] sampleWorld).2 =
      (sampleCodes.MC_DRV_OK, some 0xDEAD) :=
  have key := (mcWaitNotification_terminal sampleCodes (by decide) (by decide) ⟨7, 0⟩ (-1)
    [⟨8, ⟨7, 0⟩⟩, ⟨8, ⟨7, 0⟩⟩, ⟨8, ⟨7, 0xDEAD⟩⟩, ⟨8, ⟨7, 5⟩⟩] sampleWorld
    ⟨0, 0, [⟨7, 1, [], 0⟩], [⟨4096, 256, 3, 8192⟩]⟩ ⟨7, 1, [], 0⟩ (by decide) (by decide)
    (by decide)).2.1 [⟨8, ⟨7, 0⟩⟩, ⟨8, ⟨7, 0⟩⟩] ⟨8, ⟨7, 0xDEAD⟩⟩ [⟨8, ⟨7, 5⟩⟩] rfl (by decide)
    (by decide)
  ⟨key.1, key.2.1, key.2.2 0⟩

/-! ## C11: `MC_DRV_ERR_TIMEOUT` and the first read -/

/-- The loop on complete records with payload `0` followed by further reads:
the records are read, the first with the given timeout and the later ones with
timeout `0`, `count` is incremented once for each (as a `uint32_t`), and the
loop goes on with the further reads. -/
theorem waitLoop_skip_zeros (K : DrvCodes) (h : mcSessionHandle_t) (c : Nat)
    (zeros rest : List (Recv notification_t))
    (hz : ∀ z ∈ zeros, z.rlen = sizeofNotification ∧ z.data.payload = 0) :
    ∀ (timeout : Int) (count : Nat) (w : World), count < 2 ^ 32 →
      waitLoop K h c (zeros ++ rest) timeout count w =
        waitLoop K h c rest (if zeros = [] then timeout else 0)
          ((count + zeros.length) % 2 ^ 32)
          { devices := w.devices, trace := w.trace ++ readEvents c timeout zeros,
            connCount := w.connCount } := by
  induction zeros with
  | nil =>
    intro timeout count w hc
    cases w
    simp only [List.nil_append, readEvents, List.append_nil, List.length_nil, Nat.add_zero,
      Nat.mod_eq_of_lt hc, if_true]
  | cons z zs ih =>
    intro timeout count w hc
    have hz0 := hz z (List.mem_cons_self _ _)
    have hzs : ∀ x ∈ zs, x.rlen = sizeofNotification ∧ x.data.payload = 0 :=
      fun x hx => hz x (List.mem_cons_of_mem _ hx)
    have e : waitLoop K h c (z :: (zs ++ rest)) timeout count w =
        waitLoop K h c (zs ++ rest) 0 ((count + 1) % 2 ^ 32)
          (w.read c (some timeout) z.rlen) := by
      rw [waitLoop, waitIteration_complete_zero K h c z timeout count w hz0.1 hz0.2]
    rw [List.cons_append, e, ih hzs 0 _ _ (Nat.mod_lt _ (by norm_num))]
    have harith : ((count + 1) % 2 ^ 32 + zs.length) % 2 ^ 32 =
        (count + (z :: zs).length) % 2 ^ 32 := by
      simp only [List.length_cons]
      omega
    rw [harith]
    simp [readEvents, World.read]

/-- A read that finds no data (`-2`): `MC_DRV_ERR_TIMEOUT` when `count` is `0`,
`MC_DRV_OK` otherwise; the device table is unchanged. -/
theorem waitLoop_no_data (K : DrvCodes) (h : mcSessionHandle_t) (c : Nat)
    (r : Recv notification_t) (rest : List (Recv notification_t)) (timeout : Int)
    (count : Nat) (w : World) (hr : r.rlen = -2) :
    waitLoop K h c (r :: rest) timeout count w =
      (if count = 0 then K.MC_DRV_ERR_TIMEOUT else K.MC_DRV_OK,
        w.read c (some timeout) r.rlen) := by
  by_cases hc : count = 0
  · simp [waitLoop, waitIteration, hr, hc]
  · simp [waitLoop, waitIteration, hr, hc, sizeofNotification]

/-- A read of zero bytes: when `count` is `0` the device is removed and the
result is `MC_DRV_ERR_NOTIFICATION`; otherwise the result is `MC_DRV_OK` and
the device table is unchanged. -/
theorem waitLoop_closed (K : DrvCodes) (h : mcSessionHandle_t) (c : Nat)
    (r : Recv notification_t) (rest : List (Recv notification_t)) (timeout : Int)
    (count : Nat) (w : World) (hr : r.rlen = 0) :
    waitLoop K h c (r :: rest) timeout count w =
      if count = 0 then
        (K.MC_DRV_ERR_NOTIFICATION,
          { w.read c (some timeout) r.rlen with
            devices := (removeDevice w.devices h.deviceId).2 })
      else (K.MC_DRV_OK, w.read c (some timeout) r.rlen) := by
  by_cases hc : count = 0
  · simp [waitLoop, waitIteration, hr, hc]
  · simp [waitLoop, waitIteration, hr, hc, sizeofNotification]

/-- While `count` is not `0` and cannot wrap within the pending reads, the
loop does not end with `MC_DRV_ERR_TIMEOUT`. -/
theorem waitLoop_not_timeout (K : DrvCodes) (hOk : K.MC_DRV_ERR_TIMEOUT ≠ K.MC_DRV_OK)
    (hInfo : K.MC_DRV_ERR_TIMEOUT ≠ K.MC_DRV_INFO_NOTIFICATION) (h : mcSessionHandle_t)
    (c : Nat) (reads : List (Recv notification_t)) :
    ∀ (timeout : Int) (count : Nat) (w : World), 0 < count →
      count + reads.length < 2 ^ 32 →
      (waitLoop K h c reads timeout count w).1 ≠ K.MC_DRV_ERR_TIMEOUT := by
  induction reads with
  | nil =>
    intro timeout count w hpos _
    have hc : count ≠ 0 := Nat.pos_iff_ne_zero.1 hpos
    simp [waitLoop, hc, Ne.symm hOk]
  | cons r rest ih =>
    intro timeout count w hpos hlen
    have hc : count ≠ 0 := Nat.pos_iff_ne_zero.1 hpos
    simp only [List.length_cons] at hlen
    by_cases h8 : r.rlen = sizeofNotification
    · by_cases hp : r.data.payload = 0
      · rw [waitLoop, waitIteration_complete_zero K h c r timeout count w h8 hp]
        have hmod : (count + 1) % 2 ^ 32 = count + 1 := Nat.mod_eq_of_lt (by omega)
        rw [hmod]
        exact ih 0 (count + 1) _ (by omega) (by omega)
      · rw [waitLoop, waitIteration_complete_exit K h c r timeout count w h8 hp]
        exact Ne.symm hInfo
    · simp [waitLoop, waitIteration, hc, h8, Ne.symm hOk]

/-- The claim of C11 below the wrap of `count`. For a known session and fewer
than `2^32` pending reads, with `MC_DRV_ERR_TIMEOUT` different from
`MC_DRV_OK`, `MC_DRV_INFO_NOTIFICATION` and `MC_DRV_ERR_NOTIFICATION`:
`mcWaitNotification` returns `MC_DRV_ERR_TIMEOUT` if and only if its first read
finds no data (is `-2`, which is also what a read returns when nothing is
pending); and after one or more complete records with payload `0`, a read that
finds no data ends the call with `MC_DRV_OK`, the first read having the
timeout of the caller and the later ones timeout `0`. -/
theorem mcWaitNotification_timeout_below_wrap (K : DrvCodes)
    (hOk : K.MC_DRV_ERR_TIMEOUT ≠ K.MC_DRV_OK)
    (hInfo : K.MC_DRV_ERR_TIMEOUT ≠ K.MC_DRV_INFO_NOTIFICATION)
    (hNot : K.MC_DRV_ERR_TIMEOUT ≠ K.MC_DRV_ERR_NOTIFICATION)
    (h : mcSessionHandle_t) (timeout : Int) (reads : List (Recv notification_t)) (w : World)
    (device : Device) (nqSession : Session)
    (hdev : resolveDeviceId w.devices h.deviceId = some device)
    (hs : device.resolveSessionId h.sessionId = some nqSession)
    (hbound : reads.length < 2 ^ 32) :
    ((mcWaitNotification K (some h) timeout reads w).1 = K.MC_DRV_ERR_TIMEOUT ↔
      ∀ r ∈ reads.head?, r.rlen = -2) ∧
    (∀ zeros r rest, reads = zeros ++ r :: rest → zeros ≠ [] →
      (∀ z ∈ zeros, z.rlen = sizeofNotification ∧ z.data.payload = 0) → r.rlen = -2 →
      mcWaitNotification K (some h) timeout reads w =
        (K.MC_DRV_OK,
          { devices := w.devices,
            trace := w.trace ++ readEvents nqSession.notificationConnection timeout zeros ++
              [Event.read nqSession.notificationConnection (some 0) (-2)],
            connCount := w.connCount })) := by
  have hwait : mcWaitNotification K (some h) timeout reads w =
      waitLoop K h nqSession.notificationConnection reads timeout 0 w := by
    simp [mcWaitNotification, hdev, hs]
  constructor
  · rw [hwait]
    cases reads with
    | nil => simp [waitLoop]
    | cons r rest =>
      simp only [List.head?_cons, Option.mem_def, Option.some.injEq, forall_eq']
      simp only [List.length_cons] at hbound
      by_cases hr : r.rlen = -2
      · simp [waitLoop_no_data K h _ r rest timeout 0 w hr, hr]
      · simp only [hr, iff_false]
        by_cases h8 : r.rlen = sizeofNotification
        · by_cases hp : r.data.payload = 0
          · rw [waitLoop, waitIteration_complete_zero K h _ r timeout 0 w h8 hp]
            exact waitLoop_not_timeout K hOk hInfo h _ rest 0 _ _ (by norm_num)
              (by norm_num; omega)
          · rw [waitLoop, waitIteration_complete_exit K h _ r timeout 0 w h8 hp]
            exact Ne.symm hInfo
        · by_cases h0 : r.rlen = 0
          · rw [waitLoop_closed K h _ r rest timeout 0 w h0]
            simpa using Ne.symm hNot
          · simp [waitLoop, waitIteration, hr, h0, h8, Ne.symm hNot]
  · intro zeros r rest heq hne hz hr
    rw [hwait, heq, waitLoop_skip_zeros K h _ zeros (r :: rest) hz timeout 0 w (by norm_num),
      waitLoop_no_data K h _ r rest _ _ _ hr]
    have hlen : zeros.length < 2 ^ 32 := by
      have := congrArg List.length heq
      simp only [List.length_append, List.length_cons] at this
      omega
    have hpos : 0 < zeros.length := List.length_pos.2 hne
    have hmod : (0 + zeros.length) % 2 ^ 32 ≠ 0 := by
      rw [Nat.zero_add, Nat.mod_eq_of_lt hlen]
      omega
    simp only [if_neg hmod, if_neg hne, hr, World.read]

/-- C11 fails on the code at the wrap of the `uint32_t` counter `count`: when
`2^32` complete records with payload `0` have been read in one call (sample
world, session `7`) and the next read finds no data, `count` is `0` again and
the call ends with `MC_DRV_ERR_TIMEOUT`, although its first read returned a
complete record; one record fewer gives `MC_DRV_OK`. -/
theorem mcWaitNotification_timeout_after_wrap :
    (List.replicate (2 ^ 32) (⟨8, ⟨7, 0⟩⟩ : Recv notification_t)).head? = some ⟨8, ⟨7, 0⟩⟩ ∧
    (mcWaitNotification sampleCodes (some ⟨7, 0⟩) (-1)
      (List.replicate (2 ^ 32) ⟨8, ⟨7, 0⟩⟩) sampleWorld).1 = sampleCodes.MC_DRV_ERR_TIMEOUT ∧
    (mcWaitNotification sampleCodes (some ⟨7, 0⟩) (-1)
      (List.replicate (2 ^ 32 - 1) ⟨8, ⟨7, 0⟩⟩) sampleWorld).1 = sampleCodes.MC_DRV_OK := by
  have hz : ∀ n : Nat, ∀ z ∈ List.replicate n (⟨8, ⟨7, 0⟩⟩ : Recv notification_t),
      z.rlen = sizeofNotification ∧ z.data.payload = 0 := by
    intro n z hzm
    rw [List.eq_of_mem_replicate hzm]
    exact ⟨rfl, rfl⟩
  have hwait : ∀ reads, mcWaitNotification sampleCodes (some ⟨7, 0⟩) (-1) reads sampleWorld =
      waitLoop sampleCodes ⟨7, 0⟩ 1 reads (-1) 0 sampleWorld := by
    intro reads
    rfl
  have hskip := fun n => waitLoop_skip_zeros sampleCodes ⟨7, 0⟩ 1
    (List.replicate n ⟨8, ⟨7, 0⟩⟩) [] (hz n) (-1) 0 sampleWorld (by norm_num)
  simp only [List.append_nil, List.length_replicate, Nat.zero_add] at hskip
  refine ⟨?_, ?_, ?_⟩
  · rw [show (2 : Nat) ^ 32 = (2 ^ 32 - 1) + 1 from by norm_num, List.replicate_succ]
    rfl
  · rw [hwait, hskip, Nat.mod_self]
    rfl
  · rw [hwait, hskip, Nat.mod_eq_of_lt (by norm_num)]
    rfl

/-! ## C12: a read of zero bytes -/

/-- C12, as stated, fails when the read of zero bytes is not the first read of
the call. On the sample world, session `7` of device `0`: one complete record
with payload `0` is read, the next read returns zero bytes; the call ends with
`MC_DRV_OK` and device `0` is still in the device table. -/
theorem mcWaitNotification_closed_after_record :
    (mcWaitNotification sampleCodes (some ⟨7, 0⟩) (-1) [⟨8, ⟨7, 0⟩⟩, ⟨0, ⟨0, 0⟩⟩]
      sampleWorld).1 = sampleCodes.MC_DRV_OK ∧
    sampleCodes.MC_DRV_OK ≠ sampleCodes.MC_DRV_ERR_NOTIFICATION ∧
    (mcWaitNotification sampleCodes (some ⟨7, 0⟩) (-1) [⟨8, ⟨7, 0⟩⟩, ⟨0, ⟨0, 0⟩⟩]
      sampleWorld).2.trace = [Event.read 1 (some (-1)) 8, Event.read 1 (some 0) 0] ∧
    (mcWaitNotification sampleCodes (some ⟨7, 0⟩) (-1) [⟨8, ⟨7, 0⟩⟩, ⟨0, ⟨0, 0⟩⟩]
      sampleWorld).2.devices = sampleWorld.devices ∧
    resolveDeviceId (mcWaitNotification sampleCodes (some ⟨7, 0⟩) (-1)
      [⟨8, ⟨7, 0⟩⟩, ⟨0, ⟨0, 0⟩⟩] sampleWorld).2.devices 0 ≠ none := by
  decide

/-- C12, amended. For every call of `mcWaitNotification` on a known session,
in a device table with unique device ids: if the first read returns zero
bytes, the call ends with `MC_DRV_ERR_NOTIFICATION` and the device of the
session has been removed from the device table (its id does not resolve any
more); if a read returns zero bytes after one or more (fewer than `2^32`)
complete records with payload `0` were read in the same call, the call ends
with `MC_DRV_OK` and the device table is unchanged. -/
theorem mcWaitNotification_zero_bytes (K : DrvCodes) (h : mcSessionHandle_t) (timeout : Int)
    (w : World) (device : Device) (nqSession : Session)
    (hunique : DeviceIdsUnique w.devices)
    (hdev : resolveDeviceId w.devices h.deviceId = some device)
    (hs : device.resolveSessionId h.sessionId = some nqSession) :
    (∀ r rest, r.rlen = 0 →
      (mcWaitNotification K (some h) timeout (r :: rest) w).1 = K.MC_DRV_ERR_NOTIFICATION ∧
      (mcWaitNotification K (some h) timeout (r :: rest) w).2.devices =
        (removeDevice w.devices h.deviceId).2 ∧
      resolveDeviceId (mcWaitNotification K (some h) timeout (r :: rest) w).2.devices
        h.deviceId = none) ∧
    (∀ zeros r rest, zeros ≠ [] → zeros.length < 2 ^ 32 →
      (∀ z ∈ zeros, z.rlen = sizeofNotification ∧ z.data.payload = 0) → r.rlen = 0 →
      (mcWaitNotification K (some h) timeout (zeros ++ r :: rest) w).1 = K.MC_DRV_OK ∧
      (mcWaitNotification K (some h) timeout (zeros ++ r :: rest) w).2.devices = w.devices ∧
      resolveDeviceId (mcWaitNotification K (some h) timeout (zeros ++ r :: rest) w).2.devices
        h.deviceId = some device) := by
  have hwait : ∀ reads, mcWaitNotification K (some h) timeout reads w =
      waitLoop K h nqSession.notificationConnection reads timeout 0 w := by
    intro reads
    simp [mcWaitNotification, hdev, hs]
  constructor
  · intro r rest hr
    rw [hwait, waitLoop_closed K h _ r rest timeout 0 w hr]
    rw [if_pos rfl]
    exact ⟨rfl, rfl, hunique.resolve_removeDevice h.deviceId⟩
  · intro zeros r rest hne hlen hz hr
    have hpos : 0 < zeros.length := List.length_pos.2 hne
    have hmod : (0 + zeros.length) % 2 ^ 32 ≠ 0 := by
      rw [Nat.zero_add, Nat.mod_eq_of_lt hlen]
      omega
    rw [hwait, waitLoop_skip_zeros K h _ zeros (r :: rest) hz timeout 0 w (by norm_num),
      waitLoop_closed K h _ r rest _ _ _ hr]
    rw [if_neg hmod]
    exact ⟨rfl, rfl, hdev⟩

/-- C12 amended, run on the sample world: a first read of zero bytes removes
device `0`; a read of zero bytes after one complete record does not. -/
theorem mcWaitNotification_zero_bytes_witness :
    ((mcWaitNotification sampleCodes (some ⟨7, 0⟩) (-1) [⟨0, ⟨0, 0⟩⟩] sampleWorld).1 =
        sampleCodes.MC_DRV_ERR_NOTIFICATION ∧
      resolveDeviceId (mcWaitNotification sampleCodes (some ⟨7, 0⟩) (-1) [⟨0, ⟨0, 0⟩⟩]
        sampleWorld).2.devices 0 = none) ∧
    (mcWaitNotification sampleCodes (some ⟨7, 0⟩) (-1) ([⟨8, ⟨7, 0⟩⟩] ++ [⟨0, ⟨0, 0⟩⟩])
      sampleWorld).1 = sampleCodes.MC_DRV_OK :=
  have key := mcWaitNotification_zero_bytes sampleCodes ⟨7, 0⟩ (-1) sampleWorld
    ⟨0, 0, [⟨7, 1, [], 0⟩], [⟨4096, 256, 3, 8192⟩]⟩ ⟨7, 1, [], 0⟩ (by decide) (by decide)
    (by decide)
  ⟨⟨(key.1 ⟨0, ⟨0, 0⟩⟩ [] rfl).1, (key.1 ⟨0, ⟨0, 0⟩⟩ [] rfl).2.2⟩,
    (key.2 [⟨8, ⟨7, 0⟩⟩] ⟨0, ⟨0, 0⟩⟩ [] (by decide) (by decide) (by decide) rfl).1⟩

/-! ## C13: socket errors on the device connection -/

theorem mcCloseSessionBody_unique (K : DrvCodes) (session : Option mcSessionHandle_t)
    (env : CmdEnv) (w : World) (h : DeviceIdsUnique w.devices) :
    DeviceIdsUnique (mcCloseSessionBody K session env w).2.devices := by
  unfold mcCloseSessionBody
  simp only
  repeat' split
  all_goals first
    | exact h
    | (apply DeviceIdsUnique.modify h; intro x; rfl)

theorem mcUnmapBody_unique (K : DrvCodes) (session : Option mcSessionHandle_t) (buf : Nat)
    (mapInfo : Option mcBulkMap_t) (env : UnmapEnv) (w : World) (h : DeviceIdsUnique w.devices) :
    DeviceIdsUnique (mcUnmapBody K session buf mapInfo env w).2.devices := by
  unfold mcUnmapBody
  simp only
  repeat' split
  all_goals first
    | exact h
    | exact h.modifyS _ _ _

theorem mcNotifyBody_devices (K : DrvCodes) (session : Option mcSessionHandle_t) (write : Int)
    (w : World) : (mcNotifyBody K session write w).2.devices = w.devices := by
  unfold mcNotifyBody
  simp only
  repeat' split
  all_goals rfl

theorem modifySessionOf_deviceIds (f : Session → Session) (devices : List Device)
    (deviceId sessionId : Nat) :
    (modifySessionOf f devices deviceId sessionId).map Device.deviceId =
      devices.map Device.deviceId := by
  unfold modifySessionOf
  apply modifyDevice_deviceIds
  intro x
  rfl

/-- `mcOpenSession` never changes which device ids are in the device table. -/
theorem mcOpenSession_deviceIds (K : DrvCodes) (session : Option mcSessionHandle_t)
    (uuid : Option Nat) (tci len : Nat) (env : OpenSessionEnv) (w : World) :
    (mcOpenSession K session uuid tci len env w).2.2.devices.map Device.deviceId =
      w.devices.map Device.deviceId := by
  unfold mcOpenSession
  simp only
  repeat' split
  all_goals
    try simp only [World.read_devices, World.write_devices, nqConnect_devices,
      World.connect_devices]
  all_goals first
    | rfl
    | (apply modifyDevice_deviceIds; intro x; rfl)

/-- `mcMap` never changes which device ids are in the device table. -/
theorem mcMap_deviceIds (K : DrvCodes) (session : Option mcSessionHandle_t) (buf bufLen : Nat)
    (mapInfo : Option mcBulkMap_t) (env : MapEnv) (w : World) :
    (mcMap K session buf bufLen mapInfo env w).2.2.devices.map Device.deviceId =
      w.devices.map Device.deviceId := by
  unfold mcMap
  simp only
  repeat' split
  all_goals
    try simp only [World.read_devices, World.write_devices]
  all_goals first
    | rfl
    | exact modifySessionOf_deviceIds _ _ _ _
    | (rw [modifySessionOf_deviceIds]; exact modifySessionOf_deviceIds _ _ _ _)

/-- A device id resolves exactly when it is among the ids of the table. -/
theorem resolveDeviceId_isSome_iff (devices : List Device) (deviceId : Nat) :
    (resolveDeviceId devices deviceId).isSome = true ↔
      deviceId ∈ devices.map Device.deviceId := by
  rw [List.mem_map]
  constructor
  · intro hsome
    obtain ⟨device, hd⟩ := Option.isSome_iff_exists.1 hsome
    exact ⟨device, (resolveDeviceId_some hd).1, (resolveDeviceId_some hd).2⟩
  · rintro ⟨x, hx, hid⟩
    obtain ⟨device, hd⟩ := resolveDeviceId_isSome_of_mem ⟨x, hx, hid⟩
    simp [hd]

/-- C13, as stated, fails for `mcOpenSession`. On the sample world the write
of the OPEN_SESSION command on the device connection fails (`writeData`
returns `-1`); `mcOpenSession` returns `MC_DRV_ERR_SOCKET_WRITE` and device `0`
is still in the device table. -/
theorem mcOpenSession_socket_write_keeps_device :
    (mcOpenSession sampleCodes (some ⟨0, 0⟩) (some 1) 4096 100
      { sampleOpenSessionEnv with write := -1 } sampleWorld).1 =
      sampleCodes.MC_DRV_ERR_SOCKET_WRITE ∧
    (mcOpenSession sampleCodes (some ⟨0, 0⟩) (some 1) 4096 100
      { sampleOpenSessionEnv with write := -1 } sampleWorld).2.2.trace =
      [Event.write 0 (Cmd.MC_DRV_CMD_OPEN_SESSION 0 1 0 3 100) (-1)] ∧
    resolveDeviceId (mcOpenSession sampleCodes (some ⟨0, 0⟩) (some 1) 4096 100
      { sampleOpenSessionEnv with write := -1 } sampleWorld).2.2.devices 0 ≠ none := by
  decide

/-- C13, amended. In a device table with unique device ids, for a handle `h`:
if `mcCloseSession` or `mcUnmap` returns `MC_DRV_ERR_SOCKET_WRITE` or
`MC_DRV_ERR_SOCKET_READ`, or `mcNotify` returns `MC_DRV_ERR_SOCKET_WRITE`, the
device named by the handle is no longer in the device table when the operation
returns. `mcOpenSession` and `mcMap`, in which the removal is commented out,
keep every device of the table in the table, whatever they return: a device id
resolves after the call exactly when it resolved before. -/
theorem socket_error_device_removal (K : DrvCodes) (w : World) (h : mcSessionHandle_t)
    (hunique : DeviceIdsUnique w.devices) :
    (∀ env, (mcCloseSession K (some h) env w).1 = K.MC_DRV_ERR_SOCKET_WRITE ∨
        (mcCloseSession K (some h) env w).1 = K.MC_DRV_ERR_SOCKET_READ →
      resolveDeviceId (mcCloseSession K (some h) env w).2.devices h.deviceId = none) ∧
    (∀ buf mapInfo env, (mcUnmap K (some h) buf mapInfo env w).1 = K.MC_DRV_ERR_SOCKET_WRITE ∨
        (mcUnmap K (some h) buf mapInfo env w).1 = K.MC_DRV_ERR_SOCKET_READ →
      resolveDeviceId (mcUnmap K (some h) buf mapInfo env w).2.devices h.deviceId = none) ∧
    (∀ write, (mcNotify K (some h) write w).1 = K.MC_DRV_ERR_SOCKET_WRITE →
      resolveDeviceId (mcNotify K (some h) write w).2.devices h.deviceId = none) ∧
    (∀ uuid tci len env d,
      (resolveDeviceId (mcOpenSession K (some h) uuid tci len env w).2.2.devices d).isSome =
        (resolveDeviceId w.devices d).isSome) ∧
    (∀ buf bufLen mapInfo env d,
      (resolveDeviceId (mcMap K (some h) buf bufLen mapInfo env w).2.2.devices d).isSome =
        (resolveDeviceId w.devices d).isSome) := by
  refine ⟨?_, ?_, ?_, ?_, ?_⟩
  · intro env hres
    have hb := mcCloseSessionBody_unique K (some h) env w hunique
    unfold mcCloseSession at hres ⊢
    simp only at hres ⊢
    simp only [removeDeviceIfDead, hres, if_true]
    exact hb.resolve_removeDevice h.deviceId
  · intro buf mapInfo env hres
    have hb := mcUnmapBody_unique K (some h) buf mapInfo env w hunique
    unfold mcUnmap at hres ⊢
    simp only at hres ⊢
    simp only [removeDeviceIfDead, hres, if_true]
    exact hb.resolve_removeDevice h.deviceId
  · intro write hres
    have hb : DeviceIdsUnique (mcNotifyBody K (some h) write w).2.devices := by
      rw [mcNotifyBody_devices]; exact hunique
    unfold mcNotify at hres ⊢
    simp only at hres ⊢
    simp only [hres, if_true]
    exact hb.resolve_removeDevice h.deviceId
  · intro uuid tci len env d
    rw [Bool.eq_iff_iff, resolveDeviceId_isSome_iff, resolveDeviceId_isSome_iff,
      mcOpenSession_deviceIds]
  · intro buf bufLen mapInfo env d
    rw [Bool.eq_iff_iff, resolveDeviceId_isSome_iff, resolveDeviceId_isSome_iff,
      mcMap_deviceIds]

/-- C13 amended, run on the sample world: the write of CLOSE_SESSION fails and
device `0` is gone afterwards. -/
theorem socket_error_device_removal_witness :
    (mcCloseSession sampleCodes (some ⟨7, 0⟩) ⟨-1, ⟨4, 0⟩⟩ sampleWorld).1 =
      sampleCodes.MC_DRV_ERR_SOCKET_WRITE ∧
    resolveDeviceId (mcCloseSession sampleCodes (some ⟨7, 0⟩) ⟨-1, ⟨4, 0⟩⟩
      sampleWorld).2.devices 0 = none :=
  ⟨by decide,
    (socket_error_device_removal sampleCodes sampleWorld ⟨7, 0⟩ (by decide)).1 ⟨-1, ⟨4, 0⟩⟩
      (Or.inl (by decide))⟩

/-! ## C14: `mcMap` after a successful registration -/

theorem modifySession_modifySession (f g : Session → Session)
    (hf : ∀ x, (f x).sessionId = x.sessionId) (sessions : List Session) (sessionId : Nat) :
    modifySession g (modifySession f sessions sessionId) sessionId =
      modifySession (fun s => g (f s)) sessions sessionId := by
  induction sessions with
  | nil => simp [modifySession]
  | cons x rest ih =>
    by_cases hx : x.sessionId = sessionId
    · simp [modifySession, hx, hf]
    · simp [modifySession, hx, ih]

theorem modifySession_eq_self (f : Session → Session) (sessions : List Session)
    (sessionId : Nat) (session : Session)
    (hs : sessions.find? (fun s => decide (s.sessionId = sessionId)) = some session)
    (hfix : f session = session) : modifySession f sessions sessionId = sessions := by
  induction sessions with
  | nil => simp [modifySession]
  | cons x rest ih =>
    by_cases hx : x.sessionId = sessionId
    · simp only [List.find?, hx, decide_True, Option.some.injEq] at hs
      subst hs
      simp [modifySession, hx, hfix]
    · simp only [List.find?, hx, decide_False] at hs
      simp [modifySession, hx, ih hs]

theorem modifySessionOf_modifySessionOf (f g : Session → Session)
    (hf : ∀ x, (f x).sessionId = x.sessionId) (devices : List Device)
    (deviceId sessionId : Nat) :
    modifySessionOf g (modifySessionOf f devices deviceId sessionId) deviceId sessionId =
      modifySessionOf (fun s => g (f s)) devices deviceId sessionId := by
  unfold modifySessionOf
  rw [modifyDevice_modifyDevice
    (fun d => { d with sessionList := modifySession f d.sessionList sessionId })
    (fun d => { d with sessionList := modifySession g d.sessionList sessionId })
    (fun _ => rfl)]
  simp only [modifySession_modifySession f g hf]

theorem modifySessionOf_eq_self (f : Session → Session) (devices : List Device)
    (deviceId sessionId : Nat) (device : Device) (session : Session)
    (hd : resolveDeviceId devices deviceId = some device)
    (hs : device.resolveSessionId sessionId = some session) (hfix : f session = session) :
    modifySessionOf f devices deviceId sessionId = devices := by
  unfold modifySessionOf
  apply modifyDevice_eq_self _ _ _ device hd
  simp only [modifySession_eq_self f device.sessionList sessionId session hs hfix]

theorem setSecureAddr_append_fresh (old : List BulkBufferDescriptor) (b : BulkBufferDescriptor)
    (sva : Nat) (hfresh : old.any (fun x => decide (x.virtAddr = b.virtAddr)) = false) :
    setSecureAddr sva (old ++ [b]) b.virtAddr = old ++ [{ b with sVirtualAddr := sva }] := by
  induction old with
  | nil => simp [setSecureAddr]
  | cons x rest ih =>
    simp only [List.any_cons, Bool.or_eq_false_iff, decide_eq_false_iff_not] at hfresh
    simp [setSecureAddr, hfresh.1, ih hfresh.2]

theorem eraseBulkBuf_append_fresh (old : List BulkBufferDescriptor) (b : BulkBufferDescriptor)
    (hfresh : old.any (fun x => decide (x.virtAddr = b.virtAddr)) = false) :
    eraseBulkBuf (old ++ [b]) b.virtAddr = old := by
  induction old with
  | nil => simp [eraseBulkBuf]
  | cons x rest ih =>
    simp only [List.any_cons, Bool.or_eq_false_iff, decide_eq_false_iff_not] at hfresh
    simp [eraseBulkBuf, hfresh.1, ih hfresh.2]

/-- What a successful `addBulkBuf` is: the address was not in the table, the
registration succeeded, and the new descriptor is at the end of the table. -/
theorem Session.addBulkBuf_some {K : DrvCodes} {s s1 : Session} {buf len : Nat}
    {env : RegisterEnv} {mcResult : Nat} {b : BulkBufferDescriptor}
    (hadd : s.addBulkBuf K buf len env = (mcResult, some b, s1)) :
    s.bulkBufferDescriptors.any (fun x => decide (x.virtAddr = buf)) = false ∧
      env.result = K.MC_DRV_OK ∧ mcResult = K.MC_DRV_OK ∧
      b = ⟨buf, len, env.handle, env.physAddrWsmL2, 0⟩ ∧
      s1 = { s with bulkBufferDescriptors := s.bulkBufferDescriptors ++ [b] } := by
  unfold Session.addBulkBuf at hadd
  by_cases hA : s.bulkBufferDescriptors.any (fun x => decide (x.virtAddr = buf)) = true
  · rw [if_pos hA] at hadd
    simp at hadd
  · rw [if_neg hA] at hadd
    by_cases hB : env.result ≠ K.MC_DRV_OK
    · rw [if_pos hB] at hadd
      simp at hadd
    · rw [if_neg hB] at hadd
      simp only [Prod.mk.injEq, Option.some.injEq] at hadd
      obtain ⟨h1, h2, h3⟩ := hadd
      subst h2
      exact ⟨by simpa using hA, by simpa using hB, h1.symm, rfl, h3.symm⟩

/-- Removing the buffer that was just added, with or without its secure
address set in between, gives the session back; `removeBulkBuf` then returns
the result of the driver unregistration. -/
theorem Session.removeBulkBuf_after_add (K : DrvCodes) (s : Session) (buf len sva u : Nat)
    (env : RegisterEnv)
    (hfresh : s.bulkBufferDescriptors.any (fun x => decide (x.virtAddr = buf)) = false)
    (hreg : env.result = K.MC_DRV_OK) :
    ((s.addBulkBuf K buf len env).2.2.removeBulkBuf K buf u) = (u, s) ∧
    (((s.addBulkBuf K buf len env).2.2.setSecureAddrOf buf sva).removeBulkBuf K buf u) =
      (u, s) := by
  have hadd : (s.addBulkBuf K buf len env).2.2 =
      { s with
        bulkBufferDescriptors :=
          s.bulkBufferDescriptors ++ [⟨buf, len, env.handle, env.physAddrWsmL2, 0⟩] } := by
    simp [Session.addBulkBuf, hfresh, hreg]
  have h1 := eraseBulkBuf_append_fresh s.bulkBufferDescriptors
    ⟨buf, len, env.handle, env.physAddrWsmL2, 0⟩ hfresh
  have h2 := eraseBulkBuf_append_fresh s.bulkBufferDescriptors
    ⟨buf, len, env.handle, env.physAddrWsmL2, sva⟩ hfresh
  have h3 := setSecureAddr_append_fresh s.bulkBufferDescriptors
    ⟨buf, len, env.handle, env.physAddrWsmL2, 0⟩ sva hfresh
  simp only at h1 h2 h3
  rw [hadd]
  constructor
  · simp [Session.removeBulkBuf, h1]
  · simp [Session.removeBulkBuf, Session.setSecureAddrOf, h3, h2]

/-- The paths of `mcMap` that leave the `do` block through the `break` inside
`SEND_TO_DAEMON` or the first `RECV_FROM_DAEMON`, for every code table: after
a successful `addBulkBuf`, when the write of MAP_BULK_BUF fails, or the read
of the response header fails, `mcMap` returns the socket error and every
device table entry is as `addBulkBuf` left it; `removeBulkBuf` is not
called. -/
theorem mcMap_socket_failure_keeps_buffer (K : DrvCodes) (h : mcSessionHandle_t)
    (buf bufLen : Nat) (m : mcBulkMap_t) (env : MapEnv) (w : World) (device : Device)
    (session s1 : Session) (b : BulkBufferDescriptor) (hbuf : buf ≠ 0)
    (hdev : resolveDeviceId w.devices h.deviceId = some device)
    (hs : device.resolveSessionId h.sessionId = some session)
    (hadd : session.addBulkBuf K buf bufLen env.register = (K.MC_DRV_OK, some b, s1)) :
    (∀ e, SEND_TO_DAEMON K env.write = some e →
      (mcMap K (some h) buf bufLen (some m) env w).1 = e ∧
      (mcMap K (some h) buf bufLen (some m) env w).2.2.devices =
        modifySessionOf (fun s => (s.addBulkBuf K buf bufLen env.register).2.2) w.devices
          h.deviceId h.sessionId) ∧
    (∀ e, SEND_TO_DAEMON K env.write = none →
      RECV_FROM_DAEMON K K.sizeofResult env.response.rlen = some e →
      (mcMap K (some h) buf bufLen (some m) env w).1 = e ∧
      (mcMap K (some h) buf bufLen (some m) env w).2.2.devices =
        modifySessionOf (fun s => (s.addBulkBuf K buf bufLen env.register).2.2) w.devices
          h.deviceId h.sessionId) := by
  constructor
  · intro e hsend
    simp only [mcMap, hbuf, hdev, hs, hadd, hsend, if_false, ne_eq, not_true_eq_false,
      World.write, and_self]
  · intro e hsend hrecv
    simp only [mcMap, hbuf, hdev, hs, hadd, hsend, hrecv, if_false, ne_eq, not_true_eq_false,
      World.write, World.read, and_self]

/-- C14 fails on the code when a socket call fails after the registration. On
the sample world session `7` of device `0` has no bulk buffer; `mcMap`
registers the buffer at address `64` (handle `5`), then the write of
MAP_BULK_BUF fails: the `break` inside `SEND_TO_DAEMON` leaves the `do` block
before `removeBulkBuf`, so `mcMap` returns `MC_DRV_ERR_SOCKET_WRITE` (in the
sample table not `MC_DRV_OK` and not `MC_DRV_ERR_DAEMON_UNREACHABLE`) and the
buffer is still in the bulk buffer table of the session. When instead the
write succeeds and the daemon answers with the code `6`, the same call removes
the buffer again and the device table is as before. -/
theorem mcMap_socket_write_keeps_buffer :
    sampleWorld.devices = [⟨0, 0, [⟨7, 1, [], 0⟩], [⟨4096, 256, 3, 8192⟩]⟩] ∧
    (mcMap sampleCodes (some ⟨7, 0⟩) 64 16 (some ⟨0, 0⟩)
      ⟨⟨0, 5, 1⟩, -1, ⟨4, 0⟩, ⟨8, ⟨7, 3⟩⟩, 0⟩ sampleWorld).1 =
      sampleCodes.MC_DRV_ERR_SOCKET_WRITE ∧
    sampleCodes.MC_DRV_ERR_SOCKET_WRITE ≠ sampleCodes.MC_DRV_OK ∧
    sampleCodes.MC_DRV_ERR_SOCKET_WRITE ≠ sampleCodes.MC_DRV_ERR_DAEMON_UNREACHABLE ∧
    (mcMap sampleCodes (some ⟨7, 0⟩) 64 16 (some ⟨0, 0⟩)
      ⟨⟨0, 5, 1⟩, -1, ⟨4, 0⟩, ⟨8, ⟨7, 3⟩⟩, 0⟩ sampleWorld).2.2.devices =
      [⟨0, 0, [⟨7, 1, [⟨64, 16, 5, 1, 0⟩], 0⟩], [⟨4096, 256, 3, 8192⟩]⟩] ∧
    (mcMap sampleCodes (some ⟨7, 0⟩) 64 16 (some ⟨0, 0⟩)
      ⟨⟨0, 5, 1⟩, 24, ⟨4, 6⟩, ⟨8, ⟨7, 3⟩⟩, 0⟩ sampleWorld).1 =
      sampleCodes.MC_DRV_ERR_DAEMON_UNREACHABLE ∧
    (mcMap sampleCodes (some ⟨7, 0⟩) 64 16 (some ⟨0, 0⟩)
      ⟨⟨0, 5, 1⟩, 24, ⟨4, 6⟩, ⟨8, ⟨7, 3⟩⟩, 0⟩ sampleWorld).2.2.devices =
      sampleWorld.devices := by
  decide

/-- The path of `mcMap` that does the cleanup which the paths of C14 with a
failing socket call leave out. For every call of `mcMap` on a known session in
which the bulk buffer was registered (`addBulkBuf` returned a descriptor), the
MAP_BULK_BUF command was written and a response header with a code other than
`MC_DRV_OK` was read: `mcMap` returns `MC_DRV_ERR_DAEMON_UNREACHABLE`, the
buffer has been removed again, so that the device table with every bulk buffer
table in it is as before the call, `*mapInfo` is unchanged, and the socket
history is that of one write and one read. -/
theorem mcMap_daemon_refuses (K : DrvCodes) (h : mcSessionHandle_t) (buf bufLen : Nat)
    (m : mcBulkMap_t) (env : MapEnv) (w : World) (device : Device) (session s1 : Session)
    (b : BulkBufferDescriptor) (mcResult : Nat) (hbuf : buf ≠ 0)
    (hdev : resolveDeviceId w.devices h.deviceId = some device)
    (hs : device.resolveSessionId h.sessionId = some session)
    (hadd : session.addBulkBuf K buf bufLen env.register = (mcResult, some b, s1))
    (hwrite : 0 ≤ env.write)
    (hrecv : RECV_FROM_DAEMON K K.sizeofResult env.response.rlen = none)
    (hr : env.response.data ≠ K.MC_DRV_OK) :
    mcMap K (some h) buf bufLen (some m) env w =
      (K.MC_DRV_ERR_DAEMON_UNREACHABLE, some m,
        { devices := w.devices,
          trace := w.trace ++
            [Event.write device.connection
              (Cmd.MC_DRV_CMD_MAP_BULK_BUF session.sessionId b.handle 0
                ((b.virtAddr % 2 ^ 32) &&& 0xFFF) b.len) env.write,
             Event.read device.connection none env.response.rlen],
          connCount := w.connCount }) := by
  obtain ⟨hfresh, hreg, hres, _, _⟩ := Session.addBulkBuf_some hadd
  have hsend : SEND_TO_DAEMON K env.write = none := SEND_TO_DAEMON_eq_none.2 hwrite
  have hback : modifySessionOf (fun s => (s.removeBulkBuf K buf env.unregister).2)
      (modifySessionOf (fun s => (s.addBulkBuf K buf bufLen env.register).2.2) w.devices
        h.deviceId h.sessionId) h.deviceId h.sessionId = w.devices := by
    rw [modifySessionOf_modifySessionOf]
    · apply modifySessionOf_eq_self _ _ _ _ device session hdev hs
      show ((session.addBulkBuf K buf bufLen env.register).2.2.removeBulkBuf K buf
        env.unregister).2 = session
      rw [(Session.removeBulkBuf_after_add K session buf bufLen 0 env.unregister env.register
        hfresh hreg).1]
    · intro x
      unfold Session.addBulkBuf
      repeat' split
      all_goals rfl
  subst hres
  simp only [mcMap, hbuf, hdev, hs, hadd, hsend, hrecv, hr, if_false, ne_eq, not_true_eq_false,
    not_false_eq_true, if_true, World.write, World.read, hback, List.append_assoc,
    List.singleton_append]

/-- The refusal path of `mcMap`, run on the sample world: the daemon answers
MAP_BULK_BUF with the code `6`. -/
theorem mcMap_daemon_refuses_witness :
    mcMap sampleCodes (some ⟨7, 0⟩) 64 16 (some ⟨0, 0⟩)
        ⟨⟨0, 5, 1⟩, 24, ⟨4, 6⟩, ⟨8, ⟨7, 3⟩⟩, 0⟩ sampleWorld =
      (sampleCodes.MC_DRV_ERR_DAEMON_UNREACHABLE, some ⟨0, 0⟩,
        { devices := sampleWorld.devices,
          trace := sampleWorld.trace ++
            [Event.write 0 (Cmd.MC_DRV_CMD_MAP_BULK_BUF 7 5 0 64 16) 24, Event.read 0 none 4],
          connCount := sampleWorld.connCount }) :=
  mcMap_daemon_refuses sampleCodes ⟨7, 0⟩ 64 16 ⟨0, 0⟩ ⟨⟨0, 5, 1⟩, 24, ⟨4, 6⟩, ⟨8, ⟨7, 3⟩⟩, 0⟩
    sampleWorld ⟨0, 0, [⟨7, 1, [], 0⟩], [⟨4096, 256, 3, 8192⟩]⟩ ⟨7, 1, [], 0⟩
    ⟨7, 1, [⟨64, 16, 5, 1, 0⟩], 0⟩ ⟨64, 16, 5, 1, 0⟩ 0 (by decide) (by decide) (by decide)
    (by decide) (by decide) (by decide) (by decide)

/-! ## C15: `mcMap` followed by `mcUnmap` -/

/-- A refused `addBulkBuf` does not return `MC_DRV_OK`, when
`MC_DRV_ERR_BUFFER_ALREADY_MAPPED` is not `MC_DRV_OK`. -/
theorem Session.addBulkBuf_none {K : DrvCodes}
    (hAM : K.MC_DRV_ERR_BUFFER_ALREADY_MAPPED ≠ K.MC_DRV_OK) {s s1 : Session} {buf len : Nat}
    {env : RegisterEnv} {mcResult : Nat}
    (hadd : s.addBulkBuf K buf len env = (mcResult, none, s1)) : mcResult ≠ K.MC_DRV_OK := by
  unfold Session.addBulkBuf at hadd
  by_cases hA : s.bulkBufferDescriptors.any (fun x => decide (x.virtAddr = buf)) = true
  · rw [if_pos hA] at hadd
    simp only [Prod.mk.injEq] at hadd
    rw [← hadd.1]
    exact hAM
  · rw [if_neg hA] at hadd
    by_cases hB : env.result ≠ K.MC_DRV_OK
    · rw [if_pos hB] at hadd
      simp only [Prod.mk.injEq] at hadd
      rw [← hadd.1]
      exact hB
    · rw [if_neg hB] at hadd
      simp at hadd

set_option maxHeartbeats 1000000 in
/-- Every way `mcMap` ends with `MC_DRV_OK`, when no error code is
`MC_DRV_OK`: the buffer was registered, both parts of the response arrived, and
the secure address of the payload was stored in the descriptor and in
`*mapInfo`. -/
theorem mcMap_ok {K : DrvCodes} (hK : K.ErrorsNotOk) (sh : Option mcSessionHandle_t)
    (buf bufLen : Nat) (mapInfo : Option mcBulkMap_t) (env : MapEnv) (w : World)
    (hok : (mcMap K sh buf bufLen mapInfo env w).1 = K.MC_DRV_OK) :
    ∃ h device session b s1, sh = some h ∧
      resolveDeviceId w.devices h.deviceId = some device ∧
      device.resolveSessionId h.sessionId = some session ∧
      session.addBulkBuf K buf bufLen env.register = (K.MC_DRV_OK, some b, s1) ∧
      (mcMap K sh buf bufLen mapInfo env w).2.1 =
        some ⟨env.payload.data.secureVirtualAdr, bufLen⟩ ∧
      (mcMap K sh buf bufLen mapInfo env w).2.2.devices =
        modifySessionOf (fun s => s.setSecureAddrOf buf env.payload.data.secureVirtualAdr)
          (modifySessionOf (fun s => (s.addBulkBuf K buf bufLen env.register).2.2) w.devices
            h.deviceId h.sessionId) h.deviceId h.sessionId := by
  have hu := hK.unpack
  have hAM : K.MC_DRV_ERR_BUFFER_ALREADY_MAPPED ≠ K.MC_DRV_OK :=
    hK _ (by simp [DrvCodes.errorCodes])
  revert hok
  unfold mcMap
  simp only
  repeat' split
  all_goals simp_all [SEND_TO_DAEMON_eq_some, RECV_FROM_DAEMON_eq_some]
  all_goals first
    | exact Session.addBulkBuf_none hAM (by assumption)
    | (intro he; exfalso; omega)

/-- Every way `mcUnmap` ends with `MC_DRV_OK`, when no error code is
`MC_DRV_OK`: the buffer with client address `buf` was taken out of the bulk
buffer table of the session. -/
theorem mcUnmap_ok {K : DrvCodes} (hK : K.ErrorsNotOk) (sh : Option mcSessionHandle_t)
    (buf : Nat) (mapInfo : Option mcBulkMap_t) (env : UnmapEnv) (w : World)
    (hok : (mcUnmap K sh buf mapInfo env w).1 = K.MC_DRV_OK) :
    ∃ h, sh = some h ∧
      (mcUnmap K sh buf mapInfo env w).2.devices =
        modifySessionOf (fun s => (s.removeBulkBuf K buf env.unregister).2) w.devices
          h.deviceId h.sessionId := by
  have hu := hK.unpack
  have hw : K.MC_DRV_OK ≠ K.MC_DRV_ERR_SOCKET_WRITE := fun e => hu.2.2.2.2.2.2.2.2.2.2.1 e.symm
  have hr : K.MC_DRV_OK ≠ K.MC_DRV_ERR_SOCKET_READ := fun e => hu.2.2.2.2.2.2.2.2.2.2.2.1 e.symm
  unfold mcUnmap at hok ⊢
  simp only at hok ⊢
  rw [hok]
  simp only [removeDeviceIfDead, hw, hr, or_self, if_false]
  revert hok
  unfold mcUnmapBody
  simp only
  repeat' split
  all_goals simp_all [SEND_TO_DAEMON_eq_some, RECV_FROM_DAEMON_eq_some]
  all_goals omega

/-- C15. For every session handle, buffer `buf`, length `bufLen` and every
outcome of the driver and of the socket, with no error code equal to
`MC_DRV_OK`: if `mcMap` returns `MC_DRV_OK`, then `*mapInfo` holds the secure
virtual address of the payload of the reply and the length `bufLen`; and if
`mcUnmap` of the same buffer with that `*mapInfo` then returns `MC_DRV_OK`, the
device table, with the bulk buffer table of every session in it, is what it was
before the `mcMap`. -/
theorem mcMap_mcUnmap_roundtrip (K : DrvCodes) (hK : K.ErrorsNotOk)
    (sh : Option mcSessionHandle_t) (buf bufLen : Nat) (mapInfo : Option mcBulkMap_t)
    (envM : MapEnv) (envU : UnmapEnv) (w : World)
    (hmap : (mcMap K sh buf bufLen mapInfo envM w).1 = K.MC_DRV_OK)
    (hunmap : (mcUnmap K sh buf (mcMap K sh buf bufLen mapInfo envM w).2.1 envU
      (mcMap K sh buf bufLen mapInfo envM w).2.2).1 = K.MC_DRV_OK) :
    (mcMap K sh buf bufLen mapInfo envM w).2.1 =
      some ⟨envM.payload.data.secureVirtualAdr, bufLen⟩ ∧
    (mcUnmap K sh buf (mcMap K sh buf bufLen mapInfo envM w).2.1 envU
      (mcMap K sh buf bufLen mapInfo envM w).2.2).2.devices = w.devices := by
  obtain ⟨h, device, session, b, s1, hsh, hdev, hs, hadd, hinfo, hdevs⟩ :=
    mcMap_ok hK sh buf bufLen mapInfo envM w hmap
  obtain ⟨h', hsh', hdevs'⟩ := mcUnmap_ok hK sh buf _ envU _ hunmap
  rw [hsh] at hsh'
  cases hsh'
  obtain ⟨hfresh, hreg, _, _, _⟩ := Session.addBulkBuf_some hadd
  refine ⟨hinfo, ?_⟩
  rw [hdevs', hdevs, modifySessionOf_modifySessionOf, modifySessionOf_modifySessionOf]
  · apply modifySessionOf_eq_self _ _ _ _ device session hdev hs
    show (((session.addBulkBuf K buf bufLen envM.register).2.2.setSecureAddrOf buf
      envM.payload.data.secureVirtualAdr).removeBulkBuf K buf envU.unregister).2 = session
    rw [(Session.removeBulkBuf_after_add K session buf bufLen
      envM.payload.data.secureVirtualAdr envU.unregister envM.register hfresh hreg).2]
  · intro x
    unfold Session.addBulkBuf
    repeat' split
    all_goals rfl
  · intro x
    rfl

/-- C15, run on the sample world: the buffer at address `64` is mapped for
session `7` at the secure address `3` and unmapped again. -/
theorem mcMap_mcUnmap_roundtrip_witness :
    (mcMap sampleCodes (some ⟨7, 0⟩) 64 16 (some ⟨0, 0⟩)
      ⟨⟨0, 5, 1⟩, 24, ⟨4, 0⟩, ⟨8, ⟨7, 3⟩⟩, 0⟩ sampleWorld).2.1 = some ⟨3, 16⟩ ∧
    (mcUnmap sampleCodes (some ⟨7, 0⟩) 64
      (mcMap sampleCodes (some ⟨7, 0⟩) 64 16 (some ⟨0, 0⟩)
        ⟨⟨0, 5, 1⟩, 24, ⟨4, 0⟩, ⟨8, ⟨7, 3⟩⟩, 0⟩ sampleWorld).2.1 ⟨16, ⟨4, 0⟩, 0⟩
      (mcMap sampleCodes (some ⟨7, 0⟩) 64 16 (some ⟨0, 0⟩)
        ⟨⟨0, 5, 1⟩, 24, ⟨4, 0⟩, ⟨8, ⟨7, 3⟩⟩, 0⟩ sampleWorld).2.2).2.devices =
      sampleWorld.devices :=
  mcMap_mcUnmap_roundtrip sampleCodes (by decide) (some ⟨7, 0⟩) 64 16 (some ⟨0, 0⟩)
    ⟨⟨0, 5, 1⟩, 24, ⟨4, 0⟩, ⟨8, ⟨7, 3⟩⟩, 0⟩ ⟨16, ⟨4, 0⟩, 0⟩ sampleWorld (by decide) (by decide)

/-! ## C16: operations on a kernel module that is not open -/

/-- With the kernel module not open, each of the fourteen status operations of
`CMcKMod` other than `findContiguousWsm` returns `MC_DRV_ERR_KMOD_NOT_OPEN` (as
an `int` where that is the return type), makes no system call and leaves its
output parameters as they were. -/
theorem CMcKMod_not_open (K : KmodCodes) :
    (∀ len pHandle pVirtAddr pPhysAddr io mm,
      CMcKMod.mapWsm K false len pHandle pVirtAddr pPhysAddr io mm =
        (K.MC_DRV_ERR_KMOD_NOT_OPEN, (pHandle, pVirtAddr, pPhysAddr), [])) ∧
    (∀ len pHandle pVirtAddr pPhysAddr pReuse io mm,
      CMcKMod.mapMCI K false len pHandle pVirtAddr pPhysAddr pReuse io mm =
        (K.MC_DRV_ERR_KMOD_NOT_OPEN, (pHandle, pVirtAddr, pPhysAddr, pReuse), [])) ∧
    (∀ buffer len rd,
      CMcKMod.read K false buffer len rd =
        (int_of_uint32 K.MC_DRV_ERR_KMOD_NOT_OPEN, buffer, [])) ∧
    (∀ nqOffset nqLength mcpOffset mcpLength io,
      CMcKMod.fcInit K false nqOffset nqLength mcpOffset mcpLength io =
        (int_of_uint32 K.MC_DRV_ERR_KMOD_NOT_OPEN, [])) ∧
    (∀ extInfoId pState pExtInfo io,
      CMcKMod.fcInfo K false extInfoId pState pExtInfo io =
        (int_of_uint32 K.MC_DRV_ERR_KMOD_NOT_OPEN, (pState, pExtInfo), [])) ∧
    (∀ io, CMcKMod.fcYield K false io = (int_of_uint32 K.MC_DRV_ERR_KMOD_NOT_OPEN, [])) ∧
    (∀ io, CMcKMod.fcNSIQ K false io = (int_of_uint32 K.MC_DRV_ERR_KMOD_NOT_OPEN, [])) ∧
    (∀ handle buffer len io,
      CMcKMod.free K false handle buffer len io = (K.MC_DRV_ERR_KMOD_NOT_OPEN, [])) ∧
    (∀ buffer len pid pHandle pPhysWsmL2 io,
      CMcKMod.registerWsmL2 K false buffer len pid pHandle pPhysWsmL2 io =
        (K.MC_DRV_ERR_KMOD_NOT_OPEN, (pHandle, pPhysWsmL2), [])) ∧
    (∀ handle io, CMcKMod.unregisterWsmL2 K false handle io = (K.MC_DRV_ERR_KMOD_NOT_OPEN, [])) ∧
    (∀ handle io, CMcKMod.lockWsmL2 K false handle io = (K.MC_DRV_ERR_KMOD_NOT_OPEN, [])) ∧
    (∀ handle io, CMcKMod.unlockWsmL2 K false handle io = (K.MC_DRV_ERR_KMOD_NOT_OPEN, [])) ∧
    (∀ io, CMcKMod.cleanupWsmL2 K false io = (K.MC_DRV_ERR_KMOD_NOT_OPEN, [])) ∧
    (∀ startAddr areaLength io,
      CMcKMod.fcExecute K false startAddr areaLength io =
        (int_of_uint32 K.MC_DRV_ERR_KMOD_NOT_OPEN, [])) := by
  refine ⟨?_, ?_, ?_, ?_, ?_, ?_, ?_, ?_, ?_, ?_, ?_, ?_, ?_, ?_⟩ <;> intros <;> rfl

/-- With the kernel module not open, `CMcKMod::findContiguousWsm` makes no
system call and leaves `*phys` and `*len` as they were, and what it returns is
`0`, whatever the code table is; `TrustZoneDevice::findContiguousWsm` then
returns `true`. -/
theorem findContiguousWsm_not_open (handle phys len : Nat)
    (io : SysRet mc_ioctl_resolv_cont_wsm) :
    CMcKMod.findContiguousWsm false handle phys len io = (0, (phys, len), []) ∧
    TrustZoneDevice.findContiguousWsm false handle phys len io = (true, (phys, len), []) :=
  ⟨rfl, rfl⟩

/-- C16 fails for `findContiguousWsm`. The kernel module is not open and the
handle `5` is looked up, with `*phys` and `*len` holding `0`:
`CMcKMod::findContiguousWsm` returns `0`, which in the sample table is
`MC_DRV_OK` and is not `MC_DRV_ERR_KMOD_NOT_OPEN`, and
`TrustZoneDevice::findContiguousWsm` returns `true`, not `false`. No system
call is made and the two outputs are not written. -/
theorem findContiguousWsm_not_open_returns_null :
    CMcKMod.findContiguousWsm false 5 0 0 ⟨0, 0, ⟨4096, 64⟩⟩ = (0, (0, 0), []) ∧
    sampleKmodCodes.MC_DRV_OK = 0 ∧
    sampleKmodCodes.MC_DRV_ERR_KMOD_NOT_OPEN ≠ 0 ∧
    TrustZoneDevice.findContiguousWsm false 5 0 0 ⟨0, 0, ⟨4096, 64⟩⟩ = (true, (0, 0), []) := by
  decide

/-! ## C17: a failing `ioctl` on an open kernel module -/

/-- C17, as stated, fails for the fast calls. On an open kernel module the
`ioctl` of `fcYield` fails with the result `-1`, once with `errno` 22 and once
with `errno` 5: `fcYield` returns `-1` both times, and `-1` is not the value of
`MAKE_MC_DRV_KMOD_WITH_ERRNO(22)` of the sample table (as `mcResult_t` or
as `int`). -/
theorem fcYield_returns_ioctl_result :
    (CMcKMod.fcYield sampleKmodCodes true ⟨-1, 22, ()⟩).1 = -1 ∧
    (CMcKMod.fcYield sampleKmodCodes true ⟨-1, 5, ()⟩).1 = -1 ∧
    ((sampleKmodCodes.MAKE_MC_DRV_KMOD_WITH_ERRNO 22 : Nat) : Int) ≠ -1 ∧
    int_of_uint32 (sampleKmodCodes.MAKE_MC_DRV_KMOD_WITH_ERRNO 22) ≠ -1 := by
  decide

/-- C17, amended. On an open kernel module, when the `ioctl` of the operation
returns a value other than `0` and leaves `errno` at `e`: `mapWsm`, `mapMCI`,
`free`, `registerWsmL2` and `unregisterWsmL2` return
`MAKE_MC_DRV_KMOD_WITH_ERRNO(e)`, and the fast calls `fcInit`, `fcInfo`,
`fcYield`, `fcNSIQ` and `fcExecute`, whose return type is `int`, return the
result of the `ioctl` itself. -/
theorem kmod_ioctl_failure (K : KmodCodes) (ret e : Int) (hret : ret ≠ 0) :
    (∀ len pHandle pVirtAddr pPhysAddr out mm,
      (CMcKMod.mapWsm K true len pHandle pVirtAddr pPhysAddr ⟨ret, e, out⟩ mm).1 =
        K.MAKE_MC_DRV_KMOD_WITH_ERRNO e) ∧
    (∀ len pHandle pVirtAddr pPhysAddr pReuse out mm,
      (CMcKMod.mapMCI K true len pHandle pVirtAddr pPhysAddr pReuse ⟨ret, e, out⟩ mm).1 =
        K.MAKE_MC_DRV_KMOD_WITH_ERRNO e) ∧
    (∀ handle buffer len,
      (CMcKMod.free K true handle buffer len ⟨ret, e, ()⟩).1 =
        K.MAKE_MC_DRV_KMOD_WITH_ERRNO e) ∧
    (∀ buffer len pid pHandle pPhysWsmL2 out,
      (CMcKMod.registerWsmL2 K true buffer len pid pHandle pPhysWsmL2 ⟨ret, e, out⟩).1 =
        K.MAKE_MC_DRV_KMOD_WITH_ERRNO e) ∧
    (∀ handle,
      (CMcKMod.unregisterWsmL2 K true handle ⟨ret, e, ()⟩).1 =
        K.MAKE_MC_DRV_KMOD_WITH_ERRNO e) ∧
    (∀ nqOffset nqLength mcpOffset mcpLength,
      (CMcKMod.fcInit K true nqOffset nqLength mcpOffset mcpLength ⟨ret, e, ()⟩).1 = ret) ∧
    (∀ extInfoId pState pExtInfo out,
      (CMcKMod.fcInfo K true extInfoId pState pExtInfo ⟨ret, e, out⟩).1 = ret) ∧
    (CMcKMod.fcYield K true ⟨ret, e, ()⟩).1 = ret ∧
    (CMcKMod.fcNSIQ K true ⟨ret, e, ()⟩).1 = ret ∧
    (∀ startAddr areaLength,
      (CMcKMod.fcExecute K true startAddr areaLength ⟨ret, e, ()⟩).1 = ret) := by
  refine ⟨?_, ?_, ?_, ?_, ?_, ?_, ?_, ?_, ?_, ?_⟩ <;> intros <;>
    simp [CMcKMod.mapWsm, CMcKMod.mapMCI, CMcKMod.free, CMcKMod.registerWsmL2,
      CMcKMod.unregisterWsmL2, CMcKMod.fcInit, CMcKMod.fcInfo, CMcKMod.fcYield,
      CMcKMod.fcNSIQ, CMcKMod.fcExecute, hret]

/-- C17 amended, run on the sample table: the `ioctl` of `unregisterWsmL2`
and that of `fcNSIQ` fail with the result `-1` and `errno` 22. -/
theorem kmod_ioctl_failure_witness :
    (CMcKMod.unregisterWsmL2 sampleKmodCodes true 5 ⟨-1, 22, ()⟩).1 =
      sampleKmodCodes.MAKE_MC_DRV_KMOD_WITH_ERRNO 22 ∧
    (CMcKMod.fcNSIQ sampleKmodCodes true ⟨-1, 22, ()⟩).1 = -1 :=
  ⟨(kmod_ioctl_failure sampleKmodCodes (-1) 22 (by decide)).2.2.2.2.1 5,
    (kmod_ioctl_failure sampleKmodCodes (-1) 22 (by decide)).2.2.2.2.2.2.2.2.1⟩

/-! ## C18: the status poll of `initDevice` -/

/-- The yield that the status poll of `initDevice` issues, as an action. -/
def yieldAct : Act :=
  Act.sys (Sys.ioctl IoRequest.MC_IO_YIELD [])

/-- Whether an action is one of those that `initDevice` makes for a fresh MCI
region only: clearing memory, the `ioctl` of `fcInit`, of an N-SIQ or of a
yield, a signal of `schedSync`, or a sleep. -/
def Act.isFreshInit : Act → Bool
  | Act.bzero _ _ => true
  | Act.sys (Sys.ioctl IoRequest.MC_IO_INIT _) => true
  | Act.sys (Sys.ioctl IoRequest.MC_IO_NSIQ _) => true
  | Act.sys (Sys.ioctl IoRequest.MC_IO_YIELD _) => true
  | Act.schedSyncSignal => true
  | Act.sleep _ => true
  | _ => false

theorem checkVersion_acts (K : KmodCodes) (isOpen : Bool) (io : SysRet Nat) :
    ∀ a ∈ (CMcKMod.checkVersion K isOpen io).2.map Act.sys,
      a = Act.sys (Sys.ioctl IoRequest.MC_IO_VERSION []) := by
  unfold CMcKMod.checkVersion
  repeat' split
  all_goals simp

theorem getMciInstance_acts (P : TzParams) (isOpen : Bool) (len : Nat) (uninit : Nat × Nat × Nat)
    (io : SysRet mc_ioctl_map) (mm : MmapRet) :
    ∀ a ∈ (TrustZoneDevice.getMciInstance P isOpen len uninit io mm).2.2,
      a = Act.sys (Sys.ioctl IoRequest.MC_IO_MAP_MCI [len]) ∨ a = Act.sys (Sys.mmap len 0) := by
  unfold TrustZoneDevice.getMciInstance CMcKMod.mapMCI
  repeat' split
  all_goals try simp
  all_goals try (split_ifs <;> simp)

theorem checkMciVersion_acts (P : TzParams) (isOpen : Bool) (io : SysRet mc_ioctl_info) :
    ∀ a ∈ (TrustZoneDevice.checkMciVersion P isOpen io).2,
      a = Act.sys (Sys.ioctl IoRequest.MC_IO_INFO [P.MC_EXT_INFO_ID_MCI_VERSION]) := by
  unfold TrustZoneDevice.checkMciVersion CMcKMod.fcInfo
  repeat' split
  all_goals try simp
  all_goals try (split_ifs <;> simp)

theorem getMobicoreStatus_acts (P : TzParams) (isOpen : Bool) (uninit : Nat)
    (io : SysRet mc_ioctl_info) :
    ∀ a ∈ (TrustZoneDevice.getMobicoreStatus P isOpen uninit io).2,
      a = Act.sys (Sys.ioctl IoRequest.MC_IO_INFO [1]) := by
  unfold TrustZoneDevice.getMobicoreStatus CMcKMod.fcInfo
  repeat' split
  all_goals simp

/-- On an open kernel module a `yield` is one `ioctl`. -/
theorem yield_open_acts (P : TzParams) (io : SysRet Unit) :
    (TrustZoneDevice.yield P true io).2 = [yieldAct] := by
  simp [TrustZoneDevice.yield, CMcKMod.fcYield, yieldAct]

theorem checkVersion_isOpen (K : KmodCodes) (isOpen : Bool) (io : SysRet Nat)
    (h : (CMcKMod.checkVersion K isOpen io).1 = true) : isOpen = true := by
  cases isOpen
  · simp [CMcKMod.checkVersion] at h
  · rfl

/-- The status poll over `k` passes that read `MC_STATUS_NOT_INITIALIZED` and
yield with success, followed by a pass that reads `MC_STATUS_INITIALIZED`: the
loop is left by the `break` after exactly `k` yields. -/
theorem initDevicePoll_initialized (P : TzParams) (dump : Nat → SysRet mc_ioctl_info)
    (hstatus : P.MC_STATUS_NOT_INITIALIZED ≠ P.MC_STATUS_INITIALIZED)
    (last : PollEnv) (rest : List PollEnv)
    (hlast : (TrustZoneDevice.getMobicoreStatus P true last.uninit last.info).1 =
      P.MC_STATUS_INITIALIZED) :
    ∀ pre : List PollEnv,
      (∀ p ∈ pre,
        (TrustZoneDevice.getMobicoreStatus P true p.uninit p.info).1 =
          P.MC_STATUS_NOT_INITIALIZED ∧
        (TrustZoneDevice.yield P true p.yield).1 = true) →
      ∃ acts, TrustZoneDevice.initDevicePoll P true dump (pre ++ last :: rest) =
          some (true, acts) ∧ acts.count yieldAct = pre.length := by
  intro pre
  induction pre with
  | nil =>
    intro _
    refine ⟨(TrustZoneDevice.getMobicoreStatus P true last.uninit last.info).2, ?_, ?_⟩
    · simp [TrustZoneDevice.initDevicePoll, hlast]
    · rw [List.length_nil, List.count_eq_zero]
      intro hmem
      have := getMobicoreStatus_acts P true _ _ _ hmem
      simp [yieldAct] at this
  | cons p pre ih =>
    intro hpre
    obtain ⟨acts, hacts, hcount⟩ := ih (fun q hq => hpre q (List.mem_cons_of_mem _ hq))
    obtain ⟨hst, hy⟩ := hpre p (List.mem_cons_self _ _)
    refine ⟨(TrustZoneDevice.getMobicoreStatus P true p.uninit p.info).2 ++
      (TrustZoneDevice.yield P true p.yield).2 ++ [Act.sleep 1] ++ acts, ?_, ?_⟩
    · simp [TrustZoneDevice.initDevicePoll, hst, hy, hacts, hstatus.symm]
    · have h0 : List.count yieldAct
          (TrustZoneDevice.getMobicoreStatus P true p.uninit p.info).2 = 0 := by
        rw [List.count_eq_zero]
        intro hmem
        have := getMobicoreStatus_acts P true _ _ _ hmem
        simp [yieldAct] at this
      rw [List.count_append, List.count_append, List.count_append, h0, yield_open_acts, hcount]
      simp [yieldAct]
      omega

/-- An environment of `initDevice` used to run it on concrete inputs: the
module opens, both version checks pass, the MCI region is mapped fresh at
address `4096`, and `fcInit` and the first N-SIQ succeed. -/
def sampleInitDeviceEnv : InitDeviceEnv :=
  { openResult := 0
    isOpen := true
    version := ⟨0, 0, 65537⟩
    uninit := (0, 0, 0)
    mapMCI := ⟨0, 0, ⟨3, 8192, false⟩⟩
    mmap := ⟨some 4096, 0⟩
    mciVersion := ⟨0, 0, ⟨0, 2⟩⟩
    fcInit := ⟨0, 0, ()⟩
    nsiq := ⟨0, 0, ()⟩
    dump := fun _ => ⟨0, 0, ⟨0, 0⟩⟩ }

/-- C18. In `initDevice`, when `MC_STATUS_NOT_INITIALIZED` and
`MC_STATUS_INITIALIZED` are different values: (1) a pass of the status poll
that reads `MC_STATUS_INITIALIZED` ends the poll by the `break`, without a
yield; a pass that reads `MC_STATUS_NOT_INITIALIZED` makes one yield, and
`initDevice` returns `false` if that yield fails and otherwise sleeps and goes
on with the next pass; a pass that reads any other status (`MC_STATUS_HALT`
too) makes `initDevice` return `false`. (2) When the module opened, the version
checks passed, the MCI region is not reused and `fcInit` and the first N-SIQ
succeeded, then for `k` passes reading `MC_STATUS_NOT_INITIALIZED` with
successful yields followed by a pass reading `MC_STATUS_INITIALIZED`,
`initDevice` returns `true` and has issued exactly `k` yields. (3) When the MCI
region is reused, `initDevice` returns `true` without looking at the poll
script, and nothing it does is a `bzero`, an `fcInit`, an N-SIQ, a yield, a
signal or a sleep. -/
theorem initDevice_status_poll (P : TzParams) (enableScheduler : Bool) (env : InitDeviceEnv)
    (hstatus : P.MC_STATUS_NOT_INITIALIZED ≠ P.MC_STATUS_INITIALIZED) :
    (∀ isOpen dump p rest,
      ((TrustZoneDevice.getMobicoreStatus P isOpen p.uninit p.info).1 =
          P.MC_STATUS_INITIALIZED →
        TrustZoneDevice.initDevicePoll P isOpen dump (p :: rest) =
          some (true, (TrustZoneDevice.getMobicoreStatus P isOpen p.uninit p.info).2)) ∧
      ((TrustZoneDevice.getMobicoreStatus P isOpen p.uninit p.info).1 =
          P.MC_STATUS_NOT_INITIALIZED →
        (TrustZoneDevice.yield P isOpen p.yield).1 = false →
        TrustZoneDevice.initDevicePoll P isOpen dump (p :: rest) =
          some (false, (TrustZoneDevice.getMobicoreStatus P isOpen p.uninit p.info).2 ++
            (TrustZoneDevice.yield P isOpen p.yield).2)) ∧
      ((TrustZoneDevice.getMobicoreStatus P isOpen p.uninit p.info).1 =
          P.MC_STATUS_NOT_INITIALIZED →
        (TrustZoneDevice.yield P isOpen p.yield).1 = true →
        TrustZoneDevice.initDevicePoll P isOpen dump (p :: rest) =
          (TrustZoneDevice.initDevicePoll P isOpen dump rest).map
            (fun r => (r.1, (TrustZoneDevice.getMobicoreStatus P isOpen p.uninit p.info).2 ++
              (TrustZoneDevice.yield P isOpen p.yield).2 ++ [Act.sleep 1] ++ r.2))) ∧
      ((TrustZoneDevice.getMobicoreStatus P isOpen p.uninit p.info).1 ≠
          P.MC_STATUS_INITIALIZED →
        (TrustZoneDevice.getMobicoreStatus P isOpen p.uninit p.info).1 ≠
          P.MC_STATUS_NOT_INITIALIZED →
        ∃ acts, TrustZoneDevice.initDevicePoll P isOpen dump (p :: rest) =
          some (false, acts))) ∧
    (∀ wsm acts0 pre last rest,
      env.openResult = P.MC_DRV_OK →
      (CMcKMod.checkVersion P.toKmodCodes env.isOpen env.version).1 = true →
      TrustZoneDevice.getMciInstance P env.isOpen (P.MCI_BUFFER_SIZE % 2 ^ 32) env.uninit
        env.mapMCI env.mmap = (true, some (wsm, false), acts0) →
      (TrustZoneDevice.checkMciVersion P env.isOpen env.mciVersion).1 = true →
      (CMcKMod.fcInit P.toKmodCodes env.isOpen 0 (P.NQ_BUFFER_SIZE % 2 ^ 32)
        (P.NQ_BUFFER_SIZE % 2 ^ 32) (P.MCP_BUFFER_SIZE % 2 ^ 32) env.fcInit).1 = 0 →
      (TrustZoneDevice.nsiq P env.isOpen env.nsiq).1 = true →
      (∀ p ∈ pre,
        (TrustZoneDevice.getMobicoreStatus P env.isOpen p.uninit p.info).1 =
          P.MC_STATUS_NOT_INITIALIZED ∧
        (TrustZoneDevice.yield P env.isOpen p.yield).1 = true) →
      (TrustZoneDevice.getMobicoreStatus P env.isOpen last.uninit last.info).1 =
        P.MC_STATUS_INITIALIZED →
      ∃ device acts,
        TrustZoneDevice.initDevice P enableScheduler env (pre ++ last :: rest) =
          some (true, some device, acts) ∧
        acts.count yieldAct = pre.length) ∧
    (∀ wsm acts0 poll,
      env.openResult = P.MC_DRV_OK →
      (CMcKMod.checkVersion P.toKmodCodes env.isOpen env.version).1 = true →
      TrustZoneDevice.getMciInstance P env.isOpen (P.MCI_BUFFER_SIZE % 2 ^ 32) env.uninit
        env.mapMCI env.mmap = (true, some (wsm, true), acts0) →
      (TrustZoneDevice.checkMciVersion P env.isOpen env.mciVersion).1 = true →
      ∃ device acts,
        TrustZoneDevice.initDevice P enableScheduler env poll =
          some (true, some device, acts) ∧
        ∀ a ∈ acts, a.isFreshInit = false) := by
  refine ⟨?_, ?_, ?_⟩
  · intro isOpen dump p rest
    refine ⟨?_, ?_, ?_, ?_⟩
    · intro h
      simp [TrustZoneDevice.initDevicePoll, h]
    · intro h hy
      simp [TrustZoneDevice.initDevicePoll, h, hy, hstatus.symm]
    · intro h hy
      simp only [TrustZoneDevice.initDevicePoll, h, hy, hstatus.symm, if_false, if_true,
        Bool.not_true, Bool.false_eq_true]
      cases TrustZoneDevice.initDevicePoll P isOpen dump rest with
      | none => rfl
      | some r => rfl
    · intro h1 h2
      simp only [TrustZoneDevice.initDevicePoll, Ne.symm h1, Ne.symm h2, if_false]
      split
      · exact ⟨_, rfl⟩
      · exact ⟨_, rfl⟩
  · intro wsm acts0 pre last rest hopen hver hmci hmciv hinit hnsiq hpre hlast
    have hio := checkVersion_isOpen _ _ _ hver
    rw [hio] at hpre hlast hinit hnsiq hmciv hmci hver
    obtain ⟨acts, hacts, hcount⟩ :=
      initDevicePoll_initialized P env.dump hstatus last rest hlast pre hpre
    have h1 := checkVersion_acts P.toKmodCodes true env.version
    have h2 := getMciInstance_acts P true (P.MCI_BUFFER_SIZE % 2 ^ 32) env.uninit env.mapMCI
      env.mmap
    have h3 := checkMciVersion_acts P true env.mciVersion
    rw [hmci] at h2
    simp only [TrustZoneDevice.initDevice, hio, hopen, hver, hmci, hmciv, hinit, hnsiq, hacts,
      ne_eq, not_true_eq_false, if_false, Bool.not_true, Bool.false_eq_true, Bool.not_false,
      if_true]
    refine ⟨_, _, rfl, ?_⟩
    simp only [List.count_append, hcount]
    have c1 : List.count yieldAct
        ((CMcKMod.checkVersion P.toKmodCodes true env.version).2.map Act.sys) = 0 := by
      rw [List.count_eq_zero]
      intro hmem
      have := h1 _ hmem
      simp [yieldAct] at this
    have c2 : List.count yieldAct acts0 = 0 := by
      rw [List.count_eq_zero]
      intro hmem
      have := h2 _ hmem
      simp [yieldAct] at this
    have c3 : List.count yieldAct (TrustZoneDevice.checkMciVersion P true env.mciVersion).2
        = 0 := by
      rw [List.count_eq_zero]
      intro hmem
      have := h3 _ hmem
      simp [yieldAct] at this
    rw [c1, c2, c3]
    simp [CMcKMod.fcInit, TrustZoneDevice.nsiq, CMcKMod.fcNSIQ, yieldAct]
    split <;> simp
  · intro wsm acts0 poll hopen hver hmci hmciv
    have h1 := checkVersion_acts P.toKmodCodes env.isOpen env.version
    have h2 := getMciInstance_acts P env.isOpen (P.MCI_BUFFER_SIZE % 2 ^ 32) env.uninit
      env.mapMCI env.mmap
    have h3 := checkMciVersion_acts P env.isOpen env.mciVersion
    rw [hmci] at h2
    simp only [TrustZoneDevice.initDevice, hopen, hver, hmci, hmciv,
      ne_eq, not_true_eq_false, if_false, Bool.not_true, Bool.false_eq_true, Bool.not_false,
      if_true]
    refine ⟨_, _, rfl, ?_⟩
    intro a ha
    simp only [List.mem_append] at ha
    rcases ha with (ha | ha) | ha
    · rw [h1 a ha]
      rfl
    · rcases h2 a ha with h | h <;> rw [h] <;> rfl
    · rw [h3 a ha]
      rfl

/-- C18, run on the sample environment: two passes read
`MC_STATUS_NOT_INITIALIZED`, the third reads `MC_STATUS_INITIALIZED`, and a
fourth pass that would read `MC_STATUS_HALT` is not reached. -/
theorem initDevice_status_poll_witness :
    ∃ device acts,
      TrustZoneDevice.initDevice sampleTzParams true sampleInitDeviceEnv
        ([⟨7, ⟨0, 0, ⟨0, 0⟩⟩, ⟨0, 0, ()⟩⟩, ⟨7, ⟨0, 0, ⟨0, 0⟩⟩, ⟨0, 0, ()⟩⟩] ++
          ⟨7, ⟨0, 0, ⟨2, 0⟩⟩, ⟨0, 0, ()⟩⟩ :: [⟨7, ⟨0, 0, ⟨3, 0⟩⟩, ⟨0, 0, ()⟩⟩]) =
        some (true, some device, acts) ∧
      acts.count yieldAct =
        [(⟨7, ⟨0, 0, ⟨0, 0⟩⟩, ⟨0, 0, ()⟩⟩ : PollEnv), ⟨7, ⟨0, 0, ⟨0, 0⟩⟩, ⟨0, 0, ()⟩⟩].length :=
  (initDevice_status_poll sampleTzParams true sampleInitDeviceEnv (by decide)).2.1
    ⟨4096, 336, 3, 8192⟩
    [Act.sys (Sys.ioctl IoRequest.MC_IO_MAP_MCI [336]), Act.sys (Sys.mmap 336 0)]
    [⟨7, ⟨0, 0, ⟨0, 0⟩⟩, ⟨0, 0, ()⟩⟩, ⟨7, ⟨0, 0, ⟨0, 0⟩⟩, ⟨0, 0, ()⟩⟩]
    ⟨7, ⟨0, 0, ⟨2, 0⟩⟩, ⟨0, 0, ()⟩⟩ [⟨7, ⟨0, 0, ⟨3, 0⟩⟩, ⟨0, 0, ()⟩⟩]
    (by decide) (by decide) (by decide) (by decide) (by decide) (by decide) (by decide)
    (by decide)

/-! ## C19: the layout of the MCI region -/

/-- C19, as stated, fails in the order of the two queues. `initDevice` runs on
the sample environment (queue header of 8 bytes, so a queue of 136 bytes; MCI
region mapped at `4096`): the queue that the daemon reads from starts 136
bytes into the region and the queue that the daemon writes to starts at its
first byte. -/
theorem initDevice_queue_order :
    (TrustZoneDevice.initDevice sampleTzParams true sampleInitDeviceEnv
      [⟨7, ⟨0, 0, ⟨2, 0⟩⟩, ⟨0, 0, ()⟩⟩]).map
        (fun r => r.2.1.map
          (fun d => (d.pWsmMcp.virtAddr, d.nq.queueIn, d.nq.queueOut, d.mcpBuf))) =
      some (some (4096, 4096 + 136, 4096, 4096 + 272)) := by
  decide

/-- The block that `getMciInstance` makes has the length that was asked for. -/
theorem getMciInstance_len {P : TzParams} {isOpen : Bool} {len : Nat} {uninit : Nat × Nat × Nat}
    {io : SysRet mc_ioctl_map} {mm : MmapRet} {b r : Bool} {wsm : CWsm} {acts : List Act}
    (h : TrustZoneDevice.getMciInstance P isOpen len uninit io mm = (b, some (wsm, r), acts)) :
    wsm.len = len := by
  unfold TrustZoneDevice.getMciInstance at h
  split at h
  · simp at h
  · simp only at h
    split at h
    · simp at h
    · simp only [Prod.mk.injEq, Option.some.injEq] at h
      rw [← h.2.1.1]

/-- C19, amended. Whenever `initDevice` returns `true`, with `Q` standing for
`sizeof(notificationQueueHeader_t) + NQ_NUM_ELEMS * sizeof(notification_t)`:
the queue that the daemon writes to (NWd→MC) starts at the first byte of the
MCI region, the queue that the daemon reads from (MC→NWd) starts `Q` bytes in,
each has `NQ_NUM_ELEMS` elements, and the MCP buffer starts `2Q` bytes in; the
ranges `[0, Q)`, `[Q, 2Q)` and `[2Q, 2Q + sizeof(mcpBuffer_t))` are pairwise
disjoint and together are `[0, MCI_BUFFER_SIZE)`, where `NQ_BUFFER_SIZE = 2Q`,
`MCP_BUFFER_SIZE = sizeof(mcpBuffer_t)` and `MCI_BUFFER_SIZE` is their sum; the
region was asked for with that length (as a `uint32_t`); and if the region was
not reused and `MCI_BUFFER_SIZE` fits a `uint32_t`, `fcInit` was called with
`(0, 2Q, 2Q, sizeof(mcpBuffer_t))`. -/
theorem initDevice_mci_layout (P : TzParams) (enableScheduler : Bool) (env : InitDeviceEnv)
    (poll : List PollEnv) (device : TrustZoneDevice) (acts : List Act)
    (h : TrustZoneDevice.initDevice P enableScheduler env poll =
      some (true, some device, acts)) :
    device.nq.queueOut = device.pWsmMcp.virtAddr ∧
    device.nq.queueIn = device.pWsmMcp.virtAddr +
      (P.sizeofNotificationQueueHeader + NQ_NUM_ELEMS * sizeofNotification.toNat) ∧
    device.nq.size = NQ_NUM_ELEMS ∧
    device.mcpBuf = device.pWsmMcp.virtAddr +
      2 * (P.sizeofNotificationQueueHeader + NQ_NUM_ELEMS * sizeofNotification.toNat) ∧
    P.NQ_BUFFER_SIZE =
      2 * (P.sizeofNotificationQueueHeader + NQ_NUM_ELEMS * sizeofNotification.toNat) ∧
    P.MCP_BUFFER_SIZE = P.sizeofMcpBuffer ∧
    P.MCI_BUFFER_SIZE = P.NQ_BUFFER_SIZE + P.MCP_BUFFER_SIZE ∧
    Disjoint
      (Set.Ico 0 (P.sizeofNotificationQueueHeader + NQ_NUM_ELEMS * sizeofNotification.toNat))
      (Set.Ico (P.sizeofNotificationQueueHeader + NQ_NUM_ELEMS * sizeofNotification.toNat)
        (P.NQ_BUFFER_SIZE)) ∧
    Disjoint
      (Set.Ico 0 (P.sizeofNotificationQueueHeader + NQ_NUM_ELEMS * sizeofNotification.toNat))
      (Set.Ico P.NQ_BUFFER_SIZE (P.NQ_BUFFER_SIZE + P.sizeofMcpBuffer)) ∧
    Disjoint
      (Set.Ico (P.sizeofNotificationQueueHeader + NQ_NUM_ELEMS * sizeofNotification.toNat)
        (P.NQ_BUFFER_SIZE))
      (Set.Ico P.NQ_BUFFER_SIZE (P.NQ_BUFFER_SIZE + P.sizeofMcpBuffer)) ∧
    Set.Ico 0 (P.sizeofNotificationQueueHeader + NQ_NUM_ELEMS * sizeofNotification.toNat) ∪
      Set.Ico (P.sizeofNotificationQueueHeader + NQ_NUM_ELEMS * sizeofNotification.toNat)
        (P.NQ_BUFFER_SIZE) ∪
      Set.Ico P.NQ_BUFFER_SIZE (P.NQ_BUFFER_SIZE + P.sizeofMcpBuffer) =
        Set.Ico 0 P.MCI_BUFFER_SIZE ∧
    device.pWsmMcp.len = P.MCI_BUFFER_SIZE % 2 ^ 32 ∧
    (device.mciReused = false → P.MCI_BUFFER_SIZE < 2 ^ 32 →
      Act.sys (Sys.ioctl IoRequest.MC_IO_INIT
        [0, 2 * (P.sizeofNotificationQueueHeader + NQ_NUM_ELEMS * sizeofNotification.toNat),
          2 * (P.sizeofNotificationQueueHeader + NQ_NUM_ELEMS * sizeofNotification.toNat),
          P.sizeofMcpBuffer]) ∈ acts) := by
  revert h
  unfold TrustZoneDevice.initDevice
  simp only
  repeat' split
  all_goals intro h
  all_goals simp at h
  all_goals
    obtain ⟨hd, ha⟩ := h
    subst hd
    subst ha
    have hlen := getMciInstance_len (by assumption)
    have hset : ∀ q m : Nat, (Disjoint (Set.Ico 0 q) (Set.Ico q (2 * q)) ∧
        Disjoint (Set.Ico 0 q) (Set.Ico (2 * q) (2 * q + m)) ∧
        Disjoint (Set.Ico q (2 * q)) (Set.Ico (2 * q) (2 * q + m)) ∧
        Set.Ico 0 q ∪ Set.Ico q (2 * q) ∪ Set.Ico (2 * q) (2 * q + m) =
          Set.Ico 0 (2 * q + m)) := by
      intro q m
      refine ⟨?_, ?_, ?_, ?_⟩
      · rw [Set.disjoint_left]
        intro x hx hx'
        simp only [Set.mem_Ico] at hx hx'
        omega
      · rw [Set.disjoint_left]
        intro x hx hx'
        simp only [Set.mem_Ico] at hx hx'
        omega
      · rw [Set.disjoint_left]
        intro x hx hx'
        simp only [Set.mem_Ico] at hx hx'
        omega
      · ext x
        simp only [Set.mem_union, Set.mem_Ico]
        omega
    obtain ⟨hs1, hs2, hs3, hs4⟩ := hset
      (P.sizeofNotificationQueueHeader + NQ_NUM_ELEMS * sizeofNotification.toNat)
      P.sizeofMcpBuffer
    refine ⟨rfl, by simp only [Nat.add_assoc], rfl, rfl, rfl, rfl, rfl, hs1, hs2, hs3, hs4,
      hlen, ?_⟩
  · intro _ hlt
    have hio : env.isOpen = true :=
      checkVersion_isOpen P.toKmodCodes env.isOpen env.version (by simp_all)
    have hq : P.NQ_BUFFER_SIZE =
        2 * (P.sizeofNotificationQueueHeader + NQ_NUM_ELEMS * sizeofNotification.toNat) := rfl
    have hm : P.MCP_BUFFER_SIZE = P.sizeofMcpBuffer := rfl
    have hsum : P.MCI_BUFFER_SIZE = P.NQ_BUFFER_SIZE + P.MCP_BUFFER_SIZE := rfl
    have hq' : P.NQ_BUFFER_SIZE % 4294967296 = P.NQ_BUFFER_SIZE :=
      Nat.mod_eq_of_lt (by omega)
    have hm' : P.MCP_BUFFER_SIZE % 4294967296 = P.MCP_BUFFER_SIZE :=
      Nat.mod_eq_of_lt (by omega)
    rw [hio, hq', hm', ← hq, ← hm]
    simp [CMcKMod.fcInit]
  · intro hr
    simp_all

/-- C19 amended, run on the sample environment: the MCI region is mapped at
`4096`, a queue has 136 bytes and the MCP buffer 64. -/
theorem initDevice_mci_layout_witness :
    (⟨4096 + 136, 4096, 16⟩ : NotificationQueue).queueOut = 4096 ∧
    (⟨4096 + 136, 4096, 16⟩ : NotificationQueue).queueIn =
      4096 + (sampleTzParams.sizeofNotificationQueueHeader +
        NQ_NUM_ELEMS * sizeofNotification.toNat) :=
  ⟨(initDevice_mci_layout sampleTzParams true sampleInitDeviceEnv
      [⟨7, ⟨0, 0, ⟨2, 0⟩⟩, ⟨0, 0, ()⟩⟩]
      ⟨true, ⟨4096, 336, 3, 8192⟩, false, ⟨4096 + 136, 4096, 16⟩, 4096 + 272⟩
      [Act.sys (Sys.ioctl IoRequest.MC_IO_VERSION []),
        Act.sys (Sys.ioctl IoRequest.MC_IO_MAP_MCI [336]), Act.sys (Sys.mmap 336 0),
        Act.sys (Sys.ioctl IoRequest.MC_IO_INFO [257]), Act.bzero 4096 336,
        Act.sys (Sys.ioctl IoRequest.MC_IO_INIT [0, 272, 272, 64]),
        Act.sys (Sys.ioctl IoRequest.MC_IO_NSIQ []), Act.schedSyncSignal,
        Act.sys (Sys.ioctl IoRequest.MC_IO_INFO [1])] (by decide)).1,
    (initDevice_mci_layout sampleTzParams true sampleInitDeviceEnv
      [⟨7, ⟨0, 0, ⟨2, 0⟩⟩, ⟨0, 0, ()⟩⟩]
      ⟨true, ⟨4096, 336, 3, 8192⟩, false, ⟨4096 + 136, 4096, 16⟩, 4096 + 272⟩
      [Act.sys (Sys.ioctl IoRequest.MC_IO_VERSION []),
        Act.sys (Sys.ioctl IoRequest.MC_IO_MAP_MCI [336]), Act.sys (Sys.mmap 336 0),
        Act.sys (Sys.ioctl IoRequest.MC_IO_INFO [257]), Act.bzero 4096 336,
        Act.sys (Sys.ioctl IoRequest.MC_IO_INIT [0, 272, 272, 64]),
        Act.sys (Sys.ioctl IoRequest.MC_IO_NSIQ []), Act.schedSyncSignal,
        Act.sys (Sys.ioctl IoRequest.MC_IO_INFO [1])] (by decide)).2.1⟩

/-! ## C20: the loop of `schedule` -/

/-- The entry of pass `j` of a run of `schedule` in which MobiCore is never
idle and every fast call succeeds, counted from a pass entered with a full
timeslice: an N-SIQ with its signal when `j % (SCHEDULING_FREQ + 1)` is
`SCHEDULING_FREQ`, a yield otherwise. -/
def busyPass (P : TzParams) (j : Nat) : Bool × Nat × List Act :=
  if j % (P.SCHEDULING_FREQ + 1) = P.SCHEDULING_FREQ then
    (true, P.SCHEDULING_FREQ, [Act.sys (Sys.ioctl IoRequest.MC_IO_NSIQ []), Act.schedSyncSignal])
  else (true, P.SCHEDULING_FREQ - 1 - j % (P.SCHEDULING_FREQ + 1), [yieldAct])

theorem scheduleIteration_timeslice (P : TzParams) (isOpen : Bool) (t : Nat) (e : SchedEnv)
    (ht : t ≤ P.SCHEDULING_FREQ) :
    (TrustZoneDevice.scheduleIteration P isOpen t e).2.1 ≤ P.SCHEDULING_FREQ := by
  unfold TrustZoneDevice.scheduleIteration
  split
  · exact ht
  · split
    · exact Nat.mod_le _ _
    · simp only
      omega

theorem scheduleFrom_timeslice (P : TzParams) (isOpen : Bool) (script : List SchedEnv) :
    ∀ t, t ≤ P.SCHEDULING_FREQ →
      ∀ r ∈ TrustZoneDevice.scheduleFrom P isOpen t script, r.2.1 ≤ P.SCHEDULING_FREQ := by
  induction script with
  | nil =>
    intro t _ r hr
    simp [TrustZoneDevice.scheduleFrom] at hr
  | cons e rest ih =>
    intro t ht r hr
    have hstep := scheduleIteration_timeslice P isOpen t e ht
    simp only [TrustZoneDevice.scheduleFrom, List.mem_cons] at hr
    rcases hr with hr | hr
    · rw [hr]
      exact hstep
    · split at hr
      · exact ih _ hstep r hr
      · simp at hr

theorem scheduleFrom_break (P : TzParams) (isOpen : Bool) (script : List SchedEnv) :
    ∀ t pre r post, TrustZoneDevice.scheduleFrom P isOpen t script = pre ++ r :: post →
      post ≠ [] → r.1 = true := by
  induction script with
  | nil =>
    intro t pre r post h
    simp [TrustZoneDevice.scheduleFrom] at h
  | cons e rest ih =>
    intro t pre r post h hpost
    simp only [TrustZoneDevice.scheduleFrom] at h
    cases pre with
    | nil =>
      simp only [List.nil_append, List.cons.injEq] at h
      obtain ⟨h1, h2⟩ := h
      rw [← h1]
      by_contra hne
      rw [if_neg hne] at h2
      exact hpost h2.symm
    | cons p pre =>
      simp only [List.cons_append, List.cons.injEq] at h
      obtain ⟨_, h2⟩ := h
      split at h2
      · exact ih _ pre r post h2 hpost
      · simp at h2

theorem scheduleFrom_length (P : TzParams) (isOpen : Bool) (script : List SchedEnv) :
    ∀ t, (∀ r ∈ TrustZoneDevice.scheduleFrom P isOpen t script, r.1 = true) →
      (TrustZoneDevice.scheduleFrom P isOpen t script).length = script.length := by
  induction script with
  | nil =>
    intro t _
    rfl
  | cons e rest ih =>
    intro t h
    have h1 := h (TrustZoneDevice.scheduleIteration P isOpen t e)
      (by simp [TrustZoneDevice.scheduleFrom])
    simp only [TrustZoneDevice.scheduleFrom, h1, if_true, List.length_cons, add_left_inj]
    apply ih
    intro r hr
    apply h
    simp only [TrustZoneDevice.scheduleFrom, h1, if_true, List.mem_cons]
    exact Or.inr hr

theorem busyPass_add (P : TzParams) (j : Nat) :
    busyPass P (j + (P.SCHEDULING_FREQ + 1)) = busyPass P j := by
  simp [busyPass]

theorem scheduleFrom_busy (P : TzParams) (hF : P.SCHEDULING_FREQ < 2 ^ 32)
    (script : List SchedEnv) :
    ∀ t, t ≤ P.SCHEDULING_FREQ →
      (∀ e ∈ script, P.MC_FLAG_SCHEDULE_IDLE ≠ e.schedule ∧ e.io.ret = 0) →
      TrustZoneDevice.scheduleFrom P true t script =
        (List.range script.length).map (fun i => busyPass P (i + (P.SCHEDULING_FREQ - t))) := by
  induction script with
  | nil =>
    intro t _ _
    rfl
  | cons e rest ih =>
    intro t ht h
    obtain ⟨hidle, hret⟩ := h e (List.mem_cons_self _ _)
    have hrest : ∀ e ∈ rest, P.MC_FLAG_SCHEDULE_IDLE ≠ e.schedule ∧ e.io.ret = 0 :=
      fun x hx => h x (List.mem_cons_of_mem _ hx)
    rw [List.length_cons, List.range_succ_eq_map, List.map_cons, List.map_map]
    by_cases h0 : t = 0
    · subst h0
      have hF' : P.SCHEDULING_FREQ < 4294967296 := hF
      have hstep : TrustZoneDevice.scheduleIteration P true 0 e =
          busyPass P (0 + (P.SCHEDULING_FREQ - 0)) := by
        simp [TrustZoneDevice.scheduleIteration, hidle, TrustZoneDevice.nsiq, CMcKMod.fcNSIQ,
          hret, busyPass, Nat.mod_eq_of_lt hF']
      simp only [TrustZoneDevice.scheduleFrom, hstep]
      have hflag : (busyPass P (0 + (P.SCHEDULING_FREQ - 0))).1 = true := by
        simp [busyPass]
      have hts : (busyPass P (0 + (P.SCHEDULING_FREQ - 0))).2.1 = P.SCHEDULING_FREQ := by
        simp [busyPass]
      rw [hflag, hts, if_pos rfl, ih _ (Nat.le_refl _) hrest]
      congr 1
      apply List.map_congr_left
      intro i _
      simp only [Function.comp, Nat.sub_self, Nat.add_zero, Nat.sub_zero]
      rw [show i.succ + P.SCHEDULING_FREQ = i + (P.SCHEDULING_FREQ + 1) by omega, busyPass_add]
    · have hstep : TrustZoneDevice.scheduleIteration P true t e =
          busyPass P (0 + (P.SCHEDULING_FREQ - t)) := by
        have hmod : (P.SCHEDULING_FREQ - t) % (P.SCHEDULING_FREQ + 1) = P.SCHEDULING_FREQ - t :=
          Nat.mod_eq_of_lt (by omega)
        have hne : P.SCHEDULING_FREQ - t ≠ P.SCHEDULING_FREQ := by omega
        simp only [TrustZoneDevice.scheduleIteration, hidle, h0, if_false,
          TrustZoneDevice.yield, CMcKMod.fcYield, hret, busyPass, Nat.zero_add, hmod, hne,
          Bool.not_true, Bool.false_eq_true, decide_True, List.map_cons, List.map_nil, yieldAct]
        congr 2
        omega
      simp only [TrustZoneDevice.scheduleFrom, hstep]
      have hflag : (busyPass P (0 + (P.SCHEDULING_FREQ - t))).1 = true := by
        simp only [busyPass]
        split <;> rfl
      have hts : (busyPass P (0 + (P.SCHEDULING_FREQ - t))).2.1 = t - 1 := by
        rw [← hstep]
        simp [TrustZoneDevice.scheduleIteration, hidle, h0]
      rw [hflag, hts, if_pos rfl, ih _ (by omega) hrest]
      congr 1
      apply List.map_congr_left
      intro i _
      simp only [Function.comp]
      congr 1
      omega

/-- C20. `schedule` starts with `timeslice = SCHEDULING_FREQ` (as a
`uint32_t`) and each pass of its loop does this: with MobiCore idle it waits on
`schedSync`, leaves `timeslice` as it is and goes on; not idle with
`timeslice == 0` it sets `timeslice` to `SCHEDULING_FREQ` and issues `nsiq`;
not idle with `timeslice > 0` it decrements `timeslice` and issues `yield`; in
the last two cases the loop goes on exactly when the call issued returns
`true`. No pass follows a pass that left the loop, and a run in which no pass
leaves the loop makes every pass of the script. After every pass
`timeslice <= SCHEDULING_FREQ`. On an open kernel module, with
`SCHEDULING_FREQ` below `2^32`, MobiCore never idle and every fast call
succeeding, pass `i` is the N-SIQ (with its signal) when
`i % (SCHEDULING_FREQ + 1) = SCHEDULING_FREQ` and a yield otherwise:
`SCHEDULING_FREQ` yields, then one N-SIQ, repeated. -/
theorem schedule_state_machine (P : TzParams) (isOpen : Bool) :
    (∀ script, TrustZoneDevice.schedule P isOpen script =
      TrustZoneDevice.scheduleFrom P isOpen (P.SCHEDULING_FREQ % 2 ^ 32) script) ∧
    (∀ t e, P.MC_FLAG_SCHEDULE_IDLE = e.schedule →
      TrustZoneDevice.scheduleIteration P isOpen t e = (true, t, [Act.schedSyncWait])) ∧
    (∀ e, P.MC_FLAG_SCHEDULE_IDLE ≠ e.schedule →
      TrustZoneDevice.scheduleIteration P isOpen 0 e =
        ((TrustZoneDevice.nsiq P isOpen e.io).1, P.SCHEDULING_FREQ % 2 ^ 32,
          (TrustZoneDevice.nsiq P isOpen e.io).2)) ∧
    (∀ t e, P.MC_FLAG_SCHEDULE_IDLE ≠ e.schedule → t ≠ 0 →
      TrustZoneDevice.scheduleIteration P isOpen t e =
        ((TrustZoneDevice.yield P isOpen e.io).1, t - 1,
          (TrustZoneDevice.yield P isOpen e.io).2)) ∧
    (∀ script pre r post, TrustZoneDevice.schedule P isOpen script = pre ++ r :: post →
      post ≠ [] → r.1 = true) ∧
    (∀ script, (∀ r ∈ TrustZoneDevice.schedule P isOpen script, r.1 = true) →
      (TrustZoneDevice.schedule P isOpen script).length = script.length) ∧
    (∀ script, ∀ r ∈ TrustZoneDevice.schedule P isOpen script, r.2.1 ≤ P.SCHEDULING_FREQ) ∧
    (P.SCHEDULING_FREQ < 2 ^ 32 → ∀ script,
      (∀ e ∈ script, P.MC_FLAG_SCHEDULE_IDLE ≠ e.schedule ∧ e.io.ret = 0) →
      TrustZoneDevice.schedule P true script =
        (List.range script.length).map (busyPass P)) := by
  refine ⟨fun _ => rfl, ?_, ?_, ?_, ?_, ?_, ?_, ?_⟩
  · intro t e h
    simp [TrustZoneDevice.scheduleIteration, h]
  · intro e h
    simp [TrustZoneDevice.scheduleIteration, h]
  · intro t e h ht
    simp [TrustZoneDevice.scheduleIteration, h, ht]
  · intro script pre r post h
    exact scheduleFrom_break P isOpen script _ pre r post h
  · intro script h
    exact scheduleFrom_length P isOpen script _ h
  · intro script
    exact scheduleFrom_timeslice P isOpen script _ (Nat.mod_le _ _)
  · intro hF script h
    have := scheduleFrom_busy P hF script P.SCHEDULING_FREQ (Nat.le_refl _) h
    simp only [Nat.sub_self, Nat.add_zero] at this
    unfold TrustZoneDevice.schedule
    rw [Nat.mod_eq_of_lt hF]
    exact this

/-- C20, run on the sample parameters (`SCHEDULING_FREQ = 3`): eight passes
with MobiCore not idle and every fast call succeeding are three yields, an
N-SIQ, three yields, an N-SIQ. -/
theorem schedule_state_machine_witness :
    TrustZoneDevice.schedule sampleTzParams true (List.replicate 8 ⟨1, ⟨0, 0, ()⟩⟩) =
      (List.range (List.replicate 8 (⟨1, ⟨0, 0, ()⟩⟩ : SchedEnv)).length).map
        (busyPass sampleTzParams) ∧
    (TrustZoneDevice.schedule sampleTzParams true (List.replicate 8 ⟨1, ⟨0, 0, ()⟩⟩)).map
        (fun r => r.2.2) =
      [[yieldAct], [yieldAct], [yieldAct],
        [Act.sys (Sys.ioctl IoRequest.MC_IO_NSIQ []), Act.schedSyncSignal],
        [yieldAct], [yieldAct], [yieldAct],
        [Act.sys (Sys.ioctl IoRequest.MC_IO_NSIQ []), Act.schedSyncSignal]] :=
  ⟨(schedule_state_machine sampleTzParams true).2.2.2.2.2.2.2 (by decide)
      (List.replicate 8 ⟨1, ⟨0, 0, ()⟩⟩) (by decide),
    by decide⟩

/-! ## C21: the semaphore `schedSync` -/

theorem yield_signals (P : TzParams) (isOpen : Bool) (io : SysRet Unit) :
    schedSyncSignals (TrustZoneDevice.yield P isOpen io).2 = 0 :=
  schedSyncSignals_sys _

theorem getMobicoreStatus_signals (P : TzParams) (isOpen : Bool) (uninit : Nat)
    (io : SysRet mc_ioctl_info) :
    schedSyncSignals (TrustZoneDevice.getMobicoreStatus P isOpen uninit io).2 = 0 :=
  schedSyncSignals_sys _

theorem checkMciVersion_signals (P : TzParams) (isOpen : Bool) (io : SysRet mc_ioctl_info) :
    schedSyncSignals (TrustZoneDevice.checkMciVersion P isOpen io).2 = 0 := by
  unfold TrustZoneDevice.checkMciVersion
  simp only
  repeat' split
  all_goals exact schedSyncSignals_sys _

theorem dumpMobicoreStatus_signals (P : TzParams) (isOpen : Bool)
    (io : Nat → SysRet mc_ioctl_info) :
    schedSyncSignals (TrustZoneDevice.dumpMobicoreStatus P isOpen io) = 0 := by
  simp [schedSyncSignals, TrustZoneDevice.dumpMobicoreStatus, List.count_eq_zero]

theorem getMciInstance_signals (P : TzParams) (isOpen : Bool) (len : Nat)
    (uninit : Nat × Nat × Nat) (io : SysRet mc_ioctl_map) (mm : MmapRet) :
    schedSyncSignals (TrustZoneDevice.getMciInstance P isOpen len uninit io mm).2.2 = 0 := by
  unfold TrustZoneDevice.getMciInstance
  simp only
  repeat' split
  all_goals first | rfl | exact schedSyncSignals_sys _

theorem findContiguousWsm_signals (isOpen : Bool) (handle phys len : Nat)
    (io : SysRet mc_ioctl_resolv_cont_wsm) :
    schedSyncSignals (TrustZoneDevice.findContiguousWsm isOpen handle phys len io).2.2 = 0 := by
  unfold TrustZoneDevice.findContiguousWsm
  simp only
  repeat' split
  all_goals exact schedSyncSignals_sys _

theorem wsm_signals (P : TzParams) (isOpen : Bool) :
    (∀ buffer len pid uninit io,
      schedSyncSignals (TrustZoneDevice.registerWsmL2 P isOpen buffer len pid uninit io).2 = 0) ∧
    (∀ len uninit io mm, schedSyncSignals
      (TrustZoneDevice.allocateContiguousPersistentWsm P isOpen len uninit io mm).2 = 0) ∧
    (∀ pWsm io, schedSyncSignals (TrustZoneDevice.unregisterWsmL2 P isOpen pWsm io).2 = 0) ∧
    (∀ handle io, schedSyncSignals (TrustZoneDevice.lockWsmL2 P isOpen handle io).2 = 0) ∧
    (∀ handle io, schedSyncSignals (TrustZoneDevice.unlockWsmL2 P isOpen handle io).2 = 0) ∧
    (∀ io, schedSyncSignals (TrustZoneDevice.cleanupWsmL2 P isOpen io).2 = 0) ∧
    (∀ handle io, schedSyncSignals (TrustZoneDevice.findWsmL2 isOpen handle io).2 = 0) := by
  refine ⟨?_, ?_, ?_, ?_, ?_, ?_, ?_⟩
  · intro buffer len pid uninit io
    unfold TrustZoneDevice.registerWsmL2
    simp only
    split <;> exact schedSyncSignals_sys _
  · intro len uninit io mm
    unfold TrustZoneDevice.allocateContiguousPersistentWsm
    simp only
    repeat' split
    all_goals first | rfl | exact schedSyncSignals_sys _
  · intro pWsm io
    unfold TrustZoneDevice.unregisterWsmL2
    simp only
    split <;> exact schedSyncSignals_sys _
  · intro handle io
    unfold TrustZoneDevice.lockWsmL2
    simp only
    split <;> exact schedSyncSignals_sys _
  · intro handle io
    unfold TrustZoneDevice.unlockWsmL2
    simp only
    split <;> exact schedSyncSignals_sys _
  · intro io
    unfold TrustZoneDevice.cleanupWsmL2
    simp only
    split <;> exact schedSyncSignals_sys _
  · intro handle io
    unfold TrustZoneDevice.findWsmL2
    simp only
    split <;> exact schedSyncSignals_sys _

theorem initDevicePoll_signals (P : TzParams) (isOpen : Bool)
    (dump : Nat → SysRet mc_ioctl_info) (poll : List PollEnv) :
    ∀ r, TrustZoneDevice.initDevicePoll P isOpen dump poll = some r →
      schedSyncSignals r.2 = 0 := by
  induction poll with
  | nil => intro r h; simp [TrustZoneDevice.initDevicePoll] at h
  | cons p rest ih =>
    intro r h
    unfold TrustZoneDevice.initDevicePoll at h
    simp only at h
    have hs := getMobicoreStatus_signals P isOpen p.uninit p.info
    have hy := yield_signals P isOpen p.yield
    have hd := dumpMobicoreStatus_signals P isOpen dump
    split at h
    · cases h; exact hs
    · split at h
      · split at h
        · cases h
          simp only [schedSyncSignals_append, hs, hy]
        · split at h
          · cases h
          · rename_i b acts hrec
            cases h
            have := ih _ hrec
            simp only [schedSyncSignals_append, hs, hy, this]
            rfl
      · split at h
        · cases h
          simp only [schedSyncSignals_append, hs, hd]
        · cases h; exact hs

theorem initDevice_signals (P : TzParams) (enableScheduler : Bool) (env : InitDeviceEnv)
    (poll : List PollEnv) :
    ∀ r, TrustZoneDevice.initDevice P enableScheduler env poll = some r →
      schedSyncSignals r.2.2 = 0 ∨
      schedSyncSignals r.2.2 =
        schedSyncSignals (TrustZoneDevice.nsiq P env.isOpen env.nsiq).2 := by
  intro r h
  unfold TrustZoneDevice.initDevice at h
  simp only at h
  have hv : schedSyncSignals ((CMcKMod.checkVersion P.toKmodCodes env.isOpen env.version).2.map
    Act.sys) = 0 := schedSyncSignals_sys _
  have hm := getMciInstance_signals P env.isOpen (P.MCI_BUFFER_SIZE % 2 ^ 32) env.uninit
    env.mapMCI env.mmap
  have hc := checkMciVersion_signals P env.isOpen env.mciVersion
  have hi : ∀ a b c d, schedSyncSignals ((CMcKMod.fcInit P.toKmodCodes env.isOpen a b c d
    env.fcInit).2.map Act.sys) = 0 := fun _ _ _ _ => schedSyncSignals_sys _
  have hb : ∀ a b, schedSyncSignals [Act.bzero a b] = 0 := fun _ _ => rfl
  split at h
  · cases h; left; rfl
  · split at h
    · cases h; left; exact hv
    · split at h
      · rename_i x acts heq
        cases h
        left
        rw [heq] at hm
        have hm2 : schedSyncSignals acts = 0 := hm
        simp only [schedSyncSignals_append, hv, hm2]
      · rename_i x pWsmMcp mciReused acts heq
        rw [heq] at hm
        have hm2 : schedSyncSignals acts = 0 := hm
        split at h
        · cases h; left
          simp only [schedSyncSignals_append, hv, hm2, hc]
        · split at h
          · split at h
            · cases h; left
              simp only [schedSyncSignals_append, hv, hm2, hc, hi, hb]
            · split at h
              · cases h; right
                simp only [schedSyncSignals_append, hv, hm2, hc, hi, hb]
                omega
              · split at h
                · cases h
                · rename_i acts2 hp
                  cases h; right
                  have := initDevicePoll_signals P env.isOpen env.dump poll _ hp
                  simp only at this
                  simp only [schedSyncSignals_append, hv, hm2, hc, hi, hb, this]
                  omega
                · rename_i acts2 hp
                  cases h; right
                  have := initDevicePoll_signals P env.isOpen env.dump poll _ hp
                  simp only at this
                  simp only [schedSyncSignals_append, hv, hm2, hc, hi, hb, this]
                  omega
          · cases h; left
            simp only [schedSyncSignals_append, hv, hm2, hc]

theorem scheduleIteration_signals (P : TzParams) (isOpen : Bool) (timeslice : Nat)
    (e : SchedEnv) :
    schedSyncSignals (TrustZoneDevice.scheduleIteration P isOpen timeslice e).2.2 =
      if P.MC_FLAG_SCHEDULE_IDLE ≠ e.schedule ∧ timeslice = 0 then
        schedSyncSignals (TrustZoneDevice.nsiq P isOpen e.io).2
      else 0 := by
  unfold TrustZoneDevice.scheduleIteration
  by_cases h1 : P.MC_FLAG_SCHEDULE_IDLE = e.schedule
  · simp only [h1, if_true, ne_eq, not_true_eq_false, false_and, if_false]
    rfl
  · by_cases h2 : timeslice = 0
    · simp only [h1, h2, if_false, if_true, ne_eq, not_false_eq_true, and_self]
    · simp only [h1, h2, if_false, ne_eq, not_false_eq_true, and_false]
      exact yield_signals P isOpen e.io

theorem scheduleFrom_passes (P : TzParams) (isOpen : Bool) (script : List SchedEnv) :
    ∀ t, ∀ p ∈ TrustZoneDevice.scheduleFrom P isOpen t script,
      ∃ t2, ∃ e ∈ script, p = TrustZoneDevice.scheduleIteration P isOpen t2 e := by
  induction script with
  | nil => intro t p hp; simp [TrustZoneDevice.scheduleFrom] at hp
  | cons e rest ih =>
    intro t p hp
    unfold TrustZoneDevice.scheduleFrom at hp
    simp only [List.mem_cons] at hp
    rcases hp with hp | hp
    · exact ⟨t, e, List.mem_cons_self _ _, hp⟩
    · split at hp
      · obtain ⟨t2, e2, he2, h2⟩ := ih _ p hp
        exact ⟨t2, e2, List.mem_cons_of_mem _ he2, h2⟩
      · simp at hp

theorem notify_signals (P : TzParams) (isOpen : Bool) (device : MobiCoreDevice)
    (sessionId : Nat) (io : SysRet Unit) :
    schedSyncSignals (TrustZoneDevice.notify P isOpen device sessionId io).2 =
      if sessionId ≠ P.SID_MCP ∧ (device.getTrustletSession sessionId).isNone then 0
      else schedSyncSignals (TrustZoneDevice.nsiq P isOpen io).2 := by
  unfold TrustZoneDevice.notify
  split
  · rfl
  · simp only [schedSyncSignals_append]
    have : schedSyncSignals [Act.putNotification ⟨sessionId, 0⟩] = 0 := rfl
    omega

/-- Claim C21 does not hold for a call of `nsiq` whose N-SIQ fails: on an open
kernel module whose `ioctl` returns `-1`, `nsiq` makes the `ioctl`, returns
`false` and does not signal `schedSync`. -/
theorem nsiq_failed_does_not_signal :
    TrustZoneDevice.nsiq sampleTzParams true ⟨-1, 1, ()⟩ =
      (false, [Act.sys (Sys.ioctl IoRequest.MC_IO_NSIQ [])]) ∧
    schedSyncSignals (TrustZoneDevice.nsiq sampleTzParams true ⟨-1, 1, ()⟩).2 = 0 := by
  decide

/-- Claim C21, amended: `schedSync` is signalled once by a call of `nsiq`
whose `fcNSIQ` returns `0`, as the last thing done, and not by a call whose
`fcNSIQ` fails; `handleIrq` signals it once for each wake-up, after the
notifications of the drain; the other functions of `TrustZoneDevice` do not
signal it, except that `notify`, `initDevice` and `schedule` do so through
their call of `nsiq`. -/
theorem schedSync_signals (P : TzParams) (isOpen : Bool) :
    (∀ io,
      (TrustZoneDevice.nsiq P isOpen io).1 =
        decide ((CMcKMod.fcNSIQ P.toKmodCodes isOpen io).1 = 0) ∧
      (TrustZoneDevice.nsiq P isOpen io).2 =
        (CMcKMod.fcNSIQ P.toKmodCodes isOpen io).2.map Act.sys ++
          (if (CMcKMod.fcNSIQ P.toKmodCodes isOpen io).1 = 0 then [Act.schedSyncSignal]
            else []) ∧
      schedSyncSignals (TrustZoneDevice.nsiq P isOpen io).2 =
        if (CMcKMod.fcNSIQ P.toKmodCodes isOpen io).1 = 0 then 1 else 0) ∧
    (∀ script,
      (TrustZoneDevice.handleIrq P isOpen script).2 =
        (TrustZoneDevice.wakeUps P isOpen script).flatMap (fun e =>
          (TrustZoneDevice.waitSsiq P isOpen e.uninit e.uninitCnt e.rd).2 ++
            e.drained.map (TrustZoneDevice.handleNotification P) ++ [Act.schedSyncSignal]) ++
        (match script.drop (TrustZoneDevice.wakeUps P isOpen script).length with
          | [] => []
          | e :: _ =>
            (TrustZoneDevice.waitSsiq P isOpen e.uninit e.uninitCnt e.rd).2 ++
              [Act.setExiting, Act.signalMcpNotification]) ∧
      (∀ e ∈ TrustZoneDevice.wakeUps P isOpen script,
        schedSyncSignals ((TrustZoneDevice.waitSsiq P isOpen e.uninit e.uninitCnt e.rd).2 ++
          e.drained.map (TrustZoneDevice.handleNotification P)) = 0) ∧
      schedSyncSignals (TrustZoneDevice.handleIrq P isOpen script).2 =
        (TrustZoneDevice.wakeUps P isOpen script).length) ∧
    (∀ device sessionId io,
      schedSyncSignals (TrustZoneDevice.notify P isOpen device sessionId io).2 =
        if sessionId ≠ P.SID_MCP ∧ (device.getTrustletSession sessionId).isNone then 0
        else schedSyncSignals (TrustZoneDevice.nsiq P isOpen io).2) ∧
    (∀ enableScheduler env poll r,
      TrustZoneDevice.initDevice P enableScheduler env poll = some r →
      schedSyncSignals r.2.2 = 0 ∨
      schedSyncSignals r.2.2 =
        schedSyncSignals (TrustZoneDevice.nsiq P env.isOpen env.nsiq).2) ∧
    (∀ timeslice e,
      schedSyncSignals (TrustZoneDevice.scheduleIteration P isOpen timeslice e).2.2 =
        if P.MC_FLAG_SCHEDULE_IDLE ≠ e.schedule ∧ timeslice = 0 then
          schedSyncSignals (TrustZoneDevice.nsiq P isOpen e.io).2
        else 0) ∧
    (∀ script, ∀ p ∈ TrustZoneDevice.schedule P isOpen script,
      ∃ timeslice, ∃ e ∈ script,
        p = TrustZoneDevice.scheduleIteration P isOpen timeslice e) ∧
    (∀ io, schedSyncSignals (TrustZoneDevice.yield P isOpen io).2 = 0) ∧
    (∀ uninit io, schedSyncSignals (TrustZoneDevice.getMobicoreStatus P isOpen uninit io).2 = 0) ∧
    (∀ io, schedSyncSignals (TrustZoneDevice.checkMciVersion P isOpen io).2 = 0) ∧
    (∀ io, schedSyncSignals (TrustZoneDevice.dumpMobicoreStatus P isOpen io) = 0) ∧
    (∀ uninit uninitCnt rd,
      schedSyncSignals (TrustZoneDevice.waitSsiq P isOpen uninit uninitCnt rd).2 = 0) ∧
    (∀ len uninit io mm,
      schedSyncSignals (TrustZoneDevice.getMciInstance P isOpen len uninit io mm).2.2 = 0) ∧
    (∀ handle phys len io,
      schedSyncSignals (TrustZoneDevice.findContiguousWsm isOpen handle phys len io).2.2 = 0) ∧
    (∀ buffer len pid uninit io,
      schedSyncSignals (TrustZoneDevice.registerWsmL2 P isOpen buffer len pid uninit io).2 = 0) ∧
    (∀ len uninit io mm, schedSyncSignals
      (TrustZoneDevice.allocateContiguousPersistentWsm P isOpen len uninit io mm).2 = 0) ∧
    (∀ pWsm io, schedSyncSignals (TrustZoneDevice.unregisterWsmL2 P isOpen pWsm io).2 = 0) ∧
    (∀ handle io, schedSyncSignals (TrustZoneDevice.lockWsmL2 P isOpen handle io).2 = 0) ∧
    (∀ handle io, schedSyncSignals (TrustZoneDevice.unlockWsmL2 P isOpen handle io).2 = 0) ∧
    (∀ io, schedSyncSignals (TrustZoneDevice.cleanupWsmL2 P isOpen io).2 = 0) ∧
    (∀ handle io, schedSyncSignals (TrustZoneDevice.findWsmL2 isOpen handle io).2 = 0) := by
  refine ⟨?_, ?_, notify_signals P isOpen, initDevice_signals P, scheduleIteration_signals P isOpen,
    ?_, yield_signals P isOpen, getMobicoreStatus_signals P isOpen,
    checkMciVersion_signals P isOpen, dumpMobicoreStatus_signals P isOpen,
    waitSsiq_signals P isOpen, getMciInstance_signals P isOpen, findContiguousWsm_signals isOpen,
    wsm_signals P isOpen⟩
  · intro io
    have h := nsiq_signals P isOpen io
    unfold TrustZoneDevice.nsiq at h ⊢
    simp only at h ⊢
    by_cases h0 : (CMcKMod.fcNSIQ P.toKmodCodes isOpen io).1 = 0
    · simp only [h0, ne_eq, not_true_eq_false, if_false, decide_True, if_true, true_and]
      simp only [h0, ne_eq, not_true_eq_false, if_false, if_true] at h
      exact h
    · simp only [h0, ne_eq, not_false_eq_true, if_true, decide_False, if_false,
        List.append_nil, true_and]
      exact schedSyncSignals_sys _
  · intro script
    refine ⟨handleIrq_acts P isOpen script, ?_, handleIrq_signals P isOpen script⟩
    intro e _
    rw [schedSyncSignals_append, waitSsiq_signals, handleNotification_signals]
  · intro script p hp
    exact scheduleFrom_passes P isOpen script _ p hp

/-- C21, run on the sample device: two wake-ups, the first with a
notification for the MCP session and one for session `5`, then a failing
read; `schedSync` is signalled twice. -/
theorem schedSync_signals_witness :
    schedSyncSignals (TrustZoneDevice.handleIrq sampleTzParams true
      [⟨[0, 0, 0, 0], [0, 0, 0, 0], ⟨4, 0, [1, 0, 0, 0]⟩, [⟨⟨0, 0⟩, none⟩, ⟨⟨5, 0⟩, some 9⟩]⟩,
        ⟨[0, 0, 0, 0], [0, 0, 0, 0], ⟨4, 0, [1, 0, 0, 0]⟩, []⟩,
        ⟨[0, 0, 0, 0], [0, 0, 0, 0], ⟨-1, 4, [0, 0, 0, 0]⟩, []⟩]).2 = 2 :=
  ((schedSync_signals sampleTzParams true).2.1 _).2.2.trans (by decide)

/-! ## C22: `notify` -/

/-- Claim C22: for a session id that is `SID_MCP` or the id of a session of
the trustlet-session table, `notify` puts the one notification
`{sessionId, 0}` into the queue and then calls `nsiq`, which on an open kernel
module is one N-SIQ `ioctl`, followed by the signal of `schedSync` when the
`ioctl` returns `0`; for any other session id it does nothing. It returns
nothing in both cases, whatever the outcome of the N-SIQ. -/
theorem notify_publishes_then_nsiq (P : TzParams) (device : MobiCoreDevice) (sessionId : Nat)
    (io : SysRet Unit) :
    ((sessionId = P.SID_MCP ∨ ∃ ts ∈ device.trustletSessions, ts.sessionId = sessionId) →
      (∀ isOpen, (TrustZoneDevice.notify P isOpen device sessionId io).2 =
        Act.putNotification ⟨sessionId, 0⟩ :: (TrustZoneDevice.nsiq P isOpen io).2) ∧
      (TrustZoneDevice.notify P true device sessionId io).2 =
        Act.putNotification ⟨sessionId, 0⟩ :: Act.sys (Sys.ioctl IoRequest.MC_IO_NSIQ []) ::
          (if io.ret = 0 then [Act.schedSyncSignal] else []) ∧
      putNotifications (TrustZoneDevice.notify P true device sessionId io).2 =
        [⟨sessionId, 0⟩] ∧
      (TrustZoneDevice.notify P true device sessionId io).2.count
        (Act.sys (Sys.ioctl IoRequest.MC_IO_NSIQ [])) = 1) ∧
    (sessionId ≠ P.SID_MCP → (∀ ts ∈ device.trustletSessions, ts.sessionId ≠ sessionId) →
      ∀ isOpen, (TrustZoneDevice.notify P isOpen device sessionId io).2 = []) ∧
    (∀ isOpen, (TrustZoneDevice.notify P isOpen device sessionId io).1 = ()) := by
  refine ⟨?_, ?_, fun _ => rfl⟩
  · intro h
    have hc : ¬ (sessionId ≠ P.SID_MCP ∧ (device.getTrustletSession sessionId).isNone = true) := by
      rintro ⟨h1, h2⟩
      rcases h with h | ⟨ts, hts, he⟩
      · exact h1 h
      · exact (getTrustletSession_isNone device sessionId).1 h2 ts hts he
    have hgen : ∀ isOpen, (TrustZoneDevice.notify P isOpen device sessionId io).2 =
        Act.putNotification ⟨sessionId, 0⟩ :: (TrustZoneDevice.nsiq P isOpen io).2 := by
      intro isOpen
      unfold TrustZoneDevice.notify
      rw [if_neg hc]
      rfl
    have hopen : (TrustZoneDevice.nsiq P true io).2 =
        Act.sys (Sys.ioctl IoRequest.MC_IO_NSIQ []) ::
          (if io.ret = 0 then [Act.schedSyncSignal] else []) := by
      unfold TrustZoneDevice.nsiq CMcKMod.fcNSIQ
      by_cases h0 : io.ret = 0 <;> simp [h0]
    refine ⟨hgen, ?_, ?_, ?_⟩
    · rw [hgen, hopen]
    · rw [hgen, hopen]
      by_cases h0 : io.ret = 0 <;> simp [h0, putNotifications]
    · rw [hgen, hopen]
      by_cases h0 : io.ret = 0 <;> simp [h0]
  · intro h1 h2 isOpen
    unfold TrustZoneDevice.notify
    rw [if_pos ⟨h1, (getTrustletSession_isNone device sessionId).2 h2⟩]

/-- C22, run on the sample device with the sessions `5` and `7`: a `notify`
for session `7` whose N-SIQ fails puts the notification and makes the
`ioctl`. -/
theorem notify_publishes_then_nsiq_witness :
    (TrustZoneDevice.notify sampleTzParams true ⟨[⟨5, some 9⟩, ⟨7, none⟩], []⟩ 7 ⟨-1, 1, ()⟩).2 =
      [Act.putNotification ⟨7, 0⟩, Act.sys (Sys.ioctl IoRequest.MC_IO_NSIQ [])] :=
  ((notify_publishes_then_nsiq sampleTzParams ⟨[⟨5, some 9⟩, ⟨7, none⟩], []⟩ 7 ⟨-1, 1, ()⟩).1
    (Or.inr ⟨⟨7, none⟩, by decide, rfl⟩)).2.1

/-! ## C23: the notifications taken from the queue by `handleIrq` -/

theorem find_filter_ne (l : List TrustletSession) (x s : Nat) (h : s ≠ x) :
    (l.filter (fun ts => decide (ts.sessionId ≠ x))).find?
        (fun ts => decide (ts.sessionId = s)) =
      l.find? (fun ts => decide (ts.sessionId = s)) := by
  induction l with
  | nil => rfl
  | cons a rest ih =>
    rw [List.filter_cons]
    by_cases ha : a.sessionId = x
    · have hd : decide (a.sessionId ≠ x) = false := by simp [ha]
      have hd2 : decide (a.sessionId = s) = false := by
        simp only [decide_eq_false_iff_not]
        exact fun e => h (e.symm.trans ha)
      rw [hd, if_neg (by simp), ih, List.find?_cons, hd2]
    · have hd : decide (a.sessionId ≠ x) = true := by simp [ha]
      rw [hd, if_pos rfl, List.find?_cons, List.find?_cons, ih]

theorem find_filter_self (l : List TrustletSession) (x : Nat) :
    (l.filter (fun ts => decide (ts.sessionId ≠ x))).find?
        (fun ts => decide (ts.sessionId = x)) = none := by
  simp [List.find?_eq_none]

theorem writtenFor_append (s : Nat) (a b : List Act) :
    writtenFor s (a ++ b) = writtenFor s a ++ writtenFor s b := by
  simp [writtenFor]

theorem handledFor_append (s : Nat) (a b : List Act) :
    handledFor s (a ++ b) = handledFor s a ++ handledFor s b := by
  simp [handledFor]

theorem producedFor_cons (s : Nat) (e : DeviceEvent) (rest : List DeviceEvent) :
    producedFor s (e :: rest) = producedFor s [e] ++ producedFor s rest := by
  simp only [producedFor, List.filterMap_cons, List.filterMap_nil]
  split <;> rfl

theorem writtenFor_flush (s x c : Nat) (l : List notification_t) :
    writtenFor s ((l.filter (fun n => decide (n.sessionId = x))).map (Act.writeData c)) =
      if x = s then l.filter (fun n => decide (n.sessionId = s)) else [] := by
  induction l with
  | nil => simp [writtenFor]
  | cons n rest ih =>
    by_cases hx : x = s
    · subst hx
      simp only [if_true] at ih ⊢
      by_cases hn : n.sessionId = x
      · simp only [List.filter, hn, decide_True, List.map_cons]
        simp only [writtenFor, List.filterMap_cons, hn, if_true] at ih ⊢
        rw [ih]
      · simp only [List.filter, hn, decide_False]
        exact ih
    · simp only [hx, if_false] at ih ⊢
      by_cases hn : n.sessionId = x
      · have hns : n.sessionId ≠ s := fun e => hx (hn.symm.trans e)
        simp only [List.filter, hn, decide_True, List.map_cons]
        simp only [writtenFor, List.filterMap_cons, hn, hx, if_false] at ih ⊢
        exact ih
      · simp only [List.filter, hn, decide_False]
        exact ih

theorem filter_filter_ne (s x : Nat) (l : List notification_t) :
    (l.filter (fun n => decide (n.sessionId ≠ x))).filter (fun n => decide (n.sessionId = s)) =
      if x = s then [] else l.filter (fun n => decide (n.sessionId = s)) := by
  by_cases hx : x = s
  · subst hx
    simp only [if_true, List.filter_filter, List.filter_eq_nil_iff]
    intro n _
    simp
  · simp only [hx, if_false, List.filter_filter]
    apply List.filter_congr
    intro n _
    by_cases hn : n.sessionId = s
    · have : n.sessionId ≠ x := fun e => hx (e.symm.trans hn)
      simp [hn, this]
      exact fun e => hx e.symm
    · simp [hn]

theorem step_notification_mcp (P : TzParams) (device : MobiCoreDevice) (n : notification_t)
    (hm : n.sessionId = P.SID_MCP) :
    MobiCoreDevice.step P device (DeviceEvent.notification n) =
      (device, [Act.signalMcpNotification]) := by
  simp only [MobiCoreDevice.step, TrustZoneDevice.handleNotification, hm, if_true]

theorem step_notification_none (P : TzParams) (device : MobiCoreDevice) (n : notification_t)
    (hm : n.sessionId ≠ P.SID_MCP) (hc : device.getSessionConnection n.sessionId = none) :
    MobiCoreDevice.step P device (DeviceEvent.notification n) =
      (device.queueUnknownNotification n, [Act.queueUnknownNotification n]) := by
  simp only [MobiCoreDevice.step, TrustZoneDevice.handleNotification, hm, if_false, hc]

theorem step_notification_some (P : TzParams) (device : MobiCoreDevice) (n : notification_t)
    (c : Nat) (hm : n.sessionId ≠ P.SID_MCP)
    (hc : device.getSessionConnection n.sessionId = some c) :
    MobiCoreDevice.step P device (DeviceEvent.notification n) =
      (device, [Act.writeData c n]) := by
  simp only [MobiCoreDevice.step, TrustZoneDevice.handleNotification, hm, if_false, hc]

theorem getSessionConnection_filter_ne (sessions : List TrustletSession)
    (unknown1 unknown2 : List notification_t) (x s : Nat) (h : s ≠ x) :
    MobiCoreDevice.getSessionConnection
        ⟨sessions.filter (fun ts => decide (ts.sessionId ≠ x)), unknown1⟩ s =
      MobiCoreDevice.getSessionConnection ⟨sessions, unknown2⟩ s := by
  simp only [MobiCoreDevice.getSessionConnection, MobiCoreDevice.getTrustletSession,
    find_filter_ne sessions x s h]

theorem getSessionConnection_cons_ne (t : TrustletSession) (sessions : List TrustletSession)
    (unknown : List notification_t) (s : Nat) (h : s ≠ t.sessionId) :
    MobiCoreDevice.getSessionConnection ⟨t :: sessions, unknown⟩ s =
      MobiCoreDevice.getSessionConnection ⟨sessions, unknown⟩ s := by
  have hd : decide (t.sessionId = s) = false := by
    simp only [decide_eq_false_iff_not]
    exact fun e => h e.symm
  simp only [MobiCoreDevice.getSessionConnection, MobiCoreDevice.getTrustletSession,
    List.find?_cons, hd]

/-- One event keeps the order: what is written for `s` by the event, followed
by what is buffered for `s` afterwards, is what was buffered for `s` before
followed by the notification for `s` of the event; and a session with a
connection has nothing buffered. -/
theorem step_fifo (P : TzParams) (s : Nat) (hs : s ≠ P.SID_MCP) (device : MobiCoreDevice)
    (e : DeviceEvent)
    (hinv : device.getSessionConnection s ≠ none →
      device.unknownNotifications.filter (fun n => decide (n.sessionId = s)) = []) :
    ((MobiCoreDevice.step P device e).1.getSessionConnection s ≠ none →
      (MobiCoreDevice.step P device e).1.unknownNotifications.filter
        (fun n => decide (n.sessionId = s)) = []) ∧
    writtenFor s (MobiCoreDevice.step P device e).2 ++
        (MobiCoreDevice.step P device e).1.unknownNotifications.filter
          (fun n => decide (n.sessionId = s)) =
      device.unknownNotifications.filter (fun n => decide (n.sessionId = s)) ++
        producedFor s [e] := by
  cases e with
  | notification n =>
    by_cases hm : n.sessionId = P.SID_MCP
    · have hns : n.sessionId ≠ s := fun e => hs (e.symm.trans hm)
      rw [step_notification_mcp P device n hm]
      refine ⟨hinv, ?_⟩
      simp [writtenFor, producedFor, hns]
    · cases hc : device.getSessionConnection n.sessionId with
      | none =>
        rw [step_notification_none P device n hm hc]
        by_cases hns : n.sessionId = s
        · subst hns
          refine ⟨fun h => absurd hc h, ?_⟩
          simp [writtenFor, producedFor, MobiCoreDevice.queueUnknownNotification]
        · refine ⟨?_, ?_⟩
          · intro h
            have := hinv h
            simp only [MobiCoreDevice.queueUnknownNotification, List.filter_append, this,
              List.nil_append]
            simp [hns]
          · simp [writtenFor, producedFor, MobiCoreDevice.queueUnknownNotification, hns]
      | some c =>
        rw [step_notification_some P device n c hm hc]
        refine ⟨hinv, ?_⟩
        by_cases hns : n.sessionId = s
        · subst hns
          have := hinv (by rw [hc]; simp)
          simp [writtenFor, producedFor, this]
        · simp [writtenFor, producedFor, hns]
  | openSession x =>
    simp only [MobiCoreDevice.step, MobiCoreDevice.openSession]
    refine ⟨?_, by simp [writtenFor, producedFor]⟩
    by_cases hx : s = x
    · subst hx
      intro h
      exfalso
      apply h
      simp [MobiCoreDevice.getSessionConnection, MobiCoreDevice.getTrustletSession]
    · rw [getSessionConnection_cons_ne ⟨x, none⟩ _ _ s hx,
        getSessionConnection_filter_ne device.trustletSessions _ device.unknownNotifications
          x s hx]
      exact hinv
  | nqConnect x c =>
    simp only [MobiCoreDevice.step, MobiCoreDevice.nqConnect]
    cases hg : device.getTrustletSession x with
    | none =>
      refine ⟨hinv, ?_⟩
      simp [writtenFor, producedFor]
    | some ts =>
      simp only
      rw [writtenFor_flush, filter_filter_ne]
      by_cases hx : x = s
      · subst hx
        simp [producedFor]
      · have hx2 : s ≠ x := fun e => hx e.symm
        simp only [hx, if_false, List.nil_append]
        refine ⟨?_, by simp [producedFor]⟩
        rw [getSessionConnection_cons_ne ⟨x, some c⟩ _ _ s hx2,
          getSessionConnection_filter_ne device.trustletSessions _ device.unknownNotifications
            x s hx2]
        exact hinv
  | closeSession x =>
    simp only [MobiCoreDevice.step, MobiCoreDevice.closeSession]
    refine ⟨?_, by simp [writtenFor, producedFor]⟩
    by_cases hx : s = x
    · subst hx
      intro h
      exfalso
      apply h
      simp only [MobiCoreDevice.getSessionConnection, MobiCoreDevice.getTrustletSession,
        find_filter_self]
      rfl
    · rw [getSessionConnection_filter_ne device.trustletSessions _ device.unknownNotifications
        x s hx]
      exact hinv

/-- A sequence of events keeps the order. -/
theorem run_fifo (P : TzParams) (s : Nat) (hs : s ≠ P.SID_MCP) (events : List DeviceEvent) :
    ∀ device : MobiCoreDevice,
      (device.getSessionConnection s ≠ none →
        device.unknownNotifications.filter (fun n => decide (n.sessionId = s)) = []) →
      writtenFor s (MobiCoreDevice.run P device events).2 ++
          (MobiCoreDevice.run P device events).1.unknownNotifications.filter
            (fun n => decide (n.sessionId = s)) =
        device.unknownNotifications.filter (fun n => decide (n.sessionId = s)) ++
          producedFor s events := by
  induction events with
  | nil =>
    intro device _
    simp [MobiCoreDevice.run, writtenFor, producedFor]
  | cons e rest ih =>
    intro device hinv
    have h1 := step_fifo P s hs device e hinv
    have h2 := ih (MobiCoreDevice.step P device e).1 h1.1
    simp only [MobiCoreDevice.run]
    rw [writtenFor_append, List.append_assoc, h2, ← List.append_assoc, h1.2,
      List.append_assoc, ← producedFor_cons]

theorem handledFor_handleNotification (P : TzParams) (s : Nat) (hs : s ≠ P.SID_MCP)
    (l : List DrainedNotification) :
    handledFor s (l.map (TrustZoneDevice.handleNotification P)) =
      (l.map (fun d => d.notification)).filter (fun n => decide (n.sessionId = s)) := by
  induction l with
  | nil => rfl
  | cons d rest ih =>
    have hc : handledFor s (TrustZoneDevice.handleNotification P d :: rest.map
        (TrustZoneDevice.handleNotification P)) =
        handledFor s [TrustZoneDevice.handleNotification P d] ++
          handledFor s (rest.map (TrustZoneDevice.handleNotification P)) :=
      handledFor_append s [_] _
    rw [List.map_cons, hc, ih, List.map_cons, List.filter_cons]
    unfold TrustZoneDevice.handleNotification
    by_cases hm : d.notification.sessionId = P.SID_MCP
    · have hns : d.notification.sessionId ≠ s := fun e => hs (e.symm.trans hm)
      simp [hm, handledFor, hns, Ne.symm hs]
    · by_cases hns : d.notification.sessionId = s
      · cases hd : d.connection <;> simp [hm, handledFor, hns, hs]
      · cases hd : d.connection <;> simp [hm, handledFor, hns]

theorem handledFor_sys (s : Nat) (l : List Sys) : handledFor s (l.map Act.sys) = [] := by
  simp [handledFor]

theorem waitSsiq_handledFor (P : TzParams) (isOpen : Bool) (s : Nat) (uninit uninitCnt : List Nat)
    (rd : SysRet (List Nat)) :
    handledFor s (TrustZoneDevice.waitSsiq P isOpen uninit uninitCnt rd).2 = [] := by
  unfold TrustZoneDevice.waitSsiq
  simp only
  split <;> exact handledFor_sys s _

theorem handleIrq_handledFor (P : TzParams) (isOpen : Bool) (s : Nat) (hs : s ≠ P.SID_MCP)
    (script : List IrqEnv) :
    handledFor s (TrustZoneDevice.handleIrq P isOpen script).2 =
      (((TrustZoneDevice.wakeUps P isOpen script).flatMap (fun e => e.drained)).map
        (fun d => d.notification)).filter (fun n => decide (n.sessionId = s)) := by
  induction script with
  | nil => rfl
  | cons e rest ih =>
    have h0 := waitSsiq_handledFor P isOpen s e.uninit e.uninitCnt e.rd
    cases hw : (TrustZoneDevice.waitSsiq P isOpen e.uninit e.uninitCnt e.rd).1 with
    | false =>
      simp only [TrustZoneDevice.handleIrq, hw, Bool.not_false, if_true, handledFor_append, h0,
        TrustZoneDevice.wakeUps, List.takeWhile_cons, Bool.false_eq_true, if_false,
        List.flatMap_nil, List.map_nil, List.filter_nil]
      rfl
    | true =>
      have ih2 := ih
      simp only [TrustZoneDevice.wakeUps] at ih2
      simp only [TrustZoneDevice.handleIrq, hw, Bool.not_true, Bool.false_eq_true, if_false,
        handledFor_append, h0, handledFor_handleNotification P s hs, ih2,
        TrustZoneDevice.wakeUps, List.takeWhile_cons, if_true, List.flatMap_cons,
        List.map_append, List.filter_append, List.nil_append]
      simp [handledFor]

theorem step_notification_act (P : TzParams) (device : MobiCoreDevice) (n : notification_t) :
    (MobiCoreDevice.step P device (DeviceEvent.notification n)).2 =
      [TrustZoneDevice.handleNotification P ⟨n, device.getSessionConnection n.sessionId⟩] ∧
    (MobiCoreDevice.step P device (DeviceEvent.notification n)).1.trustletSessions =
      device.trustletSessions := by
  by_cases hm : n.sessionId = P.SID_MCP
  · rw [step_notification_mcp P device n hm]
    simp [TrustZoneDevice.handleNotification, hm]
  · cases hc : device.getSessionConnection n.sessionId with
    | none =>
      rw [step_notification_none P device n hm hc]
      simp [TrustZoneDevice.handleNotification, hm, MobiCoreDevice.queueUnknownNotification]
    | some c =>
      rw [step_notification_some P device n c hm hc]
      simp [TrustZoneDevice.handleNotification, hm]

/-- The notifications of one drain, with no other event in between, are
handled with the connections of the session table as it is at the start. -/
theorem run_notifications (P : TzParams) (ns : List notification_t) :
    ∀ device : MobiCoreDevice,
      (MobiCoreDevice.run P device (ns.map DeviceEvent.notification)).2 =
        ns.map (fun n =>
          TrustZoneDevice.handleNotification P ⟨n, device.getSessionConnection n.sessionId⟩) := by
  induction ns with
  | nil => intro device; rfl
  | cons n rest ih =>
    intro device
    have h := step_notification_act P device n
    have hg : ∀ x, (MobiCoreDevice.step P device (DeviceEvent.notification n)).1.getSessionConnection
        x = device.getSessionConnection x := by
      intro x
      simp only [MobiCoreDevice.getSessionConnection, MobiCoreDevice.getTrustletSession, h.2]
    simp only [List.map_cons, MobiCoreDevice.run, h.1, ih, hg]
    rfl

/-- Claim C23: for a session id `s` other than `SID_MCP`, each notification
that `handleIrq` takes from the queue has one destination, the MCP signal for
the MCP session, the write of the record to the connection of its session
when there is one, and the buffer of unknown notifications otherwise; the
records written or buffered for `s` are, in order, the notifications for `s`
taken from the queue; and with the connections given by the session table,
whose buffer is drained to the connection by NqConnect, the records written
for `s` followed by those still buffered for `s` are the notifications for
`s`, so that the records written are a prefix of them. -/
theorem handleIrq_notifications_fifo (P : TzParams) (s : Nat) (hs : s ≠ P.SID_MCP) :
    (∀ d : DrainedNotification,
      (d.notification.sessionId = P.SID_MCP →
        TrustZoneDevice.handleNotification P d = Act.signalMcpNotification) ∧
      (d.notification.sessionId ≠ P.SID_MCP → ∀ c, d.connection = some c →
        TrustZoneDevice.handleNotification P d = Act.writeData c d.notification) ∧
      (d.notification.sessionId ≠ P.SID_MCP → d.connection = none →
        TrustZoneDevice.handleNotification P d =
          Act.queueUnknownNotification d.notification)) ∧
    (∀ isOpen script,
      (TrustZoneDevice.handleIrq P isOpen script).2 =
        (TrustZoneDevice.wakeUps P isOpen script).flatMap (fun e =>
          (TrustZoneDevice.waitSsiq P isOpen e.uninit e.uninitCnt e.rd).2 ++
            e.drained.map (TrustZoneDevice.handleNotification P) ++ [Act.schedSyncSignal]) ++
        (match script.drop (TrustZoneDevice.wakeUps P isOpen script).length with
          | [] => []
          | e :: _ =>
            (TrustZoneDevice.waitSsiq P isOpen e.uninit e.uninitCnt e.rd).2 ++
              [Act.setExiting, Act.signalMcpNotification]) ∧
      handledFor s (TrustZoneDevice.handleIrq P isOpen script).2 =
        (((TrustZoneDevice.wakeUps P isOpen script).flatMap (fun e => e.drained)).map
          (fun d => d.notification)).filter (fun n => decide (n.sessionId = s))) ∧
    (∀ (device : MobiCoreDevice) (ns : List notification_t),
      (MobiCoreDevice.run P device (ns.map DeviceEvent.notification)).2 =
        ns.map (fun n =>
          TrustZoneDevice.handleNotification P
            ⟨n, device.getSessionConnection n.sessionId⟩)) ∧
    (∀ (sessions : List TrustletSession) (events : List DeviceEvent),
      writtenFor s (MobiCoreDevice.run P ⟨sessions, []⟩ events).2 ++
          (MobiCoreDevice.run P ⟨sessions, []⟩ events).1.unknownNotifications.filter
            (fun n => decide (n.sessionId = s)) =
        producedFor s events ∧
      writtenFor s (MobiCoreDevice.run P ⟨sessions, []⟩ events).2 <+: producedFor s events) := by
  refine ⟨?_, ?_, fun device ns => run_notifications P ns device, ?_⟩
  · intro d
    refine ⟨?_, ?_, ?_⟩
    · intro h
      simp only [TrustZoneDevice.handleNotification, h, if_true]
    · intro h c hc
      simp only [TrustZoneDevice.handleNotification, h, if_false, hc]
    · intro h hc
      simp only [TrustZoneDevice.handleNotification, h, if_false, hc]
  · intro isOpen script
    exact ⟨handleIrq_acts P isOpen script, handleIrq_handledFor P isOpen s hs script⟩
  · intro sessions events
    have h := run_fifo P s hs events ⟨sessions, []⟩ (fun _ => rfl)
    simp only [List.filter_nil, List.nil_append] at h
    exact ⟨h, ⟨_, h⟩⟩

/-- C23, run on the sample device for session `5`: a notification that comes
before the session is in the table is buffered and written to the connection
by NqConnect before the two that follow. -/
theorem handleIrq_notifications_fifo_witness :
    writtenFor 5 (MobiCoreDevice.run sampleTzParams ⟨[], []⟩
      [DeviceEvent.notification ⟨5, 0⟩, DeviceEvent.openSession 5,
        DeviceEvent.notification ⟨0, 0⟩, DeviceEvent.notification ⟨5, 1⟩,
        DeviceEvent.nqConnect 5 9, DeviceEvent.notification ⟨5, 2⟩]).2 ++
      (MobiCoreDevice.run sampleTzParams ⟨[], []⟩
        [DeviceEvent.notification ⟨5, 0⟩, DeviceEvent.openSession 5,
          DeviceEvent.notification ⟨0, 0⟩, DeviceEvent.notification ⟨5, 1⟩,
          DeviceEvent.nqConnect 5 9, DeviceEvent.notification ⟨5, 2⟩]).1.unknownNotifications.filter
        (fun n => decide (n.sessionId = 5)) =
      [⟨5, 0⟩, ⟨5, 1⟩, ⟨5, 2⟩] :=
  ((handleIrq_notifications_fifo sampleTzParams 5 (by decide)).2.2.2 [] _).1

/-! ## C24: the registry path and the auth token path -/

/-- C24. For every environment and every file system in which the empty path
names no directory: if `MC_REGISTRY_PATH` is set and names an existing
directory, `getRegistryPath` is its value; otherwise, if
`MC_REGISTRY_FALLBACK_PATH` is set and names an existing directory, it is that
value; otherwise it is `"/data/app/mcRegistry"`. The result is never the empty
string. The auth token file path is the value of `MC_AUTH_TOKEN_PATH`, if that
is set and names an existing directory, and otherwise the registry path,
followed by `"/00000000.authtokcont"`. -/
theorem getRegistryPath_resolution (env : RegistryEnv) (hempty : env.fs.isDir "" = false) :
    (∀ p, env.getenv "MC_REGISTRY_PATH" = some p → env.fs.isDir p = true →
      getRegistryPath env = p) ∧
    (doesDirExist env.fs (env.getenv "MC_REGISTRY_PATH") = false →
      ∀ p, env.getenv "MC_REGISTRY_FALLBACK_PATH" = some p → env.fs.isDir p = true →
        getRegistryPath env = p) ∧
    (doesDirExist env.fs (env.getenv "MC_REGISTRY_PATH") = false →
      doesDirExist env.fs (env.getenv "MC_REGISTRY_FALLBACK_PATH") = false →
      getRegistryPath env = "/data/app/mcRegistry") ∧
    getRegistryPath env ≠ "" ∧
    (∀ p, env.getenv "MC_AUTH_TOKEN_PATH" = some p → env.fs.isDir p = true →
      getAuthTokenFilePath env = p ++ "/00000000.authtokcont") ∧
    (doesDirExist env.fs (env.getenv "MC_AUTH_TOKEN_PATH") = false →
      getAuthTokenFilePath env = getRegistryPath env ++ "/00000000.authtokcont") := by
  have hlen : ∀ p : String, env.fs.isDir p = true → p.length ≠ 0 := by
    intro p hp h0
    have : p = "" := by
      apply String.ext
      exact List.length_eq_zero.1 h0
    rw [this, hempty] at hp
    exact Bool.false_ne_true hp
  have hne : ∀ s : String, (if s.length = 0 then MC_REGISTRY_DEFAULT_PATH else s) ≠ "" := by
    intro s
    by_cases h0 : s.length = 0
    · rw [if_pos h0]
      decide
    · rw [if_neg h0]
      intro h
      rw [h] at h0
      exact h0 rfl
  refine ⟨?_, ?_, ?_, ?_, ?_, ?_⟩
  · intro p hp hd
    have hd1 : doesDirExist env.fs (some p) = true := hd
    simp only [getRegistryPath, ENV_MC_REGISTRY_PATH, hp, hd1, if_true, Option.getD_some,
      hlen p hd, if_false]
  · intro h1 p hp hd
    have hd1 : doesDirExist env.fs (some p) = true := hd
    simp only [getRegistryPath, ENV_MC_REGISTRY_PATH, ENV_MC_REGISTRY_FALLBACK_PATH, h1, hp,
      hd1, if_true, Option.getD_some, hlen p hd, if_false, Bool.false_eq_true]
  · intro h1 h2
    simp only [getRegistryPath, ENV_MC_REGISTRY_PATH, ENV_MC_REGISTRY_FALLBACK_PATH, h1, h2,
      Bool.false_eq_true, if_false, MC_REGISTRY_DEFAULT_PATH]
    rfl
  · exact hne _
  · intro p hp hd
    have hd1 : doesDirExist env.fs (some p) = true := hd
    simp only [getAuthTokenFilePath, ENV_MC_AUTH_TOKEN_PATH, hp, hd1, if_true,
      Option.getD_some, AUTH_TOKEN_FILE_NAME, String.append_assoc]
    rfl
  · intro h
    simp only [getAuthTokenFilePath, ENV_MC_AUTH_TOKEN_PATH, h, Bool.false_eq_true, if_false,
      AUTH_TOKEN_FILE_NAME, String.append_assoc]
    rfl

/-- C24, run on an environment in which `MC_REGISTRY_PATH` names a file that
is no directory and `MC_REGISTRY_FALLBACK_PATH` names the directory `/reg`. -/
theorem getRegistryPath_resolution_witness :
    getRegistryPath
      ⟨fun v => if v = "MC_REGISTRY_PATH" then some "/nodir"
          else if v = "MC_REGISTRY_FALLBACK_PATH" then some "/reg" else none,
        ⟨fun _ => none, fun p => p == "/reg", fun _ => true, fun _ => true⟩⟩ = "/reg" :=
  (getRegistryPath_resolution
    ⟨fun v => if v = "MC_REGISTRY_PATH" then some "/nodir"
        else if v = "MC_REGISTRY_FALLBACK_PATH" then some "/reg" else none,
      ⟨fun _ => none, fun p => p == "/reg", fun _ => true, fun _ => true⟩⟩
    (by decide)).2.1 (by decide) "/reg" (by decide) (by decide)

/-! ## C25: the service blob of a user trustlet -/

/-- A registry holding the binary `4d 02 02 09` of the SP trustlet `0102`, its
trustlet container with parent spid `10`, the SP container of spid `10` and
the root container. -/
def sampleBlobRegistryEnv : RegistryEnv :=
  ⟨fun _ => none,
    ⟨fun p =>
      if p = "/data/app/mcRegistry/0102.tlbin" then some [77, 2, 2, 9]
      else if p = "/data/app/mcRegistry/0102.tlcont" then some [4, 2, 10, 0, 0]
      else if p = "/data/app/mcRegistry/0000000A.spcont" then some [3, 2, 0, 0]
      else if p = "/data/app/mcRegistry/00000000.rootcont" then some [2, 2, 0]
      else none,
      fun _ => false, fun _ => true, fun _ => true⟩⟩

/-- A `malloc` that returns a zero-filled block of the requested size. -/
def sampleBlobEnv : BlobEnv :=
  ⟨[0, 0, 0, 0], [0, 0, 0, 0], [0], fun n => some (List.replicate n 0)⟩

theorem slice_append (a b c : List Nat) (off n : Nat) (hoff : off = a.length)
    (hn : n = b.length) : slice (a ++ b ++ c) off n = b := by
  subst hoff hn
  simp [slice]

theorem writeAt_append (a b c d : List Nat) (off : Nat) (hoff : off = a.length)
    (hlen : d.length = b.length) : writeAt (a ++ b ++ c) off d = a ++ d ++ c := by
  subst hoff
  simp [writeAt, hlen]

/-- The result code of the common part of the read functions does not depend
on the buffer. -/
theorem readFixedSize_code (R : RegistryParams) (env : RegistryEnv) (path : String)
    (size : Nat) (buf1 buf2 : List Nat) :
    (readFixedSize R env path size buf1).1 = (readFixedSize R env path size buf2).1 := by
  unfold readFixedSize
  split
  · rfl
  · simp only
    split <;> rfl

/-- The three containers are read into the last bytes of `value`, from the
back to the front. -/
theorem serviceBlobContainers_filled (R : RegistryParams) (env : RegistryEnv) (u : List Nat)
    (tl g1 g2 g3 tlt sp root : List Nat)
    (hT : R.sizeofSoTltCont < 2 ^ 31) (hS : R.sizeofSoSpCont < 2 ^ 31)
    (hR : R.sizeofSoRootCont < 2 ^ 31)
    (hg1 : g1.length = R.sizeofSoRootCont) (hg2 : g2.length = R.sizeofSoSpCont)
    (hg3 : g3.length = R.sizeofSoTltCont)
    (htlt : env.fs.files (getTlContFilePath env u) = some tlt)
    (htltLen : tlt.length = R.sizeofSoTltCont)
    (htltV : R.checkVersionOkDataObjectCONTAINER (R.tltContVersion tlt) = true)
    (hparent : R.tltContParent tlt ≠ 0)
    (hsp : env.fs.files (getSpContFilePath env (R.tltContParent tlt)) = some sp)
    (hspLen : sp.length = R.sizeofSoSpCont)
    (hspV : R.checkVersionOkDataObjectCONTAINER (R.spContVersion sp) = true)
    (hroot : env.fs.files (getRootContFilePath env) = some root)
    (hrootLen : root.length = R.sizeofSoRootCont)
    (hrootV : R.checkVersionOkDataObjectCONTAINER (R.rootContVersion root) = true) :
    serviceBlobContainers R env u tl.length
        (tl.length + R.sizeofSoRootCont + R.sizeofSoSpCont + R.sizeofSoTltCont)
        (tl ++ g1 ++ g2 ++ g3) =
      some (some ⟨tl.length + R.sizeofSoRootCont + R.sizeofSoSpCont + R.sizeofSoTltCont,
        tl ++ root ++ sp ++ tlt⟩) := by
  have o1 : tl.length + R.sizeofSoRootCont + R.sizeofSoSpCont + R.sizeofSoTltCont -
      R.sizeofSoTltCont = (tl ++ g1 ++ g2).length := by
    simp only [List.length_append, hg1, hg2]
    omega
  have o2 : (tl ++ g1 ++ g2).length - R.sizeofSoSpCont = (tl ++ g1).length := by
    simp only [List.length_append, hg1, hg2]
    omega
  have o3 : (tl ++ g1).length - R.sizeofSoRootCont = tl.length := by
    simp only [List.length_append, hg1]
    omega
  have s1 : slice (tl ++ g1 ++ g2 ++ g3) (tl ++ g1 ++ g2).length R.sizeofSoTltCont = g3 := by
    have := slice_append (tl ++ g1 ++ g2) g3 [] (tl ++ g1 ++ g2).length R.sizeofSoTltCont rfl
      hg3.symm
    simpa using this
  have w1 : writeAt (tl ++ g1 ++ g2 ++ g3) (tl ++ g1 ++ g2).length tlt =
      tl ++ g1 ++ g2 ++ tlt := by
    have := writeAt_append (tl ++ g1 ++ g2) g3 [] tlt (tl ++ g1 ++ g2).length rfl
      (by omega)
    simpa using this
  have s2 : slice (tl ++ g1 ++ g2 ++ tlt) (tl ++ g1).length R.sizeofSoSpCont = g2 :=
    slice_append (tl ++ g1) g2 tlt (tl ++ g1).length R.sizeofSoSpCont rfl hg2.symm
  have w2 : writeAt (tl ++ g1 ++ g2 ++ tlt) (tl ++ g1).length sp = tl ++ g1 ++ sp ++ tlt :=
    writeAt_append (tl ++ g1) g2 tlt sp (tl ++ g1).length rfl (by omega)
  have s3 : slice (tl ++ g1 ++ sp ++ tlt) tl.length R.sizeofSoRootCont = g1 := by
    have := slice_append tl g1 (sp ++ tlt) tl.length R.sizeofSoRootCont rfl hg1.symm
    simpa using this
  have w3 : writeAt (tl ++ g1 ++ sp ++ tlt) tl.length root = tl ++ root ++ sp ++ tlt := by
    have := writeAt_append tl g1 (sp ++ tlt) root tl.length rfl (by omega)
    simpa using this
  have r1 : mcRegistryReadTrustletCon R env (some u) (some g3) = (R.MC_DRV_OK, some tlt) := by
    simp only [mcRegistryReadTrustletCon,
      readFixedSize_exact R env _ R.sizeofSoTltCont g3 tlt htlt hT htltLen,
      fread_exact g3 tlt R.sizeofSoTltCont htltLen (by omega)]
  have r2 : mcRegistryReadSp R env (R.tltContParent tlt) (some g2) =
      (R.MC_DRV_OK, some sp) := by
    simp only [mcRegistryReadSp, Ne.symm hparent, if_false,
      readFixedSize_exact R env _ R.sizeofSoSpCont g2 sp hsp hS hspLen,
      fread_exact g2 sp R.sizeofSoSpCont hspLen (by omega)]
  have r3 : mcRegistryReadRoot R env (some g1) = (R.MC_DRV_OK, some root) := by
    simp only [mcRegistryReadRoot,
      readFixedSize_exact R env _ R.sizeofSoRootCont g1 root hroot hR hrootLen,
      fread_exact g1 root R.sizeofSoRootCont hrootLen (by omega)]
  simp only [serviceBlobContainers, o1, s1, r1, w1, Option.getD_some, htltV, o2, s2, r2, w2,
    hspV, o3, s3, r3, w3, hrootV, ne_eq, not_true_eq_false, if_false, Bool.not_true,
    Bool.false_eq_true, decide_False, Bool.and_false]

theorem slice_length_le (mem : List Nat) (off n : Nat) : (slice mem off n).length ≤ n := by
  simp only [slice, List.length_take]
  omega

theorem mcRegistryReadTrustletCon_code (R : RegistryParams) (env : RegistryEnv) (u : List Nat)
    (buf1 buf2 : List Nat) :
    (mcRegistryReadTrustletCon R env (some u) (some buf1)).1 =
      (mcRegistryReadTrustletCon R env (some u) (some buf2)).1 := by
  simp only [mcRegistryReadTrustletCon]
  exact readFixedSize_code R env _ _ buf1 buf2

theorem mcRegistryReadSp_code (R : RegistryParams) (env : RegistryEnv) (spid : Nat)
    (buf1 buf2 : List Nat) :
    (mcRegistryReadSp R env spid (some buf1)).1 =
      (mcRegistryReadSp R env spid (some buf2)).1 := by
  simp only [mcRegistryReadSp]
  split
  · rfl
  · exact readFixedSize_code R env _ _ buf1 buf2

theorem mcRegistryReadRoot_code (R : RegistryParams) (env : RegistryEnv)
    (buf1 buf2 : List Nat) :
    (mcRegistryReadRoot R env (some buf1)).1 = (mcRegistryReadRoot R env (some buf2)).1 := by
  simp only [mcRegistryReadRoot]
  exact readFixedSize_code R env _ _ buf1 buf2

theorem mcRegistryReadTrustletCon_file (R : RegistryParams) (env : RegistryEnv) (u : List Nat)
    (buf tlt : List Nat) (hT : R.sizeofSoTltCont < 2 ^ 31)
    (hf : env.fs.files (getTlContFilePath env u) = some tlt)
    (hlen : tlt.length = R.sizeofSoTltCont) (hbuf : buf.length ≤ R.sizeofSoTltCont) :
    mcRegistryReadTrustletCon R env (some u) (some buf) = (R.MC_DRV_OK, some tlt) := by
  simp only [mcRegistryReadTrustletCon,
    readFixedSize_exact R env _ R.sizeofSoTltCont buf tlt hf hT hlen,
    fread_exact buf tlt R.sizeofSoTltCont hlen hbuf]

theorem mcRegistryReadSp_file (R : RegistryParams) (env : RegistryEnv) (spid : Nat)
    (buf sp : List Nat) (hS : R.sizeofSoSpCont < 2 ^ 31) (h0 : spid ≠ 0)
    (hf : env.fs.files (getSpContFilePath env spid) = some sp)
    (hlen : sp.length = R.sizeofSoSpCont) (hbuf : buf.length ≤ R.sizeofSoSpCont) :
    mcRegistryReadSp R env spid (some buf) = (R.MC_DRV_OK, some sp) := by
  simp only [mcRegistryReadSp, Ne.symm h0, if_false,
    readFixedSize_exact R env _ R.sizeofSoSpCont buf sp hf hS hlen,
    fread_exact buf sp R.sizeofSoSpCont hlen hbuf]

theorem mcRegistryReadRoot_file (R : RegistryParams) (env : RegistryEnv)
    (buf root : List Nat) (hR : R.sizeofSoRootCont < 2 ^ 31)
    (hf : env.fs.files (getRootContFilePath env) = some root)
    (hlen : root.length = R.sizeofSoRootCont) (hbuf : buf.length ≤ R.sizeofSoRootCont) :
    mcRegistryReadRoot R env (some buf) = (R.MC_DRV_OK, some root) := by
  simp only [mcRegistryReadRoot,
    readFixedSize_exact R env _ R.sizeofSoRootCont buf root hf hR hlen,
    fread_exact buf root R.sizeofSoRootCont hlen hbuf]

/-- The function returns `NULL` when one of the three containers is not read
or has a version that is not accepted. -/
theorem serviceBlobContainers_null (R : RegistryParams) (env : RegistryEnv) (u : List Nat)
    (tlSize len : Nat) (value : List Nat)
    (hT : R.sizeofSoTltCont < 2 ^ 31) (hS : R.sizeofSoSpCont < 2 ^ 31)
    (hR : R.sizeofSoRootCont < 2 ^ 31) :
    ((mcRegistryReadTrustletCon R env (some u) (some [])).1 ≠ R.MC_DRV_OK →
      serviceBlobContainers R env u tlSize len value = some none) ∧
    (∀ tlt, env.fs.files (getTlContFilePath env u) = some tlt →
      tlt.length = R.sizeofSoTltCont →
      (R.checkVersionOkDataObjectCONTAINER (R.tltContVersion tlt) = false →
        serviceBlobContainers R env u tlSize len value = some none) ∧
      ((mcRegistryReadSp R env (R.tltContParent tlt) (some [])).1 ≠ R.MC_DRV_OK →
        serviceBlobContainers R env u tlSize len value = some none) ∧
      (∀ sp, R.tltContParent tlt ≠ 0 →
        env.fs.files (getSpContFilePath env (R.tltContParent tlt)) = some sp →
        sp.length = R.sizeofSoSpCont →
        (R.checkVersionOkDataObjectCONTAINER (R.spContVersion sp) = false →
          serviceBlobContainers R env u tlSize len value = some none) ∧
        ((mcRegistryReadRoot R env (some [])).1 ≠ R.MC_DRV_OK →
          serviceBlobContainers R env u tlSize len value = some none) ∧
        (∀ root, env.fs.files (getRootContFilePath env) = some root →
          root.length = R.sizeofSoRootCont →
          R.checkVersionOkDataObjectCONTAINER (R.rootContVersion root) = false →
          serviceBlobContainers R env u tlSize len value = some none))) := by
  refine ⟨?_, ?_⟩
  · intro h
    have h1 : R.MC_DRV_OK ≠ (mcRegistryReadTrustletCon R env (some u)
        (some (slice value (len - R.sizeofSoTltCont) R.sizeofSoTltCont))).1 := by
      rw [mcRegistryReadTrustletCon_code R env u _ []]
      exact Ne.symm h
    simp only [serviceBlobContainers, h1, ne_eq, not_false_eq_true, if_true]
  · intro tlt hf hlen
    have r1 := mcRegistryReadTrustletCon_file R env u
      (slice value (len - R.sizeofSoTltCont) R.sizeofSoTltCont) tlt hT hf hlen
      (slice_length_le _ _ _)
    have c1 : R.checkVersionOkDataObjectCONTAINER (R.tltContVersion tlt) = false →
        serviceBlobContainers R env u tlSize len value = some none := by
      intro hv
      simp only [serviceBlobContainers, r1, Option.getD_some, hv, ne_eq, not_true_eq_false,
        if_false, Bool.not_false, if_true]
    refine ⟨c1, ?_, ?_⟩
    · intro h
      cases hv : R.checkVersionOkDataObjectCONTAINER (R.tltContVersion tlt) with
      | false => exact c1 hv
      | true =>
        have h2 : ∀ buf, R.MC_DRV_OK ≠
            (mcRegistryReadSp R env (R.tltContParent tlt) (some buf)).1 := by
          intro buf
          rw [mcRegistryReadSp_code R env _ buf []]
          exact Ne.symm h
        simp only [serviceBlobContainers, r1, Option.getD_some, hv, ne_eq, not_true_eq_false,
          if_false, Bool.not_true, Bool.false_eq_true, h2, not_false_eq_true, if_true]
    · intro sp h0 hfs hlens
      cases hv : R.checkVersionOkDataObjectCONTAINER (R.tltContVersion tlt) with
      | false => exact ⟨fun _ => c1 hv, fun _ => c1 hv, fun _ _ _ _ => c1 hv⟩
      | true =>
        have r2 : ∀ buf, buf.length ≤ R.sizeofSoSpCont →
            mcRegistryReadSp R env (R.tltContParent tlt) (some buf) = (R.MC_DRV_OK, some sp) :=
          fun buf hb => mcRegistryReadSp_file R env _ buf sp hS h0 hfs hlens hb
        have c2 : R.checkVersionOkDataObjectCONTAINER (R.spContVersion sp) = false →
            serviceBlobContainers R env u tlSize len value = some none := by
          intro hv2
          simp only [serviceBlobContainers, r1, Option.getD_some, hv, ne_eq,
            not_true_eq_false, if_false, Bool.not_true, Bool.false_eq_true,
            r2 _ (slice_length_le _ _ _), hv2, Bool.not_false, if_true]
        refine ⟨c2, ?_, ?_⟩
        · intro h
          cases hv2 : R.checkVersionOkDataObjectCONTAINER (R.spContVersion sp) with
          | false => exact c2 hv2
          | true =>
            have h3 : ∀ buf, R.MC_DRV_OK ≠ (mcRegistryReadRoot R env (some buf)).1 := by
              intro buf
              rw [mcRegistryReadRoot_code R env buf []]
              exact Ne.symm h
            simp only [serviceBlobContainers, r1, Option.getD_some, hv, ne_eq,
              not_true_eq_false, if_false, Bool.not_true, Bool.false_eq_true,
              r2 _ (slice_length_le _ _ _), hv2, h3, not_false_eq_true, if_true]
        · intro root hfr hlenr hv3
          cases hv2 : R.checkVersionOkDataObjectCONTAINER (R.spContVersion sp) with
          | false => exact c2 hv2
          | true =>
            have r3 : ∀ buf, buf.length ≤ R.sizeofSoRootCont →
                mcRegistryReadRoot R env (some buf) = (R.MC_DRV_OK, some root) :=
              fun buf hb => mcRegistryReadRoot_file R env buf root hR hfr hlenr hb
            simp only [serviceBlobContainers, r1, Option.getD_some, hv, ne_eq,
              not_true_eq_false, if_false, Bool.not_true, Bool.false_eq_true,
              r2 _ (slice_length_le _ _ _), hv2, r3 _ (slice_length_le _ _ _), hv3,
              Bool.not_false, if_true]

/-- With a binary of at most `MAX_TL_SIZE` bytes that has the magic, an
accepted version and the service type of an SP trustlet, and a block from
`malloc`, the function is the reading of the three containers behind the
binary. -/
theorem mcRegistryGetServiceBlob_sp (R : RegistryParams) (env : RegistryEnv) (B : BlobEnv)
    (u tl block : List Nat)
    (hfile : env.fs.files (getTlBinFilePath env u) = some tl)
    (hmax : tl.length ≤ R.MAX_TL_SIZE) (hmax31 : R.MAX_TL_SIZE < 2 ^ 31)
    (hmagic : R.wordOfBytes (fread B.uninitMagic 4 (tl.drop R.offsetofMagic)) =
      R.MC_SERVICE_HEADER_MAGIC_BE)
    (hversion : R.checkVersionOkDataObjectMCLF
      (R.wordOfBytes (fread B.uninitVersion 4 (tl.drop R.offsetofVersion))) = true)
    (htype : R.wordOfBytes (fread B.uninitServiceType R.sizeofServiceType
      (tl.drop R.offsetofServiceType)) = R.SERVICE_TYPE_SP_TRUSTLET)
    (hdrv : R.SERVICE_TYPE_DRIVER ≠ R.SERVICE_TYPE_SP_TRUSTLET)
    (hsys : R.SERVICE_TYPE_SYSTEM_TRUSTLET ≠ R.SERVICE_TYPE_SP_TRUSTLET)
    (hlen : tl.length + R.sizeofSoContainerPath < 2 ^ 32)
    (hmalloc : B.malloc (tl.length + R.sizeofSoContainerPath) = some block) :
    mcRegistryGetServiceBlob R env B (some u) =
      serviceBlobContainers R env u tl.length (tl.length + R.sizeofSoContainerPath)
        (tl ++ block.drop tl.length) := by
  have hsz : int32_of_long tl.length = (tl.length : Int) :=
    int32_of_long_of_lt tl.length (by omega)
  have hnot : ¬ ((R.MAX_TL_SIZE : Int) < (tl.length : Int)) := by
    have : (tl.length : Int) ≤ (R.MAX_TL_SIZE : Int) := by exact_mod_cast hmax
    omega
  have hneg : ¬ ((tl.length : Int) < 0) := by omega
  have hfread : fread block tl.length tl = tl ++ block.drop tl.length := by
    simp only [fread, List.take_length]
  have hmod : (tl.length + R.sizeofSoContainerPath) % 2 ^ 32 =
      tl.length + R.sizeofSoContainerPath := Nat.mod_eq_of_lt hlen
  simp only [mcRegistryGetServiceBlob, hfile, hsz, hnot, if_false, hmagic, ne_eq,
    not_true_eq_false, hversion, Bool.not_true, Bool.false_eq_true, htype, hdrv, hsys,
    or_self, hneg, Int.toNat_ofNat, hmalloc, hmod, hfread, if_true]

/-- Claim C25: for a uuid whose Trustlet binary has at most `MAX_TL_SIZE`
bytes, the magic, an accepted MCLF version and the service type of an SP
trustlet, `mcRegistryGetServiceBlob` returns, when the trustlet container, the
SP container named by its parent spid and the root container are read with an
accepted version, an object whose `len` is the size of the binary plus the
sizes of the three containers and whose `value` is the binary followed by the
root, the SP and the trustlet container; when one of the three containers is
not read or has a rejected version, it returns `NULL`. -/
theorem mcRegistryGetServiceBlob_sp_trustlet (R : RegistryParams) (env : RegistryEnv)
    (B : BlobEnv) (u tl block : List Nat)
    (hfile : env.fs.files (getTlBinFilePath env u) = some tl)
    (hmax : tl.length ≤ R.MAX_TL_SIZE) (hmax31 : R.MAX_TL_SIZE < 2 ^ 31)
    (hmagic : R.wordOfBytes (fread B.uninitMagic 4 (tl.drop R.offsetofMagic)) =
      R.MC_SERVICE_HEADER_MAGIC_BE)
    (hversion : R.checkVersionOkDataObjectMCLF
      (R.wordOfBytes (fread B.uninitVersion 4 (tl.drop R.offsetofVersion))) = true)
    (htype : R.wordOfBytes (fread B.uninitServiceType R.sizeofServiceType
      (tl.drop R.offsetofServiceType)) = R.SERVICE_TYPE_SP_TRUSTLET)
    (hdrv : R.SERVICE_TYPE_DRIVER ≠ R.SERVICE_TYPE_SP_TRUSTLET)
    (hsys : R.SERVICE_TYPE_SYSTEM_TRUSTLET ≠ R.SERVICE_TYPE_SP_TRUSTLET)
    (hpath : R.sizeofSoContainerPath =
      R.sizeofSoRootCont + R.sizeofSoSpCont + R.sizeofSoTltCont)
    (hT : R.sizeofSoTltCont < 2 ^ 31) (hS : R.sizeofSoSpCont < 2 ^ 31)
    (hR : R.sizeofSoRootCont < 2 ^ 31)
    (hlen : tl.length + R.sizeofSoContainerPath < 2 ^ 32)
    (hmalloc : B.malloc (tl.length + R.sizeofSoContainerPath) = some block)
    (hblock : block.length = tl.length + R.sizeofSoContainerPath) :
    (∀ tlt sp root,
      env.fs.files (getTlContFilePath env u) = some tlt →
      tlt.length = R.sizeofSoTltCont →
      R.checkVersionOkDataObjectCONTAINER (R.tltContVersion tlt) = true →
      R.tltContParent tlt ≠ 0 →
      env.fs.files (getSpContFilePath env (R.tltContParent tlt)) = some sp →
      sp.length = R.sizeofSoSpCont →
      R.checkVersionOkDataObjectCONTAINER (R.spContVersion sp) = true →
      env.fs.files (getRootContFilePath env) = some root →
      root.length = R.sizeofSoRootCont →
      R.checkVersionOkDataObjectCONTAINER (R.rootContVersion root) = true →
      mcRegistryReadTrustletCon R env (some u) (some (List.replicate R.sizeofSoTltCont 0)) =
        (R.MC_DRV_OK, some tlt) ∧
      mcRegistryReadSp R env (R.tltContParent tlt) (some (List.replicate R.sizeofSoSpCont 0)) =
        (R.MC_DRV_OK, some sp) ∧
      mcRegistryReadRoot R env (some (List.replicate R.sizeofSoRootCont 0)) =
        (R.MC_DRV_OK, some root) ∧
      mcRegistryGetServiceBlob R env B (some u) =
        some (some ⟨tl.length + R.sizeofSoRootCont + R.sizeofSoSpCont + R.sizeofSoTltCont,
          tl ++ root ++ sp ++ tlt⟩)) ∧
    ((mcRegistryReadTrustletCon R env (some u) (some [])).1 ≠ R.MC_DRV_OK →
      mcRegistryGetServiceBlob R env B (some u) = some none) ∧
    (∀ tlt, env.fs.files (getTlContFilePath env u) = some tlt →
      tlt.length = R.sizeofSoTltCont →
      (R.checkVersionOkDataObjectCONTAINER (R.tltContVersion tlt) = false →
        mcRegistryGetServiceBlob R env B (some u) = some none) ∧
      ((mcRegistryReadSp R env (R.tltContParent tlt) (some [])).1 ≠ R.MC_DRV_OK →
        mcRegistryGetServiceBlob R env B (some u) = some none) ∧
      (∀ sp, R.tltContParent tlt ≠ 0 →
        env.fs.files (getSpContFilePath env (R.tltContParent tlt)) = some sp →
        sp.length = R.sizeofSoSpCont →
        (R.checkVersionOkDataObjectCONTAINER (R.spContVersion sp) = false →
          mcRegistryGetServiceBlob R env B (some u) = some none) ∧
        ((mcRegistryReadRoot R env (some [])).1 ≠ R.MC_DRV_OK →
          mcRegistryGetServiceBlob R env B (some u) = some none) ∧
        (∀ root, env.fs.files (getRootContFilePath env) = some root →
          root.length = R.sizeofSoRootCont →
          R.checkVersionOkDataObjectCONTAINER (R.rootContVersion root) = false →
          mcRegistryGetServiceBlob R env B (some u) = some none))) := by
  have hblob := mcRegistryGetServiceBlob_sp R env B u tl block hfile hmax hmax31 hmagic
    hversion htype hdrv hsys hlen hmalloc
  rw [hblob]
  refine ⟨?_, serviceBlobContainers_null R env u _ _ _ hT hS hR⟩
  intro tlt sp root hft hlt hvt h0 hfs hls hvs hfr hlr hvr
  refine ⟨mcRegistryReadTrustletCon_file R env u _ tlt hT hft hlt (by simp),
    mcRegistryReadSp_file R env _ _ sp hS h0 hfs hls (by simp),
    mcRegistryReadRoot_file R env _ root hR hfr hlr (by simp), ?_⟩
  have hg : (block.drop tl.length).length =
      R.sizeofSoRootCont + R.sizeofSoSpCont + R.sizeofSoTltCont := by
    rw [List.length_drop, hblock, hpath]
    omega
  have hsplit : block.drop tl.length =
      (block.drop tl.length).take R.sizeofSoRootCont ++
      ((block.drop tl.length).drop R.sizeofSoRootCont).take R.sizeofSoSpCont ++
      ((block.drop tl.length).drop R.sizeofSoRootCont).drop R.sizeofSoSpCont := by
    rw [List.append_assoc, List.take_append_drop, List.take_append_drop]
  have h := serviceBlobContainers_filled R env u tl
    ((block.drop tl.length).take R.sizeofSoRootCont)
    (((block.drop tl.length).drop R.sizeofSoRootCont).take R.sizeofSoSpCont)
    (((block.drop tl.length).drop R.sizeofSoRootCont).drop R.sizeofSoSpCont)
    tlt sp root hT hS hR
    (by rw [List.length_take, hg]; omega)
    (by rw [List.length_take, List.length_drop, hg]; omega)
    (by rw [List.length_drop, List.length_drop, hg]; omega)
    hft hlt hvt h0 hfs hls hvs hfr hlr hvr
  rw [hpath]
  have e1 : tl.length + (R.sizeofSoRootCont + R.sizeofSoSpCont + R.sizeofSoTltCont) =
      tl.length + R.sizeofSoRootCont + R.sizeofSoSpCont + R.sizeofSoTltCont := by omega
  rw [e1]
  have e2 : tl ++ block.drop tl.length =
      tl ++ (block.drop tl.length).take R.sizeofSoRootCont ++
      ((block.drop tl.length).drop R.sizeofSoRootCont).take R.sizeofSoSpCont ++
      ((block.drop tl.length).drop R.sizeofSoRootCont).drop R.sizeofSoSpCont := by
    conv_lhs => rw [hsplit]
    simp only [List.append_assoc]
  rw [e2]
  exact h

/-- C25, run on the sample registry: the blob of the SP trustlet `0102` has
16 bytes, the binary followed by the root, the SP and the trustlet
container. -/
theorem mcRegistryGetServiceBlob_sp_trustlet_witness :
    mcRegistryGetServiceBlob sampleRegistryParams sampleBlobRegistryEnv sampleBlobEnv
        (some [1, 2]) =
      some (some ⟨16, [77, 2, 2, 9, 2, 2, 0, 3, 2, 0, 0, 4, 2, 10, 0, 0]⟩) :=
  ((mcRegistryGetServiceBlob_sp_trustlet sampleRegistryParams sampleBlobRegistryEnv
    sampleBlobEnv [1, 2] [77, 2, 2, 9] (List.replicate 16 0) (by decide) (by decide)
    (by decide) (by decide) (by decide) (by decide) (by decide) (by decide) (by decide)
    (by decide) (by decide) (by decide) (by decide) (by decide) (by decide)).1
    [4, 2, 10, 0, 0] [3, 2, 0, 0] [2, 2, 0] (by decide) (by decide) (by decide) (by decide)
    (by decide) (by decide) (by decide) (by decide) (by decide) (by decide)).2.2.2

/-! ## C26: the read functions of the fixed-size containers -/

/-- The claim of C26 for files of fewer than `2^32` bytes. With no file of
`2^32` bytes or more, and with the three error codes different from
`MC_DRV_OK`: each of `mcRegistryReadAuthToken`,
`mcRegistryReadRoot`, `mcRegistryReadSp` and `mcRegistryReadTrustletCon`
returns `MC_DRV_OK` only if `fopen` finds the file of the container and the
file has exactly the size of the container type; when `fopen` finds no file
the result is `MC_DRV_ERR_INVALID_DEVICE_FILE`, when the file has another size
it is `MC_DRV_ERR_OUT_OF_RESOURCES`, and for a `NULL` output pointer, the spid
`0` or a `NULL` uuid it is `MC_DRV_ERR_INVALID_PARAMETER`; in each of these
cases the output buffer is left as it was. -/
theorem registry_read_results (R : RegistryParams) (env : RegistryEnv)
    (hsmall : ∀ p content, env.fs.files p = some content → content.length < 2 ^ 32)
    (h1 : R.MC_DRV_ERR_INVALID_PARAMETER ≠ R.MC_DRV_OK)
    (h2 : R.MC_DRV_ERR_INVALID_DEVICE_FILE ≠ R.MC_DRV_OK)
    (h3 : R.MC_DRV_ERR_OUT_OF_RESOURCES ≠ R.MC_DRV_OK) :
    ((∀ so, (mcRegistryReadAuthToken R env so).1 = R.MC_DRV_OK →
        ∃ content, env.fs.files (getAuthTokenFilePath env) = some content ∧
          content.length = R.sizeofSoAuthTokenCont) ∧
      (∀ buf, env.fs.files (getAuthTokenFilePath env) = none →
        mcRegistryReadAuthToken R env (some buf) =
          (R.MC_DRV_ERR_INVALID_DEVICE_FILE, some buf)) ∧
      (∀ buf content, env.fs.files (getAuthTokenFilePath env) = some content →
        content.length ≠ R.sizeofSoAuthTokenCont →
        mcRegistryReadAuthToken R env (some buf) =
          (R.MC_DRV_ERR_OUT_OF_RESOURCES, some buf)) ∧
      mcRegistryReadAuthToken R env none = (R.MC_DRV_ERR_INVALID_PARAMETER, none)) ∧
    ((∀ so, (mcRegistryReadRoot R env so).1 = R.MC_DRV_OK →
        ∃ content, env.fs.files (getRootContFilePath env) = some content ∧
          content.length = R.sizeofSoRootCont) ∧
      (∀ buf, env.fs.files (getRootContFilePath env) = none →
        mcRegistryReadRoot R env (some buf) = (R.MC_DRV_ERR_INVALID_DEVICE_FILE, some buf)) ∧
      (∀ buf content, env.fs.files (getRootContFilePath env) = some content →
        content.length ≠ R.sizeofSoRootCont →
        mcRegistryReadRoot R env (some buf) = (R.MC_DRV_ERR_OUT_OF_RESOURCES, some buf)) ∧
      mcRegistryReadRoot R env none = (R.MC_DRV_ERR_INVALID_PARAMETER, none)) ∧
    ((∀ spid so, (mcRegistryReadSp R env spid so).1 = R.MC_DRV_OK →
        spid ≠ 0 ∧ ∃ content, env.fs.files (getSpContFilePath env spid) = some content ∧
          content.length = R.sizeofSoSpCont) ∧
      (∀ spid buf, spid ≠ 0 → env.fs.files (getSpContFilePath env spid) = none →
        mcRegistryReadSp R env spid (some buf) =
          (R.MC_DRV_ERR_INVALID_DEVICE_FILE, some buf)) ∧
      (∀ spid buf content, spid ≠ 0 →
        env.fs.files (getSpContFilePath env spid) = some content →
        content.length ≠ R.sizeofSoSpCont →
        mcRegistryReadSp R env spid (some buf) = (R.MC_DRV_ERR_OUT_OF_RESOURCES, some buf)) ∧
      (∀ spid, mcRegistryReadSp R env spid none = (R.MC_DRV_ERR_INVALID_PARAMETER, none)) ∧
      (∀ so, mcRegistryReadSp R env 0 so = (R.MC_DRV_ERR_INVALID_PARAMETER, so))) ∧
    ((∀ uuid so, (mcRegistryReadTrustletCon R env uuid so).1 = R.MC_DRV_OK →
        ∃ u content, uuid = some u ∧
          env.fs.files (getTlContFilePath env u) = some content ∧
          content.length = R.sizeofSoTltCont) ∧
      (∀ u buf, env.fs.files (getTlContFilePath env u) = none →
        mcRegistryReadTrustletCon R env (some u) (some buf) =
          (R.MC_DRV_ERR_INVALID_DEVICE_FILE, some buf)) ∧
      (∀ u buf content, env.fs.files (getTlContFilePath env u) = some content →
        content.length ≠ R.sizeofSoTltCont →
        mcRegistryReadTrustletCon R env (some u) (some buf) =
          (R.MC_DRV_ERR_OUT_OF_RESOURCES, some buf)) ∧
      (∀ uuid, mcRegistryReadTrustletCon R env uuid none =
        (R.MC_DRV_ERR_INVALID_PARAMETER, none)) ∧
      (∀ so, mcRegistryReadTrustletCon R env none so =
        (R.MC_DRV_ERR_INVALID_PARAMETER, so))) := by
  have hnone : ∀ path size buf, env.fs.files path = none →
      readFixedSize R env path size buf = (R.MC_DRV_ERR_INVALID_DEVICE_FILE, buf) :=
    fun path size buf hf => readFixedSize_none R env path size buf hf
  have hsize : ∀ path size buf content, env.fs.files path = some content →
      content.length ≠ size →
      readFixedSize R env path size buf = (R.MC_DRV_ERR_OUT_OF_RESOURCES, buf) :=
    fun path size buf content hf hlen =>
      readFixedSize_size_ne R env path size buf content hf (hsmall path content hf) hlen
  have hok : ∀ path size buf, (readFixedSize R env path size buf).1 = R.MC_DRV_OK →
      ∃ content, env.fs.files path = some content ∧ content.length = size := by
    intro path size buf h
    obtain ⟨content, hf, hlen, _⟩ := readFixedSize_ok R env path size buf (hsmall path) h2 h3 h
    exact ⟨content, hf, hlen⟩
  refine ⟨⟨?_, ?_, ?_, rfl⟩, ⟨?_, ?_, ?_, rfl⟩, ⟨?_, ?_, ?_, ?_, ?_⟩, ⟨?_, ?_, ?_, ?_, ?_⟩⟩
  · intro so h
    cases so with
    | none => exact absurd h h1
    | some buf => exact hok _ _ buf h
  · intro buf hf
    simp only [mcRegistryReadAuthToken, hnone _ _ buf hf]
  · intro buf content hf hlen
    simp only [mcRegistryReadAuthToken, hsize _ _ buf content hf hlen]
  · intro so h
    cases so with
    | none => exact absurd h h1
    | some buf => exact hok _ _ buf h
  · intro buf hf
    simp only [mcRegistryReadRoot, hnone _ _ buf hf]
  · intro buf content hf hlen
    simp only [mcRegistryReadRoot, hsize _ _ buf content hf hlen]
  · intro spid so h
    cases so with
    | none => exact absurd h h1
    | some buf =>
      by_cases h0 : 0 = spid
      · simp only [mcRegistryReadSp, h0, if_true] at h
        exact absurd h h1
      · simp only [mcRegistryReadSp, h0, if_false] at h
        exact ⟨fun e => h0 e.symm, hok _ _ buf h⟩
  · intro spid buf h0 hf
    simp only [mcRegistryReadSp, Ne.symm h0, if_false, hnone _ _ buf hf]
  · intro spid buf content h0 hf hlen
    simp only [mcRegistryReadSp, Ne.symm h0, if_false, hsize _ _ buf content hf hlen]
  · intro spid
    rfl
  · intro so
    cases so with
    | none => rfl
    | some buf => simp only [mcRegistryReadSp, if_true]
  · intro uuid so h
    cases uuid with
    | none => exact absurd h h1
    | some u =>
      cases so with
      | none => exact absurd h h1
      | some buf =>
        obtain ⟨content, hf, hlen⟩ := hok _ _ buf h
        exact ⟨u, content, rfl, hf, hlen⟩
  · intro u buf hf
    simp only [mcRegistryReadTrustletCon, hnone _ _ buf hf]
  · intro u buf content hf hlen
    simp only [mcRegistryReadTrustletCon, hsize _ _ buf content hf hlen]
  · intro uuid
    cases uuid with
    | none => rfl
    | some u => rfl
  · intro so
    rfl

/-- The claim of C26 for files of fewer than `2^32` bytes, run on the sample
registry: after a root container of three bytes was stored, `mcRegistryReadRoot` returns `MC_DRV_OK`, and the root file has
three bytes. -/
theorem registry_read_results_witness :
    (mcRegistryReadRoot sampleRegistryParams
      (mcRegistryStoreRoot sampleRegistryParams sampleRegistryEnv (some [2, 2, 9])).2
      (some [0, 0, 0])).1 = sampleRegistryParams.MC_DRV_OK ∧
    ∃ content,
      (mcRegistryStoreRoot sampleRegistryParams sampleRegistryEnv (some [2, 2, 9])).2.fs.files
        (getRootContFilePath
          (mcRegistryStoreRoot sampleRegistryParams sampleRegistryEnv (some [2, 2, 9])).2) =
        some content ∧
      content.length = sampleRegistryParams.sizeofSoRootCont :=
  ⟨by decide,
    (registry_read_results sampleRegistryParams
      (mcRegistryStoreRoot sampleRegistryParams sampleRegistryEnv (some [2, 2, 9])).2
      (by
        intro p content h
        have hfile : (mcRegistryStoreRoot sampleRegistryParams sampleRegistryEnv
            (some [2, 2, 9])).2.fs.files p =
            if p = "/data/app/mcRegistry/00000000.rootcont" then some [2, 2, 9] else none := rfl
        rw [hfile] at h
        split at h
        · cases h
          decide
        · cases h)
      (by decide) (by decide) (by decide)).2.1.1 (some [0, 0, 0]) (by decide)⟩

theorem handledConnections_append (a b : List ServerAct) :
    handledConnections (a ++ b) = handledConnections a ++ handledConnections b := by
  simp [handledConnections]

theorem droppedConnections_append (a b : List ServerAct) :
    droppedConnections (a ++ b) = droppedConnections a ++ droppedConnections b := by
  simp [droppedConnections]

/-- The loop over the peers, entered with the number of the readable peers
in `numSockets`: every readable peer is handled, in order, a peer is removed
when the handler returns `false` for it, and what follows the last readable
peer is not looked at. -/
theorem handlePeers_readable (handleConnection : Connection → Bool)
    (fdReadSockets : Int → Bool) (extra : List Connection) (peers : List Connection) :
    Server.handlePeers handleConnection fdReadSockets (peers ++ extra)
        ((peers.filter (fun c => fdReadSockets c.socketDescriptor)).length : Int) =
      (peers.filter (fun c => !(fdReadSockets c.socketDescriptor && !handleConnection c)) ++
          extra,
        (peers.filter (fun c => fdReadSockets c.socketDescriptor)).flatMap (fun c =>
          if handleConnection c then [ServerAct.handleConnection c]
          else
            [ServerAct.handleConnection c, ServerAct.dropConnection c,
              ServerAct.deleteConnection c])) := by
  induction peers with
  | nil =>
    cases extra with
    | nil => rfl
    | cons c rest => simp [Server.handlePeers]
  | cons c rest ih =>
    by_cases hr : fdReadSockets c.socketDescriptor = true
    · have hpos : ((rest.filter (fun c => fdReadSockets c.socketDescriptor)).length : Int) + 1 > 0 := by
        omega
      by_cases hh : handleConnection c = true
      · simp [Server.handlePeers, List.filter_cons, hr, hh, hpos, ih]
      · simp [Server.handlePeers, List.filter_cons, hr, hh, hpos, ih]
    · by_cases hpos : ((rest.filter (fun c => fdReadSockets c.socketDescriptor)).length : Int) > 0
      · simp [Server.handlePeers, List.filter_cons, hr, hpos, ih]
      · have hnil : rest.filter (fun c => fdReadSockets c.socketDescriptor) = [] := by
          apply List.eq_nil_of_length_eq_zero
          omega
        have hall : rest.filter
            (fun c => !(fdReadSockets c.socketDescriptor && !handleConnection c)) = rest := by
          rw [List.filter_eq_self]
          intro a ha
          have := List.filter_eq_nil_iff.1 hnil a ha
          simp [this]
        simp [Server.handlePeers, List.filter_cons, hr, hnil]
        simpa using hall.symm

theorem handledConnections_flatMap (handleConnection : Connection → Bool)
    (l : List Connection) :
    handledConnections (l.flatMap (fun c =>
      if handleConnection c then [ServerAct.handleConnection c]
      else
        [ServerAct.handleConnection c, ServerAct.dropConnection c,
          ServerAct.deleteConnection c])) = l := by
  induction l with
  | nil => rfl
  | cons c rest ih =>
    rw [List.flatMap_cons, handledConnections_append, ih]
    by_cases hh : handleConnection c = true <;> simp [hh, handledConnections]

theorem droppedConnections_flatMap (handleConnection : Connection → Bool)
    (l : List Connection) :
    droppedConnections (l.flatMap (fun c =>
      if handleConnection c then [ServerAct.handleConnection c]
      else
        [ServerAct.handleConnection c, ServerAct.dropConnection c,
          ServerAct.deleteConnection c])) = l.filter (fun c => !handleConnection c) := by
  induction l with
  | nil => rfl
  | cons c rest ih =>
    rw [List.flatMap_cons, droppedConnections_append, ih]
    by_cases hh : handleConnection c = true <;> simp [hh, droppedConnections]

theorem selectSet_count (serverSock : Int) (peers : List Connection)
    (fdReadSockets : Int → Bool) :
    (((Server.selectSet serverSock peers).filter fdReadSockets).length : Int) =
      (if fdReadSockets serverSock then 1 else 0) +
        ((peers.filter (fun c => fdReadSockets c.socketDescriptor)).length : Int) := by
  have hmap : ((peers.map (fun c => c.socketDescriptor)).filter fdReadSockets).length =
      (peers.filter (fun c => fdReadSockets c.socketDescriptor)).length := by
    induction peers with
    | nil => rfl
    | cons c rest ih =>
      by_cases hr : fdReadSockets c.socketDescriptor = true <;>
        simp [List.filter_cons, hr, ih]
  unfold Server.selectSet
  by_cases hs : fdReadSockets serverSock = true
  · simp only [List.filter_cons, hs, if_true, List.length_cons, hmap]
    push_cast
    omega
  · simp only [List.filter_cons, hs, if_false, hmap, Bool.false_eq_true]
    omega

/-- The result of a pass in which `numSockets` is the number of the readable
descriptors. -/
theorem runPass_readable (serverSock : Int) (handleConnection : Connection → Bool)
    (peers : List Connection) (e : SelectEnv)
    (hselect : e.numSockets =
      (if e.fdReadSockets serverSock then 1 else 0) +
        ((peers.filter (fun c => e.fdReadSockets c.socketDescriptor)).length : Int)) :
    Server.runPass serverSock handleConnection peers e =
      some (peers.filter (fun c =>
          !(e.fdReadSockets c.socketDescriptor && !handleConnection c)) ++
        (if e.fdReadSockets serverSock = true ∧ 0 < e.clientSock then
          [⟨e.newConnection, e.clientSock⟩] else []),
        (if e.fdReadSockets serverSock then [ServerAct.accept] else []) ++
          (peers.filter (fun c => e.fdReadSockets c.socketDescriptor)).flatMap (fun c =>
            if handleConnection c then [ServerAct.handleConnection c]
            else
              [ServerAct.handleConnection c, ServerAct.dropConnection c,
                ServerAct.deleteConnection c])) := by
  have hk : (0 : Int) ≤
      ((peers.filter (fun c => e.fdReadSockets c.socketDescriptor)).length : Int) := by omega
  have hnonneg : ¬ e.numSockets < 0 := by
    rw [hselect]
    split <;> omega
  unfold Server.runPass
  rw [if_neg hnonneg]
  by_cases h0 : 0 = e.numSockets
  · rw [if_pos h0]
    have hs : e.fdReadSockets serverSock = false := by
      cases hr : e.fdReadSockets serverSock with
      | false => rfl
      | true =>
        rw [hr] at hselect
        simp only [if_true] at hselect
        omega
    have hnil : peers.filter (fun c => e.fdReadSockets c.socketDescriptor) = [] := by
      apply List.eq_nil_of_length_eq_zero
      rw [hs] at hselect
      simp only [Bool.false_eq_true, if_false] at hselect
      omega
    have hall : peers.filter
        (fun c => !(e.fdReadSockets c.socketDescriptor && !handleConnection c)) = peers := by
      rw [List.filter_eq_self]
      intro a ha
      have := List.filter_eq_nil_iff.1 hnil a ha
      simp [this]
    rw [hall, hnil, hs]
    simp
  · rw [if_neg h0]
    cases hr : e.fdReadSockets serverSock with
    | false =>
      rw [hr] at hselect
      simp only [Bool.false_eq_true, if_false, zero_add] at hselect
      have h := handlePeers_readable handleConnection e.fdReadSockets [] peers
      rw [List.append_nil] at h
      simp only [Bool.false_eq_true, if_false, false_and, hselect, h, List.append_nil,
        List.nil_append]
    | true =>
      rw [hr] at hselect
      simp only [if_true] at hselect
      have hm : e.numSockets - 1 =
          ((peers.filter (fun c => e.fdReadSockets c.socketDescriptor)).length : Int) := by
        omega
      by_cases hc : e.clientSock ≤ 0
      · have h := handlePeers_readable handleConnection e.fdReadSockets [] peers
        rw [List.append_nil] at h
        have hc2 : ¬ (0 < e.clientSock) := by omega
        simp only [if_true, hc, hm, h, true_and, hc2, if_false, List.append_nil]
      · have h := handlePeers_readable handleConnection e.fdReadSockets
          [⟨e.newConnection, e.clientSock⟩] peers
        have hc2 : 0 < e.clientSock := by omega
        simp only [if_true, hc, if_false, hm, h, true_and, hc2]

/-- Claim C27: in one pass of the loop of `Server::run` in which `select`
returns the number of the readable descriptors of its set, the handler is
called once for each readable peer, in the order of the list, and for no
other connection; `dropConnection` is called once for each of them for which
the handler returns `false`, and these are removed from the list; the other
peers stay in their order; and a connection accepted in the pass is at the end
of the list. -/
theorem run_select_pass (serverSock : Int) (handleConnection : Connection → Bool)
    (peers : List Connection) (e : SelectEnv)
    (hnodup : (Server.selectSet serverSock peers).Nodup)
    (hselect : e.numSockets =
      (((Server.selectSet serverSock peers).dedup.filter e.fdReadSockets).length : Int)) :
    ∃ acts,
      Server.runPass serverSock handleConnection peers e =
        some (peers.filter (fun c =>
            !(e.fdReadSockets c.socketDescriptor && !handleConnection c)) ++
          (if e.fdReadSockets serverSock = true ∧ 0 < e.clientSock then
            [⟨e.newConnection, e.clientSock⟩] else []), acts) ∧
      handledConnections acts = peers.filter (fun c => e.fdReadSockets c.socketDescriptor) ∧
      (peers.filter (fun c => e.fdReadSockets c.socketDescriptor)).Nodup ∧
      droppedConnections acts =
        (peers.filter (fun c => e.fdReadSockets c.socketDescriptor)).filter
          (fun c => !handleConnection c) ∧
      (∀ c, ServerAct.deleteConnection c ∈ acts ↔ ServerAct.dropConnection c ∈ acts) := by
  rw [hnodup.dedup, selectSet_count] at hselect
  refine ⟨_, runPass_readable serverSock handleConnection peers e hselect, ?_, ?_, ?_, ?_⟩
  · rw [handledConnections_append, handledConnections_flatMap]
    split <;> rfl
  · have h1 : (peers.map (fun c => c.socketDescriptor)).Nodup :=
      (List.nodup_cons.1 hnodup).2
    exact (List.Nodup.of_map _ h1).filter _
  · rw [droppedConnections_append, droppedConnections_flatMap]
    split <;> rfl
  · intro c
    simp only [List.mem_append, List.mem_flatMap]
    constructor
    · rintro (h | ⟨a, ha, h⟩)
      · split at h <;> simp at h
      · right
        refine ⟨a, ha, ?_⟩
        by_cases hh : handleConnection a = true
        · simp [hh] at h
        · simp [hh] at h
          simp [hh, h]
    · rintro (h | ⟨a, ha, h⟩)
      · split at h <;> simp at h
      · right
        refine ⟨a, ha, ?_⟩
        by_cases hh : handleConnection a = true
        · simp [hh] at h
        · simp [hh] at h
          simp [hh, h]

/-- C27, run on a server with the peers `4`, `5`, `6`, of which `4` and `6`
are readable together with the server socket `3`, a handler that fails for
`6`, and an `accept` that returns `7`: the list afterwards is `4`, `5`, `7`. -/
theorem run_select_pass_witness :
    (Server.runPass 3 (fun c => decide (c.socketDescriptor ≠ 6))
        [⟨100, 4⟩, ⟨101, 5⟩, ⟨102, 6⟩]
        ⟨3, fun fd => decide (fd = 3 ∨ fd = 4 ∨ fd = 6), 7, 103⟩).map (fun r => r.1) =
      some [⟨100, 4⟩, ⟨101, 5⟩, ⟨103, 7⟩] := by
  obtain ⟨acts, h, _⟩ := run_select_pass 3 (fun c => decide (c.socketDescriptor ≠ 6))
    [⟨100, 4⟩, ⟨101, 5⟩, ⟨102, 6⟩] ⟨3, fun fd => decide (fd = 3 ∨ fd = 4 ∨ fd = 6), 7, 103⟩
    (by decide) (by decide)
  rw [h]
  rfl

/-! ## C28: `mcRegistryReadData` and the file it reads -/

/-- What `mcRegistryReadData` returns does not depend on `cid`, beyond its
being `NULL` or not, nor on `pid`: the file is named by the members `uuid` and
`pid` of the output object. -/
theorem mcRegistryReadData_arguments_unused (R : RegistryParams) (env : RegistryEnv)
    (context pid1 pid2 maxLen : Nat) (cid1 cid2 : List Nat) (so : Option (List Nat)) :
    mcRegistryReadData R env context (some cid1) pid1 so maxLen =
      mcRegistryReadData R env context (some cid2) pid2 so maxLen := by
  cases so with
  | none => rfl
  | some buf => rfl

/-- C28 fails on the code. On the sample registry the TLDATA container `d` of
six bytes with uuid bytes `01 02` and pid `5` is stored, which returns
`MC_DRV_OK` and makes the file `0102/00000005.datacont`. Then
`mcRegistryReadData(1, &d.cont.uuid, d.cont.pid, so, 100)` is called with an
output buffer of ten zero bytes: it looks for the file named by the uuid and
pid in the buffer, `0000/00000000.datacont`, finds none and returns
`MC_DRV_ERR_INVALID_DEVICE_FILE` with the buffer unchanged. With the same
arguments and a buffer that already holds the uuid and pid of `d`, it returns
`MC_DRV_OK` and the bytes of `d`. -/
theorem mcRegistryReadData_reads_buffer_named_file :
    (mcRegistryStoreData sampleRegistryParams sampleRegistryEnv
      (some [2, 2, 6, 1, 2, 5])).1 = sampleRegistryParams.MC_DRV_OK ∧
    (mcRegistryStoreData sampleRegistryParams sampleRegistryEnv
      (some [2, 2, 6, 1, 2, 5])).2.fs.files "/data/app/mcRegistry/0102/00000005.datacont" =
        some [2, 2, 6, 1, 2, 5] ∧
    mcRegistryReadData sampleRegistryParams
      (mcRegistryStoreData sampleRegistryParams sampleRegistryEnv
        (some [2, 2, 6, 1, 2, 5])).2 1 (some [1, 2]) 5
      (some [0, 0, 0, 0, 0, 0, 0, 0, 0, 0]) 100 =
        (sampleRegistryParams.MC_DRV_ERR_INVALID_DEVICE_FILE,
          some [0, 0, 0, 0, 0, 0, 0, 0, 0, 0]) ∧
    sampleRegistryParams.MC_DRV_ERR_INVALID_DEVICE_FILE ≠ sampleRegistryParams.MC_DRV_OK ∧
    mcRegistryReadData sampleRegistryParams
      (mcRegistryStoreData sampleRegistryParams sampleRegistryEnv
        (some [2, 2, 6, 1, 2, 5])).2 1 (some [1, 2]) 5
      (some [0, 0, 0, 1, 2, 5, 0, 0, 0, 0]) 100 =
        (sampleRegistryParams.MC_DRV_OK, some [2, 2, 6, 1, 2, 5, 0, 0, 0, 0]) := by
  decide

/-! ## C29: store and read of the fixed-size containers -/

/-- C29. Over a file system that is a map from paths to bytes, with the
environment (and so the registry path) fixed, and with container sizes below
`2^31`: for every root container `r` (an object of `sizeof(mcSoRootCont_t)`
bytes) with type `CONT_TYPE_ROOT`, when its file can be created,
`mcRegistryStoreRoot(r)` returns `MC_DRV_OK` and `mcRegistryReadRoot(out)`
then returns `MC_DRV_OK` with `out` equal to `r` byte for byte; the same holds
for `mcRegistryStoreSp`/`mcRegistryReadSp` at one spid other than `0` and for
`mcRegistryStoreTrustletCon`/`mcRegistryReadTrustletCon` at one uuid. A store
at one spid (32-bit) does not change what a read at another spid returns, and
a store at one uuid does not change what a read at another uuid (of the same
number of bytes) returns. A store of a container with the wrong type returns
`MC_DRV_ERR_INVALID_PARAMETER` and leaves the file system as it was. -/
theorem registry_store_read_roundtrip (R : RegistryParams) (env : RegistryEnv)
    (hroot : R.sizeofSoRootCont < 2 ^ 31) (hsp : R.sizeofSoSpCont < 2 ^ 31)
    (htl : R.sizeofSoTltCont < 2 ^ 31) :
    (∀ r out, r.length = R.sizeofSoRootCont → out.length = R.sizeofSoRootCont →
      R.rootContType r = R.CONT_TYPE_ROOT →
      env.fs.canCreate (getRootContFilePath env) = true →
      (mcRegistryStoreRoot R env (some r)).1 = R.MC_DRV_OK ∧
        mcRegistryReadRoot R (mcRegistryStoreRoot R env (some r)).2 (some out) =
          (R.MC_DRV_OK, some r)) ∧
    (∀ spid s out, spid ≠ 0 → s.length = R.sizeofSoSpCont → out.length = R.sizeofSoSpCont →
      R.spContType s = R.CONT_TYPE_SP →
      env.fs.canCreate (getSpContFilePath env spid) = true →
      (mcRegistryStoreSp R env spid (some s)).1 = R.MC_DRV_OK ∧
        mcRegistryReadSp R (mcRegistryStoreSp R env spid (some s)).2 spid (some out) =
          (R.MC_DRV_OK, some s)) ∧
    (∀ u t out, t.length = R.sizeofSoTltCont → out.length = R.sizeofSoTltCont →
      R.tltContType t = R.CONT_TYPE_TLCON →
      env.fs.canCreate (getTlContFilePath env u) = true →
      (mcRegistryStoreTrustletCon R env (some u) (some t)).1 = R.MC_DRV_OK ∧
        mcRegistryReadTrustletCon R (mcRegistryStoreTrustletCon R env (some u) (some t)).2
          (some u) (some out) = (R.MC_DRV_OK, some t)) ∧
    (∀ spid1 spid2 s so, spid1 < 2 ^ 32 → spid2 < 2 ^ 32 → spid1 ≠ spid2 →
      mcRegistryReadSp R (mcRegistryStoreSp R env spid1 s).2 spid2 so =
        mcRegistryReadSp R env spid2 so) ∧
    (∀ u1 u2 t so, u1.length = u2.length → (∀ b ∈ u1, b < 256) → (∀ b ∈ u2, b < 256) →
      u1 ≠ u2 →
      mcRegistryReadTrustletCon R (mcRegistryStoreTrustletCon R env (some u1) t).2 (some u2)
          so =
        mcRegistryReadTrustletCon R env (some u2) so) ∧
    (∀ r, R.rootContType r ≠ R.CONT_TYPE_ROOT →
      mcRegistryStoreRoot R env (some r) = (R.MC_DRV_ERR_INVALID_PARAMETER, env)) ∧
    (∀ spid s, R.spContType s ≠ R.CONT_TYPE_SP →
      mcRegistryStoreSp R env spid (some s) = (R.MC_DRV_ERR_INVALID_PARAMETER, env)) ∧
    (∀ u t, R.tltContType t ≠ R.CONT_TYPE_TLCON →
      mcRegistryStoreTrustletCon R env (some u) (some t) =
        (R.MC_DRV_ERR_INVALID_PARAMETER, env)) := by
  refine ⟨?_, ?_, ?_, ?_, ?_, ?_, ?_, ?_⟩
  · intro r out hr hout htype hcreate
    obtain ⟨h1, h2⟩ := readFixedSize_storeFixedSize R env (getRootContFilePath env)
      R.sizeofSoRootCont r out hroot hr hout hcreate
    have hstore : mcRegistryStoreRoot R env (some r) =
        storeFixedSize R env (getRootContFilePath env) R.sizeofSoRootCont r := by
      simp only [mcRegistryStoreRoot, htype, ne_eq, not_true_eq_false, if_false]
    rw [hstore]
    refine ⟨by rw [h1], ?_⟩
    have hpath : getRootContFilePath
        (storeFixedSize R env (getRootContFilePath env) R.sizeofSoRootCont r).2 =
        getRootContFilePath env := by
      rw [h1]
      rfl
    simp only [mcRegistryReadRoot, hpath, h2]
  · intro spid s out h0 hs hout htype hcreate
    obtain ⟨h1, h2⟩ := readFixedSize_storeFixedSize R env (getSpContFilePath env spid)
      R.sizeofSoSpCont s out hsp hs hout hcreate
    have hstore : mcRegistryStoreSp R env spid (some s) =
        storeFixedSize R env (getSpContFilePath env spid) R.sizeofSoSpCont s := by
      simp only [mcRegistryStoreSp, Ne.symm h0, htype, ne_eq, not_true_eq_false, if_false]
    rw [hstore]
    refine ⟨by rw [h1], ?_⟩
    have hpath : getSpContFilePath
        (storeFixedSize R env (getSpContFilePath env spid) R.sizeofSoSpCont s).2 spid =
        getSpContFilePath env spid := by
      rw [h1]
      rfl
    simp only [mcRegistryReadSp, Ne.symm h0, if_false, hpath, h2]
  · intro u t out ht hout htype hcreate
    obtain ⟨h1, h2⟩ := readFixedSize_storeFixedSize R env (getTlContFilePath env u)
      R.sizeofSoTltCont t out htl ht hout hcreate
    have hstore : mcRegistryStoreTrustletCon R env (some u) (some t) =
        storeFixedSize R env (getTlContFilePath env u) R.sizeofSoTltCont t := by
      simp only [mcRegistryStoreTrustletCon, htype, ne_eq, not_true_eq_false, if_false]
    rw [hstore]
    refine ⟨by rw [h1], ?_⟩
    have hpath : getTlContFilePath
        (storeFixedSize R env (getTlContFilePath env u) R.sizeofSoTltCont t).2 u =
        getTlContFilePath env u := by
      rw [h1]
      rfl
    simp only [mcRegistryReadTrustletCon, hpath, h2]
  · intro spid1 spid2 s so h1 h2 hne
    have hp : getSpContFilePath env spid2 ≠ getSpContFilePath env spid1 :=
      fun h => hne (getSpContFilePath_injective env spid1 spid2 h1 h2 h).symm
    cases so with
    | none => rfl
    | some buf =>
      by_cases h0 : 0 = spid2
      · simp only [mcRegistryReadSp, h0, if_true]
      · cases s with
        | none => rfl
        | some obj =>
          unfold mcRegistryStoreSp
          simp only
          split
          · rfl
          · split
            · rfl
            · have hpath :
                  getSpContFilePath
                    (storeFixedSize R env (getSpContFilePath env spid1) R.sizeofSoSpCont obj).2
                    spid2 = getSpContFilePath env spid2 := by
                unfold storeFixedSize
                split <;> rfl
              simp only [mcRegistryReadSp, h0, if_false, hpath,
                readFixedSize_storeFixedSize_ne R env _ _ _ _ obj buf hp]
  · intro u1 u2 t so hlen hb1 hb2 hne
    have hp : getTlContFilePath env u2 ≠ getTlContFilePath env u1 :=
      fun h => hne (getTlContFilePath_injective env u2 u1 hlen.symm hb2 hb1 h).symm
    cases so with
    | none => rfl
    | some buf =>
      cases t with
      | none => rfl
      | some obj =>
        unfold mcRegistryStoreTrustletCon
        simp only
        split
        · rfl
        · have hpath :
              getTlContFilePath
                (storeFixedSize R env (getTlContFilePath env u1) R.sizeofSoTltCont obj).2 u2 =
                getTlContFilePath env u2 := by
            unfold storeFixedSize
            split <;> rfl
          simp only [mcRegistryReadTrustletCon, hpath,
            readFixedSize_storeFixedSize_ne R env _ _ _ _ obj buf hp]
  · intro r h
    simp only [mcRegistryStoreRoot, ne_eq, Ne.symm h, not_false_eq_true, if_true]
  · intro spid s h
    simp only [mcRegistryStoreSp, ne_eq, Ne.symm h, not_false_eq_true, if_true, ite_self]
  · intro u t h
    simp only [mcRegistryStoreTrustletCon, ne_eq, Ne.symm h, not_false_eq_true, if_true]

/-- C29, run on the sample registry: an SP container of four bytes is stored
at spid `10` and read back. -/
theorem registry_store_read_roundtrip_witness :
    (mcRegistryStoreSp sampleRegistryParams sampleRegistryEnv 10 (some [3, 2, 7, 7])).1 =
      sampleRegistryParams.MC_DRV_OK ∧
    mcRegistryReadSp sampleRegistryParams
      (mcRegistryStoreSp sampleRegistryParams sampleRegistryEnv 10 (some [3, 2, 7, 7])).2 10
      (some [0, 0, 0, 0]) = (sampleRegistryParams.MC_DRV_OK, some [3, 2, 7, 7]) :=
  (registry_store_read_roundtrip sampleRegistryParams sampleRegistryEnv (by decide)
    (by decide) (by decide)).2.1 10 [3, 2, 7, 7] [0, 0, 0, 0] (by decide) (by decide)
    (by decide) (by decide) (by decide)

/-! ## C30: `uint32ToString` -/

/-- C30. For every 32-bit value `v`, `uint32ToString(v)` has exactly 8
characters, each in `'0'..'9'` or `'A'..'F'`, and read as a hexadecimal numeral
with the most significant digit first it denotes `v`; so `uint32ToString` is
injective on 32-bit values, and two different spids give different SP
container file paths under the same registry path. -/
theorem uint32ToString_hex (v : Nat) (hv : v < 2 ^ 32) :
    (uint32ToString v).length = 8 ∧
    (∀ c ∈ (uint32ToString v).data, ('0' ≤ c ∧ c ≤ '9') ∨ ('A' ≤ c ∧ c ≤ 'F')) ∧
    hexValue (uint32ToString v).data = v ∧
    (∀ w, w < 2 ^ 32 → uint32ToString w = uint32ToString v → w = v) ∧
    (∀ env w, w < 2 ^ 32 → w ≠ v → getSpContFilePath env w ≠ getSpContFilePath env v) := by
  refine ⟨?_, ?_, hexValue_uint32ToString v hv, ?_, ?_⟩
  · show (uint32ToString v).data.length = 8
    rw [uint32ToString_data]
    rfl
  · intro c hc
    rw [uint32ToString_data] at hc
    simp only [List.mem_cons, List.mem_singleton, List.not_mem_nil, or_false] at hc
    rcases hc with h | h | h | h | h | h | h | h <;> rw [h] <;>
      exact uint32ToStringChar_range _ (Nat.mod_lt _ (by norm_num))
  · intro w hw h
    exact uint32ToString_injective v w hv hw h
  · intro env w hw hne h
    exact hne (getSpContFilePath_injective env v w hv hw h)

/-- C30, run on `0xDEADBEEF` and on the spids `10` and `11`. -/
theorem uint32ToString_hex_witness :
    uint32ToString 0xDEADBEEF = "DEADBEEF" ∧
    hexValue (uint32ToString 0xDEADBEEF).data = 0xDEADBEEF ∧
    getSpContFilePath ⟨fun _ => none, ⟨fun _ => none, fun _ => false, fun _ => true,
        fun _ => true⟩⟩ 11 ≠
      getSpContFilePath ⟨fun _ => none, ⟨fun _ => none, fun _ => false, fun _ => true,
        fun _ => true⟩⟩ 10 :=
  ⟨by decide, (uint32ToString_hex 0xDEADBEEF (by norm_num)).2.2.1,
    (uint32ToString_hex 10 (by norm_num)).2.2.2.2 _ 11 (by norm_num) (by decide)⟩

end MobiCore
